import Mathlib

/-!
Irrlicht software driver: renderer selection, frustum clipper, transform stage, draw
calls, render target, viewport, window resize and material changes; the adjacency, edge
and volume code of the shadow volume scene node; the colour format conversion of the
Direct3D 11 driver.

A shallow embedding of `source/Irrlicht/CSoftwareDriver.cpp`, of
`source/Irrlicht/CShadowVolumeSceneNode.cpp` and of two methods of
`source/Irrlicht/CD3D11Driver.cpp`, and theorems about it.
The first part holds the definitions, the second part the theorems.

Conventions of the embedding
* A C++ pointer that may be null is an `Option`; `none` is the null pointer.
* A raw array behind a pointer (`vertices`, `indexList`) is a function from the
  position to the element stored there.
* `core::array<T>` is a `List T`; `push_back` appends at the end. Where the code reads or
  writes an element of a `core::array` member by its index, an index outside the array
  makes the result `none`.
* The coordinates of a vertex are rationals (`ℚ`). The float operations whose result the
  code converts to an integer or scales a vector by (the statements of the transform loop
  behind the matrix product, the factor `Material.Thickness * 0.3f`) are single precision
  operations (`f32`): every product, quotient and sum is rounded to 24 significant bits,
  ties to even, and overflows to an infinity. The matrix product, the plane tests and the
  vector sums are exact.
* A conversion `(s32)x` or `(TZBufferType)x` of a float is the truncation toward zero.
  Where C++ leaves the conversion undefined (the truncation is outside `s32`, an infinity,
  a NaN) the value is the one of the x86 conversion instruction, `-2^31`; a narrower
  target type keeps the low bits. `f32.inS32` says that the conversion is defined.
* Unsigned arithmetic and conversions that C++ defines by wrap-around carry an explicit
  `%`, signed `s32` arithmetic that can leave the range goes through `wrapS32`, and a
  `u32` size that becomes an `s32` coordinate goes through `toS32`.
* Counts, sizes and coordinates (`u32`, `s32`) are natural numbers and integers.
* A pointer sum `(T*)p + k` reads the element number `k` of type `T` behind `p`, that is
  `k * sizeof(T)` bytes behind it: `vector3dfAt` and `SColorAt` of a vertex buffer count
  in elements of 12 and of 4 bytes.
* An object that is reference counted has a handle (its address); the reference counts
  are a function of the handle, and a count of zero means the object has been deleted.
* Code of other files that a method calls and that is not among the sources is a field of
  `Externals` or `ShadowExternals`, or a definition whose comment starts with "Modelled
  from the spec".
-/

namespace Irrlicht

/-! ## Part 1: definitions -/

/-- The triangle renderer variants, the indices of `TriangleRenderers[ETR_COUNT]`
as the constructor of `CSoftwareDriver` fills them. -/
inductive ETriangleRenderer
  | ETR_FLAT
  | ETR_FLAT_WIRE
  | ETR_GOURAUD
  | ETR_GOURAUD_WIRE
  | ETR_TEXTURE_FLAT
  | ETR_TEXTURE_FLAT_WIRE
  | ETR_TEXTURE_GOURAUD
  | ETR_TEXTURE_GOURAUD_WIRE
  | ETR_TEXTURE_GOURAUD_NOZ
  | ETR_TEXTURE_GOURAUD_ADD
  deriving DecidableEq, Repr

/-- Modelled from the spec: the enum `E_MATERIAL_TYPE` is declared in a header that is
not among the sources. The three enumerators that `selectRightTriangleRenderer`
compares against are named, every other value of the field is `EMT_OTHER k`. -/
inductive E_MATERIAL_TYPE
  | EMT_TRANSPARENT_ADD_COLOR
  | EMT_TRANSPARENT_ALPHA_CHANNEL
  | EMT_TRANSPARENT_VERTEX_ALPHA
  | EMT_OTHER (k : Nat)
  deriving DecidableEq, Repr

/-- Modelled from the spec: the enum `E_COMPARISON_FUNC` is declared in a header that is
not among the sources. `ECFN_DISABLED` is the one enumerator the driver compares
`Material.ZBuffer` against, every other value is `ECFN_OTHER k`. -/
inductive E_COMPARISON_FUNC
  | ECFN_DISABLED
  | ECFN_OTHER (k : Nat)
  deriving DecidableEq, Repr

/-- A rectangle `core::rect<s32>` by its two corners. -/
structure Rect where
  ULX : Int
  ULY : Int
  LRX : Int
  LRY : Int
  deriving DecidableEq, Repr

/-- A software texture: `getTexture()` returns the handle of its image. -/
structure CSoftwareTexture where
  getTexture : Nat
  deriving DecidableEq, Repr

/-- The fields of `SMaterial` that the software driver reads when it selects and
configures a triangle renderer. -/
structure SMaterial where
  MaterialType : E_MATERIAL_TYPE
  Wireframe : Bool
  GouraudShading : Bool
  ZBuffer : E_COMPARISON_FUNC
  ZWriteEnable : Bool
  BackfaceCulling : Bool
  deriving DecidableEq, Repr

/-- The per-call configuration of one triangle renderer object, as set through
`setBackfaceCulling`, `setTexture` and `setRenderTarget`. -/
structure RendererConfig where
  BackfaceCulling : Bool
  Texture : Option Nat
  RenderTarget : Option Nat
  ViewPort : Rect
  deriving DecidableEq, Repr

/-- The members of `CSoftwareDriver` that renderer selection reads and writes. -/
structure CSoftwareDriver where
  Texture : Option CSoftwareTexture
  Material : SMaterial
  RenderTargetSurface : Option Nat
  ViewPort : Rect
  TriangleRenderers : ETriangleRenderer → RendererConfig
  CurrentTriangleRenderer : Option ETriangleRenderer

/-- The body of `CSoftwareDriver::switchToTriangleRenderer`. -/
def switchToTriangleRenderer (d : CSoftwareDriver) (renderer : ETriangleRenderer) :
    CSoftwareDriver :=
  let s : Option Nat :=
    match d.Texture with
    | some tex => some tex.getTexture
    | none => none
  let cfg : RendererConfig :=
    { BackfaceCulling := (d.Material.BackfaceCulling == true)
      Texture := s
      RenderTarget := d.RenderTargetSurface
      ViewPort := d.ViewPort }
  { d with
    CurrentTriangleRenderer := some renderer
    TriangleRenderers := fun r => if r = renderer then cfg else d.TriangleRenderers r }

/-- The value of the local variable `renderer` of
`CSoftwareDriver::selectRightTriangleRenderer` when `switchToTriangleRenderer` is called. -/
def selectedRenderer (Texture : Option CSoftwareTexture) (Material : SMaterial) :
    ETriangleRenderer :=
  if Texture.isSome then
    if !Material.GouraudShading then
      (if !Material.Wireframe then ETriangleRenderer.ETR_TEXTURE_FLAT
       else ETriangleRenderer.ETR_TEXTURE_FLAT_WIRE)
    else
      if Material.Wireframe then ETriangleRenderer.ETR_TEXTURE_GOURAUD_WIRE
      else
        if Material.MaterialType = E_MATERIAL_TYPE.EMT_TRANSPARENT_ADD_COLOR ∨
            Material.MaterialType = E_MATERIAL_TYPE.EMT_TRANSPARENT_ALPHA_CHANNEL ∨
            Material.MaterialType = E_MATERIAL_TYPE.EMT_TRANSPARENT_VERTEX_ALPHA then
          ETriangleRenderer.ETR_TEXTURE_GOURAUD_ADD
        else if Material.ZBuffer = E_COMPARISON_FUNC.ECFN_DISABLED ∧
            Material.ZWriteEnable = false then
          ETriangleRenderer.ETR_TEXTURE_GOURAUD_NOZ
        else
          ETriangleRenderer.ETR_TEXTURE_GOURAUD
  else
    if !Material.GouraudShading then
      (if !Material.Wireframe then ETriangleRenderer.ETR_FLAT
       else ETriangleRenderer.ETR_FLAT_WIRE)
    else
      (if !Material.Wireframe then ETriangleRenderer.ETR_GOURAUD
       else ETriangleRenderer.ETR_GOURAUD_WIRE)

/-- The method `CSoftwareDriver::selectRightTriangleRenderer`. -/
def selectRightTriangleRenderer (d : CSoftwareDriver) : CSoftwareDriver :=
  switchToTriangleRenderer d (selectedRenderer d.Texture d.Material)

/-- The column "transparency-additive-like" of the decision table of the specification. -/
def additiveLike (t : E_MATERIAL_TYPE) : Bool :=
  match t with
  | E_MATERIAL_TYPE.EMT_TRANSPARENT_ADD_COLOR => true
  | E_MATERIAL_TYPE.EMT_TRANSPARENT_ALPHA_CHANNEL => true
  | E_MATERIAL_TYPE.EMT_TRANSPARENT_VERTEX_ALPHA => true
  | E_MATERIAL_TYPE.EMT_OTHER _ => false

/-- The column "depth disabled & no write" of the decision table of the specification. -/
def depthDisabledNoWrite (z : E_COMPARISON_FUNC) (zWrite : Bool) : Bool :=
  match z, zWrite with
  | E_COMPARISON_FUNC.ECFN_DISABLED, false => true
  | _, _ => false

/-- The ten rows of the decision table of the specification, in its order; the columns
are texture, gouraud, wireframe, additive-like, depth disabled and no write. -/
def decisionTable (texture gouraud wireframe additive noDepth : Bool) : ETriangleRenderer :=
  match texture, gouraud, wireframe, additive, noDepth with
  | false, false, false, _, _ => ETriangleRenderer.ETR_FLAT
  | false, false, true, _, _ => ETriangleRenderer.ETR_FLAT_WIRE
  | false, true, false, _, _ => ETriangleRenderer.ETR_GOURAUD
  | false, true, true, _, _ => ETriangleRenderer.ETR_GOURAUD_WIRE
  | true, false, false, _, _ => ETriangleRenderer.ETR_TEXTURE_FLAT
  | true, false, true, _, _ => ETriangleRenderer.ETR_TEXTURE_FLAT_WIRE
  | true, true, true, _, _ => ETriangleRenderer.ETR_TEXTURE_GOURAUD_WIRE
  | true, true, false, true, _ => ETriangleRenderer.ETR_TEXTURE_GOURAUD_ADD
  | true, true, false, false, true => ETriangleRenderer.ETR_TEXTURE_GOURAUD_NOZ
  | true, true, false, false, false => ETriangleRenderer.ETR_TEXTURE_GOURAUD

/-- The variant the decision table gives for a driver state. -/
def tableVariant (d : CSoftwareDriver) : ETriangleRenderer :=
  decisionTable d.Texture.isSome d.Material.GouraudShading d.Material.Wireframe
    (additiveLike d.Material.MaterialType)
    (depthDisabledNoWrite d.Material.ZBuffer d.Material.ZWriteEnable)

/-- A sample driver state: a texture is bound, Gouraud shading, no wireframe, a
material type that is not transparent, depth test disabled and no depth write. -/
def sampleDriver : CSoftwareDriver :=
  { Texture := some { getTexture := 7 }
    Material :=
      { MaterialType := E_MATERIAL_TYPE.EMT_OTHER 0
        Wireframe := false
        GouraudShading := true
        ZBuffer := E_COMPARISON_FUNC.ECFN_DISABLED
        ZWriteEnable := false
        BackfaceCulling := true }
    RenderTargetSurface := some 1
    ViewPort := { ULX := 0, ULY := 0, LRX := 640, LRY := 480 }
    TriangleRenderers := fun _ =>
      { BackfaceCulling := false, Texture := none, RenderTarget := none,
        ViewPort := { ULX := 0, ULY := 0, LRX := 0, LRY := 0 } }
    CurrentTriangleRenderer := none }

/-! ### The frustum clipper of `drawClippedIndexedTriangleListT` -/

/-- Modelled from the spec: the enum `core::EIntersectionRelation3D` is declared in a
header that is not among the sources. `ISREL3D_FRONT` is the value the clipping loop
tests for ("front", outside the plane). -/
inductive EIntersectionRelation3D
  | ISREL3D_FRONT
  | ISREL3D_BACK
  | ISREL3D_PLANAR
  | ISREL3D_SPANNING
  | ISREL3D_CLIPPED
  deriving DecidableEq, Repr

/-- Modelled from the spec: `core::array<T>::erase(index, count)` is not among the
sources; it removes `count` elements starting at position `index` ("erase from the
working buffer"). -/
def arrayErase {V : Type} (a : List V) (index count : Nat) : List V :=
  a.take index ++ a.drop (index + count)

/-- One pass of the loop `for (t=0; t<3; ++t)` that classifies a vertex: the pair is
(`inside`, `outside`); `classify p x` stands for
`planes[p].classifyPointRelation(x.Pos)`. -/
def countStep {V : Type} (classify : Nat → V → EIntersectionRelation3D) (p : Nat)
    (io : Nat × Nat) (x : V) : Nat × Nat :=
  if classify p x ≠ EIntersectionRelation3D.ISREL3D_FRONT then (io.1 + 1, io.2)
  else if classify p x = EIntersectionRelation3D.ISREL3D_FRONT then (io.1, io.2 + 1)
  else io

/-- The counters `inside` and `outside` after the three vertices `tClpBuf[v+0..v+2]`
have been classified against plane `p`; `none` when a read falls outside the buffer. -/
def testTriangle {V : Type} (classify : Nat → V → EIntersectionRelation3D) (p : Nat)
    (tClpBuf : List V) (v : Nat) : Option (Nat × Nat) := do
  let x0 ← tClpBuf[v + 0]?
  let x1 ← tClpBuf[v + 1]?
  let x2 ← tClpBuf[v + 2]?
  pure (countStep classify p (countStep classify p (countStep classify p (0, 0) x0) x1) x2)

/-- The loop `for (int v=0; v<(int)tClpBuf.size(); v+=3)` for one plane `p`, from
position `v` on. A triangle with no vertex in front stays (`continue`, then `v += 3`);
one with all three in front is erased; a straddling one is erased too, because
`__SOFTWARE_CLIPPING_PROBLEM__` is defined nowhere in the sources. After an erase the
code does `v -= 3` and the loop header `v += 3`, so `v` is unchanged. -/
def clipAgainstPlane {V : Type} (classify : Nat → V → EIntersectionRelation3D) (p : Nat)
    (tClpBuf : List V) (v : Nat) : Option (List V) :=
  if v < tClpBuf.length then
    match testTriangle classify p tClpBuf v with
    | none => none
    | some (inside, outside) =>
      if outside = 0 then
        clipAgainstPlane classify p tClpBuf (v + 3)
      else if inside = 0 then
        clipAgainstPlane classify p (arrayErase tClpBuf v 3) v
      else
        clipAgainstPlane classify p (arrayErase tClpBuf v 3) v
  else some tClpBuf
termination_by tClpBuf.length - v
decreasing_by
  all_goals first
    | omega
    | (have hlen : (arrayErase tClpBuf v 3).length < tClpBuf.length ∧
          v ≤ (arrayErase tClpBuf v 3).length := by
        simp [arrayErase]; omega
       omega)

/-- The loop `for (int p=0; p<5; ++p)` over the five clip planes. -/
def clipAgainstPlanes {V : Type} (classify : Nat → V → EIntersectionRelation3D)
    (tClpBuf : List V) : Option (List V) :=
  (List.range 5).foldlM (fun buf p => clipAgainstPlane classify p buf 0) tClpBuf

/-- The three arrays the clipping loop works on. `clippedIndices` holds `u16` values. -/
structure ClipState (V : Type) where
  tClpBuf : List V
  clippedVertices : List V
  clippedIndices : List Nat
  deriving DecidableEq, Repr

/-- The loop that appends the working buffer to the output arrays:
`clippedIndices.push_back(clippedVertices.size()); clippedVertices.push_back(tClpBuf[t])`.
The `u32` size is stored into a `u16`, hence the remainder. -/
def appendClipped {V : Type} (st : ClipState V) : ClipState V :=
  st.tClpBuf.foldl
    (fun s x =>
      { s with
        clippedIndices := s.clippedIndices ++ [s.clippedVertices.length % 65536]
        clippedVertices := s.clippedVertices ++ [x] })
    st

/-- The body of the loop `for (i=0; i<triangleCount; ++i)` for input triangle `i`:
push its three vertices, clip against the five planes, append what is left when
`clippedIndices.size() + tClpBuf.size() < 65535` (a `u32` sum), clear the buffer. -/
def clipTriangleStep {V : Type} (classify : Nat → V → EIntersectionRelation3D)
    (vertices : Nat → V) (indexList : Nat → Nat) (st : ClipState V) (i : Nat) :
    Option (ClipState V) := do
  let pushed := st.tClpBuf ++ [vertices (indexList (i * 3 + 0)),
    vertices (indexList (i * 3 + 1)), vertices (indexList (i * 3 + 2))]
  let buf ← clipAgainstPlanes classify pushed
  let st1 : ClipState V := { st with tClpBuf := buf }
  let st2 :=
    if (st1.clippedIndices.length + st1.tClpBuf.length) % 2 ^ 32 < 65535 then appendClipped st1
    else st1
  pure { st2 with tClpBuf := [] }

/-- The clipping loop of `drawClippedIndexedTriangleListT` over all input triangles,
started with the three arrays empty. -/
def clipLoop {V : Type} (classify : Nat → V → EIntersectionRelation3D)
    (vertices : Nat → V) (indexList : Nat → Nat) (triangleCount : Nat) :
    Option (ClipState V) :=
  (List.range triangleCount).foldlM (clipTriangleStep classify vertices indexList)
    { tClpBuf := [], clippedVertices := [], clippedIndices := [] }

/-- A triangle is fully inside the frustum: no plane classifies any of its three
vertices as front. -/
def fullyInside {V : Type} (classify : Nat → V → EIntersectionRelation3D) (a b c : V) :
    Prop :=
  ∀ p < 5, classify p a ≠ EIntersectionRelation3D.ISREL3D_FRONT ∧
    classify p b ≠ EIntersectionRelation3D.ISREL3D_FRONT ∧
    classify p c ≠ EIntersectionRelation3D.ISREL3D_FRONT

instance fullyInsideDecidable {V : Type} (classify : Nat → V → EIntersectionRelation3D)
    (a b c : V) : Decidable (fullyInside classify a b c) := by
  unfold fullyInside; infer_instance

/-- The number of vertices of a triangle that plane `p` classifies as front. -/
def frontCount {V : Type} (classify : Nat → V → EIntersectionRelation3D) (p : Nat)
    (a b c : V) : Nat :=
  (if classify p a = EIntersectionRelation3D.ISREL3D_FRONT then 1 else 0) +
    (if classify p b = EIntersectionRelation3D.ISREL3D_FRONT then 1 else 0) +
    (if classify p c = EIntersectionRelation3D.ISREL3D_FRONT then 1 else 0)

/-- The invariant of the loop over the input triangles. -/
def ClipInv {V : Type} (classify : Nat → V → EIntersectionRelation3D) (st : ClipState V) :
    Prop :=
  st.tClpBuf = [] ∧ st.clippedIndices = List.range st.clippedVertices.length ∧
    st.clippedVertices.length < 65535 ∧
    ∀ x ∈ st.clippedVertices, ∀ p < 5, classify p x ≠ EIntersectionRelation3D.ISREL3D_FRONT

/-- Sample planes on one-dimensional vertices: plane `p` has the points beyond
`10 + p` in front of it. -/
def sampleClassify (p : Nat) (x : Int) : EIntersectionRelation3D :=
  if x > 10 + p then EIntersectionRelation3D.ISREL3D_FRONT
  else EIntersectionRelation3D.ISREL3D_BACK

/-- Sample vertex memory: triangle 0 is inside every plane, triangle 1 is in front of
every plane, triangle 2 straddles every plane. -/
def sampleVertices (k : Nat) : Int :=
  [0, 5, 10, 15, 20, 25, 0, 5, 20].getD k 0

/-- Sample index memory: index `k` refers to vertex `k`. -/
def sampleIndexList (k : Nat) : Nat := k


/-! ### The transform stage of `drawClippedIndexedTriangleListT` -/

/-- Modelled from the spec: `core::matrix4` (matrix4.h) is not among the sources. A
matrix is its array `M[16]`; the element in row `r` and column `c` of the matrix that
acts on column vectors is `M[4*c + r]`. -/
def matrix4 : Type := Nat → ℚ

/-- Modelled from the spec: the identity matrix, which is not among the sources:
ones at `M[0]`, `M[5]`, `M[10]`, `M[15]`, zeros elsewhere. -/
def matrix4.identity : matrix4 :=
  fun i => if i = 0 ∨ i = 5 ∨ i = 10 ∨ i = 15 then 1 else 0

/-- Modelled from the spec: the matrix product behind `matrix *= other`, which is not
among the sources ("worldViewProj"): entry `4*c + r` of `m1 * m2` is the sum over `k`
of `m1[4*k + r] * m2[4*c + k]`. -/
def matrix4.mul (m1 m2 : matrix4) : matrix4 := fun i =>
  m1 (i % 4) * m2 (4 * (i / 4)) + m1 (4 + i % 4) * m2 (4 * (i / 4) + 1) +
    m1 (8 + i % 4) * m2 (4 * (i / 4) + 2) + m1 (12 + i % 4) * m2 (4 * (i / 4) + 3)

/-- The array `f32 transformedPos[4]`. -/
structure Vec4 where
  x : ℚ
  y : ℚ
  z : ℚ
  w : ℚ
  deriving DecidableEq, Repr

/-- Modelled from the spec: `matrix4::multiplyWith1x4Matrix`, which is not among the
sources ("compute worldViewProj * position, a homogeneous 4-vector with w"). -/
def multiplyWith1x4Matrix (M : matrix4) (v : Vec4) : Vec4 :=
  { x := M 0 * v.x + M 4 * v.y + M 8 * v.z + M 12 * v.w
    y := M 1 * v.x + M 5 * v.y + M 9 * v.z + M 13 * v.w
    z := M 2 * v.x + M 6 * v.y + M 10 * v.z + M 14 * v.w
    w := M 3 * v.x + M 7 * v.y + M 11 * v.z + M 15 * v.w }

/-- The truncation of a rational number toward zero, as a mathematical integer: the
value of a conversion of a float to an integer type when that value is in the range of
the type. -/
def truncToInt (x : ℚ) : Int := if 0 ≤ x then Int.floor x else Int.ceil x

/-- The integer nearest to a rational number; of two integers that are equally near, the
even one. -/
def roundHalfEven (q : ℚ) : Int :=
  if q - Int.floor q < 1 / 2 then Int.floor q
  else if 1 / 2 < q - Int.floor q then Int.floor q + 1
  else if Int.floor q % 2 = 0 then Int.floor q else Int.floor q + 1

/-- The binary exponent a single precision float uses for a number: the largest `e` with
`2^e` not above the magnitude of the number, and `-126`, the exponent of the subnormal
numbers, when that is larger. -/
def f32Exponent (x : ℚ) : Int := max (Int.log 2 |x|) (-126)

/-- A rational number rounded to 24 significant bits, to the nearest multiple of
`2^(e - 23)` for the exponent `e` of the number, ties to the even multiple: the result of
a single precision operation with that exact value, while the magnitude stays below
`2^128`. -/
def f32RoundFinite (x : ℚ) : ℚ :=
  (roundHalfEven (x / 2 ^ (f32Exponent x - 23)) : ℚ) * 2 ^ (f32Exponent x - 23)

/-- Modelled from the spec: the type `f32` is declared in a header that is not among the
sources; it is the single precision float of IEEE 754 ("propagating NaN/Inf"): a finite
value, an infinity with its sign, or a NaN. The sign of a zero is not kept; no operation
of the transform loop can observe it. -/
inductive f32
  | finite (value : ℚ)
  | infinite (negative : Bool)
  | NaN
  deriving DecidableEq, Repr

/-- The float that a single precision operation gives for the exact result `x`: `x`
rounded to nearest, an infinity when the rounded magnitude reaches `2^128`. -/
def f32.round (x : ℚ) : f32 :=
  if 2 ^ 128 ≤ |f32RoundFinite x| then f32.infinite (decide (x < 0))
  else f32.finite (f32RoundFinite x)

/-- The conversion of an `s32` or `u32` value to `f32`. The magnitude of a 32-bit integer
is far below `2^128`, so the result is finite. -/
def f32.ofInt (n : Int) : f32 := f32.finite (f32RoundFinite (n : ℚ))

/-- The product of two floats. -/
def f32.mul : f32 → f32 → f32
  | f32.finite a, f32.finite b => f32.round (a * b)
  | f32.finite a, f32.infinite s =>
      if a = 0 then f32.NaN else f32.infinite (xor (decide (a < 0)) s)
  | f32.infinite s, f32.finite b =>
      if b = 0 then f32.NaN else f32.infinite (xor s (decide (b < 0)))
  | f32.infinite s, f32.infinite t => f32.infinite (xor s t)
  | _, _ => f32.NaN

/-- The sum of two floats. -/
def f32.add : f32 → f32 → f32
  | f32.finite a, f32.finite b => f32.round (a + b)
  | f32.finite _, f32.infinite s => f32.infinite s
  | f32.infinite s, f32.finite _ => f32.infinite s
  | f32.infinite s, f32.infinite t => if s = t then f32.infinite s else f32.NaN
  | _, _ => f32.NaN

/-- An integer is a value of the type `s32`. -/
def inS32 (z : Int) : Prop := -2 ^ 31 ≤ z ∧ z < 2 ^ 31

instance inS32Decidable (z : Int) : Decidable (inS32 z) := by
  unfold inS32; infer_instance

/-- The conversion `(s32)x` of a float has a value that C++ defines: the float is finite
and its truncation toward zero is a value of `s32`. -/
def f32.inS32 : f32 → Prop
  | f32.finite q => Irrlicht.inS32 (truncToInt q)
  | _ => False

/-- The conversion `(s32)x` of a float: the truncation toward zero. For a float without a
defined conversion (a truncation outside the range of `s32`, an infinity, a NaN) the
value is `-2^31`, the result of the conversion instruction of the x86 processors. -/
def f32.toS32 : f32 → Int
  | f32.finite q =>
      if -2 ^ 31 ≤ truncToInt q ∧ truncToInt q < 2 ^ 31 then truncToInt q else -2 ^ 31
  | _ => -2 ^ 31

/-- An integer reduced to the range of `s32` by wrap-around, the result of `s32`
arithmetic on two's complement machines. -/
def wrapS32 (z : Int) : Int := (z + 2 ^ 31) % 2 ^ 32 - 2 ^ 31

/-- The conversion `(s32)x` of a `u32` value: a value from `2^31` on becomes negative. -/
def toS32 (x : Nat) : Int :=
  if x % 2 ^ 32 < 2 ^ 31 then Int.ofNat (x % 2 ^ 32) else Int.ofNat (x % 2 ^ 32) - 2 ^ 32

/-- A float division; `none` stands for a division by zero. -/
def f32div (a b : ℚ) : Option f32 := if b = 0 then none else some (f32.round (a / b))

/-- The value of `zDiv = transformedPos[3] == 0.0f ? 1.0f : (1.0f / transformedPos[3])`. -/
def zDivOf (w : ℚ) : Option f32 := if w = 0 then some (f32.finite 1) else f32div 1 w

/-- Modelled from the spec: `TZBufferType` is declared in a header that is not among the
sources; the specification names it a 16-bit signed depth. The predicate says that an
integer is a value of that type. -/
def inTZBufferType (z : Int) : Prop := -32768 ≤ z ∧ z ≤ 32767

instance inTZBufferTypeDecidable (z : Int) : Decidable (inTZBufferType z) := by
  unfold inTZBufferType; infer_instance

/-- The conversion `(TZBufferType)x` of a float: the low 16 bits of the conversion to
`s32`, read as a signed value. -/
def toTZBufferType (x : f32) : Int := (f32.toS32 x + 2 ^ 15) % 2 ^ 16 - 2 ^ 15

/-- The fields of an input vertex that the transform stage reads. -/
structure S3DVertex where
  PosX : ℚ
  PosY : ℚ
  PosZ : ℚ
  TCoordsX : ℚ
  TCoordsY : ℚ
  deriving DecidableEq, Repr

/-- The fields of a transformed point `S2DVertex` that the transform stage computes from
numbers. The colour `Color.toA1R5G5B5()` is left out: the conversion is not among the
sources. -/
structure S2DVertex where
  PosX : Int
  PosY : Int
  TCoordsX : Int
  TCoordsY : Int
  ZValue : Int
  deriving DecidableEq, Repr

/-- The values the transform loop reads from the driver and does not change:
`ViewPortSize`, `Render2DTranslation` and `textureSize`, which is `(0,0)` when no
texture is bound. -/
structure TransformEnv where
  ViewPortSizeWidth : Nat
  ViewPortSizeHeight : Nat
  Render2DTranslationX : Int
  Render2DTranslationY : Int
  textureSizeWidth : Nat
  textureSizeHeight : Nat
  deriving DecidableEq, Repr

/-- The local `s32 ViewTransformWidth = (ViewPortSize.Width>>1)`. -/
def ViewTransformWidth (env : TransformEnv) : Int := Int.ofNat (env.ViewPortSizeWidth >>> 1)

/-- The local `s32 ViewTransformHeight = (ViewPortSize.Height>>1)`. -/
def ViewTransformHeight (env : TransformEnv) : Int := Int.ofNat (env.ViewPortSizeHeight >>> 1)

/-- The body of the transform loop after `multiplyWith1x4Matrix`: from the clip-space
position `transformedPos` and the texture coordinates to the transformed point. The
integers `ViewTransformWidth`, `Render2DTranslation.X` and `textureSize.Width` are
converted to `f32` where they meet a float; the subtraction for `Pos.Y` and the shift of
the texture coordinates are `s32` arithmetic. -/
def projectPoint (env : TransformEnv) (transformedPos : Vec4) (TCoordsX TCoordsY : ℚ) :
    Option S2DVertex := do
  let zDiv ← zDivOf transformedPos.w
  pure
    { PosX := f32.toS32
        (((f32.ofInt (ViewTransformWidth env)).mul
          ((f32.finite transformedPos.x).mul zDiv)).add (f32.ofInt env.Render2DTranslationX))
      PosY := wrapS32 (env.Render2DTranslationY -
        f32.toS32 ((f32.ofInt (ViewTransformHeight env)).mul
          ((f32.finite transformedPos.y).mul zDiv)))
      ZValue := toTZBufferType ((f32.finite 32767).mul zDiv)
      TCoordsX := wrapS32
        (f32.toS32 ((f32.finite TCoordsX).mul (f32.ofInt (Int.ofNat env.textureSizeWidth))) *
          2 ^ 8)
      TCoordsY := wrapS32
        (f32.toS32 ((f32.finite TCoordsY).mul (f32.ofInt (Int.ofNat env.textureSizeHeight))) *
          2 ^ 8) }

/-- The matrix of the transform loop: `matrix(PROJECTION); matrix *= VIEW;
matrix *= WORLD`. -/
def worldViewProjection (projection view world : matrix4) : matrix4 :=
  (projection.mul view).mul world

/-- The whole body of the transform loop for one clipped vertex. -/
def transformVertex (env : TransformEnv) (projection view world : matrix4)
    (currentVertex : S3DVertex) : Option S2DVertex :=
  projectPoint env
    (multiplyWith1x4Matrix (worldViewProjection projection view world)
      { x := currentVertex.PosX, y := currentVertex.PosY, z := currentVertex.PosZ, w := 1 })
    currentVertex.TCoordsX currentVertex.TCoordsY

/-- The transform loop over all clipped vertices. -/
def transformStage (env : TransformEnv) (projection view world : matrix4)
    (clippedVertices : List S3DVertex) : Option (List S2DVertex) :=
  clippedVertices.mapM (transformVertex env projection view world)

/-- The value the specification calls `invW`: `1` when `w` is `0`, else `1/w`. -/
def invW (w : ℚ) : ℚ := if w = 0 then 1 else 1 / w

/-- A sample environment: a 640 x 480 viewport at the origin and a 2 x 2 texture. -/
def sampleEnv : TransformEnv :=
  { ViewPortSizeWidth := 640
    ViewPortSizeHeight := 480
    Render2DTranslationX := 320
    Render2DTranslationY := 240
    textureSizeWidth := 2
    textureSizeHeight := 2 }

/-- A small sample environment: a 20 x 20 viewport with the translation (10, 10) and a
10 x 10 texture. -/
def smallEnv : TransformEnv :=
  { ViewPortSizeWidth := 20
    ViewPortSizeHeight := 20
    Render2DTranslationX := 10
    Render2DTranslationY := 10
    textureSizeWidth := 10
    textureSizeHeight := 10 }

/-- The float `0.7f`: the number `7/10` rounded to single precision,
`11744051 * 2^-24`. -/
def sevenTenths : ℚ := 11744051 / 16777216

/-- A rational number is a finite float: a single precision operation with that exact
result gives the number itself. -/
def isF32 (q : ℚ) : Prop := f32.round q = f32.finite q

instance isF32Decidable (q : ℚ) : Decidable (isF32 q) := by
  unfold isF32; infer_instance

/-- A projection matrix that scales `w` by one half: the identity with `M[15] = 1/2`. -/
def halfWProjection : matrix4 :=
  fun i => if i = 0 ∨ i = 5 ∨ i = 10 then 1 else if i = 15 then 1 / 2 else 0

/-! ### The clipper as the specification words it -/

/-- The three vertices of input triangle `i`, in the order of the index list. -/
def inputTriangle {V : Type} (vertices : Nat → V) (indexList : Nat → Nat) (i : Nat) :
    List V :=
  [vertices (indexList (i * 3 + 0)), vertices (indexList (i * 3 + 1)),
    vertices (indexList (i * 3 + 2))]

/-- The input triangles among the first `triangleCount` that are fully inside all five
planes, in input order. -/
def insideTriangles {V : Type} (classify : Nat → V → EIntersectionRelation3D)
    (vertices : Nat → V) (indexList : Nat → Nat) (triangleCount : Nat) : List (List V) :=
  ((List.range triangleCount).filter
    (fun i => decide (fullyInside classify (vertices (indexList (i * 3 + 0)))
      (vertices (indexList (i * 3 + 1))) (vertices (indexList (i * 3 + 2)))))).map
    (inputTriangle vertices indexList)

/-- The number of triangles the 65535 cap lets through: the largest `k` with
`3 * k < 65535`. -/
def cappedTriangleCount : Nat := 21844

/-- The clipped vertex list as the specification words it: the fully inside input
triangles in input order, truncated by the cap. -/
def clippedVerticesSpec {V : Type} (classify : Nat → V → EIntersectionRelation3D)
    (vertices : Nat → V) (indexList : Nat → Nat) (triangleCount : Nat) : List V :=
  ((insideTriangles classify vertices indexList triangleCount).take
    cappedTriangleCount).flatten

/-! ### The driver state behind material, render-target and draw calls -/

/-- Modelled from the spec: the enum `E_DRIVER_TYPE` is declared in a header that is not
among the sources. `EDT_SOFTWARE` is the value the software driver compares with,
`EDT_DIRECT3D11` the one the Direct3D 11 sources name, every other value is
`EDT_OTHER k`. -/
inductive E_DRIVER_TYPE
  | EDT_SOFTWARE
  | EDT_DIRECT3D11
  | EDT_OTHER (k : Nat)
  deriving DecidableEq, Repr

/-- The object behind an `ITexture*`: its address, its driver type and, for a texture of
the software driver, the handle of the image `CSoftwareTexture::getTexture()` returns. -/
structure ITexture where
  handle : Nat
  getDriverType : E_DRIVER_TYPE
  getTexture : Nat
  deriving DecidableEq, Repr

/-- The type `core::dimension2d<u32>`. -/
structure dimension2du where
  Width : Nat
  Height : Nat
  deriving DecidableEq, Repr

/-- The type `core::position2d<s32>`. -/
structure position2di where
  X : Int
  Y : Int
  deriving DecidableEq, Repr

/-- The type `core::vector3df`. -/
structure vector3df where
  X : ℚ
  Y : ℚ
  Z : ℚ
  deriving DecidableEq, Repr

/-- The transformation states the software driver names. -/
inductive E_TRANSFORMATION_STATE
  | ETS_VIEW
  | ETS_WORLD
  | ETS_PROJECTION
  | ETS_TEXTURE_0
  deriving DecidableEq, Repr

/-- Modelled from the spec: the enum `scene::E_PRIMITIVE_TYPE` is declared in a header
that is not among the sources; these are the primitive types the sources and the
specification name (points, lines, triangles, quads, polygon, point sprites). -/
inductive E_PRIMITIVE_TYPE
  | EPT_POINTS
  | EPT_LINE_STRIP
  | EPT_LINE_LOOP
  | EPT_LINES
  | EPT_TRIANGLE_STRIP
  | EPT_TRIANGLE_FAN
  | EPT_TRIANGLES
  | EPT_QUAD_STRIP
  | EPT_QUADS
  | EPT_POLYGON
  | EPT_POINT_SPRITES
  deriving DecidableEq, Repr

/-- The index types `EIT_16BIT` and `EIT_32BIT`. -/
inductive E_INDEX_TYPE
  | EIT_16BIT
  | EIT_32BIT
  deriving DecidableEq, Repr

/-- A material as `setMaterial` receives it: the flags of `SMaterial` together with the
line thickness, the texture of layer 0 (`getTexture(0)`) and its texture matrix
(`getTextureMatrix(0)`). -/
structure SMaterialFull extends SMaterial where
  Thickness : ℚ
  TextureLayer0 : Option ITexture
  TextureMatrix0 : matrix4

/-- An input vertex with its colour: the fields of `S3DVertex` the pipeline reads. -/
structure S3DVertexC extends S3DVertex where
  Color : Nat
  deriving DecidableEq, Repr

/-- The position `Pos` of a vertex. -/
def S3DVertexC.Pos (v : S3DVertexC) : vector3df :=
  { X := v.PosX, Y := v.PosY, Z := v.PosZ }

/-- The object behind an `scene::IIndexBuffer*`. -/
structure IIndexBuffer where
  getType : E_INDEX_TYPE
  getIndex : Nat → Nat

/-- The object behind an `scene::IVertexBuffer*`. `getVertices` is the array of
vertices in the buffer's own vertex type; `vector3dfAt base k` is the `vector3df` read
at `(core::vector3df*)(getVertices() + base) + k` and `SColorAt base k` the colour read
at `(SColor*)(getVertices() + base) + k`, as the line branches address the memory: `base`
counts bytes, `k` counts elements of the type read, 12 bytes for a `vector3df` and 4 for
an `SColor`. -/
structure IVertexBuffer where
  getVertexSize : Nat
  getVertexCount : Nat
  getVertices : Nat → S3DVertexC
  vector3dfAt : Nat → Nat → vector3df
  SColorAt : Nat → Nat → Nat

/-- The object behind an `IVertexDescriptor*`: the offsets returned by
`getAttributeBySemantic(EVAS_POSITION)` and `getAttributeBySemantic(EVAS_COLOR)`, `none`
when the descriptor has no such attribute. -/
structure IVertexDescriptor where
  AttributeP : Option Nat
  AttributeC : Option Nat
  deriving DecidableEq, Repr

/-- One call `CurrentTriangleRenderer->drawIndexedTriangleList(...)`: the renderer
called, its configuration at the call, the transformed points, the index list and the
triangle count handed over. The triangle renderers are not among the sources; what they
write to the render target and the depth buffer is determined by these calls. -/
structure RasterCall where
  renderer : ETriangleRenderer
  config : RendererConfig
  vertices : List S2DVertex
  indexList : List Nat
  triangleCount : Nat
  deriving DecidableEq, Repr

/-- The members of `CSoftwareDriver` (and of its base `CNullDriver`) that material,
render-target and draw calls read and write. `ZBuffer` holds the size of the depth
buffer; `ReferenceCounter` gives the reference count of the object with a given handle
and `ImageDimension` the result of `getDimension()` of the image with a given handle;
`Rasterized` lists the calls into the triangle renderers, which is how a draw call
reaches the pixels of the render target and the depth values. -/
structure DriverState where
  BackBuffer : Option Nat
  ScreenSize : dimension2du
  RenderTargetTexture : Option ITexture
  RenderTargetSurface : Option Nat
  RenderTargetSize : dimension2du
  Render2DTranslation : position2di
  ViewPort : Rect
  ViewPortSize : dimension2du
  ZBuffer : Option dimension2du
  Texture : Option ITexture
  Material : SMaterialFull
  TransformationMatrix : E_TRANSFORMATION_STATE → matrix4
  TriangleRenderers : ETriangleRenderer → RendererConfig
  CurrentTriangleRenderer : Option ETriangleRenderer
  VertexDescriptor0 : Option IVertexDescriptor
  TransformedPoints : List S2DVertex
  PrimitivesDrawn : Nat
  ReferenceCounter : Nat → Nat
  ImageDimension : Nat → dimension2du
  Rasterized : List RasterCall

/-- The functions and constants the software driver uses from files that are not among
the sources, taken as parameters: `CNullDriver::checkPrimitiveCount`; the relation
`planes[p].classifyPointRelation(pos)` of the `p`-th clip plane computed from the
projection, view and world matrices; `vector3df::normalize`; `OverrideMaterial.apply`;
and the three values of `sizeof` for the built-in vertex formats. -/
structure Externals where
  checkPrimitiveCount : Nat → Bool
  classifyPointRelation : matrix4 → matrix4 → matrix4 → Nat → vector3df →
    EIntersectionRelation3D
  normalize : vector3df → vector3df
  overrideApply : SMaterialFull → SMaterialFull
  sizeofS3DVertex : Nat
  sizeofS3DVertex2TCoords : Nat
  sizeofS3DVertexTangents : Nat

/-- The part of the driver state that renderer selection works on. -/
def DriverState.selection (d : DriverState) : CSoftwareDriver :=
  { Texture := d.Texture.map (fun t => { getTexture := t.getTexture })
    Material := d.Material.toSMaterial
    RenderTargetSurface := d.RenderTargetSurface
    ViewPort := d.ViewPort
    TriangleRenderers := d.TriangleRenderers
    CurrentTriangleRenderer := d.CurrentTriangleRenderer }

/-- The method `selectRightTriangleRenderer` on the whole driver state. -/
def DriverState.selectRightTriangleRenderer (d : DriverState) : DriverState :=
  { d with
    TriangleRenderers := (Irrlicht.selectRightTriangleRenderer d.selection).TriangleRenderers
    CurrentTriangleRenderer :=
      (Irrlicht.selectRightTriangleRenderer d.selection).CurrentTriangleRenderer }

/-- Modelled from the spec: `IReferenceCounted::grab()`, which is not among the sources:
the reference count of the object goes up by one. -/
def grab (ReferenceCounter : Nat → Nat) (handle : Nat) : Nat → Nat :=
  fun h => if h = handle then ReferenceCounter h + 1 else ReferenceCounter h

/-- Modelled from the spec: `IReferenceCounted::drop()`, which is not among the sources:
the reference count of the object goes down by one; an object whose count is zero has
been deleted ("fully released"). -/
def drop (ReferenceCounter : Nat → Nat) (handle : Nat) : Nat → Nat :=
  fun h => if h = handle then ReferenceCounter h - 1 else ReferenceCounter h

/-- Modelled from the spec: `core::rect<s32>::clipAgainst`, which is not among the
sources ("the rectangle clipped against" another): the corners are moved into the other
rectangle, then an upper left corner that ended beyond the lower right one is moved
onto it. -/
def Rect.clipAgainst (r other : Rect) : Rect :=
  let LRX := if other.LRX < r.LRX then other.LRX else r.LRX
  let LRY := if other.LRY < r.LRY then other.LRY else r.LRY
  let ULX := if other.ULX > r.ULX then other.ULX else r.ULX
  let ULY := if other.ULY > r.ULY then other.ULY else r.ULY
  let ULY2 := if ULY > LRY then LRY else ULY
  let ULX2 := if ULX > LRX then LRX else ULX
  { ULX := ULX2, ULY := ULY2, LRX := LRX, LRY := LRY }

/-- The method `core::rect<s32>::getWidth`. -/
def Rect.getWidth (r : Rect) : Int := r.LRX - r.ULX

/-- The method `core::rect<s32>::getHeight`. -/
def Rect.getHeight (r : Rect) : Int := r.LRY - r.ULY

/-- The method `CSoftwareDriver::setViewPort`. The rectangle `rendert` is a `rect<s32>`
built from the `u32` members of `RenderTargetSize`, so a width or height from `2^31` on
enters it as a negative number. The size of the clipped viewport is not negative, so its
conversion to `dimension2du` keeps it. -/
def setViewPort (d : DriverState) (area : Rect) : DriverState :=
  let rendert : Rect :=
    { ULX := 0, ULY := 0, LRX := toS32 d.RenderTargetSize.Width,
      LRY := toS32 d.RenderTargetSize.Height }
  let ViewPort := area.clipAgainst rendert
  let ViewPortSize : dimension2du :=
    { Width := ViewPort.getWidth.toNat, Height := ViewPort.getHeight.toNat }
  let Render2DTranslation : position2di :=
    { X := Int.ofNat (ViewPortSize.Width / 2) + ViewPort.ULX
      Y := ViewPort.ULY + Int.ofNat ViewPortSize.Height - Int.ofNat (ViewPortSize.Height / 2) }
  { d with
    ViewPort := ViewPort
    ViewPortSize := ViewPortSize
    Render2DTranslation := Render2DTranslation
    TriangleRenderers :=
      match d.CurrentTriangleRenderer with
      | some cur => fun r =>
          if r = cur then
            { d.TriangleRenderers r with
              RenderTarget := d.RenderTargetSurface, ViewPort := ViewPort }
          else d.TriangleRenderers r
      | none => d.TriangleRenderers }

/-- The states of the driver after each statement of
`CSoftwareDriver::setRenderTarget(video::CImage* image)`, in program order: after the
drop of the previous surface; after the new pointer is stored and the sizes are
zeroed; after the new surface is grabbed and its dimension read; after `setViewPort`;
after the depth buffer is resized. The rectangle passed to `setViewPort` is a `rect<s32>`
built from the `u32` members of `RenderTargetSize`. When the drop has taken the count of
the image passed in to zero, that object is deleted, and `grab()` and `getDimension()`
act on a deleted object, which C++ leaves undefined; the states from the third on then
are what these statements give while the memory of the object is still intact. The
predicate `imageOutlivesDrop` excludes that case. -/
def setRenderTargetSteps (d : DriverState) (image : Option Nat) : List DriverState :=
  let d1 : DriverState :=
    match d.RenderTargetSurface with
    | some old => { d with ReferenceCounter := drop d.ReferenceCounter old }
    | none => d
  let d2 : DriverState :=
    { d1 with
      RenderTargetSurface := image
      RenderTargetSize := { Width := 0, Height := 0 }
      Render2DTranslation := { X := 0, Y := 0 } }
  let d3 : DriverState :=
    match d2.RenderTargetSurface with
    | some new =>
        { d2 with
          ReferenceCounter := grab d2.ReferenceCounter new
          RenderTargetSize := d2.ImageDimension new }
    | none => d2
  let d4 : DriverState :=
    setViewPort d3
      { ULX := 0, ULY := 0, LRX := toS32 d3.RenderTargetSize.Width,
        LRY := toS32 d3.RenderTargetSize.Height }
  let d5 : DriverState :=
    match d4.ZBuffer with
    | some _ => { d4 with ZBuffer := some d4.RenderTargetSize }
    | none => d4
  [d1, d2, d3, d4, d5]

/-- The method `CSoftwareDriver::setRenderTarget(video::CImage* image)`: the state after
its last statement. -/
def setRenderTarget (d : DriverState) (image : Option Nat) : DriverState :=
  (setRenderTargetSteps d image).getLastD d

/-- The image passed to `setRenderTarget` is a live object and is still one after the
drop of the previous surface: its reference count is at least 1, and at least 2 when it
is the surface that is current already. -/
def imageOutlivesDrop (d : DriverState) (image : Nat) : Prop :=
  1 ≤ d.ReferenceCounter image ∧
  (d.RenderTargetSurface ≠ some image ∨ 2 ≤ d.ReferenceCounter image)

instance imageOutlivesDropDecidable (d : DriverState) (image : Nat) :
    Decidable (imageOutlivesDrop d image) := by
  unfold imageOutlivesDrop; infer_instance

/-- The method `CSoftwareDriver::setTransform`. -/
def setTransform (d : DriverState) (state : E_TRANSFORMATION_STATE) (mat : matrix4) :
    DriverState :=
  { d with
    TransformationMatrix := fun s => if s = state then mat else d.TransformationMatrix s }

/-- The statements of `setActiveTexture` between the check of the driver type and the
selection of the renderer: the bound texture is dropped, the pointer is stored, the new
texture is grabbed. -/
def setActiveTextureStore (d : DriverState) (texture : Option ITexture) : DriverState :=
  let d1 : DriverState :=
    match d.Texture with
    | some old => { d with ReferenceCounter := drop d.ReferenceCounter old.handle }
    | none => d
  let d2 : DriverState := { d1 with Texture := texture }
  match d2.Texture with
  | some t => { d2 with ReferenceCounter := grab d2.ReferenceCounter t.handle }
  | none => d2

/-- The method `CSoftwareDriver::setActiveTexture`: the returned flag and the state.
The parameter `stage` is not read by the code. -/
def setActiveTexture (d : DriverState) (_stage : Nat) (texture : Option ITexture) :
    Bool × DriverState :=
  if (match texture with
      | some t => decide (t.getDriverType ≠ E_DRIVER_TYPE.EDT_SOFTWARE)
      | none => false) then
    (false, d)
  else
    (true, (setActiveTextureStore d texture).selectRightTriangleRenderer)

/-- The method `CSoftwareDriver::setMaterial`; its loop runs once, for texture stage 0. -/
def setMaterial (ext : Externals) (d : DriverState) (material : SMaterialFull) :
    DriverState :=
  let d1 : DriverState := { d with Material := ext.overrideApply material }
  let d2 : DriverState := (setActiveTexture d1 0 d1.Material.TextureLayer0).2
  setTransform d2 E_TRANSFORMATION_STATE.ETS_TEXTURE_0 material.TextureMatrix0

/-! ### The draw calls -/

/-- Modelled from the spec: `vector3df::crossProduct`, which is not among the sources. -/
def vector3df.crossProduct (a p : vector3df) : vector3df :=
  { X := a.Y * p.Z - a.Z * p.Y, Y := a.Z * p.X - a.X * p.Z, Z := a.X * p.Y - a.Y * p.X }

/-- Modelled from the spec: the sum of two `vector3df`, which is not among the sources. -/
def vector3df.add (a b : vector3df) : vector3df :=
  { X := a.X + b.X, Y := a.Y + b.Y, Z := a.Z + b.Z }

/-- Modelled from the spec: the product `vect *= f` of a `vector3df` with a scalar, which
is not among the sources. -/
def vector3df.scale (a : vector3df) (f : ℚ) : vector3df :=
  { X := a.X * f, Y := a.Y * f, Z := a.Z * f }

/-- The matrix-dependent plane classification of one draw call: the relation of the
position of a vertex to the `p`-th of the planes computed from the current projection,
view and world matrices. -/
def frustumClassify (ext : Externals) (d : DriverState) (p : Nat) (v : S3DVertexC) :
    EIntersectionRelation3D :=
  ext.classifyPointRelation (d.TransformationMatrix E_TRANSFORMATION_STATE.ETS_PROJECTION)
    (d.TransformationMatrix E_TRANSFORMATION_STATE.ETS_VIEW)
    (d.TransformationMatrix E_TRANSFORMATION_STATE.ETS_WORLD) p v.Pos

/-- The values the transform loop of a draw call reads from the driver. -/
def transformEnvOf (d : DriverState) : TransformEnv :=
  { ViewPortSizeWidth := d.ViewPortSize.Width
    ViewPortSizeHeight := d.ViewPortSize.Height
    Render2DTranslationX := d.Render2DTranslation.X
    Render2DTranslationY := d.Render2DTranslation.Y
    textureSizeWidth :=
      match d.Texture with
      | some t => (d.ImageDimension t.getTexture).Width
      | none => 0
    textureSizeHeight :=
      match d.Texture with
      | some t => (d.ImageDimension t.getTexture).Height
      | none => 0 }

/-- The call `TransformedPoints.set_used(n)` when the array is shorter than `n`: the
array gets `n` elements. The values of the added elements are unspecified; the transform
loop overwrites the first `n` elements, that is all of them. -/
def setUsed (TransformedPoints : List S2DVertex) (n : Nat) : List S2DVertex :=
  TransformedPoints ++
    List.replicate (n - TransformedPoints.length)
      { PosX := 0, PosY := 0, TCoordsX := 0, TCoordsY := 0, ZValue := 0 }

/-- The method `CSoftwareDriver::drawClippedIndexedTriangleListT`. `none` stands for a
call through a null `CurrentTriangleRenderer` or a read outside the working buffer.
`CNullDriver::drawVertexPrimitiveList` is not among the sources; as the Direct3D 11
driver emulates it, it adds the primitive count to `PrimitivesDrawn`. -/
def drawClippedIndexedTriangleListT (ext : Externals) (d : DriverState)
    (vertices : Nat → S3DVertexC) (_vertexCount : Nat) (indexList : Nat → Nat)
    (triangleCount : Nat) : Option DriverState :=
  if d.RenderTargetSurface.isNone || d.ZBuffer.isNone || triangleCount == 0 then some d
  else if !ext.checkPrimitiveCount triangleCount then some d
  else do
    let st ← clipLoop (frustumClassify ext d) vertices indexList triangleCount
    let d1 : DriverState :=
      { d with PrimitivesDrawn := (d.PrimitivesDrawn + st.clippedIndices.length / 3) % 2 ^ 32 }
    let d2 : DriverState :=
      if d1.TransformedPoints.length < st.clippedVertices.length then
        { d1 with TransformedPoints := setUsed d1.TransformedPoints st.clippedVertices.length }
      else d1
    if d2.TransformedPoints.isEmpty then some d2
    else do
      let tp ← transformStage (transformEnvOf d)
        (d.TransformationMatrix E_TRANSFORMATION_STATE.ETS_PROJECTION)
        (d.TransformationMatrix E_TRANSFORMATION_STATE.ETS_VIEW)
        (d.TransformationMatrix E_TRANSFORMATION_STATE.ETS_WORLD)
        (st.clippedVertices.map (fun v => v.toS3DVertex))
      let d3 : DriverState :=
        { d2 with TransformedPoints := tp ++ d2.TransformedPoints.drop tp.length }
      let renderer ← d3.CurrentTriangleRenderer
      some
        { d3 with
          Rasterized := d3.Rasterized ++
            [{ renderer := renderer
               config := d3.TriangleRenderers renderer
               vertices := tp
               indexList := st.clippedIndices
               triangleCount := st.clippedIndices.length / 3 }] }

/-- The triangle list that the `EPT_TRIANGLE_FAN` branch builds in `NewBuffer`: for each
`t` below `primitiveCount` the indices `getIndex(0)`, `getIndex(t+1)`, `getIndex(t+2)`.
The source buffer is a 16-bit one, so the 16-bit `NewBuffer` keeps the values. -/
def fanToList (getIndex : Nat → Nat) (primitiveCount : Nat) : List Nat :=
  (List.range primitiveCount).foldl
    (fun NewBuffer t => NewBuffer ++ [getIndex 0, getIndex (t + 1), getIndex (t + 2)]) []

/-- The array `getIndices()` of an index buffer that was filled with `addIndex`. -/
def indicesOf (NewBuffer : List Nat) : Nat → Nat := fun k => NewBuffer.getD k 0

/-- The second `switch` of `drawVertexPrimitiveList`: the clipper is called when the
vertex size is that of one of the three built-in vertex formats. -/
def drawByVertexSize (ext : Externals) (d : DriverState) (vb : IVertexBuffer)
    (indices : Nat → Nat) (primitiveCount : Nat) : Option DriverState :=
  if vb.getVertexSize = ext.sizeofS3DVertex ∨ vb.getVertexSize = ext.sizeofS3DVertex2TCoords ∨
      vb.getVertexSize = ext.sizeofS3DVertexTangents then
    drawClippedIndexedTriangleListT ext d vb.getVertices vb.getVertexCount indices
      primitiveCount
  else some d

/-- Modelled from the spec: the default value of the parameter `color` of
`draw3DLine`, which is declared in a header that is not among the sources: white with
full alpha. -/
def draw3DLineDefaultColor : Nat := 0xFFFFFFFF

/-- One line segment of the line branches: from the position read for index position
`i` to the one read for index position `j`, in the colour read for `i` when the
descriptor has a colour attribute. The position is read at
`(core::vector3df*)OffsetP + vertexSize * index`: the `u32` product `vertexSize * index`
counts elements of `vector3df`, respectively of `SColor` for the colour. -/
def drawSegment (line : DriverState → vector3df → vector3df → Nat → Option DriverState)
    (vb : IVertexBuffer) (ib : IIndexBuffer) (desc : IVertexDescriptor) (offsetP : Nat)
    (d : DriverState) (i j : Nat) : Option DriverState :=
  let PositionA := vb.vector3dfAt offsetP (vb.getVertexSize * ib.getIndex i % 2 ^ 32)
  let PositionB := vb.vector3dfAt offsetP (vb.getVertexSize * ib.getIndex j % 2 ^ 32)
  match desc.AttributeC with
  | some offsetC =>
      line d PositionA PositionB (vb.SColorAt offsetC (vb.getVertexSize * ib.getIndex i % 2 ^ 32))
  | none => line d PositionA PositionB draw3DLineDefaultColor

/-- The branch `EPT_LINE_STRIP`: the loop `for (u32 i=0; i < primitiveCount-1; ++i)`. -/
def drawLineStrip (line : DriverState → vector3df → vector3df → Nat → Option DriverState)
    (vb : IVertexBuffer) (ib : IIndexBuffer) (desc : IVertexDescriptor) (offsetP : Nat)
    (d : DriverState) (primitiveCount : Nat) : Option DriverState :=
  (List.range (primitiveCount - 1)).foldlM
    (fun s i => drawSegment line vb ib desc offsetP s i (i + 1)) d

/-- The method `CSoftwareDriver::drawVertexPrimitiveList`, with the method that draws a
line as a parameter. The branch `EPT_LINE_LOOP` calls the method itself with
`EPT_LINE_STRIP`; that call passes the same checks again and runs the strip loop. The
loop of the branch `EPT_LINES` runs for `i = 0, 2, 4, ...` below the `u32` product
`2*primitiveCount`, an even number, so it makes half that many rounds. -/
def drawVertexPrimitiveListWith
    (line : DriverState → vector3df → vector3df → Nat → Option DriverState)
    (ext : Externals) (d : DriverState) (vertexBuffer : Option IVertexBuffer)
    (indexBuffer : Option IIndexBuffer) (descriptor : Option IVertexDescriptor)
    (primitiveCount : Nat) (pType : E_PRIMITIVE_TYPE) : Option DriverState :=
  match vertexBuffer, indexBuffer, descriptor with
  | some vb, some ib, some desc =>
    if primitiveCount = 0 then some d
    else if ib.getType = E_INDEX_TYPE.EIT_32BIT then some d
    else
      match desc.AttributeP with
      | none => some d
      | some offsetP =>
        match pType with
        | E_PRIMITIVE_TYPE.EPT_LINE_STRIP =>
          drawLineStrip line vb ib desc offsetP d primitiveCount
        | E_PRIMITIVE_TYPE.EPT_LINE_LOOP => do
          let d1 ← drawLineStrip line vb ib desc offsetP d primitiveCount
          drawSegment line vb ib desc offsetP d1 (primitiveCount - 1) 0
        | E_PRIMITIVE_TYPE.EPT_LINES =>
          (List.range (2 * primitiveCount % 2 ^ 32 / 2)).foldlM
            (fun s k => drawSegment line vb ib desc offsetP s (2 * k) (2 * k + 1)) d
        | E_PRIMITIVE_TYPE.EPT_TRIANGLE_FAN =>
          drawByVertexSize ext d vb (indicesOf (fanToList ib.getIndex primitiveCount))
            primitiveCount
        | E_PRIMITIVE_TYPE.EPT_TRIANGLES =>
          drawByVertexSize ext d vb ib.getIndex primitiveCount
        | _ => some d
  | _, _, _ => some d

/-- Modelled from the spec: `drawIndexedTriangleList` of the driver interface, which is
not among the sources ("through the same triangle pipeline"): it is
`drawVertexPrimitiveList` with the primitive type `EPT_TRIANGLES`, a branch that draws
no line. -/
def drawIndexedTriangleList (ext : Externals) (d : DriverState)
    (vertexBuffer : Option IVertexBuffer) (indexBuffer : Option IIndexBuffer)
    (descriptor : Option IVertexDescriptor) (triangleCount : Nat) : Option DriverState :=
  drawVertexPrimitiveListWith (fun s _ _ _ => some s) ext d vertexBuffer indexBuffer
    descriptor triangleCount E_PRIMITIVE_TYPE.EPT_TRIANGLES

/-- The vector `vect` of `draw3DLine`: the cross product of the end points, normalized
and scaled by `Material.Thickness*0.3f`. The factor is a product of two floats, the
thickness and the constant `0.3f` (the float nearest to 3/10); its magnitude is below that
of the thickness, so it is finite. -/
def draw3DLineVect (ext : Externals) (d : DriverState) (start finish : vector3df) :
    vector3df :=
  (ext.normalize (start.crossProduct finish)).scale
    (f32RoundFinite (d.Material.Thickness * f32RoundFinite (3 / 10)))

/-- A vertex of `draw3DLine`: the given position and colour; the texture coordinates
are those of the default constructor. -/
def lineVertex (Pos : vector3df) (color : Nat) : S3DVertexC :=
  { PosX := Pos.X, PosY := Pos.Y, PosZ := Pos.Z, TCoordsX := 0, TCoordsY := 0, Color := color }

/-- The array `vtx[4]` of `draw3DLine`. -/
def draw3DLineVtx (ext : Externals) (d : DriverState) (start finish : vector3df)
    (color : Nat) : List S3DVertexC :=
  [lineVertex start color, lineVertex finish color,
    lineVertex (start.add (draw3DLineVect ext d start finish)) color,
    lineVertex (finish.add (draw3DLineVect ext d start finish)) color]

/-- The array `idx[12]` of `draw3DLine`. -/
def draw3DLineIdx : List Nat := [0, 1, 2, 0, 2, 1, 0, 1, 3, 0, 3, 1]

/-- The vertex buffer `vtxBuffer` of `draw3DLine`, a `CVertexBuffer<S3DVertex>` with the
four vertices. Its byte-level views are not read on the triangle branch. -/
def draw3DLineVertexBuffer (ext : Externals) (d : DriverState) (start finish : vector3df)
    (color : Nat) : IVertexBuffer :=
  { getVertexSize := ext.sizeofS3DVertex
    getVertexCount := 4
    getVertices := fun k =>
      (draw3DLineVtx ext d start finish color).getD k (lineVertex { X := 0, Y := 0, Z := 0 } 0)
    vector3dfAt := fun _ _ => { X := 0, Y := 0, Z := 0 }
    SColorAt := fun _ _ => 0 }

/-- The index buffer `idxBuffer` of `draw3DLine`, a 16-bit buffer with the 12 indices. -/
def draw3DLineIndexBuffer : IIndexBuffer :=
  { getType := E_INDEX_TYPE.EIT_16BIT, getIndex := indicesOf draw3DLineIdx }

/-- The method `CSoftwareDriver::draw3DLine`; `finish` is its parameter `end`. -/
def draw3DLine (ext : Externals) (d : DriverState) (start finish : vector3df) (color : Nat) :
    Option DriverState :=
  drawIndexedTriangleList ext d (some (draw3DLineVertexBuffer ext d start finish color))
    (some draw3DLineIndexBuffer) d.VertexDescriptor0 4

/-- The method `CSoftwareDriver::drawVertexPrimitiveList`. -/
def drawVertexPrimitiveList (ext : Externals) (d : DriverState)
    (vertexBuffer : Option IVertexBuffer) (indexBuffer : Option IIndexBuffer)
    (descriptor : Option IVertexDescriptor) (primitiveCount : Nat)
    (pType : E_PRIMITIVE_TYPE) : Option DriverState :=
  drawVertexPrimitiveListWith (draw3DLine ext) ext d vertexBuffer indexBuffer descriptor
    primitiveCount pType

/-- Modelled from the spec: the quantity that backface culling tests, which is computed in
the triangle renderers, not among the sources ("compute the signed area (screen-space
cross product of two edges)"): the cross product of the edges from the first vertex to
the second and to the third, twice the signed area of the screen triangle. -/
def signedArea (a b c : S2DVertex) : Int :=
  (b.PosX - a.PosX) * (c.PosY - a.PosY) - (c.PosX - a.PosX) * (b.PosY - a.PosY)

/-- Modelled from the spec: the triangles that a triangle renderer skips when backface
culling is enabled ("a triangle with vertices ordered to produce a negative signed screen
area is skipped entirely when culling is enabled"). -/
def isBackFace (a b c : S2DVertex) : Prop := signedArea a b c < 0

instance isBackFaceDecidable (a b c : S2DVertex) : Decidable (isBackFace a b c) := by
  unfold isBackFace; infer_instance

/-- The vertex list of the quad of `draw3DLine` after clipping, as the specification
words it ("each of the two geometric triangles in both windings"): the triangle of the
first three corners and the triangle of the first two corners and the fourth, each in
both windings when the clipper keeps it. -/
def quadWindings {V : Type} (keepFirst keepSecond : Bool) (a b c e : V) : List V :=
  (if keepFirst then [a, b, c, a, c, b] else []) ++
    (if keepSecond then [a, b, e, a, e, b] else [])

/-! ### Sample data for the driver state -/

/-- Sample parameters: the primitive count limit of `getMaximalPrimitiveCount`, planes
that put the points with `X` beyond `10 + p` in front, vectors left as they are by
`normalize`, no override material, and the sizes 36, 44 and 60 of the vertex formats. -/
def sampleExternals : Externals :=
  { checkPrimitiveCount := fun n => decide (n ≤ 0x00800000)
    classifyPointRelation := fun _ _ _ p pos =>
      if pos.X > 10 + (p : ℚ) then EIntersectionRelation3D.ISREL3D_FRONT
      else EIntersectionRelation3D.ISREL3D_BACK
    normalize := fun v => v
    overrideApply := fun m => m
    sizeofS3DVertex := 36
    sizeofS3DVertex2TCoords := 44
    sizeofS3DVertexTangents := 60 }

/-- A sample material: flat shading, no texture. -/
def sampleMaterial : SMaterialFull :=
  { MaterialType := E_MATERIAL_TYPE.EMT_OTHER 0
    Wireframe := false
    GouraudShading := false
    ZBuffer := E_COMPARISON_FUNC.ECFN_OTHER 1
    ZWriteEnable := true
    BackfaceCulling := true
    Thickness := 1
    TextureLayer0 := none
    TextureMatrix0 := matrix4.identity }

/-- A sample driver state as after construction with a 640 x 480 window: the back
buffer (handle 1, held by `BackBuffer` and by `RenderTargetSurface`) is the render
target, no texture is bound, the flat renderer is current. -/
def sampleState : DriverState :=
  { BackBuffer := some 1
    ScreenSize := { Width := 640, Height := 480 }
    RenderTargetTexture := none
    RenderTargetSurface := some 1
    RenderTargetSize := { Width := 640, Height := 480 }
    Render2DTranslation := { X := 320, Y := 240 }
    ViewPort := { ULX := 0, ULY := 0, LRX := 640, LRY := 480 }
    ViewPortSize := { Width := 640, Height := 480 }
    ZBuffer := some { Width := 640, Height := 480 }
    Texture := none
    Material := sampleMaterial
    TransformationMatrix := fun _ => matrix4.identity
    TriangleRenderers := fun _ =>
      { BackfaceCulling := true, Texture := none, RenderTarget := some 1,
        ViewPort := { ULX := 0, ULY := 0, LRX := 640, LRY := 480 } }
    CurrentTriangleRenderer := some ETriangleRenderer.ETR_FLAT
    VertexDescriptor0 := some { AttributeP := some 0, AttributeC := some 24 }
    TransformedPoints := []
    PrimitivesDrawn := 0
    ReferenceCounter := fun h => if h = 1 then 2 else if h = 2 then 1 else 0
    ImageDimension := fun h => if h = 2 then { Width := 256, Height := 128 }
      else { Width := 640, Height := 480 }
    Rasterized := [] }

/-- A texture of the Direct3D 11 driver. -/
def foreignTexture : ITexture :=
  { handle := 9, getDriverType := E_DRIVER_TYPE.EDT_DIRECT3D11, getTexture := 0 }

/-- A texture of the software driver, with image 2. -/
def softwareTexture : ITexture :=
  { handle := 8, getDriverType := E_DRIVER_TYPE.EDT_SOFTWARE, getTexture := 2 }

/-- A sample vertex buffer of three standard vertices, all inside the sample planes. A
standard vertex has 36 bytes, its position in the first 12, so the `vector3df` number `k`
behind the first position is the position of vertex `k/3` when 3 divides `k`; the memory
between the positions is read as zero. -/
def sampleVertexBuffer : IVertexBuffer :=
  { getVertexSize := 36
    getVertexCount := 3
    getVertices := fun k =>
      { PosX := (k : ℚ), PosY := 0, PosZ := 0, TCoordsX := 0, TCoordsY := 0, Color := 0 }
    vector3dfAt := fun _ k =>
      if k % 3 = 0 then { X := ((k / 3 : Nat) : ℚ), Y := 0, Z := 0 }
      else { X := 0, Y := 0, Z := 0 }
    SColorAt := fun _ _ => 0 }

/-- A sample 16-bit index buffer: index `k` refers to vertex `k`. -/
def sampleIndexBuffer : IIndexBuffer :=
  { getType := E_INDEX_TYPE.EIT_16BIT, getIndex := fun k => k }

/-- A sample 32-bit index buffer. -/
def sampleIndexBuffer32 : IIndexBuffer :=
  { getType := E_INDEX_TYPE.EIT_32BIT, getIndex := fun k => k }

/-- A sample vertex descriptor with a position and a colour attribute. -/
def sampleDescriptor : IVertexDescriptor :=
  { AttributeP := some 0, AttributeC := some 24 }

/-- The index array `IndexPointer->getIndices()` that the triangle branches of
`drawVertexPrimitiveList` hand to the clipper: the converted list for a fan, the
indices of the buffer itself for a triangle list. -/
def IndexPointer (ib : IIndexBuffer) (primitiveCount : Nat) (pType : E_PRIMITIVE_TYPE) :
    Nat → Nat :=
  if pType = E_PRIMITIVE_TYPE.EPT_TRIANGLE_FAN then
    indicesOf (fanToList ib.getIndex primitiveCount)
  else ib.getIndex

/-- A sample driver state without a depth buffer. -/
def sampleStateNoZBuffer : DriverState := { sampleState with ZBuffer := none }

/-- A driver state in which the driver holds the only reference to the current render
target, the image with handle 1. -/
def soleOwnerState : DriverState :=
  { sampleState with
    BackBuffer := none
    ReferenceCounter := fun h => if h = 1 then 1 else 0 }

/-- A material with Gouraud shading whose texture belongs to the Direct3D 11 driver. -/
def foreignMaterial : SMaterialFull :=
  { sampleMaterial with GouraudShading := true, TextureLayer0 := some foreignTexture }

/-- A material with Gouraud shading whose texture belongs to the software driver. -/
def texturedMaterial : SMaterialFull :=
  { sampleMaterial with GouraudShading := true, TextureLayer0 := some softwareTexture }

/-! ### Window resize and the texture overload of `setRenderTarget` -/

/-- The local variable `realSize` of `CSoftwareDriver::OnResize`: the requested size, an
odd width or height increased by one in `u32` arithmetic. -/
def realSize (size : dimension2du) : dimension2du :=
  { Width := if size.Width % 2 ≠ 0 then (size.Width + 1) % 2 ^ 32 else size.Width
    Height := if size.Height % 2 ≠ 0 then (size.Height + 1) % 2 ^ 32 else size.Height }

/-- The method `CSoftwareDriver::OnResize`. `newImage` is the address of the image that
`new CImage(ECF_A1R5G5B5, realSize)` creates, an object with one reference and the
dimension `realSize`. -/
def OnResize (d : DriverState) (size : dimension2du) (newImage : Nat) : DriverState :=
  if d.ScreenSize ≠ realSize size then
    let d1 : DriverState :=
      if d.ViewPort.getWidth = toS32 d.ScreenSize.Width ∧
          d.ViewPort.getHeight = toS32 d.ScreenSize.Height then
        { d with
          ViewPort :=
            { ULX := 0, ULY := 0, LRX := 0 + toS32 (realSize size).Width,
              LRY := 0 + toS32 (realSize size).Height } }
      else d
    let d2 : DriverState := { d1 with ScreenSize := realSize size }
    let resetRT : Bool := decide (d2.RenderTargetSurface = d2.BackBuffer)
    let d3 : DriverState :=
      match d2.BackBuffer with
      | some old => { d2 with ReferenceCounter := drop d2.ReferenceCounter old }
      | none => d2
    let d4 : DriverState :=
      { d3 with
        BackBuffer := some newImage
        ReferenceCounter := fun h => if h = newImage then 1 else d3.ReferenceCounter h
        ImageDimension := fun h => if h = newImage then realSize size else d3.ImageDimension h }
    if resetRT then setRenderTarget d4 d4.BackBuffer else d4
  else d

/-- What a call of `setRenderTarget(video::ITexture*, bool, bool, SColor)` does: the value
it returns, the driver state it leaves, whether it called `ZBuffer->clear()`, and the
surface and colour of its call `RenderTargetSurface->fill(color)`, if it made one. The
depth values and the pixels themselves are not part of the driver state. -/
structure SetRenderTargetResult where
  returned : Bool
  state : DriverState
  clearedZBuffer : Bool
  filled : Option (Nat × Nat)

/-- The statements of the texture overload of `setRenderTarget` between the check of the
driver type and the clearing: the previous render-target texture is dropped, the pointer
is stored, the new texture is grabbed and its image made the render target, or the back
buffer when the texture is null. -/
def setRenderTargetTextureStore (d : DriverState) (texture : Option ITexture) : DriverState :=
  let d1 : DriverState :=
    match d.RenderTargetTexture with
    | some old => { d with ReferenceCounter := drop d.ReferenceCounter old.handle }
    | none => d
  let d2 : DriverState := { d1 with RenderTargetTexture := texture }
  match d2.RenderTargetTexture with
  | some t =>
      setRenderTarget { d2 with ReferenceCounter := grab d2.ReferenceCounter t.handle }
        (some t.getTexture)
  | none => setRenderTarget d2 d2.BackBuffer

/-- The last statements of the texture overload of `setRenderTarget`: with a render-target
surface and at least one of the two flags set, the depth buffer is cleared and the
surface filled as the flags say; then `true` is returned. `none` stands for the call
`ZBuffer->clear()` through a null `ZBuffer`. -/
def setRenderTargetTextureClear (d : DriverState) (clearBackBuffer clearZBuffer : Bool)
    (color : Nat) : Option SetRenderTargetResult :=
  match d.RenderTargetSurface with
  | some surface =>
    if clearBackBuffer || clearZBuffer then
      if clearZBuffer then
        match d.ZBuffer with
        | some _ =>
          some
            { returned := true, state := d, clearedZBuffer := true
              filled := if clearBackBuffer then some (surface, color) else none }
        | none => none
      else
        some
          { returned := true, state := d, clearedZBuffer := false
            filled := if clearBackBuffer then some (surface, color) else none }
    else some { returned := true, state := d, clearedZBuffer := false, filled := none }
  | none => some { returned := true, state := d, clearedZBuffer := false, filled := none }

/-- The method `CSoftwareDriver::setRenderTarget(video::ITexture* texture, bool
clearBackBuffer, bool clearZBuffer, SColor color)`. -/
def setRenderTargetTexture (d : DriverState) (texture : Option ITexture)
    (clearBackBuffer clearZBuffer : Bool) (color : Nat) : Option SetRenderTargetResult :=
  if (match texture with
      | some t => decide (t.getDriverType ≠ E_DRIVER_TYPE.EDT_SOFTWARE)
      | none => false) then
    some { returned := false, state := d, clearedZBuffer := false, filled := none }
  else
    setRenderTargetTextureClear (setRenderTargetTextureStore d texture) clearBackBuffer
      clearZBuffer color

/-! ### The line segments of a draw call -/

/-- The segment that the line branches draw for the places `i` and `j` of the index
buffer: the two positions and the colour that they read from the memory of the vertex
buffer for the indices at these places. -/
def segmentJoining (vb : IVertexBuffer) (ib : IIndexBuffer) (desc : IVertexDescriptor)
    (offsetP : Nat) (i j : Nat) : vector3df × vector3df × Nat :=
  (vb.vector3dfAt offsetP (vb.getVertexSize * ib.getIndex i % 2 ^ 32),
    vb.vector3dfAt offsetP (vb.getVertexSize * ib.getIndex j % 2 ^ 32),
    match desc.AttributeC with
    | some offsetC => vb.SColorAt offsetC (vb.getVertexSize * ib.getIndex i % 2 ^ 32)
    | none => draw3DLineDefaultColor)

/-- The segment "joining index `i` to index `j`" as the specification words it: from the
position of the vertex whose index is at the place `i` of the index buffer to the position
of the vertex whose index is at the place `j`, in the colour of the first of them. -/
def segmentOfVertices (vb : IVertexBuffer) (ib : IIndexBuffer) (i j : Nat) :
    vector3df × vector3df × Nat :=
  ((vb.getVertices (ib.getIndex i)).Pos, (vb.getVertices (ib.getIndex j)).Pos,
    (vb.getVertices (ib.getIndex i)).Color)

/-- The segments of a line strip of `n` indices: the `i`-th is read for the places `i`
and `i+1`, for `i` below `n-1`. -/
def stripSegments (vb : IVertexBuffer) (ib : IIndexBuffer) (desc : IVertexDescriptor)
    (offsetP : Nat) (n : Nat) : List (vector3df × vector3df × Nat) :=
  (List.range (n - 1)).map (fun i => segmentJoining vb ib desc offsetP i (i + 1))

/-- The segments of a line loop: those of the strip, then the closing segment read for
the places `n-1` and 0. -/
def loopSegments (vb : IVertexBuffer) (ib : IIndexBuffer) (desc : IVertexDescriptor)
    (offsetP : Nat) (n : Nat) : List (vector3df × vector3df × Nat) :=
  stripSegments vb ib desc offsetP n ++ [segmentJoining vb ib desc offsetP (n - 1) 0]

/-- The segments of a line list of `n` lines: the `i`-th is read for the places `2i`
and `2i+1`. -/
def listSegments (vb : IVertexBuffer) (ib : IIndexBuffer) (desc : IVertexDescriptor)
    (offsetP : Nat) (n : Nat) : List (vector3df × vector3df × Nat) :=
  (List.range n).map (fun i => segmentJoining vb ib desc offsetP (2 * i) (2 * i + 1))

/-- One `draw3DLine` call for each segment of a list, in the order of the list. -/
def drawSegmentList (ext : Externals) (d : DriverState)
    (segments : List (vector3df × vector3df × Nat)) : Option DriverState :=
  segments.foldlM (fun s seg => draw3DLine ext s seg.1 seg.2.1 seg.2.2) d

/-! ### Further sample data for the driver state -/

/-- A vertex buffer for lines: 32 standard vertices of 36 bytes, vertex `j` at the
position `(j/4, 0, 0)` and of the colour `j`. The position is in the first 12 bytes of a
vertex and the colour in the bytes 24 to 27, so the `vector3df` number `k` behind the first
position is the position of vertex `k/3` when 3 divides `k`, and the `SColor` number `k`
behind the first colour is the colour of vertex `k/9` when 9 divides `k`; the memory
between them is read as zero. -/
def sampleLineBuffer : IVertexBuffer :=
  { getVertexSize := 36
    getVertexCount := 32
    getVertices := fun j =>
      { PosX := (j : ℚ) / 4, PosY := 0, PosZ := 0, TCoordsX := 0, TCoordsY := 0, Color := j }
    vector3dfAt := fun _ k =>
      if k % 3 = 0 then { X := ((k / 3 : Nat) : ℚ) / 4, Y := 0, Z := 0 }
      else { X := 0, Y := 0, Z := 0 }
    SColorAt := fun _ k => if k % 9 = 0 then k / 9 else 0 }

/-- The sample driver state with a further image, handle 3, that has the size of the
window (640 x 480) and one reference, as the image of a render-target texture has. -/
def windowSizedTargetState : DriverState :=
  { sampleState with
    ReferenceCounter := fun h => if h = 1 then 2 else if h = 2 then 1 else if h = 3 then 1 else 0 }

/-- The sample driver state with a further image, handle 3, of dimension `2^31` x 480 and
one reference: the image that `new CImage(ECF_A1R5G5B5, realSize)` of `OnResize` creates
for a window width of `2^31`. -/
def wideImageState : DriverState :=
  { sampleState with
    ReferenceCounter := fun h => if h = 1 then 2 else if h = 2 then 1 else if h = 3 then 1 else 0
    ImageDimension := fun h =>
      if h = 3 then { Width := 2147483648, Height := 480 } else sampleState.ImageDimension h }

/-- The sample driver state with a material of line thickness 0. -/
def thinLineState : DriverState :=
  { sampleState with Material := { sampleMaterial with Thickness := 0 } }
/-- Sample parameters whose `normalize` gives the unit vector `(1, 0, 0)` for the zero
vector and leaves every other vector as it is. -/
def defaultingExternals : Externals :=
  { sampleExternals with
    normalize := fun v =>
      if v = { X := 0, Y := 0, Z := 0 } then { X := 1, Y := 0, Z := 0 } else v }

/-! ### The shadow volume scene node -/

/-- Modelled from the spec: the difference of two `vector3df`, which is not among the
sources. -/
def vector3df.sub (a b : vector3df) : vector3df :=
  { X := a.X - b.X, Y := a.Y - b.Y, Z := a.Z - b.Z }

/-- The functions of `core::vector3df` and `core::triangle3df` that the shadow volume code
calls and that are not among the sources, taken as parameters: `v1.equals(v2)`, the
comparison `v1 == v2`, and `core::triangle3df(v0,v1,v2).isFrontFacing(light)`. -/
structure ShadowExternals where
  equals : vector3df → vector3df → Bool
  operatorEq : vector3df → vector3df → Bool
  isFrontFacing : vector3df → vector3df → vector3df → vector3df → Bool

/-- The members of `CShadowVolumeSceneNode` that the adjacency, edge and volume code
reads and writes. The element types of the arrays are declared in a header that is not
among the sources; indices and face numbers are natural numbers here. -/
structure CShadowVolumeSceneNode where
  Vertices : List vector3df
  Indices : List Nat
  Adjacency : List Nat
  Edges : List Nat
  FaceData : List Bool
  ShadowVolumes : List (List vector3df)
  IndexCount : Nat
  VertexCount : Nat
  ShadowVolumesUsed : Nat
  Infinity : ℚ
  UseZFailMethod : Bool

/-- Modelled from the spec: `core::array<T>::set_used(usedNow)`, which is not among the
sources: the array has `usedNow` elements afterwards. The elements it had are kept; the
value of an added element is unspecified, `fill` stands for it. -/
def arraySetUsed {T : Type} (a : List T) (usedNow : Nat) (fill : T) : List T :=
  a.take usedNow ++ List.replicate (usedNow - a.length) fill

/-- The assignment `a[index] = value` to an element of a `core::array`; `none` stands for
an index outside the array. -/
def arrayWrite {T : Type} (a : List T) (index : Nat) (value : T) : Option (List T) :=
  if index < a.length then some (a.set index value) else none

/-- The read `Vertices[Indices[k]]`; `none` stands for an index outside one of the two
arrays. -/
def CShadowVolumeSceneNode.vertexOfIndex (node : CShadowVolumeSceneNode) (k : Nat) :
    Option vector3df := do
  let i ← node.Indices[k]?
  node.Vertices[i]?

/-- The loop `for (s32 e=0; e<3; ++e)` of `calculateAdjacency` for the face that starts at
`of`, and the test `cnt1 && cnt2` after it. -/
def edgeIsShared (ext : ShadowExternals) (node : CShadowVolumeSceneNode)
    (v1 v2 : vector3df) (of : Nat) : Option Bool := do
  let a ← node.vertexOfIndex (of + 0)
  let b ← node.vertexOfIndex (of + 1)
  let c ← node.vertexOfIndex (of + 2)
  let cnt1 := ext.equals v1 a || ext.equals v1 b || ext.equals v1 c
  let cnt2 := ext.equals v2 a || ext.equals v2 b || ext.equals v2 c
  some (cnt1 && cnt2)

/-- The values that a loop `for (x=0; x<IndexCount; x+=3)` runs through. -/
def faceOffsets (IndexCount : Nat) : List Nat :=
  (List.range ((IndexCount + 2) / 3)).map (fun k => 3 * k)

/-- The loop `for (of=0; of<IndexCount; of+=3)` of `calculateAdjacency` over the values
of `of` that are left: `some of` when the loop is left by `break` at `of`, `none` when it
runs to its end, which is when `of >= IndexCount` holds after it. -/
def findOtherFace (ext : ShadowExternals) (node : CShadowVolumeSceneNode) (f : Nat)
    (v1 v2 : vector3df) : List Nat → Option (Option Nat)
  | [] => some none
  | of :: rest =>
    if of ≠ f then do
      let shared ← edgeIsShared ext node v1 v2 of
      if shared then some (some of) else findOtherFace ext node f v1 v2 rest
    else findOtherFace ext node f v1 v2 rest

/-- The body of the loop over `edge` of `calculateAdjacency`: the value stored in
`Adjacency[f + edge]`. -/
def adjacencyOfEdge (ext : ShadowExternals) (node : CShadowVolumeSceneNode) (f edge : Nat) :
    Option Nat := do
  let v1 ← node.vertexOfIndex (f + edge)
  let v2 ← node.vertexOfIndex (f + ((edge + 1) % 3))
  let found ← findOtherFace ext node f v1 v2 (faceOffsets node.IndexCount)
  match found with
  | none => some (f / 3)
  | some of => some (of / 3)

/-- The three passes of the loop over `edge` for the face that starts at `f`. -/
def adjacencyOfFace (ext : ShadowExternals) (node : CShadowVolumeSceneNode)
    (Adjacency : List Nat) (f : Nat) : Option (List Nat) :=
  [0, 1, 2].foldlM
    (fun Adjacency edge => do
      let value ← adjacencyOfEdge ext node f edge
      arrayWrite Adjacency (f + edge) value)
    Adjacency

/-- The method `CShadowVolumeSceneNode::calculateAdjacency`. -/
def calculateAdjacency (ext : ShadowExternals) (node : CShadowVolumeSceneNode) :
    Option CShadowVolumeSceneNode := do
  let Adjacency ← (faceOffsets node.IndexCount).foldlM (adjacencyOfFace ext node)
    (arraySetUsed node.Adjacency node.IndexCount 0)
  some { node with Adjacency := Adjacency }

/-- The first statements of `createEdgesAndCaps`: the light scaled by `Infinity`, replaced
by `(0.0001, 0.0001, 0.0001)` when it compares equal to the zero vector. -/
def scaledLight (ext : ShadowExternals) (node : CShadowVolumeSceneNode) (light : vector3df) :
    vector3df :=
  if ext.operatorEq (light.scale node.Infinity) { X := 0, Y := 0, Z := 0 } then
    { X := 1 / 10000, Y := 1 / 10000, Z := 1 / 10000 }
  else light.scale node.Infinity

/-- The body of the first loop of `createEdgesAndCaps` for face `i`, on the array
`FaceData` and the shadow volume `svp`; `light` is the scaled light. -/
def faceLoopStep (ext : ShadowExternals) (node : CShadowVolumeSceneNode) (light : vector3df)
    (state : List Bool × List vector3df) (i : Nat) : Option (List Bool × List vector3df) := do
  let v0 ← node.vertexOfIndex (3 * i + 0)
  let v1 ← node.vertexOfIndex (3 * i + 1)
  let v2 ← node.vertexOfIndex (3 * i + 2)
  let FaceData ← arrayWrite state.1 i (ext.isFrontFacing v0 v1 v2 light)
  if node.UseZFailMethod && ext.isFrontFacing v0 v1 v2 light then
    some (FaceData, state.2 ++ [v0, v2, v1, v0.sub light, v1.sub light, v2.sub light])
  else some (FaceData, state.2)

/-- The three statements that add an edge: `Edges[2*numEdges+0] = a`,
`Edges[2*numEdges+1] = b`, `++numEdges`, on the pair of `numEdges` and `Edges`. -/
def addEdge (state : Nat × List Nat) (a b : Nat) : Option (Nat × List Nat) := do
  let Edges ← arrayWrite state.2 (2 * state.1 + 0) a
  let Edges ← arrayWrite Edges (2 * state.1 + 1) b
  some (state.1 + 1, Edges)

/-- The test `adj == i || FaceData[adj] == false`; `FaceData[adj]` is read only when the
first comparison fails. -/
def edgeTest (FaceData : List Bool) (adj i : Nat) : Option Bool :=
  if adj = i then some true
  else do
    let facing ← FaceData[adj]?
    some (!facing)

/-- One of the three `if` statements of the second loop of `createEdgesAndCaps`. -/
def addEdgeIf (FaceData : List Bool) (state : Nat × List Nat) (adj i a b : Nat) :
    Option (Nat × List Nat) := do
  if (← edgeTest FaceData adj i) then addEdge state a b else some state

/-- The body of the second loop of `createEdgesAndCaps` for face `i`; the locals declared
`const u16` hold their value modulo `2^16`. -/
def edgeLoopStep (node : CShadowVolumeSceneNode) (FaceData : List Bool)
    (state : Nat × List Nat) (i : Nat) : Option (Nat × List Nat) := do
  let facing ← FaceData[i]?
  if facing then do
    let wFace0 := (← node.Indices[3 * i + 0]?) % 65536
    let wFace1 := (← node.Indices[3 * i + 1]?) % 65536
    let wFace2 := (← node.Indices[3 * i + 2]?) % 65536
    let adj0 := (← node.Adjacency[3 * i + 0]?) % 65536
    let adj1 := (← node.Adjacency[3 * i + 1]?) % 65536
    let adj2 := (← node.Adjacency[3 * i + 2]?) % 65536
    let s1 ← addEdgeIf FaceData state adj0 i wFace0 wFace1
    let s2 ← addEdgeIf FaceData s1 adj1 i wFace1 wFace2
    addEdgeIf FaceData s2 adj2 i wFace2 wFace0
  else some state

/-- The method `CShadowVolumeSceneNode::createEdgesAndCaps`: the returned `numEdges`, the
node with the arrays `FaceData` and `Edges` it has written, and the shadow volume behind
`svp` with the caps appended. -/
def createEdgesAndCaps (ext : ShadowExternals) (node : CShadowVolumeSceneNode)
    (light : vector3df) (svp : List vector3df) :
    Option (Nat × CShadowVolumeSceneNode × List vector3df) := do
  let faceCount := node.IndexCount / 3
  let caps ← (List.range faceCount).foldlM (faceLoopStep ext node (scaledLight ext node light))
    (node.FaceData, svp)
  let edges ← (List.range faceCount).foldlM (edgeLoopStep node caps.1) (0, node.Edges)
  some (edges.1, { node with FaceData := caps.1, Edges := edges.2 }, caps.2)

/-- The body of the loop `for (u32 i=0; i<numEdges; ++i)` of `createShadowVolume`: the
quad of edge `i`, two triangles, is appended to the shadow volume; `ls` is the light
scaled by `Infinity`. -/
def quadStep (node : CShadowVolumeSceneNode) (ls : vector3df) (svp : List vector3df)
    (i : Nat) : Option (List vector3df) := do
  let v1 ← node.Vertices[← node.Edges[2 * i + 0]?]?
  let v2 ← node.Vertices[← node.Edges[2 * i + 1]?]?
  some (svp ++ [v1, v2, v1.sub ls, v2, v2.sub ls, v1.sub ls])

/-- The place of the shadow volume that `createShadowVolume` fills: the next unused
buffer when there is one, a new last element otherwise. -/
def shadowVolumeSlot (node : CShadowVolumeSceneNode) : Nat :=
  if node.ShadowVolumes.length > node.ShadowVolumesUsed then node.ShadowVolumesUsed
  else node.ShadowVolumes.length

/-- The statements of `createShadowVolume` before the call of `createEdgesAndCaps`: the
next unused buffer is emptied, or a new empty one is added at the end; `ShadowVolumesUsed`
is increased by one; `Edges` gets `IndexCount*2` elements. The call `reallocate` changes
the capacity of the buffer only. -/
def prepareShadowVolume (node : CShadowVolumeSceneNode) : CShadowVolumeSceneNode :=
  { node with
    ShadowVolumes :=
      if node.ShadowVolumes.length > node.ShadowVolumesUsed then
        node.ShadowVolumes.set node.ShadowVolumesUsed []
      else node.ShadowVolumes ++ [[]]
    ShadowVolumesUsed := node.ShadowVolumesUsed + 1
    Edges := arraySetUsed node.Edges (node.IndexCount * 2) 0 }

/-- The method `CShadowVolumeSceneNode::createShadowVolume`. The pointer `svp` refers to
one element of `ShadowVolumes`; what is appended through it is stored at that place. -/
def createShadowVolume (ext : ShadowExternals) (node : CShadowVolumeSceneNode)
    (light : vector3df) : Option CShadowVolumeSceneNode := do
  let result ← createEdgesAndCaps ext (prepareShadowVolume node) light []
  let svp ← (List.range result.1).foldlM (quadStep result.2.1 (light.scale node.Infinity))
    result.2.2
  some { result.2.1 with ShadowVolumes := result.2.1.ShadowVolumes.set (shadowVolumeSlot node) svp }

/-! ### The shadow volume code as the specification words it -/

/-- The mesh data is well formed: the index array has `IndexCount` elements and every one
of them refers to a vertex. -/
def indicesValid (node : CShadowVolumeSceneNode) : Prop :=
  node.IndexCount ≤ node.Indices.length ∧
    ∀ i ∈ node.Indices.take node.IndexCount, i < node.Vertices.length

instance indicesValidDecidable (node : CShadowVolumeSceneNode) :
    Decidable (indicesValid node) := by
  unfold indicesValid; infer_instance

/-- Every adjacency entry is a valid face number: the array has `IndexCount` elements and
each is below `IndexCount / 3`. -/
def adjacencyValid (node : CShadowVolumeSceneNode) : Prop :=
  node.IndexCount ≤ node.Adjacency.length ∧
    ∀ a ∈ node.Adjacency.take node.IndexCount, a < node.IndexCount / 3

instance adjacencyValidDecidable (node : CShadowVolumeSceneNode) :
    Decidable (adjacencyValid node) := by
  unfold adjacencyValid; infer_instance

/-- Face `g` has a vertex that is position-equal to the point `p`. -/
def faceHasVertexAt (ext : ShadowExternals) (node : CShadowVolumeSceneNode) (g : Nat)
    (p : vector3df) : Prop :=
  ∃ e, e < 3 ∧ ∃ q, node.vertexOfIndex (3 * g + e) = some q ∧ ext.equals p q = true

/-- Face `g` has a vertex position-equal to each of the two end points `v1` and `v2`. -/
def faceSharesEdge (ext : ShadowExternals) (node : CShadowVolumeSceneNode) (g : Nat)
    (v1 v2 : vector3df) : Prop :=
  faceHasVertexAt ext node g v1 ∧ faceHasVertexAt ext node g v2

/-- Face `i` is front-facing the light: the value the first loop of `createEdgesAndCaps`
stores in `FaceData[i]`. -/
def faceIsFront (ext : ShadowExternals) (node : CShadowVolumeSceneNode) (light : vector3df)
    (i : Nat) : Bool :=
  match node.vertexOfIndex (3 * i + 0), node.vertexOfIndex (3 * i + 1),
    node.vertexOfIndex (3 * i + 2) with
  | some v0, some v1, some v2 => ext.isFrontFacing v0 v1 v2 light
  | _, _, _ => false

/-- The front cap and the back cap of face `i`, six vertices. -/
def capsOfFace (node : CShadowVolumeSceneNode) (light : vector3df) (i : Nat) :
    List vector3df :=
  match node.vertexOfIndex (3 * i + 0), node.vertexOfIndex (3 * i + 1),
    node.vertexOfIndex (3 * i + 2) with
  | some v0, some v1, some v2 => [v0, v2, v1, v0.sub light, v1.sub light, v2.sub light]
  | _, _, _ => []

/-- The faces that are front-facing the light, in the order of their numbers. -/
def frontFaces (ext : ShadowExternals) (node : CShadowVolumeSceneNode) (light : vector3df) :
    List Nat :=
  (List.range (node.IndexCount / 3)).filter (faceIsFront ext node light)

/-- The face adjacent to face `i` across its edge `e`, as the local `const u16 adj` of
`createEdgesAndCaps` holds it. -/
def adjacentFace (node : CShadowVolumeSceneNode) (i e : Nat) : Nat :=
  node.Adjacency.getD (3 * i + e) 0 % 65536

/-- The edge `e` of face `i` is emitted: the face is front-facing, and the face adjacent
across the edge is face `i` itself or is back-facing. -/
def edgeIsEmitted (ext : ShadowExternals) (node : CShadowVolumeSceneNode) (light : vector3df)
    (i e : Nat) : Bool :=
  faceIsFront ext node light i &&
    (adjacentFace node i e == i || !faceIsFront ext node light (adjacentFace node i e))

/-- The two vertex indices of the edge `e` of face `i`, joining its vertex `e` and its
vertex `(e+1) mod 3`, as the locals `const u16 wFace` hold them. -/
def edgeEnds (node : CShadowVolumeSceneNode) (i e : Nat) : Nat × Nat :=
  (node.Indices.getD (3 * i + e) 0 % 65536, node.Indices.getD (3 * i + (e + 1) % 3) 0 % 65536)

/-- The emitted edges of face `i`, in the order of the edges. -/
def emittedEdgesOfFace (ext : ShadowExternals) (node : CShadowVolumeSceneNode)
    (light : vector3df) (i : Nat) : List (Nat × Nat) :=
  ([0, 1, 2].filter (edgeIsEmitted ext node light i)).map (edgeEnds node i)

/-- The emitted edges of all faces, in the order of the faces. -/
def emittedEdges (ext : ShadowExternals) (node : CShadowVolumeSceneNode) (light : vector3df) :
    List (Nat × Nat) :=
  ((List.range (node.IndexCount / 3)).map (emittedEdgesOfFace ext node light)).flatten

/-- The array elements that hold a list of edges: two elements for each edge. -/
def edgeArray (edges : List (Nat × Nat)) : List Nat :=
  (edges.map (fun e => [e.1, e.2])).flatten

/-- The quad of an edge: with `v1` and `v2` the positions of its two vertices and `L` the
scaled light, the six vertices `v1, v2, v1-L, v2, v2-L, v1-L`. -/
def quadOfEdge (node : CShadowVolumeSceneNode) (L : vector3df) (edge : Nat × Nat) :
    List vector3df :=
  match node.Vertices[edge.1]?, node.Vertices[edge.2]? with
  | some v1, some v2 => [v1, v2, v1.sub L, v2, v2.sub L, v1.sub L]
  | _, _ => []

/-- The caps of the shadow volume for one light, as the specification words them: in
z-fail mode the front cap and the back cap, six vertices, of each light-facing face; none
otherwise. -/
def capsOfVolume (ext : ShadowExternals) (node : CShadowVolumeSceneNode) (light : vector3df) :
    List vector3df :=
  if node.UseZFailMethod = true then
    ((frontFaces ext node (scaledLight ext node light)).map
      (capsOfFace node (scaledLight ext node light))).flatten
  else []

/-- The quads of the shadow volume for one light, as the specification words them: the
quad of each emitted silhouette edge, `L` being the light scaled by `Infinity`. -/
def quadsOfVolume (ext : ShadowExternals) (node : CShadowVolumeSceneNode) (light : vector3df) :
    List vector3df :=
  ((emittedEdges ext node (scaledLight ext node light)).map
    (quadOfEdge node (light.scale node.Infinity))).flatten

/-! ### Sample data for the shadow volume scene node -/

/-- Sample parameters: position equality and `==` are exact equality, and a triangle is
front-facing when the scalar product of its normal and the light is not positive. -/
def sampleShadowExternals : ShadowExternals :=
  { equals := fun a b => decide (a = b)
    operatorEq := fun a b => decide (a = b)
    isFrontFacing := fun v0 v1 v2 light =>
      decide
        (((v1.sub v0).crossProduct (v2.sub v0)).X * light.X +
          ((v1.sub v0).crossProduct (v2.sub v0)).Y * light.Y +
          ((v1.sub v0).crossProduct (v2.sub v0)).Z * light.Z ≤ 0) }

/-- A sample node: two triangles (0,1,2) and (2,1,3) that share the edge between the
vertices 1 and 2, with the adjacency that `calculateAdjacency` computes for them, an edge
array of 12 elements and one shadow volume buffer from an earlier update that is not in
use. -/
def sampleNode : CShadowVolumeSceneNode :=
  { Vertices :=
      [{ X := 0, Y := 0, Z := 0 }, { X := 1, Y := 0, Z := 0 }, { X := 0, Y := 1, Z := 0 },
        { X := 1, Y := 1, Z := 0 }]
    Indices := [0, 1, 2, 2, 1, 3]
    Adjacency := [0, 1, 0, 0, 1, 1]
    Edges := List.replicate 12 0
    FaceData := [false, false]
    ShadowVolumes := [[{ X := 9, Y := 9, Z := 9 }]]
    IndexCount := 6
    VertexCount := 4
    ShadowVolumesUsed := 0
    Infinity := 10
    UseZFailMethod := true }

/-! ### Colour formats of the Direct3D 11 driver -/

/-- Modelled from the spec: the enum `ECOLOR_FORMAT` is declared in a header that is not
among the sources. The ten enumerators that `getD3DFormatFromColorFormat` handles are
named, every other value is `ECF_OTHER k`. -/
inductive ECOLOR_FORMAT
  | ECF_A1R5G5B5
  | ECF_R5G6B5
  | ECF_R8G8B8
  | ECF_A8R8G8B8
  | ECF_R16F
  | ECF_G16R16F
  | ECF_A16B16G16R16F
  | ECF_R32F
  | ECF_G32R32F
  | ECF_A32B32G32R32F
  | ECF_OTHER (k : Nat)
  deriving DecidableEq, Repr

/-- Modelled from the spec: the enum `DXGI_FORMAT` is declared in a header of the platform
that is not among the sources. The formats the two conversion functions name are listed,
every other value is `DXGI_FORMAT_OTHER k`. -/
inductive DXGI_FORMAT
  | DXGI_FORMAT_UNKNOWN
  | DXGI_FORMAT_B5G5R5A1_UNORM
  | DXGI_FORMAT_B5G6R5_UNORM
  | DXGI_FORMAT_R8G8B8A8_UNORM
  | DXGI_FORMAT_R16_FLOAT
  | DXGI_FORMAT_R16G16_FLOAT
  | DXGI_FORMAT_R16G16B16A16_FLOAT
  | DXGI_FORMAT_R32_FLOAT
  | DXGI_FORMAT_R32G32_FLOAT
  | DXGI_FORMAT_R32G32B32A32_FLOAT
  | DXGI_FORMAT_OTHER (k : Nat)
  deriving DecidableEq, Repr

/-- The method `CD3D11Driver::getD3DFormatFromColorFormat`. -/
def getD3DFormatFromColorFormat (format : ECOLOR_FORMAT) : DXGI_FORMAT :=
  match format with
  | ECOLOR_FORMAT.ECF_A1R5G5B5 => DXGI_FORMAT.DXGI_FORMAT_B5G5R5A1_UNORM
  | ECOLOR_FORMAT.ECF_R5G6B5 => DXGI_FORMAT.DXGI_FORMAT_B5G6R5_UNORM
  | ECOLOR_FORMAT.ECF_R8G8B8 => DXGI_FORMAT.DXGI_FORMAT_R8G8B8A8_UNORM
  | ECOLOR_FORMAT.ECF_A8R8G8B8 => DXGI_FORMAT.DXGI_FORMAT_R8G8B8A8_UNORM
  | ECOLOR_FORMAT.ECF_R16F => DXGI_FORMAT.DXGI_FORMAT_R16_FLOAT
  | ECOLOR_FORMAT.ECF_G16R16F => DXGI_FORMAT.DXGI_FORMAT_R16G16_FLOAT
  | ECOLOR_FORMAT.ECF_A16B16G16R16F => DXGI_FORMAT.DXGI_FORMAT_R16G16B16A16_FLOAT
  | ECOLOR_FORMAT.ECF_R32F => DXGI_FORMAT.DXGI_FORMAT_R32_FLOAT
  | ECOLOR_FORMAT.ECF_G32R32F => DXGI_FORMAT.DXGI_FORMAT_R32G32_FLOAT
  | ECOLOR_FORMAT.ECF_A32B32G32R32F => DXGI_FORMAT.DXGI_FORMAT_R32G32B32A32_FLOAT
  | ECOLOR_FORMAT.ECF_OTHER _ => DXGI_FORMAT.DXGI_FORMAT_UNKNOWN

/-- The method `CD3D11Driver::getColorFormatFromD3DFormat`. `zeroFormat` is the value
`(ECOLOR_FORMAT)0` that the method returns for a format outside its `switch`; which
enumerator has the value 0 is declared in the header that is not among the sources. -/
def getColorFormatFromD3DFormat (zeroFormat : ECOLOR_FORMAT) (format : DXGI_FORMAT) :
    ECOLOR_FORMAT :=
  match format with
  | DXGI_FORMAT.DXGI_FORMAT_B5G5R5A1_UNORM => ECOLOR_FORMAT.ECF_A1R5G5B5
  | DXGI_FORMAT.DXGI_FORMAT_B5G6R5_UNORM => ECOLOR_FORMAT.ECF_R5G6B5
  | DXGI_FORMAT.DXGI_FORMAT_R8G8B8A8_UNORM => ECOLOR_FORMAT.ECF_A8R8G8B8
  | DXGI_FORMAT.DXGI_FORMAT_R16_FLOAT => ECOLOR_FORMAT.ECF_R16F
  | DXGI_FORMAT.DXGI_FORMAT_R16G16_FLOAT => ECOLOR_FORMAT.ECF_G16R16F
  | DXGI_FORMAT.DXGI_FORMAT_R16G16B16A16_FLOAT => ECOLOR_FORMAT.ECF_A16B16G16R16F
  | DXGI_FORMAT.DXGI_FORMAT_R32_FLOAT => ECOLOR_FORMAT.ECF_R32F
  | DXGI_FORMAT.DXGI_FORMAT_R32G32_FLOAT => ECOLOR_FORMAT.ECF_G32R32F
  | DXGI_FORMAT.DXGI_FORMAT_R32G32B32A32_FLOAT => ECOLOR_FORMAT.ECF_A32B32G32R32F
  | _ => zeroFormat

/-- The engine colour formats that `getD3DFormatFromColorFormat` handles in its `switch`. -/
def handledColorFormats : List ECOLOR_FORMAT :=
  [ECOLOR_FORMAT.ECF_A1R5G5B5, ECOLOR_FORMAT.ECF_R5G6B5, ECOLOR_FORMAT.ECF_R8G8B8,
    ECOLOR_FORMAT.ECF_A8R8G8B8, ECOLOR_FORMAT.ECF_R16F, ECOLOR_FORMAT.ECF_G16R16F,
    ECOLOR_FORMAT.ECF_A16B16G16R16F, ECOLOR_FORMAT.ECF_R32F, ECOLOR_FORMAT.ECF_G32R32F,
    ECOLOR_FORMAT.ECF_A32B32G32R32F]

/-- The viewport invariant, as the specification words it: the viewport rectangle lies
within the rectangle (0,0)-(RenderTargetSize), and `ViewPortSize` is the size of the
viewport rectangle. A viewport that is empty in one direction covers no pixel; its corner
in that direction is only required not to lie beyond the lower right corner of the render
target. -/
def viewPortInvariant (d : DriverState) : Prop :=
  d.ViewPort.ULX ≤ d.ViewPort.LRX ∧ d.ViewPort.ULY ≤ d.ViewPort.LRY ∧
  d.ViewPort.LRX ≤ Int.ofNat d.RenderTargetSize.Width ∧
  d.ViewPort.LRY ≤ Int.ofNat d.RenderTargetSize.Height ∧
  (d.ViewPort.ULX < d.ViewPort.LRX → 0 ≤ d.ViewPort.ULX) ∧
  (d.ViewPort.ULY < d.ViewPort.LRY → 0 ≤ d.ViewPort.ULY) ∧
  Int.ofNat d.ViewPortSize.Width = d.ViewPort.getWidth ∧
  Int.ofNat d.ViewPortSize.Height = d.ViewPort.getHeight

instance viewPortInvariantDecidable (d : DriverState) : Decidable (viewPortInvariant d) := by
  unfold viewPortInvariant; infer_instance

/-! ## Part 2: theorems -/

theorem selectedRenderer_eq_table (d : CSoftwareDriver) :
    selectedRenderer d.Texture d.Material = tableVariant d := by
  unfold selectedRenderer tableVariant
  cases hT : d.Texture.isSome <;> cases hG : d.Material.GouraudShading <;>
    cases hW : d.Material.Wireframe <;> cases hM : d.Material.MaterialType <;>
    cases hZ : d.Material.ZBuffer <;> cases hE : d.Material.ZWriteEnable <;>
    simp [decisionTable, additiveLike, depthDisabledNoWrite]

/-- C1: for every driver state, `selectRightTriangleRenderer` makes current exactly the
variant that the ten-row decision table gives for the tuple (texture bound, GouraudShading,
Wireframe, MaterialType, ZBuffer, ZWriteEnable), and two driver states that agree on
that tuple select the same variant. -/
theorem selectRightTriangleRenderer_decision_table :
    (∀ d : CSoftwareDriver,
      (selectRightTriangleRenderer d).CurrentTriangleRenderer = some (tableVariant d)) ∧
    (∀ d₁ d₂ : CSoftwareDriver,
      d₁.Texture.isSome = d₂.Texture.isSome →
      d₁.Material.GouraudShading = d₂.Material.GouraudShading →
      d₁.Material.Wireframe = d₂.Material.Wireframe →
      d₁.Material.MaterialType = d₂.Material.MaterialType →
      d₁.Material.ZBuffer = d₂.Material.ZBuffer →
      d₁.Material.ZWriteEnable = d₂.Material.ZWriteEnable →
      (selectRightTriangleRenderer d₁).CurrentTriangleRenderer =
        (selectRightTriangleRenderer d₂).CurrentTriangleRenderer) := by
  have key : ∀ d : CSoftwareDriver,
      (selectRightTriangleRenderer d).CurrentTriangleRenderer = some (tableVariant d) := by
    intro d
    simp [selectRightTriangleRenderer, switchToTriangleRenderer, selectedRenderer_eq_table]
  refine ⟨key, ?_⟩
  intro d₁ d₂ hT hG hW hM hZ hE
  rw [key d₁, key d₂]
  simp [tableVariant, hT, hG, hW, hM, hZ, hE]

/-- The decision-table theorem applied to the sample driver state and a second state
that differs from it only outside the selection tuple. -/
theorem selectRightTriangleRenderer_decision_table_witness :
    (selectRightTriangleRenderer sampleDriver).CurrentTriangleRenderer =
        some ETriangleRenderer.ETR_TEXTURE_GOURAUD_NOZ ∧
    (selectRightTriangleRenderer sampleDriver).CurrentTriangleRenderer =
      (selectRightTriangleRenderer
        { sampleDriver with RenderTargetSurface := none }).CurrentTriangleRenderer :=
  ⟨selectRightTriangleRenderer_decision_table.1 sampleDriver,
   selectRightTriangleRenderer_decision_table.2 sampleDriver
     { sampleDriver with RenderTargetSurface := none } rfl rfl rfl rfl rfl rfl⟩

/-! ### The frustum clipper -/

section Clipper

open EIntersectionRelation3D

variable {V : Type} (classify : Nat → V → EIntersectionRelation3D)

theorem clipAgainstPlane_nil (p : Nat) : clipAgainstPlane classify p [] 0 = some [] := by
  rw [clipAgainstPlane]; simp

theorem clipAgainstPlane_triangle (p : Nat) (a b c : V) :
    clipAgainstPlane classify p [a, b, c] 0 =
      some (if classify p a ≠ ISREL3D_FRONT ∧ classify p b ≠ ISREL3D_FRONT ∧
              classify p c ≠ ISREL3D_FRONT then [a, b, c] else []) := by
  rw [clipAgainstPlane]
  by_cases ha : classify p a = ISREL3D_FRONT <;>
    by_cases hb : classify p b = ISREL3D_FRONT <;>
    by_cases hc : classify p c = ISREL3D_FRONT <;>
    simp [testTriangle, countStep, ha, hb, hc, arrayErase] <;>
    (rw [clipAgainstPlane]; simp)

theorem foldlM_clip_nil (ps : List Nat) :
    ps.foldlM (fun buf p => clipAgainstPlane classify p buf 0) [] = some [] := by
  induction ps with
  | nil => rfl
  | cons p ps ih => simp [List.foldlM, clipAgainstPlane_nil, ih]

theorem foldlM_clip_triangle (ps : List Nat) (a b c : V) :
    ps.foldlM (fun buf p => clipAgainstPlane classify p buf 0) [a, b, c] =
      some (if ∀ p ∈ ps, classify p a ≠ ISREL3D_FRONT ∧ classify p b ≠ ISREL3D_FRONT ∧
              classify p c ≠ ISREL3D_FRONT then [a, b, c] else []) := by
  induction ps with
  | nil => simp
  | cons p ps ih =>
    simp only [List.foldlM, clipAgainstPlane_triangle]
    by_cases h : classify p a ≠ ISREL3D_FRONT ∧ classify p b ≠ ISREL3D_FRONT ∧
        classify p c ≠ ISREL3D_FRONT
    · rw [if_pos h]
      simp only [Option.some_bind, Option.bind_eq_bind]
      rw [ih]
      congr 1
      simp only [List.mem_cons, forall_eq_or_imp]
      by_cases h2 : ∀ p ∈ ps, classify p a ≠ ISREL3D_FRONT ∧ classify p b ≠ ISREL3D_FRONT ∧
          classify p c ≠ ISREL3D_FRONT
      · rw [if_pos h2, if_pos ⟨h, h2⟩]
      · rw [if_neg h2, if_neg (fun hh => h2 hh.2)]
    · rw [if_neg h]
      simp only [Option.some_bind, Option.bind_eq_bind]
      rw [foldlM_clip_nil]
      congr 1
      rw [if_neg]
      intro hall
      exact h (hall p (List.mem_cons_self _ _))

theorem clipAgainstPlanes_triangle (a b c : V) :
    clipAgainstPlanes classify [a, b, c] =
      some (if fullyInside classify a b c then [a, b, c] else []) := by
  unfold clipAgainstPlanes
  rw [foldlM_clip_triangle]
  congr 1
  simp only [List.mem_range, fullyInside]

variable (vertices : Nat → V) (indexList : Nat → Nat)

theorem clipTriangleStep_eq (st : ClipState V) (h : st.tClpBuf = []) (i : Nat) :
    clipTriangleStep classify vertices indexList st i =
      some
        (if fullyInside classify (vertices (indexList (i * 3 + 0)))
              (vertices (indexList (i * 3 + 1))) (vertices (indexList (i * 3 + 2))) ∧
            (st.clippedIndices.length + 3) % 2 ^ 32 < 65535 then
          { tClpBuf := []
            clippedVertices := st.clippedVertices ++
              [vertices (indexList (i * 3 + 0)), vertices (indexList (i * 3 + 1)),
                vertices (indexList (i * 3 + 2))]
            clippedIndices := st.clippedIndices ++
              [st.clippedVertices.length % 65536, (st.clippedVertices.length + 1) % 65536,
                (st.clippedVertices.length + 2) % 65536] }
        else { st with tClpBuf := [] }) := by
  unfold clipTriangleStep
  simp only [h, List.nil_append, clipAgainstPlanes_triangle]
  generalize vertices (indexList (i * 3 + 0)) = A
  generalize vertices (indexList (i * 3 + 1)) = B
  generalize vertices (indexList (i * 3 + 2)) = C
  by_cases hin : fullyInside classify A B C
  · by_cases hcap : (st.clippedIndices.length + 3) % 4294967296 < 65535
    · simp [hin, hcap, appendClipped]
    · simp [hin, hcap]
  · simp [hin, appendClipped]

theorem clipLoop_succ (n : Nat) :
    clipLoop classify vertices indexList (n + 1) =
      (clipLoop classify vertices indexList n).bind
        (fun st => clipTriangleStep classify vertices indexList st n) := by
  unfold clipLoop
  rw [List.range_succ, List.foldlM_append]
  simp [List.foldlM]

theorem clipLoop_inv (n : Nat) :
    ∃ st, clipLoop classify vertices indexList n = some st ∧ ClipInv classify st := by
  induction n with
  | zero =>
    refine ⟨{ tClpBuf := [], clippedVertices := [], clippedIndices := [] }, rfl, ?_⟩
    simp [ClipInv]
  | succ n ih =>
    obtain ⟨st, hst, hbuf, hidx, hlen, hin⟩ := ih
    rw [clipLoop_succ, hst, Option.some_bind,
      clipTriangleStep_eq classify vertices indexList st hbuf]
    refine ⟨_, rfl, ?_⟩
    split
    · rename_i hc
      obtain ⟨hfull, hcap⟩ := hc
      have hl : st.clippedIndices.length = st.clippedVertices.length := by
        rw [hidx, List.length_range]
      have hcap2 : st.clippedVertices.length + 3 < 65535 := by
        rw [hl] at hcap
        rwa [Nat.mod_eq_of_lt (by omega)] at hcap
      refine ⟨rfl, ?_, ?_, ?_⟩
      · simp only [List.length_append, List.length_cons, List.length_nil]
        rw [hidx, Nat.mod_eq_of_lt (by omega), Nat.mod_eq_of_lt (by omega),
          Nat.mod_eq_of_lt (by omega)]
        simp [List.range_succ]
      · simp only [List.length_append, List.length_cons, List.length_nil]
        omega
      · intro x hx p hp
        simp only [List.mem_append, List.mem_cons, List.mem_singleton, List.not_mem_nil,
          or_false] at hx
        rcases hx with hx | rfl | rfl | rfl
        · exact hin x hx p hp
        · exact (hfull p hp).1
        · exact (hfull p hp).2.1
        · exact (hfull p hp).2.2
    · exact ⟨rfl, hidx, hlen, hin⟩

/-- A triangle that is not fully inside leaves the output arrays as they were. -/
theorem clipLoop_succ_of_not_inside (i : Nat)
    (h : ¬ fullyInside classify (vertices (indexList (i * 3 + 0)))
      (vertices (indexList (i * 3 + 1))) (vertices (indexList (i * 3 + 2)))) :
    ∃ st, clipLoop classify vertices indexList i = some st ∧
      clipLoop classify vertices indexList (i + 1) = some st := by
  obtain ⟨st, hst, hbuf, -⟩ := clipLoop_inv classify vertices indexList i
  refine ⟨st, hst, ?_⟩
  rw [clipLoop_succ, hst, Option.some_bind,
    clipTriangleStep_eq classify vertices indexList st hbuf, if_neg (fun hc => h hc.1)]
  cases st
  simp only at hbuf
  simp [hbuf]

/-- A triangle that is fully inside is appended when the cap allows it. -/
theorem clipLoop_succ_of_inside (i : Nat)
    (h : fullyInside classify (vertices (indexList (i * 3 + 0)))
      (vertices (indexList (i * 3 + 1))) (vertices (indexList (i * 3 + 2)))) :
    ∃ st, clipLoop classify vertices indexList i = some st ∧
      (st.clippedIndices.length + 3 < 65535 →
        clipLoop classify vertices indexList (i + 1) =
          some
            { tClpBuf := []
              clippedVertices := st.clippedVertices ++
                [vertices (indexList (i * 3 + 0)), vertices (indexList (i * 3 + 1)),
                  vertices (indexList (i * 3 + 2))]
              clippedIndices := st.clippedIndices ++
                [st.clippedVertices.length, st.clippedVertices.length + 1,
                  st.clippedVertices.length + 2] }) := by
  obtain ⟨st, hst, hbuf, hidx, hlen, -⟩ := clipLoop_inv classify vertices indexList i
  refine ⟨st, hst, fun hcap => ?_⟩
  have hcap2 : (st.clippedIndices.length + 3) % 2 ^ 32 < 65535 := by
    rw [Nat.mod_eq_of_lt (show st.clippedIndices.length + 3 < 2 ^ 32 by omega)]
    exact hcap
  have hl : st.clippedIndices.length = st.clippedVertices.length := by
    rw [hidx, List.length_range]
  rw [clipLoop_succ, hst, Option.some_bind,
    clipTriangleStep_eq classify vertices indexList st hbuf, if_pos ⟨h, hcap2⟩,
    Nat.mod_eq_of_lt (by omega), Nat.mod_eq_of_lt (by omega), Nat.mod_eq_of_lt (by omega)]

/-- C2: an input triangle whose three vertices are classified not-front by each of the
five planes is emitted unchanged while the cap is not reached: the loop over `i + 1`
triangles yields the arrays of the loop over `i` triangles with exactly the three input
vertices appended in their order, and their three positions appended as indices. -/
theorem clip_inside_triangle_emitted_unchanged (i : Nat)
    (h : ∀ p < 5,
      classify p (vertices (indexList (i * 3 + 0))) ≠ ISREL3D_FRONT ∧
      classify p (vertices (indexList (i * 3 + 1))) ≠ ISREL3D_FRONT ∧
      classify p (vertices (indexList (i * 3 + 2))) ≠ ISREL3D_FRONT) :
    ∃ st, clipLoop classify vertices indexList i = some st ∧
      (st.clippedIndices.length + 3 < 65535 →
        clipLoop classify vertices indexList (i + 1) =
          some
            { tClpBuf := []
              clippedVertices := st.clippedVertices ++
                [vertices (indexList (i * 3 + 0)), vertices (indexList (i * 3 + 1)),
                  vertices (indexList (i * 3 + 2))]
              clippedIndices := st.clippedIndices ++
                [st.clippedVertices.length, st.clippedVertices.length + 1,
                  st.clippedVertices.length + 2] }) :=
  clipLoop_succ_of_inside classify vertices indexList i h

/-- C3: an input triangle whose three vertices are all classified front by at least one
of the five planes adds no vertex and no index to the output, whatever the other planes
say: the loop over `i + 1` triangles ends in the state of the loop over `i` triangles. -/
theorem clip_outside_triangle_emits_nothing (i : Nat)
    (h : ∃ p < 5,
      classify p (vertices (indexList (i * 3 + 0))) = ISREL3D_FRONT ∧
      classify p (vertices (indexList (i * 3 + 1))) = ISREL3D_FRONT ∧
      classify p (vertices (indexList (i * 3 + 2))) = ISREL3D_FRONT) :
    ∃ st, clipLoop classify vertices indexList i = some st ∧
      clipLoop classify vertices indexList (i + 1) = some st := by
  apply clipLoop_succ_of_not_inside
  obtain ⟨p, hp, ha, -⟩ := h
  intro hin
  exact (hin p hp).1 ha

/-- C4: an input triangle that straddles some clip plane (one or two of its vertices are
classified front by it) is dropped: it adds no triangle to the output, and the output
vertices stay those emitted before it, so no interpolated vertex is created. -/
theorem clip_straddling_triangle_dropped (i : Nat)
    (h : ∃ p < 5,
      frontCount classify p (vertices (indexList (i * 3 + 0)))
          (vertices (indexList (i * 3 + 1))) (vertices (indexList (i * 3 + 2))) = 1 ∨
      frontCount classify p (vertices (indexList (i * 3 + 0)))
          (vertices (indexList (i * 3 + 1))) (vertices (indexList (i * 3 + 2))) = 2) :
    ∃ st, clipLoop classify vertices indexList i = some st ∧
      clipLoop classify vertices indexList (i + 1) = some st ∧
      (∀ st2, clipLoop classify vertices indexList (i + 1) = some st2 →
        st2.clippedVertices.length / 3 = st.clippedVertices.length / 3 ∧
        st2.clippedVertices = st.clippedVertices) := by
  have hnot : ¬ fullyInside classify (vertices (indexList (i * 3 + 0)))
      (vertices (indexList (i * 3 + 1))) (vertices (indexList (i * 3 + 2))) := by
    obtain ⟨p, hp, hc⟩ := h
    intro hin
    obtain ⟨h0, h1, h2⟩ := hin p hp
    simp only [frontCount, if_neg h0, if_neg h1, if_neg h2] at hc
    omega
  obtain ⟨st, hst, hnext⟩ := clipLoop_succ_of_not_inside classify vertices indexList i hnot
  refine ⟨st, hst, hnext, ?_⟩
  intro st2 h2
  rw [hnext] at h2
  cases h2
  exact ⟨rfl, rfl⟩

/-- C5: for every vertex memory, index memory, plane classification and triangle count,
the clipping loop returns, and every vertex that its output index list refers to is
classified not-front by each of the five planes; so every output triangle lies within
all five planes. -/
theorem clip_output_within_all_planes (triangleCount : Nat) :
    ∃ st, clipLoop classify vertices indexList triangleCount = some st ∧
      ∀ j, j < st.clippedIndices.length →
        ∃ k x, st.clippedIndices[j]? = some k ∧ st.clippedVertices[k]? = some x ∧
          ∀ p, p < 5 → classify p x ≠ ISREL3D_FRONT := by
  obtain ⟨st, hst, -, hidx, -, hin⟩ := clipLoop_inv classify vertices indexList triangleCount
  refine ⟨st, hst, ?_⟩
  intro j hj
  have hj2 : j < st.clippedVertices.length := by
    rw [hidx, List.length_range] at hj
    exact hj
  refine ⟨j, st.clippedVertices[j], ?_, ?_, ?_⟩
  · rw [hidx]
    exact List.getElem?_range hj2
  · exact List.getElem?_eq_getElem hj2
  · intro p hp
    exact hin _ (List.getElem_mem hj2) p hp

/-- C6: for every draw call, whatever the number of input triangles, the clipping loop
ends with fewer than 65535 clipped vertices and fewer than 65535 clipped indices, and the
`k`-th stored 16-bit index is `k` itself, the position of the vertex it was stored with:
no stored index has wrapped. -/
theorem clipped_count_stays_below_cap (triangleCount : Nat) :
    ∃ st, clipLoop classify vertices indexList triangleCount = some st ∧
      st.clippedVertices.length < 65535 ∧ st.clippedIndices.length < 65535 ∧
      st.clippedIndices.length = st.clippedVertices.length ∧
      st.clippedIndices = List.range st.clippedVertices.length := by
  obtain ⟨st, hst, -, hidx, hlen, -⟩ := clipLoop_inv classify vertices indexList triangleCount
  refine ⟨st, hst, hlen, ?_, ?_, hidx⟩
  · rw [hidx, List.length_range]; exact hlen
  · rw [hidx, List.length_range]

/-- The loop on the three sample triangles keeps the first and drops the other two. -/
theorem clipLoop_sample :
    clipLoop sampleClassify sampleVertices sampleIndexList 3 =
      some { tClpBuf := [], clippedVertices := [0, 5, 10], clippedIndices := [0, 1, 2] } := by
  have h0 : clipLoop sampleClassify sampleVertices sampleIndexList 0 =
      some { tClpBuf := [], clippedVertices := [], clippedIndices := [] } := rfl
  rw [clipLoop_succ, clipLoop_succ, clipLoop_succ, h0, Option.some_bind,
    clipTriangleStep_eq sampleClassify sampleVertices sampleIndexList _ rfl 0,
    if_pos (by decide), Option.some_bind,
    clipTriangleStep_eq sampleClassify sampleVertices sampleIndexList _ rfl 1,
    if_neg (by decide), Option.some_bind,
    clipTriangleStep_eq sampleClassify sampleVertices sampleIndexList _ rfl 2,
    if_neg (by decide)]
  rfl

/-- The theorem for C2 applied to sample triangle 0, which is inside every plane. -/
theorem clip_inside_triangle_emitted_unchanged_witness :
    (∀ p < 5,
      sampleClassify p (sampleVertices (sampleIndexList (0 * 3 + 0))) ≠ ISREL3D_FRONT ∧
      sampleClassify p (sampleVertices (sampleIndexList (0 * 3 + 1))) ≠ ISREL3D_FRONT ∧
      sampleClassify p (sampleVertices (sampleIndexList (0 * 3 + 2))) ≠ ISREL3D_FRONT) ∧
    ∃ st, clipLoop sampleClassify sampleVertices sampleIndexList 0 = some st ∧
      (st.clippedIndices.length + 3 < 65535 →
        clipLoop sampleClassify sampleVertices sampleIndexList (0 + 1) =
          some
            { tClpBuf := []
              clippedVertices := st.clippedVertices ++
                [sampleVertices (sampleIndexList (0 * 3 + 0)),
                  sampleVertices (sampleIndexList (0 * 3 + 1)),
                  sampleVertices (sampleIndexList (0 * 3 + 2))]
              clippedIndices := st.clippedIndices ++
                [st.clippedVertices.length, st.clippedVertices.length + 1,
                  st.clippedVertices.length + 2] }) :=
  ⟨by decide,
   clip_inside_triangle_emitted_unchanged sampleClassify sampleVertices sampleIndexList 0
     (by decide)⟩

/-- The theorem for C3 applied to sample triangle 1, which plane 0 puts wholly in front. -/
theorem clip_outside_triangle_emits_nothing_witness :
    (∃ p < 5,
      sampleClassify p (sampleVertices (sampleIndexList (1 * 3 + 0))) = ISREL3D_FRONT ∧
      sampleClassify p (sampleVertices (sampleIndexList (1 * 3 + 1))) = ISREL3D_FRONT ∧
      sampleClassify p (sampleVertices (sampleIndexList (1 * 3 + 2))) = ISREL3D_FRONT) ∧
    ∃ st, clipLoop sampleClassify sampleVertices sampleIndexList 1 = some st ∧
      clipLoop sampleClassify sampleVertices sampleIndexList (1 + 1) = some st :=
  ⟨⟨0, by decide, by decide⟩,
   clip_outside_triangle_emits_nothing sampleClassify sampleVertices sampleIndexList 1
     ⟨0, by decide, by decide⟩⟩

/-- The theorem for C4 applied to sample triangle 2, of which plane 0 puts one vertex
in front. -/
theorem clip_straddling_triangle_dropped_witness :
    (∃ p < 5,
      frontCount sampleClassify p (sampleVertices (sampleIndexList (2 * 3 + 0)))
          (sampleVertices (sampleIndexList (2 * 3 + 1)))
          (sampleVertices (sampleIndexList (2 * 3 + 2))) = 1 ∨
      frontCount sampleClassify p (sampleVertices (sampleIndexList (2 * 3 + 0)))
          (sampleVertices (sampleIndexList (2 * 3 + 1)))
          (sampleVertices (sampleIndexList (2 * 3 + 2))) = 2) ∧
    ∃ st, clipLoop sampleClassify sampleVertices sampleIndexList 2 = some st ∧
      clipLoop sampleClassify sampleVertices sampleIndexList (2 + 1) = some st ∧
      (∀ st2, clipLoop sampleClassify sampleVertices sampleIndexList (2 + 1) = some st2 →
        st2.clippedVertices.length / 3 = st.clippedVertices.length / 3 ∧
        st2.clippedVertices = st.clippedVertices) :=
  ⟨⟨0, by decide, by decide⟩,
   clip_straddling_triangle_dropped sampleClassify sampleVertices sampleIndexList 2
     ⟨0, by decide, by decide⟩⟩

/-- The theorem for C5 applied to the three sample triangles. -/
theorem clip_output_within_all_planes_witness :
    ∃ st, clipLoop sampleClassify sampleVertices sampleIndexList 3 = some st ∧
      ∀ j, j < st.clippedIndices.length →
        ∃ k x, st.clippedIndices[j]? = some k ∧ st.clippedVertices[k]? = some x ∧
          ∀ p, p < 5 → sampleClassify p x ≠ ISREL3D_FRONT :=
  clip_output_within_all_planes sampleClassify sampleVertices sampleIndexList 3

end Clipper

/-! ### Single precision rounding -/

section Rounding

theorem roundHalfEven_floor_le (q : ℚ) : Int.floor q ≤ roundHalfEven q := by
  unfold roundHalfEven
  split_ifs <;> omega

theorem roundHalfEven_le_floor_succ (q : ℚ) : roundHalfEven q ≤ Int.floor q + 1 := by
  unfold roundHalfEven
  split_ifs <;> omega

theorem roundHalfEven_intCast (n : Int) : roundHalfEven (n : ℚ) = n := by
  unfold roundHalfEven
  simp

theorem roundHalfEven_mono {q r : ℚ} (h : q ≤ r) : roundHalfEven q ≤ roundHalfEven r := by
  have hf : Int.floor q ≤ Int.floor r := Int.floor_mono h
  rcases lt_or_eq_of_le hf with hlt | heq
  · have h1 := roundHalfEven_le_floor_succ q
    have h2 := roundHalfEven_floor_le r
    omega
  · unfold roundHalfEven
    rw [← heq]
    have hsub : q - (Int.floor q : ℚ) ≤ r - (Int.floor q : ℚ) := by linarith
    split_ifs <;> first | omega | (exfalso; linarith)

theorem roundHalfEven_eq_of_abs_lt (q : ℚ) (n : Int) (h : |q - (n : ℚ)| < 1 / 2) :
    roundHalfEven q = n := by
  have h1 := (abs_lt.mp h).1
  have h2 := (abs_lt.mp h).2
  unfold roundHalfEven
  by_cases hq : (n : ℚ) ≤ q
  · have hfl : Int.floor q = n := by
      rw [Int.floor_eq_iff]
      constructor
      · exact hq
      · linarith
    rw [hfl, if_pos (by linarith)]
  · have hfl : Int.floor q = n - 1 := by
      rw [Int.floor_eq_iff]
      push_cast
      constructor
      · linarith
      · push_neg at hq; linarith
    rw [hfl]
    push_cast
    rw [if_neg (by linarith), if_pos (by linarith)]
    omega

theorem two_zpow_pos (k : Int) : (0 : ℚ) < 2 ^ k := zpow_pos (by norm_num) k

/-- Rounding does not cross a value of the grid on which it rounds. -/
theorem f32RoundFinite_le_of_grid (x : ℚ) (m : Int) 
    (h : x ≤ (m : ℚ) * 2 ^ (f32Exponent x - 23)) :
    f32RoundFinite x ≤ (m : ℚ) * 2 ^ (f32Exponent x - 23) := by
  unfold f32RoundFinite
  have hu := two_zpow_pos (f32Exponent x - 23)
  have h1 : x / 2 ^ (f32Exponent x - 23) ≤ (m : ℚ) := by
    rw [div_le_iff₀ hu]; exact h
  have h2 := roundHalfEven_mono h1
  rw [roundHalfEven_intCast] at h2
  have h3 : (roundHalfEven (x / 2 ^ (f32Exponent x - 23)) : ℚ) ≤ (m : ℚ) := by exact_mod_cast h2
  exact mul_le_mul_of_nonneg_right h3 (le_of_lt hu)

theorem f32RoundFinite_ge_of_grid (x : ℚ) (m : Int) 
    (h : (m : ℚ) * 2 ^ (f32Exponent x - 23) ≤ x) :
    (m : ℚ) * 2 ^ (f32Exponent x - 23) ≤ f32RoundFinite x := by
  unfold f32RoundFinite
  have hu := two_zpow_pos (f32Exponent x - 23)
  have h1 : (m : ℚ) ≤ x / 2 ^ (f32Exponent x - 23) := by
    rw [le_div_iff₀ hu]; exact h
  have h2 := roundHalfEven_mono h1
  rw [roundHalfEven_intCast] at h2
  have h3 : (m : ℚ) ≤ (roundHalfEven (x / 2 ^ (f32Exponent x - 23)) : ℚ) := by exact_mod_cast h2
  exact mul_le_mul_of_nonneg_right h3 (le_of_lt hu)

/-- A power of two with an exponent not below that of the grid lies on the grid. -/
theorem zpow_on_grid (E e : Int) (h : e - 23 ≤ E) :
    ((2 ^ (E - (e - 23)).toNat : Int) : ℚ) * 2 ^ (e - 23) = 2 ^ E := by
  have h0 : 0 ≤ E - (e - 23) := by omega
  have : ((2 ^ (E - (e - 23)).toNat : Int) : ℚ) = (2 : ℚ) ^ (E - (e - 23)) := by
    push_cast
    rw [← zpow_natCast]
    congr 1
    exact Int.toNat_of_nonneg h0
  rw [this, ← zpow_add₀ (by norm_num : (2 : ℚ) ≠ 0)]
  congr 1
  omega

theorem f32Exponent_ge (x : ℚ) : -126 ≤ f32Exponent x := le_max_right _ _

theorem lt_zpow_f32Exponent_succ (x : ℚ) : |x| < 2 ^ (f32Exponent x + 1) := by
  have h1 := Int.lt_zpow_succ_log_self (b := 2) (by norm_num) |x|
  have h2 : Int.log 2 |x| + 1 ≤ f32Exponent x + 1 := by
    unfold f32Exponent
    have := le_max_left (Int.log 2 |x|) (-126)
    omega
  have h3 : (2 : ℚ) ^ (Int.log 2 |x| + 1) ≤ 2 ^ (f32Exponent x + 1) :=
    zpow_le_zpow_right₀ (by norm_num) h2
  push_cast at h1
  exact lt_of_lt_of_le h1 h3

theorem zpow_f32Exponent_le (x : ℚ) (hx : x ≠ 0) (h : -126 < f32Exponent x) :
    2 ^ (f32Exponent x) ≤ |x| := by
  have hlog : f32Exponent x = Int.log 2 |x| := by
    unfold f32Exponent at h ⊢
    rcases le_total (Int.log 2 |x|) (-126) with h1 | h1
    · rw [max_eq_right h1] at h; omega
    · exact max_eq_left h1
  rw [hlog]
  have := Int.zpow_log_le_self (b := 2) (r := |x|) (by norm_num) (abs_pos.mpr hx)
  push_cast at this
  exact this

theorem f32Exponent_mono {x y : ℚ} (hx : x ≠ 0) (h : |x| ≤ |y|) :
    f32Exponent x ≤ f32Exponent y := by
  unfold f32Exponent
  exact max_le_max (Int.log_mono_right (abs_pos.mpr hx) h) (le_refl _)

theorem f32RoundFinite_zero : f32RoundFinite 0 = 0 := by
  unfold f32RoundFinite
  simp [roundHalfEven]

theorem f32RoundFinite_nonneg {x : ℚ} (h : 0 ≤ x) : 0 ≤ f32RoundFinite x := by
  have := f32RoundFinite_ge_of_grid x 0 (by simpa using h)
  simpa using this

theorem f32RoundFinite_nonpos {x : ℚ} (h : x ≤ 0) : f32RoundFinite x ≤ 0 := by
  have := f32RoundFinite_le_of_grid x 0 (by simpa using h)
  simpa using this

theorem f32RoundFinite_mono {x y : ℚ} (h : x ≤ y) : f32RoundFinite x ≤ f32RoundFinite y := by
  rcases le_or_lt x 0 with hx0 | hx0
  · rcases le_or_lt 0 y with hy0 | hy0
    · exact le_trans (f32RoundFinite_nonpos hx0) (f32RoundFinite_nonneg hy0)
    · -- both negative
      have hyne : y ≠ 0 := ne_of_lt hy0
      have hxne : x ≠ 0 := ne_of_lt (lt_of_le_of_lt h hy0)
      have habs : |y| ≤ |x| := by
        rw [abs_of_neg hy0, abs_of_neg (lt_of_le_of_lt h hy0)]; linarith
      have he := f32Exponent_mono hyne habs
      rcases lt_or_eq_of_le he with hlt | heq
      · -- the power of two between them
        have hX : (2 : ℚ) ^ (f32Exponent x) ≤ |x| :=
          zpow_f32Exponent_le x hxne (lt_of_le_of_lt (f32Exponent_ge y) hlt)
        have hY : |y| < 2 ^ (f32Exponent y + 1) := lt_zpow_f32Exponent_succ y
        have hYX : (2 : ℚ) ^ (f32Exponent y + 1) ≤ 2 ^ (f32Exponent x) :=
          zpow_le_zpow_right₀ (by norm_num) (by omega)
        rw [abs_of_neg (lt_of_le_of_lt h hy0)] at hX
        rw [abs_of_neg hy0] at hY
        have gx := zpow_on_grid (f32Exponent x) (f32Exponent x) (by omega)
        have gy := zpow_on_grid (f32Exponent x) (f32Exponent y) (by omega)
        have h1 := f32RoundFinite_le_of_grid x (-(2 ^ (f32Exponent x - (f32Exponent x - 23)).toNat))
          (by push_cast at gx ⊢; rw [neg_mul, gx]; linarith)
        have h2 := f32RoundFinite_ge_of_grid y (-(2 ^ (f32Exponent x - (f32Exponent y - 23)).toNat))
          (by push_cast at gy ⊢; rw [neg_mul, gy]; linarith)
        push_cast at gx gy h1 h2
        rw [neg_mul, gx] at h1
        rw [neg_mul, gy] at h2
        linarith
      · unfold f32RoundFinite
        rw [← heq]
        have hu := two_zpow_pos (f32Exponent y - 23)
        have h1 : x / 2 ^ (f32Exponent y - 23) ≤ y / 2 ^ (f32Exponent y - 23) :=
          div_le_div_of_nonneg_right h (le_of_lt hu)
        have h2 := roundHalfEven_mono h1
        have h3 : (roundHalfEven (x / 2 ^ (f32Exponent y - 23)) : ℚ) ≤
            (roundHalfEven (y / 2 ^ (f32Exponent y - 23)) : ℚ) := by exact_mod_cast h2
        exact mul_le_mul_of_nonneg_right h3 (le_of_lt hu)
  · -- both positive
    have hy0 : 0 < y := lt_of_lt_of_le hx0 h
    have hxne : x ≠ 0 := ne_of_gt hx0
    have hyne : y ≠ 0 := ne_of_gt hy0
    have habs : |x| ≤ |y| := by
      rw [abs_of_pos hx0, abs_of_pos hy0]; exact h
    have he := f32Exponent_mono hxne habs
    rcases lt_or_eq_of_le he with hlt | heq
    · have hY : (2 : ℚ) ^ (f32Exponent y) ≤ |y| :=
        zpow_f32Exponent_le y hyne (lt_of_le_of_lt (f32Exponent_ge x) hlt)
      have hX : |x| < 2 ^ (f32Exponent x + 1) := lt_zpow_f32Exponent_succ x
      have hXY : (2 : ℚ) ^ (f32Exponent x + 1) ≤ 2 ^ (f32Exponent y) :=
        zpow_le_zpow_right₀ (by norm_num) (by omega)
      rw [abs_of_pos hy0] at hY
      rw [abs_of_pos hx0] at hX
      have gx := zpow_on_grid (f32Exponent y) (f32Exponent x) (by omega)
      have gy := zpow_on_grid (f32Exponent y) (f32Exponent y) (by omega)
      have h1 := f32RoundFinite_le_of_grid x (2 ^ (f32Exponent y - (f32Exponent x - 23)).toNat)
        (by rw [gx]; linarith)
      have h2 := f32RoundFinite_ge_of_grid y (2 ^ (f32Exponent y - (f32Exponent y - 23)).toNat)
        (by rw [gy]; linarith)
      rw [gx] at h1
      rw [gy] at h2
      linarith
    · unfold f32RoundFinite
      rw [heq]
      have hu := two_zpow_pos (f32Exponent y - 23)
      have h1 : x / 2 ^ (f32Exponent y - 23) ≤ y / 2 ^ (f32Exponent y - 23) :=
        div_le_div_of_nonneg_right h (le_of_lt hu)
      have h2 := roundHalfEven_mono h1
      have h3 : (roundHalfEven (x / 2 ^ (f32Exponent y - 23)) : ℚ) ≤
          (roundHalfEven (y / 2 ^ (f32Exponent y - 23)) : ℚ) := by exact_mod_cast h2
      exact mul_le_mul_of_nonneg_right h3 (le_of_lt hu)

theorem f32Exponent_eq (x : ℚ) (e : Int) (he : -126 ≤ e) (h1 : 2 ^ e ≤ |x|)
    (h2 : |x| < 2 ^ (e + 1)) : f32Exponent x = e := by
  have hpos : 0 < |x| := lt_of_lt_of_le (two_zpow_pos e) h1
  have a1 : e ≤ Int.log 2 |x| := by
    rw [← Int.zpow_le_iff_le_log (by norm_num) hpos]
    push_cast; exact h1
  have a2 : Int.log 2 |x| < e + 1 := by
    rw [← Int.lt_zpow_iff_log_lt (by norm_num) hpos]
    push_cast; exact h2
  unfold f32Exponent
  rw [max_eq_left (by omega)]
  omega

theorem f32Exponent_le_of_lt (x : ℚ) (E : Int) (hx : x ≠ 0) (hE : -126 ≤ E)
    (h : |x| < 2 ^ (E + 1)) : f32Exponent x ≤ E := by
  unfold f32Exponent
  apply max_le _ hE
  have hpos : 0 < |x| := abs_pos.mpr hx
  have : Int.log 2 |x| < E + 1 := by
    rw [← Int.lt_zpow_iff_log_lt (by norm_num) hpos]
    push_cast; exact h
  omega

theorem f32RoundFinite_of_grid (x : ℚ) (m : Int) (h : x = (m : ℚ) * 2 ^ (f32Exponent x - 23)) :
    f32RoundFinite x = x := by
  have hu := two_zpow_pos (f32Exponent x - 23)
  have hd : x / 2 ^ (f32Exponent x - 23) = (m : ℚ) := by
    rw [div_eq_iff (ne_of_gt hu)]; exact h
  unfold f32RoundFinite
  rw [hd, roundHalfEven_intCast]
  exact h.symm

/-- A number with a significand of at most 24 bits and an exponent in the range of the
format is a float: rounding leaves it as it is. -/
theorem f32RoundFinite_dyadic (m k : Int) (hm : |m| < 2 ^ 24) (hk : -149 ≤ k) :
    f32RoundFinite ((m : ℚ) * 2 ^ k) = (m : ℚ) * 2 ^ k := by
  rcases eq_or_ne m 0 with rfl | hm0
  · simp [f32RoundFinite_zero]
  have hx : (m : ℚ) * 2 ^ k ≠ 0 :=
    mul_ne_zero (by exact_mod_cast hm0) (ne_of_gt (two_zpow_pos k))
  have hlt : |(m : ℚ) * 2 ^ k| < 2 ^ (23 + k + 1) := by
    rw [abs_mul, abs_of_pos (two_zpow_pos k)]
    have h1 : |(m : ℚ)| < 2 ^ (24 : Int) := by
      have : ((|m| : Int) : ℚ) < ((2 ^ 24 : Int) : ℚ) := by exact_mod_cast hm
      push_cast at this
      exact_mod_cast this
    have h2 : (2 : ℚ) ^ (23 + k + 1) = 2 ^ (24 : Int) * 2 ^ k := by
      rw [← zpow_add₀ (by norm_num : (2 : ℚ) ≠ 0)]
      congr 1; omega
    rw [h2]
    exact mul_lt_mul_of_pos_right h1 (two_zpow_pos k)
  have he : f32Exponent ((m : ℚ) * 2 ^ k) ≤ 23 + k :=
    f32Exponent_le_of_lt _ _ hx (by omega) hlt
  have hg := zpow_on_grid k (f32Exponent ((m : ℚ) * 2 ^ k)) (by omega)
  apply f32RoundFinite_of_grid _ (m * 2 ^ (k - (f32Exponent ((m : ℚ) * 2 ^ k) - 23)).toNat)
  push_cast at hg ⊢
  rw [mul_assoc, hg]

theorem f32RoundFinite_intCast (n : Int) (h : |n| ≤ 2 ^ 24) : f32RoundFinite (n : ℚ) = n := by
  rcases lt_or_eq_of_le h with hlt | heq
  · have := f32RoundFinite_dyadic n 0 hlt (by norm_num)
    simpa using this
  · have hn : n = 2 ^ 24 ∨ n = -2 ^ 24 := by
      rcases abs_cases n with ⟨h1, -⟩ | ⟨h1, -⟩ <;> omega
    rcases hn with rfl | rfl
    · have := f32RoundFinite_dyadic 1 24 (by norm_num) (by norm_num)
      norm_num at this ⊢
      exact this
    · have := f32RoundFinite_dyadic (-1) 24 (by norm_num) (by norm_num)
      norm_num at this ⊢
      exact this

/-- Rounding stays on the same side of an integer of at most 24 bits. -/
theorem f32RoundFinite_le_int (x : ℚ) (n : Int) (hn : |n| ≤ 2 ^ 24) (h : x ≤ (n : ℚ)) :
    f32RoundFinite x ≤ (n : ℚ) := by
  have := f32RoundFinite_mono h
  rwa [f32RoundFinite_intCast n hn] at this

theorem f32RoundFinite_ge_int (x : ℚ) (n : Int) (hn : |n| ≤ 2 ^ 24) (h : (n : ℚ) ≤ x) :
    (n : ℚ) ≤ f32RoundFinite x := by
  have := f32RoundFinite_mono h
  rwa [f32RoundFinite_intCast n hn] at this

/-- The value of a rounding, from the exponent of the number and the nearest integer
multiple of the unit in the last place. -/
theorem f32RoundFinite_eval (x : ℚ) (e m : Int) (he : -126 ≤ e) (h1 : 2 ^ e ≤ |x|)
    (h2 : |x| < 2 ^ (e + 1)) (hm : |x / 2 ^ (e - 23) - (m : ℚ)| < 1 / 2) :
    f32RoundFinite x = (m : ℚ) * 2 ^ (e - 23) := by
  unfold f32RoundFinite
  rw [f32Exponent_eq x e he h1 h2, roundHalfEven_eq_of_abs_lt _ m hm]

theorem abs_intCast_le_of_le (n : Int) (B : Nat) (h : |n| ≤ (B : Int)) : |(n : ℚ)| ≤ (B : ℚ) := by
  have : ((|n| : Int) : ℚ) ≤ ((B : Int) : ℚ) := by exact_mod_cast h
  simpa using this

/-- Rounding keeps a number within a symmetric bound that is an integer of at most 24
bits. -/
theorem f32RoundFinite_abs_le_int (x : ℚ) (n : Int) (hn0 : 0 ≤ n) (hn : n ≤ 2 ^ 24)
    (h : |x| ≤ (n : ℚ)) : |f32RoundFinite x| ≤ (n : ℚ) := by
  have h1 := (abs_le.mp h).1
  have h2 := (abs_le.mp h).2
  have hn1 : |n| ≤ 2 ^ 24 := by rw [abs_of_nonneg hn0]; exact hn
  have hn2 : |(-n)| ≤ 2 ^ 24 := by rw [abs_neg]; exact hn1
  rw [abs_le]
  constructor
  · have := f32RoundFinite_ge_int x (-n) hn2 (by push_cast; exact h1)
    push_cast at this
    exact this
  · exact f32RoundFinite_le_int x n hn1 h2

theorem f32.round_of_lt (x : ℚ) (h : |f32RoundFinite x| < 2 ^ 128) :
    f32.round x = f32.finite (f32RoundFinite x) := by
  unfold f32.round
  rw [if_neg (not_le.mpr h)]

/-- An exact result within an integer bound of at most 24 bits gives a finite float. -/
theorem f32.round_of_abs_le_int (x : ℚ) (n : Int) (hn0 : 0 ≤ n) (hn : n ≤ 2 ^ 24)
    (h : |x| ≤ (n : ℚ)) : f32.round x = f32.finite (f32RoundFinite x) := by
  apply f32.round_of_lt
  have h1 := f32RoundFinite_abs_le_int x n hn0 hn h
  have h2 : (n : ℚ) ≤ 2 ^ 24 := by exact_mod_cast hn
  have h3 : (2 : ℚ) ^ 24 < 2 ^ 128 := by norm_num
  linarith

theorem f32.round_intCast (n : Int) (h : |n| ≤ 2 ^ 24) :
    f32.round (n : ℚ) = f32.finite (n : ℚ) := by
  have hR := f32RoundFinite_intCast n h
  have hb : |(n : ℚ)| ≤ 2 ^ 24 := by
    have := abs_intCast_le_of_le n (2 ^ 24) (by exact_mod_cast h)
    exact_mod_cast this
  rw [f32.round_of_lt, hR]
  rw [hR]
  have h3 : (2 : ℚ) ^ 24 < 2 ^ 128 := by norm_num
  linarith

theorem f32.round_zero : f32.round 0 = f32.finite 0 := by
  have := f32.round_intCast 0 (by norm_num)
  simpa using this

theorem f32.round_one : f32.round 1 = f32.finite 1 := by
  have := f32.round_intCast 1 (by norm_num)
  simpa using this

theorem f32.ofInt_of_abs_le (n : Int) (h : |n| ≤ 2 ^ 24) : f32.ofInt n = f32.finite (n : ℚ) := by
  unfold f32.ofInt
  rw [f32RoundFinite_intCast n h]

theorem f32.mul_finite (a b : ℚ) : (f32.finite a).mul (f32.finite b) = f32.round (a * b) := rfl

theorem f32.add_finite (a b : ℚ) : (f32.finite a).add (f32.finite b) = f32.round (a + b) := rfl

/-- A product of floats that is finite has finite factors. -/
theorem f32.finite_of_mul_finite (x y : f32) (q : ℚ) (h : x.mul y = f32.finite q) :
    ∃ a b, x = f32.finite a ∧ y = f32.finite b := by
  cases x with
  | finite a =>
    cases y with
    | finite b => exact ⟨a, b, rfl, rfl⟩
    | infinite s =>
      simp only [f32.mul] at h
      split_ifs at h
    | NaN => simp [f32.mul] at h
  | infinite s =>
    cases y with
    | finite b =>
      simp only [f32.mul] at h
      split_ifs at h
    | infinite t => simp [f32.mul] at h
    | NaN => simp [f32.mul] at h
  | NaN => cases y <;> simp [f32.mul] at h

theorem f32.finite_of_round (x q : ℚ) (h : f32.round x = f32.finite q) : q = f32RoundFinite x := by
  unfold f32.round at h
  split_ifs at h
  exact (f32.finite.inj h).symm

theorem f32.toS32_of_inS32 (q : ℚ) (h : (f32.finite q).inS32) :
    (f32.finite q).toS32 = truncToInt q := by
  have h' : -2 ^ 31 ≤ truncToInt q ∧ truncToInt q < 2 ^ 31 := h
  simp only [f32.toS32]
  rw [if_pos h']

theorem f32.toS32_intCast (n : Int) (h : Irrlicht.inS32 n) : (f32.finite (n : ℚ)).toS32 = n := by
  have ht : truncToInt (n : ℚ) = n := by
    unfold truncToInt
    split_ifs <;> simp
  have h' : -2 ^ 31 ≤ n ∧ n < 2 ^ 31 := h
  simp only [f32.toS32, ht]
  rw [if_pos h']

theorem wrapS32_of_inS32 (z : Int) (h : inS32 z) : wrapS32 z = z := by
  obtain ⟨h1, h2⟩ := h
  unfold wrapS32
  have h3 : 0 ≤ z + 2 ^ 31 := by omega
  have h4 : z + 2 ^ 31 < 2 ^ 32 := by omega
  rw [Int.emod_eq_of_lt h3 h4]
  omega

end Rounding

/-! ### The transform stage -/

section Transform

theorem truncToInt_mono {x y : ℚ} (h : x ≤ y) : truncToInt x ≤ truncToInt y := by
  unfold truncToInt
  split_ifs with hx hy hy
  · exact Int.floor_mono h
  · exact absurd (le_trans hx h) hy
  · have h1 : Int.ceil x ≤ 0 := Int.ceil_le.mpr (by push_cast; linarith)
    have h2 : (0 : Int) ≤ Int.floor y := Int.floor_nonneg.mpr hy
    omega
  · exact Int.ceil_mono h

theorem truncToInt_intCast (n : Int) : truncToInt (n : ℚ) = n := by
  unfold truncToInt
  split_ifs <;> simp

/-- The float `zDiv` of the transform loop. -/
theorem zDivOf_eq (w : ℚ) :
    zDivOf w = some (if w = 0 then f32.finite 1 else f32.round (1 / w)) := by
  unfold zDivOf f32div
  split_ifs <;> rfl

theorem zDivOf_one : zDivOf 1 = some (f32.finite 1) := by
  rw [zDivOf_eq, if_neg one_ne_zero]
  norm_num [f32.round_one]

theorem zDivOf_isSome (w : ℚ) : ∃ zDiv, zDivOf w = some zDiv := ⟨_, zDivOf_eq w⟩

theorem projectPoint_eq (env : TransformEnv) (pos : Vec4) (tu tv : ℚ) (zDiv : f32)
    (hz : zDivOf pos.w = some zDiv) :
    projectPoint env pos tu tv =
      some
        { PosX := f32.toS32
            (((f32.ofInt (ViewTransformWidth env)).mul ((f32.finite pos.x).mul zDiv)).add
              (f32.ofInt env.Render2DTranslationX))
          PosY := wrapS32 (env.Render2DTranslationY -
            f32.toS32 ((f32.ofInt (ViewTransformHeight env)).mul ((f32.finite pos.y).mul zDiv)))
          ZValue := toTZBufferType ((f32.finite 32767).mul zDiv)
          TCoordsX := wrapS32
            (f32.toS32 ((f32.finite tu).mul (f32.ofInt (Int.ofNat env.textureSizeWidth))) * 2 ^ 8)
          TCoordsY := wrapS32
            (f32.toS32 ((f32.finite tv).mul (f32.ofInt (Int.ofNat env.textureSizeHeight))) *
              2 ^ 8) } := by
  unfold projectPoint
  rw [hz]
  rfl

theorem invW_pos {w : ℚ} (h : 0 < w) : 0 < invW w := by
  unfold invW
  rw [if_neg (ne_of_gt h)]
  positivity

theorem invW_abs_le_one {w : ℚ} (h : w = 0 ∨ 1 ≤ |w|) : |invW w| ≤ 1 := by
  unfold invW
  split_ifs with h0
  · simp
  · rcases h with h | h
    · exact absurd h h0
    · rw [abs_div, abs_one, div_le_one (lt_of_lt_of_le one_pos h)]
      exact h

/-- The value of a single precision operation, from the exponent of the exact result and
the nearest integer multiple of the unit in the last place. -/
theorem f32.round_eval (x : ℚ) (e m : Int) (he : -126 ≤ e) (h1 : 2 ^ e ≤ |x|)
    (h2 : |x| < 2 ^ (e + 1)) (hm : |x / 2 ^ (e - 23) - (m : ℚ)| < 1 / 2)
    (hfin : |(m : ℚ) * 2 ^ (e - 23)| < 2 ^ 128) :
    f32.round x = f32.finite ((m : ℚ) * 2 ^ (e - 23)) := by
  have hR := f32RoundFinite_eval x e m he h1 h2 hm
  rw [f32.round_of_lt x (by rw [hR]; exact hfin), hR]

theorem f32.round_dyadic (m k : Int) (hm : |m| < 2 ^ 24) (hk : -149 ≤ k) (hk2 : k ≤ 104) :
    f32.round ((m : ℚ) * 2 ^ k) = f32.finite ((m : ℚ) * 2 ^ k) := by
  have hR := f32RoundFinite_dyadic m k hm hk
  rw [f32.round_of_lt _ (by
    rw [hR, abs_mul, abs_of_pos (two_zpow_pos k)]
    have h1 : |(m : ℚ)| < 2 ^ (24 : Int) := by
      have : ((|m| : Int) : ℚ) < ((2 ^ 24 : Int) : ℚ) := by exact_mod_cast hm
      push_cast at this
      exact_mod_cast this
    have h2 : (2 : ℚ) ^ k ≤ 2 ^ (104 : Int) := zpow_le_zpow_right₀ (by norm_num) hk2
    have h3 : |(m : ℚ)| * 2 ^ k < 2 ^ (24 : Int) * 2 ^ (104 : Int) :=
      mul_lt_mul h1 h2 (two_zpow_pos k) (by positivity)
    have h4 : (2 : ℚ) ^ (24 : Int) * 2 ^ (104 : Int) = 2 ^ 128 := by norm_num
    linarith), hR]

/-- The float `0.7f` is a float. -/
theorem round_sevenTenths : f32.round sevenTenths = f32.finite sevenTenths := by
  have := f32.round_dyadic 11744051 (-24) (by norm_num) (by norm_num) (by norm_num)
  have h : ((11744051 : Int) : ℚ) * 2 ^ (-24 : Int) = sevenTenths := by
    unfold sevenTenths; norm_num
  rwa [h] at this

/-- In single precision `10 * 0.7f` is `7`. -/
theorem round_ten_sevenTenths : f32.round (10 * sevenTenths) = f32.finite 7 := by
  have := f32.round_eval (10 * sevenTenths) 2 14680064 (by norm_num)
    (by unfold sevenTenths; norm_num [abs_of_pos])
    (by unfold sevenTenths; norm_num [abs_of_pos])
    (by unfold sevenTenths; norm_num [abs_lt]) (by norm_num [abs_of_pos])
  rw [this]
  norm_num

theorem f32RoundFinite_of_isF32 (q : ℚ) (h : isF32 q) : f32RoundFinite q = q :=
  (f32.finite_of_round q q h).symm

theorem isF32_intCast (n : Int) (h : |n| ≤ 2 ^ 24) : isF32 (n : ℚ) := f32.round_intCast n h

theorem f32.ofInt_of_isF32 (n : Int) (h : isF32 (n : ℚ)) : f32.ofInt n = f32.finite (n : ℚ) := by
  unfold f32.ofInt
  rw [f32RoundFinite_of_isF32 _ h]

/-- C7, as stated, fails: for the clip-space position (0.7f, 0.7f) with `w = 1` on a
20 x 20 viewport with the translation (10, 10) the product `10 * 0.7f` is rounded to `7`
in single precision, so the transform stage gives the screen position (17, 3), while
trunc(halfWidth * (cx * invW) + translationX) is 16 and
translationY - trunc(halfHeight * (cy * invW)) is 4. -/
theorem screen_position_differs_from_exact_formula :
    ∃ v, projectPoint smallEnv { x := sevenTenths, y := sevenTenths, z := 0, w := 1 } 0 0 =
        some v ∧
      v.PosX = 17 ∧ v.PosY = 3 ∧
      truncToInt (((Int.ofNat (smallEnv.ViewPortSizeWidth >>> 1) : Int) : ℚ) *
        (sevenTenths * invW 1) + (smallEnv.Render2DTranslationX : ℚ)) = 16 ∧
      smallEnv.Render2DTranslationY -
        truncToInt (((Int.ofNat (smallEnv.ViewPortSizeHeight >>> 1) : Int) : ℚ) *
          (sevenTenths * invW 1)) = 4 := by
  have hW : f32.ofInt (ViewTransformWidth smallEnv) = f32.finite 10 := by
    have := f32.ofInt_of_abs_le 10 (by norm_num)
    simpa using this
  have hH : f32.ofInt (ViewTransformHeight smallEnv) = f32.finite 10 := by
    have := f32.ofInt_of_abs_le 10 (by norm_num)
    simpa using this
  have hT : f32.ofInt smallEnv.Render2DTranslationX = f32.finite 10 := by
    have := f32.ofInt_of_abs_le 10 (by norm_num)
    simpa using this
  have hm : (f32.finite sevenTenths).mul (f32.finite 1) = f32.finite sevenTenths := by
    rw [f32.mul_finite, mul_one, round_sevenTenths]
  have hp : (f32.finite 10).mul (f32.finite sevenTenths) = f32.finite 7 := by
    rw [f32.mul_finite, round_ten_sevenTenths]
  have hs : (f32.finite 7).add (f32.finite 10) = f32.finite 17 := by
    rw [f32.add_finite]
    have := f32.round_intCast 17 (by norm_num)
    norm_num at this ⊢
    exact this
  have h17 : (f32.finite 17).toS32 = 17 := by
    have := f32.toS32_intCast 17 (by unfold inS32; norm_num)
    simpa using this
  have h7 : (f32.finite 7).toS32 = 7 := by
    have := f32.toS32_intCast 7 (by unfold inS32; norm_num)
    simpa using this
  have hi : invW 1 = 1 := by simp [invW]
  have hval : (10 : ℚ) * (sevenTenths * 1) = 58720255 / 8388608 := by
    unfold sevenTenths; norm_num
  refine ⟨_, projectPoint_eq smallEnv _ 0 0 (f32.finite 1) zDivOf_one, ?_, ?_, ?_, ?_⟩
  · show f32.toS32 _ = 17
    rw [hW, hT, hm, hp, hs, h17]
  · show wrapS32 (smallEnv.Render2DTranslationY - f32.toS32 _) = 3
    rw [hH, hm, hp, h7]
    decide
  · have h20 : ((Int.ofNat (smallEnv.ViewPortSizeWidth >>> 1) : Int) : ℚ) = 10 := by
      simp [smallEnv]
    have hx : ((smallEnv.Render2DTranslationX : Int) : ℚ) = 10 := by simp [smallEnv]
    rw [h20, hx, hi, hval]
    unfold truncToInt
    rw [if_pos (by norm_num), Int.floor_eq_iff]
    norm_num
  · have h20 : ((Int.ofNat (smallEnv.ViewPortSizeHeight >>> 1) : Int) : ℚ) = 10 := by
      simp [smallEnv]
    rw [h20, hi, hval]
    have ht : truncToInt (58720255 / 8388608) = 6 := by
      unfold truncToInt
      rw [if_pos (by norm_num), Int.floor_eq_iff]
      norm_num
    rw [ht]
    decide

/-- C7, amended: the transform stage returns for every clip-space position, with the
screen x and y of the stated formulas evaluated in single precision: each product and sum
is rounded to a float, the integers are converted to floats, the conversion to `s32`
truncates and the subtraction is `s32` arithmetic. Where every intermediate result is a
float and the converted values are in the range of `s32`, these are the exact values
trunc(halfWidth * (cx * invW) + translationX) and
translationY - trunc(halfHeight * (cy * invW)). For a fixed `w > 0`, as long as the
conversions to `s32` are defined and the subtraction does not wrap, a larger clip-space y
never gives a larger screen y. -/
theorem screen_position_rounded_and_y_flip :
    (∀ (env : TransformEnv) (pos : Vec4) (tu tv : ℚ),
      ∃ v zDiv, zDivOf pos.w = some zDiv ∧ projectPoint env pos tu tv = some v ∧
        v.PosX = f32.toS32
          (((f32.ofInt (Int.ofNat (env.ViewPortSizeWidth >>> 1))).mul
            ((f32.finite pos.x).mul zDiv)).add (f32.ofInt env.Render2DTranslationX)) ∧
        v.PosY = wrapS32 (env.Render2DTranslationY -
          f32.toS32 ((f32.ofInt (Int.ofNat (env.ViewPortSizeHeight >>> 1))).mul
            ((f32.finite pos.y).mul zDiv)))) ∧
    (∀ (env : TransformEnv) (pos : Vec4) (tu tv : ℚ),
      isF32 (invW pos.w) →
      isF32 (((Int.ofNat (env.ViewPortSizeWidth >>> 1) : Int) : ℚ)) →
      isF32 (((Int.ofNat (env.ViewPortSizeHeight >>> 1) : Int) : ℚ)) →
      isF32 ((env.Render2DTranslationX : ℚ)) →
      isF32 (pos.x * invW pos.w) → isF32 (pos.y * invW pos.w) →
      isF32 (((Int.ofNat (env.ViewPortSizeWidth >>> 1) : Int) : ℚ) * (pos.x * invW pos.w)) →
      isF32 (((Int.ofNat (env.ViewPortSizeHeight >>> 1) : Int) : ℚ) * (pos.y * invW pos.w)) →
      isF32 (((Int.ofNat (env.ViewPortSizeWidth >>> 1) : Int) : ℚ) * (pos.x * invW pos.w) +
        (env.Render2DTranslationX : ℚ)) →
      inS32 (truncToInt (((Int.ofNat (env.ViewPortSizeWidth >>> 1) : Int) : ℚ) *
        (pos.x * invW pos.w) + (env.Render2DTranslationX : ℚ))) →
      inS32 (truncToInt (((Int.ofNat (env.ViewPortSizeHeight >>> 1) : Int) : ℚ) *
        (pos.y * invW pos.w))) →
      inS32 (env.Render2DTranslationY -
        truncToInt (((Int.ofNat (env.ViewPortSizeHeight >>> 1) : Int) : ℚ) *
          (pos.y * invW pos.w))) →
      ∃ v, projectPoint env pos tu tv = some v ∧
        v.PosX = truncToInt (((Int.ofNat (env.ViewPortSizeWidth >>> 1) : Int) : ℚ) *
          (pos.x * invW pos.w) + (env.Render2DTranslationX : ℚ)) ∧
        v.PosY = env.Render2DTranslationY -
          truncToInt (((Int.ofNat (env.ViewPortSizeHeight >>> 1) : Int) : ℚ) *
            (pos.y * invW pos.w))) ∧
    (∀ (env : TransformEnv) (cx cz w cy₁ cy₂ tu tv : ℚ) (zDiv : f32),
      0 < w → cy₁ ≤ cy₂ → zDivOf w = some zDiv →
      ((f32.ofInt (Int.ofNat (env.ViewPortSizeHeight >>> 1))).mul
        ((f32.finite cy₁).mul zDiv)).inS32 →
      ((f32.ofInt (Int.ofNat (env.ViewPortSizeHeight >>> 1))).mul
        ((f32.finite cy₂).mul zDiv)).inS32 →
      inS32 (env.Render2DTranslationY -
        f32.toS32 ((f32.ofInt (Int.ofNat (env.ViewPortSizeHeight >>> 1))).mul
          ((f32.finite cy₁).mul zDiv))) →
      inS32 (env.Render2DTranslationY -
        f32.toS32 ((f32.ofInt (Int.ofNat (env.ViewPortSizeHeight >>> 1))).mul
          ((f32.finite cy₂).mul zDiv))) →
      ∃ v₁ v₂,
        projectPoint env { x := cx, y := cy₁, z := cz, w := w } tu tv = some v₁ ∧
        projectPoint env { x := cx, y := cy₂, z := cz, w := w } tu tv = some v₂ ∧
        v₂.PosY ≤ v₁.PosY) := by
  refine ⟨?_, ?_, ?_⟩
  · intro env pos tu tv
    obtain ⟨zDiv, hz⟩ := zDivOf_isSome pos.w
    exact ⟨_, zDiv, hz, projectPoint_eq env pos tu tv zDiv hz, rfl, rfl⟩
  · intro env pos tu tv hi hW hH hT hx hy hWx hHy hsum hrx hry hsub
    have hz : zDivOf pos.w = some (f32.finite (invW pos.w)) := by
      rw [zDivOf_eq]
      unfold invW at hi ⊢
      split_ifs with h0
      · rfl
      · rw [if_neg h0] at hi
        rw [hi]
    refine ⟨_, projectPoint_eq env pos tu tv _ hz, ?_, ?_⟩
    · show f32.toS32 (((f32.ofInt (Int.ofNat (env.ViewPortSizeWidth >>> 1))).mul
        ((f32.finite pos.x).mul (f32.finite (invW pos.w)))).add
          (f32.ofInt env.Render2DTranslationX)) = _
      rw [f32.ofInt_of_isF32 _ hW, f32.ofInt_of_isF32 _ hT, f32.mul_finite, hx, f32.mul_finite,
        hWx, f32.add_finite, hsum, f32.toS32_of_inS32 _ hrx]
    · show wrapS32 (env.Render2DTranslationY -
        f32.toS32 ((f32.ofInt (Int.ofNat (env.ViewPortSizeHeight >>> 1))).mul
          ((f32.finite pos.y).mul (f32.finite (invW pos.w))))) = _
      rw [f32.ofInt_of_isF32 _ hH, f32.mul_finite, hy, f32.mul_finite, hHy,
        f32.toS32_of_inS32 _ hry, wrapS32_of_inS32 _ hsub]
  · intro env cx cz w cy₁ cy₂ tu tv zDiv hw hy hz h₁ h₂ hs₁ hs₂
    refine ⟨_, _, projectPoint_eq env _ tu tv zDiv hz, projectPoint_eq env _ tu tv zDiv hz, ?_⟩
    show wrapS32 (env.Render2DTranslationY -
        f32.toS32 ((f32.ofInt (Int.ofNat (env.ViewPortSizeHeight >>> 1))).mul
          ((f32.finite cy₂).mul zDiv))) ≤
      wrapS32 (env.Render2DTranslationY -
        f32.toS32 ((f32.ofInt (Int.ofNat (env.ViewPortSizeHeight >>> 1))).mul
          ((f32.finite cy₁).mul zDiv)))
    rw [wrapS32_of_inS32 _ hs₁, wrapS32_of_inS32 _ hs₂]
    -- the float `zDiv` is the rounded quotient, which is not negative
    have hzd : zDiv = f32.round (1 / w) := by
      rw [zDivOf_eq, if_neg (ne_of_gt hw)] at hz
      exact (Option.some.inj hz).symm
    -- both products are finite
    cases hP₁ : (f32.ofInt (Int.ofNat (env.ViewPortSizeHeight >>> 1))).mul
        ((f32.finite cy₁).mul zDiv) with
    | infinite s => rw [hP₁] at h₁; exact absurd h₁ (by simp [f32.inS32])
    | NaN => rw [hP₁] at h₁; exact absurd h₁ (by simp [f32.inS32])
    | finite q₁ =>
      cases hP₂ : (f32.ofInt (Int.ofNat (env.ViewPortSizeHeight >>> 1))).mul
          ((f32.finite cy₂).mul zDiv) with
      | infinite s => rw [hP₂] at h₂; exact absurd h₂ (by simp [f32.inS32])
      | NaN => rw [hP₂] at h₂; exact absurd h₂ (by simp [f32.inS32])
      | finite q₂ =>
        rw [hP₁] at h₁
        rw [hP₂] at h₂
        rw [f32.toS32_of_inS32 _ h₁, f32.toS32_of_inS32 _ h₂]
        obtain ⟨a, m₁, ha, hm₁⟩ := f32.finite_of_mul_finite _ _ _ hP₁
        obtain ⟨-, m₂, -, hm₂⟩ := f32.finite_of_mul_finite _ _ _ hP₂
        obtain ⟨-, zd, -, hzf⟩ := f32.finite_of_mul_finite _ _ _ hm₁
        subst hzf
        rw [ha, hm₁, f32.mul_finite] at hP₁
        rw [ha, hm₂, f32.mul_finite] at hP₂
        rw [f32.mul_finite] at hm₁ hm₂
        have e₁ := f32.finite_of_round _ _ hm₁
        have e₂ := f32.finite_of_round _ _ hm₂
        have f₁ := f32.finite_of_round _ _ hP₁
        have f₂ := f32.finite_of_round _ _ hP₂
        have hzd0 : 0 ≤ zd := by
          rw [f32.finite_of_round _ _ hzd.symm]
          exact f32RoundFinite_nonneg (by positivity)
        have ha0 : 0 ≤ a := by
          have : a = f32RoundFinite ((Int.ofNat (env.ViewPortSizeHeight >>> 1) : Int) : ℚ) :=
            (f32.finite.inj ha).symm
          rw [this]
          exact f32RoundFinite_nonneg (Int.cast_nonneg.mpr (Int.ofNat_nonneg _))
        have hm : m₁ ≤ m₂ := by
          rw [e₁, e₂]
          exact f32RoundFinite_mono (mul_le_mul_of_nonneg_right hy hzd0)
        have hq : q₁ ≤ q₂ := by
          rw [f₁, f₂]
          exact f32RoundFinite_mono (mul_le_mul_of_nonneg_left hm ha0)
        have := truncToInt_mono hq
        omega

theorem isF32_dyadic (m k : Int) (hm : |m| < 2 ^ 24) (hk : -149 ≤ k) (hk2 : k ≤ 104) :
    isF32 ((m : ℚ) * 2 ^ k) := f32.round_dyadic m k hm hk hk2

theorem isF32_half : isF32 (1 / 2) := by
  have := isF32_dyadic 1 (-1) (by norm_num) (by norm_num) (by norm_num)
  norm_num at this ⊢
  exact this

theorem isF32_neg_half : isF32 (-1 / 2) := by
  have := isF32_dyadic (-1) (-1) (by norm_num) (by norm_num) (by norm_num)
  norm_num at this ⊢
  exact this

theorem zDivOf_two : zDivOf 2 = some (f32.finite (1 / 2)) := by
  rw [zDivOf_eq, if_neg (by norm_num)]
  exact congrArg some isF32_half

/-- The product `ViewTransformHeight * (y * zDiv)` of the sample viewport for the
clip-space height `-1` and `w = 2`. -/
theorem sample_yProduct_neg :
    (f32.ofInt (Int.ofNat (sampleEnv.ViewPortSizeHeight >>> 1))).mul
      ((f32.finite (-1)).mul (f32.finite (1 / 2))) = f32.finite (-120) := by
  have hH : f32.ofInt (Int.ofNat (sampleEnv.ViewPortSizeHeight >>> 1)) = f32.finite 240 := by
    have := f32.ofInt_of_abs_le 240 (by norm_num)
    simpa using this
  have h1 : (f32.finite (-1)).mul (f32.finite (1 / 2)) = f32.finite (-1 / 2) := by
    rw [f32.mul_finite]
    have := isF32_neg_half
    unfold isF32 at this
    norm_num at this ⊢
    exact this
  rw [hH, h1, f32.mul_finite]
  have := f32.round_intCast (-120) (by norm_num)
  norm_num at this ⊢
  exact this

/-- The same product for the clip-space height `1`. -/
theorem sample_yProduct_pos :
    (f32.ofInt (Int.ofNat (sampleEnv.ViewPortSizeHeight >>> 1))).mul
      ((f32.finite 1).mul (f32.finite (1 / 2))) = f32.finite 120 := by
  have hH : f32.ofInt (Int.ofNat (sampleEnv.ViewPortSizeHeight >>> 1)) = f32.finite 240 := by
    have := f32.ofInt_of_abs_le 240 (by norm_num)
    simpa using this
  have h1 : (f32.finite 1).mul (f32.finite (1 / 2)) = f32.finite (1 / 2) := by
    rw [f32.mul_finite]
    have := isF32_half
    unfold isF32 at this
    norm_num at this ⊢
    exact this
  rw [hH, h1, f32.mul_finite]
  have := f32.round_intCast 120 (by norm_num)
  norm_num at this ⊢
  exact this

theorem toS32_neg_120 : (f32.finite (-120)).toS32 = -120 := by
  have := f32.toS32_intCast (-120) (by unfold inS32; norm_num)
  simpa using this

theorem toS32_120 : (f32.finite 120).toS32 = 120 := by
  have := f32.toS32_intCast 120 (by unfold inS32; norm_num)
  simpa using this

theorem inS32_finite_intCast (n : Int) (h : inS32 n) : (f32.finite (n : ℚ)).inS32 := by
  show inS32 (truncToInt (n : ℚ))
  rw [truncToInt_intCast]
  exact h

theorem sample_yProduct_neg_inS32 :
    ((f32.ofInt (Int.ofNat (sampleEnv.ViewPortSizeHeight >>> 1))).mul
      ((f32.finite (-1)).mul (f32.finite (1 / 2)))).inS32 := by
  rw [sample_yProduct_neg]
  have := inS32_finite_intCast (-120) (by unfold inS32; norm_num)
  simpa using this

theorem sample_yProduct_pos_inS32 :
    ((f32.ofInt (Int.ofNat (sampleEnv.ViewPortSizeHeight >>> 1))).mul
      ((f32.finite 1).mul (f32.finite (1 / 2)))).inS32 := by
  rw [sample_yProduct_pos]
  have := inS32_finite_intCast 120 (by unfold inS32; norm_num)
  simpa using this

/-- The amended theorem for C7 applied to the sample viewport, `w = 2` and the clip-space
heights `-1` and `1`: the products are `-120` and `120`, the screen heights 360 and 120. -/
theorem screen_position_rounded_and_y_flip_witness :
    ((0 : ℚ) < 2 ∧ (-1 : ℚ) ≤ 1 ∧ zDivOf 2 = some (f32.finite (1 / 2)) ∧
      ((f32.ofInt (Int.ofNat (sampleEnv.ViewPortSizeHeight >>> 1))).mul
        ((f32.finite (-1)).mul (f32.finite (1 / 2)))).inS32 ∧
      ((f32.ofInt (Int.ofNat (sampleEnv.ViewPortSizeHeight >>> 1))).mul
        ((f32.finite 1).mul (f32.finite (1 / 2)))).inS32) ∧
    ∃ v₁ v₂,
      projectPoint sampleEnv { x := 0, y := -1, z := 0, w := 2 } 0 0 = some v₁ ∧
      projectPoint sampleEnv { x := 0, y := 1, z := 0, w := 2 } 0 0 = some v₂ ∧
      v₂.PosY ≤ v₁.PosY :=
  ⟨⟨by norm_num, by norm_num, zDivOf_two, sample_yProduct_neg_inS32, sample_yProduct_pos_inS32⟩,
   screen_position_rounded_and_y_flip.2.2 sampleEnv 0 0 2 (-1) 1 0 0 (f32.finite (1 / 2))
     (by norm_num) (by norm_num) zDivOf_two sample_yProduct_neg_inS32 sample_yProduct_pos_inS32
     (by rw [sample_yProduct_neg, toS32_neg_120]; decide)
     (by rw [sample_yProduct_pos, toS32_120]; decide)⟩

/-- C8: for a vertex whose homogeneous `w` is exactly `0` the transform stage divides by
nothing (`zDiv` is `1` and the stage returns), and the point it produces, the screen x,
the screen y and the depth included, is the point it produces for the same clip-space
coordinates with `w = 1`. -/
theorem zero_w_treated_as_one (env : TransformEnv) (cx cy cz tu tv : ℚ) :
    zDivOf 0 = some (f32.finite 1) ∧
    projectPoint env { x := cx, y := cy, z := cz, w := 0 } tu tv =
      projectPoint env { x := cx, y := cy, z := cz, w := 1 } tu tv ∧
    ∃ v, projectPoint env { x := cx, y := cy, z := cz, w := 0 } tu tv = some v ∧
      v.PosX = f32.toS32
        (((f32.ofInt (ViewTransformWidth env)).mul ((f32.finite cx).mul (f32.finite 1))).add
          (f32.ofInt env.Render2DTranslationX)) ∧
      v.PosY = wrapS32 (env.Render2DTranslationY -
        f32.toS32 ((f32.ofInt (ViewTransformHeight env)).mul
          ((f32.finite cy).mul (f32.finite 1)))) ∧
      v.ZValue = 32767 := by
  have hz : zDivOf 0 = some (f32.finite 1) := by simp [zDivOf]
  refine ⟨hz, ?_, ?_⟩
  · rw [projectPoint_eq env _ tu tv _ hz, projectPoint_eq env _ tu tv _ zDivOf_one]
  · refine ⟨_, projectPoint_eq env _ tu tv _ hz, rfl, rfl, ?_⟩
    show toTZBufferType ((f32.finite 32767).mul (f32.finite 1)) = 32767
    have h1 : (f32.finite 32767).mul (f32.finite 1) = f32.finite 32767 := by
      rw [f32.mul_finite]
      have := f32.round_intCast 32767 (by norm_num)
      norm_num at this ⊢
      exact this
    have h2 : (f32.finite 32767).toS32 = 32767 := by
      have := f32.toS32_intCast 32767 (by unfold inS32; norm_num)
      simpa using this
    rw [h1]
    unfold toTZBufferType
    rw [h2]
    decide

theorem multiplyWith1x4Matrix_identity_origin :
    multiplyWith1x4Matrix
        (worldViewProjection matrix4.identity matrix4.identity matrix4.identity)
        { x := 0, y := 0, z := 0, w := 1 } = { x := 0, y := 0, z := 0, w := 1 } := by
  simp [multiplyWith1x4Matrix, worldViewProjection, matrix4.mul, matrix4.identity]

/-- The product `ViewTransformWidth * (0 * zDiv)` with `zDiv = 1` is the float zero. -/
theorem origin_product_zero (n : Int) :
    (f32.ofInt n).mul ((f32.finite 0).mul (f32.finite 1)) = f32.finite 0 := by
  unfold f32.ofInt
  rw [f32.mul_finite, zero_mul, f32.round_zero, f32.mul_finite, mul_zero, f32.round_zero]

/-- In single precision the integer `-16777217`, which has 25 significant bits, is
`-16777216`. -/
theorem f32RoundFinite_neg_16777217 : f32RoundFinite (-16777217) = -16777216 := by
  have he : f32Exponent (-16777217) = 24 :=
    f32Exponent_eq _ 24 (by norm_num) (by norm_num [abs_of_neg]) (by norm_num [abs_of_neg])
  have hfl : Int.floor ((-16777217 : ℚ) / 2) = -8388609 := by
    rw [Int.floor_eq_iff]
    norm_num
  have hr : roundHalfEven ((-16777217 : ℚ) / 2) = -8388608 := by
    unfold roundHalfEven
    rw [hfl]
    norm_num
  have h2 : (2 : ℚ) ^ ((24 : Int) - 23) = 2 := by norm_num
  unfold f32RoundFinite
  rw [he, h2, hr]
  norm_num

/-- C9, as stated, fails: the viewport (-20000000,0)-(-16777217,10) set on the sample
driver state, whose render target is 640 x 480, is clipped to an empty viewport at
x = -16777217, which makes `Render2DTranslation.X` that number; it is no float, and with
identity matrices the transform stage maps the vertex (0,0,0) to the screen x
`-16777216`. -/
theorem identity_origin_misses_translation :
    (transformEnvOf (setViewPort sampleState
      { ULX := -20000000, ULY := 0, LRX := -16777217, LRY := 10 })).Render2DTranslationX =
        -16777217 ∧
    ∃ v, transformVertex
        (transformEnvOf (setViewPort sampleState
          { ULX := -20000000, ULY := 0, LRX := -16777217, LRY := 10 }))
        matrix4.identity matrix4.identity matrix4.identity
        { PosX := 0, PosY := 0, PosZ := 0, TCoordsX := 0, TCoordsY := 0 } = some v ∧
      v.PosX = -16777216 := by
  have hX : (transformEnvOf (setViewPort sampleState
      { ULX := -20000000, ULY := 0, LRX := -16777217, LRY := 10 })).Render2DTranslationX =
        -16777217 := by decide
  refine ⟨hX, ?_⟩
  unfold transformVertex
  rw [multiplyWith1x4Matrix_identity_origin]
  refine ⟨_, projectPoint_eq _ _ _ _ _ zDivOf_one, ?_⟩
  show f32.toS32 _ = -16777216
  rw [origin_product_zero, hX]
  have h1 : f32.ofInt (-16777217) = f32.finite (-16777216) := by
    unfold f32.ofInt
    have := f32RoundFinite_neg_16777217
    norm_num at this ⊢
    exact this
  have h2 : (f32.finite 0).add (f32.finite (-16777216)) = f32.finite (-16777216) := by
    rw [f32.add_finite, zero_add]
    have := f32.round_intCast (-16777216) (by norm_num)
    norm_num at this ⊢
    exact this
  have h3 : (f32.finite (-16777216)).toS32 = -16777216 := by
    have := f32.toS32_intCast (-16777216) (by unfold inS32; norm_num)
    simpa using this
  rw [h1, h2, h3]

/-- C9, amended: with identity world, view and projection matrices the transform stage
maps the object-space vertex (0,0,0) to the screen position
(`Render2DTranslation.X`, `Render2DTranslation.Y`) for every viewport whose
`Render2DTranslation.X` has a magnitude of at most `2^24`, the integers that single
precision holds exactly. -/
theorem identity_maps_origin_to_translation (env : TransformEnv) (tu tv : ℚ)
    (hX : |env.Render2DTranslationX| ≤ 2 ^ 24) (hY : inS32 env.Render2DTranslationY) :
    ∃ v, transformVertex env matrix4.identity matrix4.identity matrix4.identity
        { PosX := 0, PosY := 0, PosZ := 0, TCoordsX := tu, TCoordsY := tv } = some v ∧
      v.PosX = env.Render2DTranslationX ∧ v.PosY = env.Render2DTranslationY := by
  unfold transformVertex
  rw [multiplyWith1x4Matrix_identity_origin]
  refine ⟨_, projectPoint_eq _ _ _ _ _ zDivOf_one, ?_, ?_⟩
  · show f32.toS32 _ = _
    have hin : inS32 env.Render2DTranslationX := by
      have := abs_le.mp hX
      unfold inS32
      constructor <;> omega
    rw [origin_product_zero, f32.ofInt_of_abs_le _ hX, f32.add_finite, zero_add,
      f32.round_intCast _ hX, f32.toS32_intCast _ hin]
  · show wrapS32 (env.Render2DTranslationY - f32.toS32 _) = _
    have h0 : (f32.finite 0).toS32 = 0 := by
      have := f32.toS32_intCast 0 (by unfold inS32; norm_num)
      simpa using this
    rw [origin_product_zero, h0, sub_zero, wrapS32_of_inS32 _ hY]

/-- The amended theorem for C9 applied to the sample viewport. -/
theorem identity_maps_origin_to_translation_witness :
    (|sampleEnv.Render2DTranslationX| ≤ 2 ^ 24 ∧ inS32 sampleEnv.Render2DTranslationY) ∧
    ∃ v, transformVertex sampleEnv matrix4.identity matrix4.identity matrix4.identity
        { PosX := 0, PosY := 0, PosZ := 0, TCoordsX := 0, TCoordsY := 0 } = some v ∧
      v.PosX = sampleEnv.Render2DTranslationX ∧ v.PosY = sampleEnv.Render2DTranslationY :=
  ⟨⟨by decide, by decide⟩,
   identity_maps_origin_to_translation sampleEnv 0 0 (by decide) (by decide)⟩

theorem toTZBufferType_inTZBufferType (x : f32) : inTZBufferType (toTZBufferType x) := by
  unfold inTZBufferType toTZBufferType
  have h1 := Int.emod_nonneg (x.toS32 + 2 ^ 15) (by norm_num : (2 : Int) ^ 16 ≠ 0)
  have h2 := Int.emod_lt_of_pos (x.toS32 + 2 ^ 15) (by norm_num : (0 : Int) < 2 ^ 16)
  constructor <;> omega

theorem toTZBufferType_of_inTZBufferType (q : ℚ) (h : inTZBufferType (truncToInt q)) :
    toTZBufferType (f32.finite q) = truncToInt q := by
  obtain ⟨h1, h2⟩ := h
  have hin : (f32.finite q).inS32 := by
    show inS32 (truncToInt q)
    unfold inS32
    constructor <;> omega
  unfold toTZBufferType
  rw [f32.toS32_of_inS32 q hin]
  have h3 : 0 ≤ truncToInt q + 2 ^ 15 := by omega
  have h4 : truncToInt q + 2 ^ 15 < 2 ^ 16 := by omega
  rw [Int.emod_eq_of_lt h3 h4]
  omega

/-- C10, as stated, fails: with a projection that halves `w`, the vertex (0,0,0) gets
`w = 1/2`; `trunc(32767 * invW)` is 65534, which is no value of the signed 16-bit depth
type, and the conversion to the depth type wraps it: the depth stored is `-2`. -/
theorem depth_wraps_in_TZBufferType :
    ∃ v, transformVertex sampleEnv halfWProjection matrix4.identity matrix4.identity
        { PosX := 0, PosY := 0, PosZ := 0, TCoordsX := 0, TCoordsY := 0 } = some v ∧
      v.ZValue = -2 ∧ truncToInt (32767 * invW (1 / 2)) = 65534 ∧
      ¬ inTZBufferType (truncToInt (32767 * invW (1 / 2))) ∧
      v.ZValue ≠ truncToInt (32767 * invW (1 / 2)) := by
  have hpos : multiplyWith1x4Matrix
      (worldViewProjection halfWProjection matrix4.identity matrix4.identity)
      { x := 0, y := 0, z := 0, w := 1 } = { x := 0, y := 0, z := 0, w := 1 / 2 } := by
    simp [multiplyWith1x4Matrix, worldViewProjection, matrix4.mul, matrix4.identity,
      halfWProjection]
  have hz : truncToInt (32767 * invW (1 / 2)) = 65534 := by
    have h : (32767 * invW (1 / 2) : ℚ) = ((65534 : Int) : ℚ) := by
      unfold invW; norm_num
    rw [h, truncToInt_intCast]
  have hzd : zDivOf (1 / 2) = some (f32.finite 2) := by
    rw [zDivOf_eq, if_neg (by norm_num)]
    have := f32.round_intCast 2 (by norm_num)
    norm_num at this ⊢
    exact this
  have hm : (f32.finite 32767).mul (f32.finite 2) = f32.finite 65534 := by
    rw [f32.mul_finite]
    have := f32.round_intCast 65534 (by norm_num)
    norm_num at this ⊢
    exact this
  have hs : (f32.finite 65534).toS32 = 65534 := by
    have := f32.toS32_intCast 65534 (by unfold inS32; norm_num)
    simpa using this
  have hv : toTZBufferType ((f32.finite 32767).mul (f32.finite 2)) = -2 := by
    rw [hm]
    unfold toTZBufferType
    rw [hs]
    decide
  unfold transformVertex
  rw [hpos]
  refine ⟨_, projectPoint_eq sampleEnv _ _ _ _ hzd, hv, hz, ?_, ?_⟩
  · rw [hz]; decide
  · show toTZBufferType _ ≠ _
    rw [hv, hz]
    decide

/-- C10, amended: the depth stored is the product `32767.0f * zDiv` of single precision
converted to the depth type, and it is always a value of the signed 16-bit depth type,
because the conversion keeps the low 16 bits. Whenever `w` is `0` or of absolute value at
least `1` the product is finite, its truncation is itself a value of the depth type, and
that truncation is the depth stored: the conversion does not wrap. -/
theorem depth_within_TZBufferType :
    (∀ (env : TransformEnv) (pos : Vec4) (tu tv : ℚ),
      ∃ v zDiv, zDivOf pos.w = some zDiv ∧ projectPoint env pos tu tv = some v ∧
        v.ZValue = toTZBufferType ((f32.finite 32767).mul zDiv) ∧ inTZBufferType v.ZValue) ∧
    (∀ (env : TransformEnv) (pos : Vec4) (tu tv : ℚ), (pos.w = 0 ∨ 1 ≤ |pos.w|) →
      ∃ v zDiv q, zDivOf pos.w = some zDiv ∧ projectPoint env pos tu tv = some v ∧
        (f32.finite 32767).mul zDiv = f32.finite q ∧ inTZBufferType (truncToInt q) ∧
        v.ZValue = truncToInt q) := by
  constructor
  · intro env pos tu tv
    obtain ⟨zDiv, hz⟩ := zDivOf_isSome pos.w
    exact ⟨_, zDiv, hz, projectPoint_eq env pos tu tv zDiv hz, rfl,
      toTZBufferType_inTZBufferType _⟩
  · intro env pos tu tv h
    -- the float `zDiv` is finite, of magnitude at most 1
    have hzd : ∃ zd, zDivOf pos.w = some (f32.finite zd) ∧ |zd| ≤ 1 := by
      rw [zDivOf_eq]
      split_ifs with h0
      · exact ⟨1, rfl, by norm_num⟩
      · have hw : 1 ≤ |pos.w| := by
          rcases h with h | h
          · exact absurd h h0
          · exact h
        have hq : |1 / pos.w| ≤ ((1 : Int) : ℚ) := by
          rw [abs_div, abs_one, div_le_iff₀ (lt_of_lt_of_le one_pos hw)]
          push_cast
          linarith
        refine ⟨f32RoundFinite (1 / pos.w), ?_, ?_⟩
        · rw [f32.round_of_abs_le_int _ 1 (by norm_num) (by norm_num) hq]
        · have := f32RoundFinite_abs_le_int _ 1 (by norm_num) (by norm_num) hq
          push_cast at this
          exact this
    obtain ⟨zd, hz, hzd1⟩ := hzd
    have hp : |32767 * zd| ≤ ((32767 : Int) : ℚ) := by
      rw [abs_mul]
      have : |(32767 : ℚ)| = 32767 := by norm_num
      rw [this]
      push_cast
      nlinarith [abs_nonneg zd]
    have hR := f32RoundFinite_abs_le_int _ 32767 (by norm_num) (by norm_num) hp
    have hmul : (f32.finite 32767).mul (f32.finite zd) =
        f32.finite (f32RoundFinite (32767 * zd)) := by
      rw [f32.mul_finite, f32.round_of_abs_le_int _ 32767 (by norm_num) (by norm_num) hp]
    have hrange : inTZBufferType (truncToInt (f32RoundFinite (32767 * zd))) := by
      have hlo : ((-32767 : Int) : ℚ) ≤ f32RoundFinite (32767 * zd) := by
        have := (abs_le.mp hR).1
        push_cast at this ⊢
        exact this
      have hhi : f32RoundFinite (32767 * zd) ≤ ((32767 : Int) : ℚ) := (abs_le.mp hR).2
      have h1 := truncToInt_mono hlo
      have h2 := truncToInt_mono hhi
      rw [truncToInt_intCast] at h1 h2
      unfold inTZBufferType
      omega
    refine ⟨_, f32.finite zd, _, hz, projectPoint_eq env pos tu tv _ hz, hmul, hrange, ?_⟩
    show toTZBufferType ((f32.finite 32767).mul (f32.finite zd)) = _
    rw [hmul, toTZBufferType_of_inTZBufferType _ hrange]

/-- The amended theorem for C10 applied to the sample viewport and `w = 2`. -/
theorem depth_within_TZBufferType_witness :
    ((2 : ℚ) = 0 ∨ 1 ≤ |(2 : ℚ)|) ∧
    ∃ v zDiv q, zDivOf 2 = some zDiv ∧
      projectPoint sampleEnv { x := 0, y := 0, z := 0, w := 2 } 0 0 = some v ∧
      (f32.finite 32767).mul zDiv = f32.finite q ∧ inTZBufferType (truncToInt q) ∧
      v.ZValue = truncToInt q :=
  ⟨Or.inr (by norm_num),
   depth_within_TZBufferType.2 sampleEnv { x := 0, y := 0, z := 0, w := 2 } 0 0
     (Or.inr (by norm_num))⟩

end Transform

/-! ### Fixed-point texture coordinates -/

section TextureCoordinates

theorem truncToInt_of_nonneg {x : ℚ} (h : 0 ≤ x) : truncToInt x = Int.floor x := by
  unfold truncToInt; rw [if_pos h]

/-- One fixed-point texture coordinate of the transform loop, for a coordinate in [0,1]
and a texture extent below `2^23`. -/
theorem textureCoordinate_spec (u : ℚ) (W : Nat) (hu0 : 0 ≤ u) (hu1 : u ≤ 1)
    (hW : W < 2 ^ 23) :
    wrapS32 (f32.toS32 ((f32.finite u).mul (f32.ofInt (Int.ofNat W))) * 2 ^ 8) =
      truncToInt (f32RoundFinite (u * (W : ℚ))) * 256 ∧
    (truncToInt (f32RoundFinite (u * (W : ℚ))) * 256) % 256 = 0 ∧
    (truncToInt (f32RoundFinite (u * (W : ℚ))) * 256) >>> (8 : Nat) =
      truncToInt (f32RoundFinite (u * (W : ℚ))) ∧
    Int.floor (u * (W : ℚ)) ≤ truncToInt (f32RoundFinite (u * (W : ℚ))) ∧
    truncToInt (f32RoundFinite (u * (W : ℚ))) ≤ Int.ceil (u * (W : ℚ)) ∧
    0 ≤ truncToInt (f32RoundFinite (u * (W : ℚ))) ∧
    truncToInt (f32RoundFinite (u * (W : ℚ))) ≤ (W : Int) := by
  have hWi : |(Int.ofNat W)| ≤ 2 ^ 24 := by
    have h23 : (W : Int) < 2 ^ 23 := by exact_mod_cast hW
    show |(W : Int)| ≤ 2 ^ 24
    rw [abs_of_nonneg (Int.ofNat_nonneg W)]
    omega
  have hW24 : (Int.ofNat W) ≤ 2 ^ 24 := le_trans (le_abs_self _) hWi
  have hx0 : 0 ≤ u * (W : ℚ) := mul_nonneg hu0 (Nat.cast_nonneg _)
  have hx1 : u * (W : ℚ) ≤ ((Int.ofNat W : Int) : ℚ) := by
    simp only [Int.ofNat_eq_coe, Int.cast_natCast]
    exact mul_le_of_le_one_left (Nat.cast_nonneg _) hu1
  have habs : |u * (W : ℚ)| ≤ ((Int.ofNat W : Int) : ℚ) := by
    rw [abs_of_nonneg hx0]; exact hx1
  have hR0 : 0 ≤ f32RoundFinite (u * (W : ℚ)) := f32RoundFinite_nonneg hx0
  have hR1 : f32RoundFinite (u * (W : ℚ)) ≤ ((Int.ofNat W : Int) : ℚ) :=
    f32RoundFinite_le_int _ _ hWi hx1
  have ht : truncToInt (f32RoundFinite (u * (W : ℚ))) =
      Int.floor (f32RoundFinite (u * (W : ℚ))) := truncToInt_of_nonneg hR0
  have ht0 : 0 ≤ truncToInt (f32RoundFinite (u * (W : ℚ))) := by
    rw [ht]; exact Int.floor_nonneg.mpr hR0
  have ht1 : truncToInt (f32RoundFinite (u * (W : ℚ))) ≤ (W : Int) := by
    rw [ht]
    have : Int.floor (f32RoundFinite (u * (W : ℚ))) ≤ Int.floor (((Int.ofNat W : Int) : ℚ)) :=
      Int.floor_mono hR1
    rw [Int.floor_intCast] at this
    simpa using this
  have hWlt : (W : Int) < 2 ^ 23 := by exact_mod_cast hW
  have hmul : (f32.finite u).mul (f32.ofInt (Int.ofNat W)) =
      f32.finite (f32RoundFinite (u * (W : ℚ))) := by
    rw [f32.ofInt_of_abs_le _ hWi, f32.mul_finite]
    simp only [Int.ofNat_eq_coe, Int.cast_natCast]
    exact f32.round_of_abs_le_int _ (Int.ofNat W) (Int.ofNat_nonneg W) hW24 habs
  have hin : (f32.finite (f32RoundFinite (u * (W : ℚ)))).inS32 := by
    show inS32 (truncToInt _)
    unfold inS32
    constructor <;> omega
  -- the floor and the ceiling of the exact product are floats
  have hfl0 : 0 ≤ Int.floor (u * (W : ℚ)) := Int.floor_nonneg.mpr hx0
  have hfl1 : Int.floor (u * (W : ℚ)) ≤ (W : Int) := by
    have : Int.floor (u * (W : ℚ)) ≤ Int.floor (((Int.ofNat W : Int) : ℚ)) := Int.floor_mono hx1
    rw [Int.floor_intCast] at this
    simpa using this
  have hce0 : 0 ≤ Int.ceil (u * (W : ℚ)) := Int.ceil_nonneg hx0
  have hce1 : Int.ceil (u * (W : ℚ)) ≤ (W : Int) := by
    have : Int.ceil (u * (W : ℚ)) ≤ Int.ceil (((Int.ofNat W : Int) : ℚ)) := Int.ceil_mono hx1
    rw [Int.ceil_intCast] at this
    simpa using this
  have hlow : Int.floor (u * (W : ℚ)) ≤ truncToInt (f32RoundFinite (u * (W : ℚ))) := by
    rw [ht]
    have h1 : ((Int.floor (u * (W : ℚ)) : Int) : ℚ) ≤ f32RoundFinite (u * (W : ℚ)) :=
      f32RoundFinite_ge_int _ _ (by rw [abs_of_nonneg hfl0]; omega) (Int.floor_le _)
    exact Int.le_floor.mpr h1
  have hhigh : truncToInt (f32RoundFinite (u * (W : ℚ))) ≤ Int.ceil (u * (W : ℚ)) := by
    rw [ht]
    have h1 : f32RoundFinite (u * (W : ℚ)) ≤ ((Int.ceil (u * (W : ℚ)) : Int) : ℚ) :=
      f32RoundFinite_le_int _ _ (by rw [abs_of_nonneg hce0]; omega) (Int.le_ceil _)
    have h2 : ((Int.floor (f32RoundFinite (u * (W : ℚ))) : Int) : ℚ) ≤
        ((Int.ceil (u * (W : ℚ)) : Int) : ℚ) := le_trans (Int.floor_le _) h1
    exact_mod_cast h2
  refine ⟨?_, ?_, ?_, hlow, hhigh, ht0, ht1⟩
  · rw [hmul, f32.toS32_of_inS32 _ hin]
    have h256 : (2 : Int) ^ 8 = 256 := by norm_num
    rw [h256]
    apply wrapS32_of_inS32
    unfold inS32
    constructor <;> omega
  · omega
  · rw [Int.shiftRight_eq_div_pow]
    simp

/-- C11, as stated, fails: for the texture coordinate 0.7f, a number in [0,1], on a
texture of width 10 the product is rounded to `7` in single precision; the fixed-point
coordinate is 1792 and its integer part is 7, while floor(u * W) is 6. -/
theorem texture_coordinate_differs_from_floor :
    (0 ≤ sevenTenths ∧ sevenTenths ≤ 1) ∧
    ∃ p, projectPoint smallEnv { x := 0, y := 0, z := 0, w := 1 } sevenTenths sevenTenths =
        some p ∧
      p.TCoordsX = 1792 ∧ p.TCoordsX >>> (8 : Nat) = 7 ∧
      Int.floor (sevenTenths * (smallEnv.textureSizeWidth : ℚ)) = 6 ∧
      truncToInt (sevenTenths * (smallEnv.textureSizeWidth : ℚ)) * 256 = 1536 := by
  have hfl : Int.floor (sevenTenths * (smallEnv.textureSizeWidth : ℚ)) = 6 := by
    rw [Int.floor_eq_iff]
    unfold sevenTenths smallEnv
    norm_num
  have hp : (f32.finite sevenTenths).mul (f32.ofInt (Int.ofNat smallEnv.textureSizeWidth)) =
      f32.finite 7 := by
    have h10 : f32.ofInt (Int.ofNat smallEnv.textureSizeWidth) = f32.finite 10 := by
      have := f32.ofInt_of_abs_le 10 (by norm_num)
      simpa using this
    rw [h10, f32.mul_finite, mul_comm, round_ten_sevenTenths]
  have h7 : (f32.finite 7).toS32 = 7 := by
    have := f32.toS32_intCast 7 (by unfold inS32; norm_num)
    simpa using this
  have hX : wrapS32 (f32.toS32 ((f32.finite sevenTenths).mul
      (f32.ofInt (Int.ofNat smallEnv.textureSizeWidth))) * 2 ^ 8) = 1792 := by
    rw [hp, h7]
    decide
  refine ⟨⟨by unfold sevenTenths; norm_num, by unfold sevenTenths; norm_num⟩, _,
    projectPoint_eq smallEnv _ _ _ _ zDivOf_one, hX, ?_, hfl, ?_⟩
  · show (wrapS32 _) >>> (8 : Nat) = 7
    rw [hX]
    decide
  · rw [truncToInt_of_nonneg (by unfold sevenTenths smallEnv; norm_num), hfl]
    decide

/-- C11, amended: for texture coordinates `u`, `v` in [0,1] and a bound texture of width
`W` and height `H` below `2^23`, the transform stage produces the fixed-point coordinates
`trunc(r) * 256`, where `r` is the product `u * W`, respectively `v * H`, rounded to
single precision: the low 8 bits are zero, the integer part (`coord >> 8`) lies between
`floor(u * W)` and `ceil(u * W)`, it is `floor(u * W)` whenever the product is a float,
and the coordinate lies between `0` and `256 * W`, respectively `256 * H`. -/
theorem fixedPoint_texture_coordinate (env : TransformEnv) (pos : Vec4) (u v : ℚ)
    (hu0 : 0 ≤ u) (hu1 : u ≤ 1) (hv0 : 0 ≤ v) (hv1 : v ≤ 1)
    (hW : env.textureSizeWidth < 2 ^ 23) (hH : env.textureSizeHeight < 2 ^ 23) :
    ∃ p, projectPoint env pos u v = some p ∧
      p.TCoordsX = truncToInt (f32RoundFinite (u * (env.textureSizeWidth : ℚ))) * 256 ∧
      p.TCoordsY = truncToInt (f32RoundFinite (v * (env.textureSizeHeight : ℚ))) * 256 ∧
      p.TCoordsX % 256 = 0 ∧ p.TCoordsY % 256 = 0 ∧
      Int.floor (u * (env.textureSizeWidth : ℚ)) ≤ p.TCoordsX >>> (8 : Nat) ∧
      p.TCoordsX >>> (8 : Nat) ≤ Int.ceil (u * (env.textureSizeWidth : ℚ)) ∧
      Int.floor (v * (env.textureSizeHeight : ℚ)) ≤ p.TCoordsY >>> (8 : Nat) ∧
      p.TCoordsY >>> (8 : Nat) ≤ Int.ceil (v * (env.textureSizeHeight : ℚ)) ∧
      (isF32 (u * (env.textureSizeWidth : ℚ)) →
        p.TCoordsX >>> (8 : Nat) = Int.floor (u * (env.textureSizeWidth : ℚ))) ∧
      (isF32 (v * (env.textureSizeHeight : ℚ)) →
        p.TCoordsY >>> (8 : Nat) = Int.floor (v * (env.textureSizeHeight : ℚ))) ∧
      0 ≤ p.TCoordsX ∧ p.TCoordsX ≤ 256 * (env.textureSizeWidth : Int) ∧
      0 ≤ p.TCoordsY ∧ p.TCoordsY ≤ 256 * (env.textureSizeHeight : Int) := by
  obtain ⟨zDiv, hz⟩ := zDivOf_isSome pos.w
  obtain ⟨x1, x2, x3, x4, x5, x6, x7⟩ :=
    textureCoordinate_spec u env.textureSizeWidth hu0 hu1 hW
  obtain ⟨y1, y2, y3, y4, y5, y6, y7⟩ :=
    textureCoordinate_spec v env.textureSizeHeight hv0 hv1 hH
  have hx0 : 0 ≤ u * (env.textureSizeWidth : ℚ) := mul_nonneg hu0 (Nat.cast_nonneg _)
  have hy0 : 0 ≤ v * (env.textureSizeHeight : ℚ) := mul_nonneg hv0 (Nat.cast_nonneg _)
  refine ⟨_, projectPoint_eq env pos u v zDiv hz, x1, y1, ?_, ?_, ?_, ?_, ?_, ?_, ?_, ?_, ?_,
    ?_, ?_, ?_⟩
  · show (wrapS32 _) % 256 = 0
    rw [x1]; exact x2
  · show (wrapS32 _) % 256 = 0
    rw [y1]; exact y2
  · show _ ≤ (wrapS32 _) >>> (8 : Nat)
    rw [x1, x3]; exact x4
  · show (wrapS32 _) >>> (8 : Nat) ≤ _
    rw [x1, x3]; exact x5
  · show _ ≤ (wrapS32 _) >>> (8 : Nat)
    rw [y1, y3]; exact y4
  · show (wrapS32 _) >>> (8 : Nat) ≤ _
    rw [y1, y3]; exact y5
  · intro hf
    show (wrapS32 _) >>> (8 : Nat) = _
    rw [x1, x3, f32RoundFinite_of_isF32 _ hf, truncToInt_of_nonneg hx0]
  · intro hf
    show (wrapS32 _) >>> (8 : Nat) = _
    rw [y1, y3, f32RoundFinite_of_isF32 _ hf, truncToInt_of_nonneg hy0]
  · show 0 ≤ wrapS32 _
    rw [x1]; omega
  · show wrapS32 _ ≤ _
    rw [x1]; omega
  · show 0 ≤ wrapS32 _
    rw [y1]; omega
  · show wrapS32 _ ≤ _
    rw [y1]; omega

/-- The amended theorem for C11 applied to the texture coordinate (1/2, 1/2) on the 2 x 2
texture of the sample environment. -/
theorem fixedPoint_texture_coordinate_witness :
    ((0 : ℚ) ≤ 1 / 2 ∧ (1 / 2 : ℚ) ≤ 1 ∧ sampleEnv.textureSizeWidth < 2 ^ 23 ∧
      sampleEnv.textureSizeHeight < 2 ^ 23) ∧
    ∃ p, projectPoint sampleEnv { x := 0, y := 0, z := 0, w := 1 } (1 / 2) (1 / 2) = some p ∧
      p.TCoordsX =
        truncToInt (f32RoundFinite (1 / 2 * (sampleEnv.textureSizeWidth : ℚ))) * 256 ∧
      p.TCoordsY =
        truncToInt (f32RoundFinite (1 / 2 * (sampleEnv.textureSizeHeight : ℚ))) * 256 ∧
      p.TCoordsX % 256 = 0 ∧ p.TCoordsY % 256 = 0 ∧
      Int.floor (1 / 2 * (sampleEnv.textureSizeWidth : ℚ)) ≤ p.TCoordsX >>> (8 : Nat) ∧
      p.TCoordsX >>> (8 : Nat) ≤ Int.ceil (1 / 2 * (sampleEnv.textureSizeWidth : ℚ)) ∧
      Int.floor (1 / 2 * (sampleEnv.textureSizeHeight : ℚ)) ≤ p.TCoordsY >>> (8 : Nat) ∧
      p.TCoordsY >>> (8 : Nat) ≤ Int.ceil (1 / 2 * (sampleEnv.textureSizeHeight : ℚ)) ∧
      (isF32 (1 / 2 * (sampleEnv.textureSizeWidth : ℚ)) →
        p.TCoordsX >>> (8 : Nat) = Int.floor (1 / 2 * (sampleEnv.textureSizeWidth : ℚ))) ∧
      (isF32 (1 / 2 * (sampleEnv.textureSizeHeight : ℚ)) →
        p.TCoordsY >>> (8 : Nat) = Int.floor (1 / 2 * (sampleEnv.textureSizeHeight : ℚ))) ∧
      0 ≤ p.TCoordsX ∧ p.TCoordsX ≤ 256 * (sampleEnv.textureSizeWidth : Int) ∧
      0 ≤ p.TCoordsY ∧ p.TCoordsY ≤ 256 * (sampleEnv.textureSizeHeight : Int) :=
  ⟨⟨by norm_num, by norm_num, by decide, by decide⟩,
   fixedPoint_texture_coordinate sampleEnv { x := 0, y := 0, z := 0, w := 1 } (1 / 2) (1 / 2)
     (by norm_num) (by norm_num) (by norm_num) (by norm_num) (by decide) (by decide)⟩

/-- The texel of the texture coordinate (1/2, 1/2) on a 2 x 2 texture is (1, 1). -/
theorem texel_of_half_on_two_by_two :
    ∃ p, projectPoint sampleEnv { x := 0, y := 0, z := 0, w := 1 } (1 / 2) (1 / 2) = some p ∧
      p.TCoordsX >>> (8 : Nat) = 1 ∧ p.TCoordsY >>> (8 : Nat) = 1 := by
  have hone : f32RoundFinite (1 / 2 * ((2 : Nat) : ℚ)) = ((1 : Int) : ℚ) := by
    have := f32RoundFinite_intCast 1 (by norm_num)
    norm_num at this ⊢
    exact this
  obtain ⟨x1, -, x3, -⟩ := textureCoordinate_spec (1 / 2) 2 (by norm_num) (by norm_num)
    (by norm_num)
  rw [hone, truncToInt_intCast] at x1 x3
  refine ⟨_, projectPoint_eq sampleEnv _ _ _ _ zDivOf_one, ?_, ?_⟩
  · show (wrapS32 _) >>> (8 : Nat) = 1
    exact x1 ▸ x3
  · show (wrapS32 _) >>> (8 : Nat) = 1
    exact x1 ▸ x3

end TextureCoordinates

/-! ### The clipper refines its specification -/

section ClipperRefinement

open EIntersectionRelation3D

variable {V : Type} (classify : Nat → V → EIntersectionRelation3D)
  (vertices : Nat → V) (indexList : Nat → Nat)

theorem insideTriangles_succ (n : Nat) :
    insideTriangles classify vertices indexList (n + 1) =
      insideTriangles classify vertices indexList n ++
        (if fullyInside classify (vertices (indexList (n * 3 + 0)))
            (vertices (indexList (n * 3 + 1))) (vertices (indexList (n * 3 + 2)))
          then [inputTriangle vertices indexList n] else []) := by
  unfold insideTriangles
  rw [List.range_succ, List.filter_append, List.map_append]
  congr 1
  by_cases h : fullyInside classify (vertices (indexList (n * 3 + 0)))
      (vertices (indexList (n * 3 + 1))) (vertices (indexList (n * 3 + 2)))
  · rw [if_pos h, List.filter_cons_of_pos (by simpa using h)]
    rfl
  · rw [if_neg h, List.filter_cons_of_neg (by simpa using h)]
    rfl

theorem insideTriangles_length_le (n : Nat) :
    (insideTriangles classify vertices indexList n).length ≤ n := by
  unfold insideTriangles
  rw [List.length_map]
  exact le_trans (List.length_filter_le _ _) (le_of_eq (List.length_range n))

theorem flatten_length_of_triangles (ts : List (List V)) (h : ∀ t ∈ ts, t.length = 3) :
    ts.flatten.length = 3 * ts.length := by
  induction ts with
  | nil => rfl
  | cons t ts ih =>
    rw [List.flatten_cons, List.length_append, ih (fun s hs => h s (List.mem_cons_of_mem _ hs)),
      h t (List.mem_cons_self _ _), List.length_cons]
    omega

theorem insideTriangles_all_length (n : Nat) :
    ∀ t ∈ insideTriangles classify vertices indexList n, t.length = 3 := by
  intro t ht
  unfold insideTriangles at ht
  obtain ⟨i, -, rfl⟩ := List.mem_map.mp ht
  rfl

theorem clippedVerticesSpec_length (n : Nat) :
    (clippedVerticesSpec classify vertices indexList n).length =
      3 * min cappedTriangleCount (insideTriangles classify vertices indexList n).length := by
  unfold clippedVerticesSpec
  rw [flatten_length_of_triangles, List.length_take]
  intro t ht
  exact insideTriangles_all_length classify vertices indexList n t (List.mem_of_mem_take ht)

theorem clipLoop_refines (n : Nat) :
    ∃ st, clipLoop classify vertices indexList n = some st ∧
      st.tClpBuf = [] ∧
      st.clippedVertices = clippedVerticesSpec classify vertices indexList n ∧
      st.clippedIndices = List.range st.clippedVertices.length := by
  induction n with
  | zero =>
    exact ⟨{ tClpBuf := [], clippedVertices := [], clippedIndices := [] }, rfl, rfl, rfl, rfl⟩
  | succ n ih =>
    obtain ⟨st, hst, hbuf, hcv, hidx⟩ := ih
    have hlen := clippedVerticesSpec_length classify vertices indexList n
    rw [← hcv] at hlen
    have hl : st.clippedIndices.length = st.clippedVertices.length := by
      rw [hidx, List.length_range]
    by_cases hin : fullyInside classify (vertices (indexList (n * 3 + 0)))
        (vertices (indexList (n * 3 + 1))) (vertices (indexList (n * 3 + 2)))
    · by_cases hcap : (insideTriangles classify vertices indexList n).length <
          cappedTriangleCount
      · -- the triangle is inside and the cap is not reached: it is appended
        have hcap2 : (st.clippedIndices.length + 3) % 2 ^ 32 < 65535 := by
          unfold cappedTriangleCount at hcap hlen
          rw [Nat.mod_eq_of_lt (by omega)]
          omega
        refine ⟨{ tClpBuf := []
                  clippedVertices := st.clippedVertices ++
                    [vertices (indexList (n * 3 + 0)), vertices (indexList (n * 3 + 1)),
                      vertices (indexList (n * 3 + 2))]
                  clippedIndices := st.clippedIndices ++
                    [st.clippedVertices.length % 65536,
                      (st.clippedVertices.length + 1) % 65536,
                      (st.clippedVertices.length + 2) % 65536] }, ?_, rfl, ?_, ?_⟩
        · rw [clipLoop_succ, hst, Option.some_bind,
            clipTriangleStep_eq classify vertices indexList st hbuf, if_pos ⟨hin, hcap2⟩]
        · show st.clippedVertices ++ _ = _
          unfold clippedVerticesSpec
          rw [insideTriangles_succ, if_pos hin, List.take_of_length_le (by
            rw [List.length_append, List.length_singleton]; omega), List.flatten_append,
            ← List.take_of_length_le (le_of_lt hcap)]
          rw [hcv]
          unfold clippedVerticesSpec
          simp [inputTriangle]
        · show st.clippedIndices ++ _ = _
          unfold cappedTriangleCount at hcap hlen
          simp only [List.length_append, List.length_cons, List.length_nil]
          rw [hidx, Nat.mod_eq_of_lt (by omega), Nat.mod_eq_of_lt (by omega),
            Nat.mod_eq_of_lt (by omega)]
          simp [List.range_succ]
      · -- the triangle is inside and the cap is reached: it is left out
        have hcap2 : ¬ (st.clippedIndices.length + 3) % 2 ^ 32 < 65535 := by
          unfold cappedTriangleCount at hcap hlen
          rw [Nat.mod_eq_of_lt (by omega)]
          omega
        refine ⟨{ st with tClpBuf := [] }, ?_, rfl, ?_, hidx⟩
        · rw [clipLoop_succ, hst, Option.some_bind,
            clipTriangleStep_eq classify vertices indexList st hbuf,
            if_neg (fun hc => hcap2 hc.2)]
        · show st.clippedVertices = _
          rw [hcv]
          unfold clippedVerticesSpec
          rw [insideTriangles_succ, if_pos hin, List.take_append_of_le_length (by omega)]
    · refine ⟨{ st with tClpBuf := [] }, ?_, rfl, ?_, hidx⟩
      · rw [clipLoop_succ, hst, Option.some_bind,
          clipTriangleStep_eq classify vertices indexList st hbuf, if_neg (fun hc => hin hc.1)]
      · show st.clippedVertices = _
        rw [hcv]
        unfold clippedVerticesSpec
        rw [insideTriangles_succ, if_neg hin, List.append_nil]

/-- C20: for every input triangle list the clipping loop returns, and its vertex output
is exactly the fully inside input triangles in input order, truncated by the cap (none is
left out while fewer than 21844 were emitted); they form a subsequence of the input
triangles, the number of output triangles does not exceed the number of input triangles,
every output vertex is an input vertex read through the index list, and the `k`-th output
index is `k`. -/
theorem clip_output_is_inside_subsequence (triangleCount : Nat) :
    ∃ st, clipLoop classify vertices indexList triangleCount = some st ∧
      st.clippedVertices =
        ((insideTriangles classify vertices indexList triangleCount).take
          cappedTriangleCount).flatten ∧
      ((insideTriangles classify vertices indexList triangleCount).length ≤
          cappedTriangleCount →
        st.clippedVertices =
          (insideTriangles classify vertices indexList triangleCount).flatten) ∧
      List.Sublist (insideTriangles classify vertices indexList triangleCount)
        ((List.range triangleCount).map (inputTriangle vertices indexList)) ∧
      st.clippedVertices.length / 3 ≤ triangleCount ∧
      st.clippedIndices.length / 3 ≤ triangleCount ∧
      (∀ x ∈ st.clippedVertices, ∃ j, j < 3 * triangleCount ∧ x = vertices (indexList j)) ∧
      (∀ k, k < st.clippedIndices.length → st.clippedIndices[k]? = some k) := by
  obtain ⟨st, hst, -, hcv, hidx⟩ := clipLoop_refines classify vertices indexList triangleCount
  have hlen := clippedVerticesSpec_length classify vertices indexList triangleCount
  rw [← hcv] at hlen
  have hle := insideTriangles_length_le classify vertices indexList triangleCount
  have hl : st.clippedIndices.length = st.clippedVertices.length := by
    rw [hidx, List.length_range]
  have hcount : st.clippedVertices.length / 3 ≤ triangleCount := by
    rw [hlen, Nat.mul_div_cancel_left _ (by decide : 0 < 3)]
    exact le_trans (min_le_right _ _) hle
  refine ⟨st, hst, hcv, ?_, ?_, hcount, by rw [hl]; exact hcount, ?_, ?_⟩
  · intro hfew
    rw [hcv]
    unfold clippedVerticesSpec
    rw [List.take_of_length_le hfew]
  · unfold insideTriangles
    exact List.Sublist.map _ (List.filter_sublist _)
  · intro x hx
    rw [hcv] at hx
    unfold clippedVerticesSpec at hx
    obtain ⟨t, ht, hxt⟩ := List.mem_flatten.mp hx
    have ht2 := List.mem_of_mem_take ht
    unfold insideTriangles at ht2
    obtain ⟨i, hi, rfl⟩ := List.mem_map.mp ht2
    have hi2 : i < triangleCount := List.mem_range.mp (List.mem_of_mem_filter hi)
    simp only [inputTriangle, List.mem_cons, List.mem_singleton, List.not_mem_nil,
      or_false] at hxt
    rcases hxt with rfl | rfl | rfl
    · exact ⟨i * 3 + 0, by omega, rfl⟩
    · exact ⟨i * 3 + 1, by omega, rfl⟩
    · exact ⟨i * 3 + 2, by omega, rfl⟩
  · intro k hk
    rw [hidx]
    rw [hidx, List.length_range] at hk
    exact List.getElem?_range hk

/-- The theorem for C20 applied to the three sample triangles. -/
theorem clip_output_is_inside_subsequence_witness :
    ∃ st, clipLoop sampleClassify sampleVertices sampleIndexList 3 = some st ∧
      st.clippedVertices =
        ((insideTriangles sampleClassify sampleVertices sampleIndexList 3).take
          cappedTriangleCount).flatten ∧
      ((insideTriangles sampleClassify sampleVertices sampleIndexList 3).length ≤
          cappedTriangleCount →
        st.clippedVertices =
          (insideTriangles sampleClassify sampleVertices sampleIndexList 3).flatten) ∧
      List.Sublist (insideTriangles sampleClassify sampleVertices sampleIndexList 3)
        ((List.range 3).map (inputTriangle sampleVertices sampleIndexList)) ∧
      st.clippedVertices.length / 3 ≤ 3 ∧
      st.clippedIndices.length / 3 ≤ 3 ∧
      (∀ x ∈ st.clippedVertices, ∃ j, j < 3 * 3 ∧ x = sampleVertices (sampleIndexList j)) ∧
      (∀ k, k < st.clippedIndices.length → st.clippedIndices[k]? = some k) :=
  clip_output_is_inside_subsequence sampleClassify sampleVertices sampleIndexList 3

/-- The specification of the clipper on the three sample triangles: only the first one
is fully inside. -/
theorem insideTriangles_sample :
    insideTriangles sampleClassify sampleVertices sampleIndexList 3 = [[0, 5, 10]] := by
  decide

end ClipperRefinement

/-! ### Draw calls: rejected and ignored input -/

section DrawGuards

open E_PRIMITIVE_TYPE E_INDEX_TYPE

/-- C12: a call of `drawVertexPrimitiveList` whose index buffer has type `EIT_32BIT`
returns the driver state it was given, for every vertex buffer, descriptor, primitive
count and primitive type: no clip, transform or rasterizer call is made, and the render
target, the depth buffer and the driver state stay as they were. -/
theorem draw_rejects_32bit_indices (ext : Externals) (d : DriverState)
    (vertexBuffer : Option IVertexBuffer) (ib : IIndexBuffer)
    (descriptor : Option IVertexDescriptor) (primitiveCount : Nat) (pType : E_PRIMITIVE_TYPE)
    (h : ib.getType = EIT_32BIT) :
    drawVertexPrimitiveList ext d vertexBuffer (some ib) descriptor primitiveCount pType =
      some d := by
  unfold drawVertexPrimitiveList drawVertexPrimitiveListWith
  cases vertexBuffer <;> cases descriptor <;> simp [h]

/-- The theorem for C12 applied to a fan of one triangle with 32-bit indices on the
sample driver state. -/
theorem draw_rejects_32bit_indices_witness :
    sampleIndexBuffer32.getType = EIT_32BIT ∧
    drawVertexPrimitiveList sampleExternals sampleState (some sampleVertexBuffer)
      (some sampleIndexBuffer32) (some sampleDescriptor) 1 EPT_TRIANGLE_FAN =
      some sampleState :=
  ⟨rfl, draw_rejects_32bit_indices sampleExternals sampleState (some sampleVertexBuffer)
    sampleIndexBuffer32 (some sampleDescriptor) 1 EPT_TRIANGLE_FAN rfl⟩

/-- C13: for every primitive type other than triangle list, triangle fan, line list, line
strip and line loop, `drawVertexPrimitiveList` returns the driver state it was given:
no triangle and no line is submitted, and the render target, the depth buffer and the
driver state stay as they were. -/
theorem draw_ignores_other_primitive_types (ext : Externals) (d : DriverState)
    (vertexBuffer : Option IVertexBuffer) (indexBuffer : Option IIndexBuffer)
    (descriptor : Option IVertexDescriptor) (primitiveCount : Nat) (pType : E_PRIMITIVE_TYPE)
    (h : pType ≠ EPT_TRIANGLES ∧ pType ≠ EPT_TRIANGLE_FAN ∧ pType ≠ EPT_LINES ∧
      pType ≠ EPT_LINE_STRIP ∧ pType ≠ EPT_LINE_LOOP) :
    drawVertexPrimitiveList ext d vertexBuffer indexBuffer descriptor primitiveCount pType =
      some d := by
  obtain ⟨h1, h2, h3, h4, h5⟩ := h
  unfold drawVertexPrimitiveList drawVertexPrimitiveListWith
  cases vertexBuffer <;> cases indexBuffer <;> cases descriptor <;> try rfl
  rename_i vb ib desc
  dsimp only
  split_ifs
  · rfl
  · rfl
  · cases hP : desc.AttributeP
    · rfl
    · cases pType <;> first | rfl | contradiction

/-- The theorem for C13 applied to a triangle strip on the sample driver state. -/
theorem draw_ignores_other_primitive_types_witness :
    (EPT_TRIANGLE_STRIP ≠ EPT_TRIANGLES ∧ EPT_TRIANGLE_STRIP ≠ EPT_TRIANGLE_FAN ∧
      EPT_TRIANGLE_STRIP ≠ EPT_LINES ∧ EPT_TRIANGLE_STRIP ≠ EPT_LINE_STRIP ∧
      EPT_TRIANGLE_STRIP ≠ EPT_LINE_LOOP) ∧
    drawVertexPrimitiveList sampleExternals sampleState (some sampleVertexBuffer)
      (some sampleIndexBuffer) (some sampleDescriptor) 1 EPT_TRIANGLE_STRIP =
      some sampleState :=
  ⟨by decide,
   draw_ignores_other_primitive_types sampleExternals sampleState (some sampleVertexBuffer)
     (some sampleIndexBuffer) (some sampleDescriptor) 1 EPT_TRIANGLE_STRIP (by decide)⟩

end DrawGuards

/-! ### Draw calls: triangle fans -/

section TriangleFan

open E_PRIMITIVE_TYPE E_INDEX_TYPE

theorem fanToList_succ (getIndex : Nat → Nat) (n : Nat) :
    fanToList getIndex (n + 1) =
      fanToList getIndex n ++ [getIndex 0, getIndex (n + 1), getIndex (n + 2)] := by
  unfold fanToList
  rw [List.range_succ, List.foldl_append]
  rfl

theorem fanToList_length (getIndex : Nat → Nat) (n : Nat) :
    (fanToList getIndex n).length = 3 * n := by
  induction n with
  | zero => rfl
  | succ n ih =>
    rw [fanToList_succ, List.length_append, ih]
    simp only [List.length_cons, List.length_nil]
    omega

theorem fanToList_getElem? (getIndex : Nat → Nat) (n t : Nat) (h : t < n) :
    (fanToList getIndex n)[3 * t]? = some (getIndex 0) ∧
    (fanToList getIndex n)[3 * t + 1]? = some (getIndex (t + 1)) ∧
    (fanToList getIndex n)[3 * t + 2]? = some (getIndex (t + 2)) := by
  induction n with
  | zero => exact absurd h (Nat.not_lt_zero t)
  | succ n ih =>
    rw [fanToList_succ]
    have hlen := fanToList_length getIndex n
    by_cases ht : t < n
    · obtain ⟨h0, h1, h2⟩ := ih ht
      refine ⟨?_, ?_, ?_⟩
      · rw [List.getElem?_append_left (by omega)]; exact h0
      · rw [List.getElem?_append_left (by omega)]; exact h1
      · rw [List.getElem?_append_left (by omega)]; exact h2
    · have hte : t = n := by omega
      subst hte
      refine ⟨?_, ?_, ?_⟩
      · rw [List.getElem?_append_right (by omega)]
        have : 3 * t - (fanToList getIndex t).length = 0 := by omega
        rw [this]; rfl
      · rw [List.getElem?_append_right (by omega)]
        have : 3 * t + 1 - (fanToList getIndex t).length = 1 := by omega
        rw [this]; rfl
      · rw [List.getElem?_append_right (by omega)]
        have : 3 * t + 2 - (fanToList getIndex t).length = 2 := by omega
        rw [this]; rfl

theorem indicesOf_of_getElem? (L : List Nat) (k v : Nat) (h : L[k]? = some v) :
    indicesOf L k = v := by
  unfold indicesOf
  rw [List.getD_eq_getElem?_getD, h]
  rfl

theorem fan_inputTriangle {V : Type} (vertices : Nat → V) (getIndex : Nat → Nat) (n t : Nat)
    (h : t < n) :
    inputTriangle vertices (indicesOf (fanToList getIndex n)) t =
      [vertices (getIndex 0), vertices (getIndex (t + 1)), vertices (getIndex (t + 2))] := by
  obtain ⟨h0, h1, h2⟩ := fanToList_getElem? getIndex n t h
  unfold inputTriangle
  have e0 : t * 3 + 0 = 3 * t := by omega
  have e1 : t * 3 + 1 = 3 * t + 1 := by omega
  have e2 : t * 3 + 2 = 3 * t + 2 := by omega
  rw [e0, e1, e2, indicesOf_of_getElem? _ _ _ h0, indicesOf_of_getElem? _ _ _ h1,
    indicesOf_of_getElem? _ _ _ h2]

/-- C14, amended: a triangle fan with primitive count `n >= 1` that is drawn with a 16-bit
index buffer, a descriptor with a position attribute and a vertex buffer in a built-in
vertex format is converted to a triangle list of exactly `3 n` indices whose `t`-th
triangle is (`i[0]`, `i[t+1]`, `i[t+2]`) in that order, and the call is the clipper call
on that list with the same primitive count `n`. -/
theorem fan_converted_and_passed_to_clipper (ext : Externals) (d : DriverState)
    (vb : IVertexBuffer) (ib : IIndexBuffer) (desc : IVertexDescriptor) (n : Nat)
    (hn : 1 ≤ n) (h16 : ib.getType = EIT_16BIT) (hP : desc.AttributeP.isSome)
    (hsize : vb.getVertexSize = ext.sizeofS3DVertex ∨
      vb.getVertexSize = ext.sizeofS3DVertex2TCoords ∨
      vb.getVertexSize = ext.sizeofS3DVertexTangents) :
    (fanToList ib.getIndex n).length = 3 * n ∧
    (∀ t, t < n →
      (fanToList ib.getIndex n)[3 * t]? = some (ib.getIndex 0) ∧
      (fanToList ib.getIndex n)[3 * t + 1]? = some (ib.getIndex (t + 1)) ∧
      (fanToList ib.getIndex n)[3 * t + 2]? = some (ib.getIndex (t + 2))) ∧
    (∀ t, t < n →
      inputTriangle vb.getVertices (indicesOf (fanToList ib.getIndex n)) t =
        [vb.getVertices (ib.getIndex 0), vb.getVertices (ib.getIndex (t + 1)),
          vb.getVertices (ib.getIndex (t + 2))]) ∧
    drawVertexPrimitiveList ext d (some vb) (some ib) (some desc) n EPT_TRIANGLE_FAN =
      drawClippedIndexedTriangleListT ext d vb.getVertices vb.getVertexCount
        (indicesOf (fanToList ib.getIndex n)) n := by
  refine ⟨fanToList_length _ _, fun t ht => fanToList_getElem? _ _ _ ht,
    fun t ht => fan_inputTriangle _ _ _ _ ht, ?_⟩
  obtain ⟨offsetP, hoff⟩ := Option.isSome_iff_exists.mp hP
  unfold drawVertexPrimitiveList drawVertexPrimitiveListWith
  have hn0 : n ≠ 0 := by omega
  simp only [hn0, h16, hoff, if_false, drawByVertexSize, hsize, if_true]
  simp

/-- The amended theorem for C14 applied to a fan of two triangles on the sample buffers. -/
theorem fan_converted_and_passed_to_clipper_witness :
    (1 ≤ 2 ∧ sampleIndexBuffer.getType = EIT_16BIT ∧ sampleDescriptor.AttributeP.isSome ∧
      (sampleVertexBuffer.getVertexSize = sampleExternals.sizeofS3DVertex ∨
        sampleVertexBuffer.getVertexSize = sampleExternals.sizeofS3DVertex2TCoords ∨
        sampleVertexBuffer.getVertexSize = sampleExternals.sizeofS3DVertexTangents)) ∧
    ((fanToList sampleIndexBuffer.getIndex 2).length = 3 * 2 ∧
    (∀ t, t < 2 →
      (fanToList sampleIndexBuffer.getIndex 2)[3 * t]? = some (sampleIndexBuffer.getIndex 0) ∧
      (fanToList sampleIndexBuffer.getIndex 2)[3 * t + 1]? =
        some (sampleIndexBuffer.getIndex (t + 1)) ∧
      (fanToList sampleIndexBuffer.getIndex 2)[3 * t + 2]? =
        some (sampleIndexBuffer.getIndex (t + 2))) ∧
    (∀ t, t < 2 →
      inputTriangle sampleVertexBuffer.getVertices
          (indicesOf (fanToList sampleIndexBuffer.getIndex 2)) t =
        [sampleVertexBuffer.getVertices (sampleIndexBuffer.getIndex 0),
          sampleVertexBuffer.getVertices (sampleIndexBuffer.getIndex (t + 1)),
          sampleVertexBuffer.getVertices (sampleIndexBuffer.getIndex (t + 2))]) ∧
    drawVertexPrimitiveList sampleExternals sampleState (some sampleVertexBuffer)
        (some sampleIndexBuffer) (some sampleDescriptor) 2 EPT_TRIANGLE_FAN =
      drawClippedIndexedTriangleListT sampleExternals sampleState
        sampleVertexBuffer.getVertices sampleVertexBuffer.getVertexCount
        (indicesOf (fanToList sampleIndexBuffer.getIndex 2)) 2) :=
  ⟨⟨by decide, rfl, rfl, Or.inl rfl⟩,
   fan_converted_and_passed_to_clipper sampleExternals sampleState sampleVertexBuffer
     sampleIndexBuffer sampleDescriptor 2 (by decide) rfl rfl (Or.inl rfl)⟩

/-- The fan 0, 1, 2, 3 of two triangles becomes the list 0, 1, 2, 0, 2, 3. -/
theorem fanToList_sample : fanToList sampleIndexBuffer.getIndex 2 = [0, 1, 2, 0, 2, 3] := by
  decide

end TriangleFan

/-! ### Draw calls: the triangle pipeline -/

section TrianglePipeline

open E_PRIMITIVE_TYPE E_INDEX_TYPE E_TRANSFORMATION_STATE

/-- The transformed point of a vertex, as a total function. -/
theorem transformVertex_isSome (env : TransformEnv) (projection view world : matrix4)
    (v : S3DVertex) : ∃ p, transformVertex env projection view world v = some p := by
  unfold transformVertex
  obtain ⟨zDiv, hz⟩ := zDivOf_isSome
    (multiplyWith1x4Matrix (worldViewProjection projection view world)
      { x := v.PosX, y := v.PosY, z := v.PosZ, w := 1 }).w
  exact ⟨_, projectPoint_eq env _ _ _ zDiv hz⟩

theorem transformStage_total (env : TransformEnv) (projection view world : matrix4)
    (vs : List S3DVertex) :
    ∃ tp, transformStage env projection view world vs = some tp ∧ tp.length = vs.length := by
  unfold transformStage
  induction vs with
  | nil => exact ⟨[], rfl, rfl⟩
  | cons v vs ih =>
    obtain ⟨tp, htp, hlen⟩ := ih
    obtain ⟨p, hp⟩ := transformVertex_isSome env projection view world v
    refine ⟨p :: tp, ?_, by simp [hlen]⟩
    rw [List.mapM_cons, hp, htp]
    rfl

theorem drawClipped_eq (ext : Externals) (d : DriverState)
    (vertices : Nat → S3DVertexC) (vertexCount : Nat) (indexList : Nat → Nat)
    (triangleCount : Nat) (renderer : ETriangleRenderer)
    (hRT : d.RenderTargetSurface.isSome) (hZ : d.ZBuffer.isSome) (hn : triangleCount ≠ 0)
    (hcheck : ext.checkPrimitiveCount triangleCount = true)
    (hcur : d.CurrentTriangleRenderer = some renderer) :
    ∃ st tp,
      clipLoop (frustumClassify ext d) vertices indexList triangleCount = some st ∧
      transformStage (transformEnvOf d) (d.TransformationMatrix ETS_PROJECTION)
        (d.TransformationMatrix ETS_VIEW) (d.TransformationMatrix ETS_WORLD)
        (st.clippedVertices.map (fun v => v.toS3DVertex)) = some tp ∧
      tp.length = st.clippedVertices.length ∧
      drawClippedIndexedTriangleListT ext d vertices vertexCount indexList triangleCount =
        some
          (if d.TransformedPoints = [] ∧ st.clippedVertices = [] then
            { d with
              PrimitivesDrawn := (d.PrimitivesDrawn + st.clippedIndices.length / 3) % 2 ^ 32 }
          else
            { d with
              PrimitivesDrawn := (d.PrimitivesDrawn + st.clippedIndices.length / 3) % 2 ^ 32
              TransformedPoints := tp ++ d.TransformedPoints.drop tp.length
              Rasterized := d.Rasterized ++
                [{ renderer := renderer
                   config := d.TriangleRenderers renderer
                   vertices := tp
                   indexList := st.clippedIndices
                   triangleCount := st.clippedIndices.length / 3 }] }) := by
  obtain ⟨st, hst, -⟩ := clipLoop_inv (frustumClassify ext d) vertices indexList triangleCount
  obtain ⟨tp, htp, hlen⟩ := transformStage_total (transformEnvOf d)
    (d.TransformationMatrix ETS_PROJECTION) (d.TransformationMatrix ETS_VIEW)
    (d.TransformationMatrix ETS_WORLD) (st.clippedVertices.map (fun v => v.toS3DVertex))
  rw [List.length_map] at hlen
  refine ⟨st, tp, hst, htp, hlen, ?_⟩
  have g1 : ¬ ((d.RenderTargetSurface.isNone || d.ZBuffer.isNone || triangleCount == 0) =
      true) := by
    obtain ⟨s, hs⟩ := Option.isSome_iff_exists.mp hRT
    obtain ⟨z, hz⟩ := Option.isSome_iff_exists.mp hZ
    rw [hs, hz]
    simp [hn]
  have g2 : ¬ ((!ext.checkPrimitiveCount triangleCount) = true) := by
    rw [hcheck]; decide
  unfold drawClippedIndexedTriangleListT
  rw [if_neg g1, if_neg g2, hst]
  simp only [Option.bind_eq_bind, Option.some_bind]
  by_cases hlt : d.TransformedPoints.length < st.clippedVertices.length
  · -- the array of transformed points is enlarged
    have hne : ¬ (d.TransformedPoints = [] ∧ st.clippedVertices = []) := by
      rintro ⟨-, h2⟩
      rw [h2] at hlt
      exact Nat.not_lt_zero _ hlt
    have hsu : (setUsed d.TransformedPoints st.clippedVertices.length).length =
        st.clippedVertices.length := by
      simp only [setUsed, List.length_append, List.length_replicate]
      omega
    have hsune : (setUsed d.TransformedPoints st.clippedVertices.length).isEmpty = false := by
      cases hsv : setUsed d.TransformedPoints st.clippedVertices.length with
      | nil => rw [hsv] at hsu; simp at hsu; omega
      | cons _ _ => rfl
    have hdrop : (setUsed d.TransformedPoints st.clippedVertices.length).drop tp.length = [] := by
      apply List.drop_eq_nil_of_le
      omega
    have hdrop2 : d.TransformedPoints.drop tp.length = [] := by
      apply List.drop_eq_nil_of_le
      omega
    rw [if_pos hlt]
    simp only [hsune, Bool.false_eq_true, if_false, htp, hcur, Option.some_bind, hdrop, hdrop2,
      if_neg hne]
  · rw [if_neg hlt]
    by_cases hemp : d.TransformedPoints = []
    · have hcv : st.clippedVertices = [] := by
        rw [hemp] at hlt
        exact List.eq_nil_of_length_eq_zero (by simpa using hlt)
      have hie : d.TransformedPoints.isEmpty = true := by rw [hemp]; rfl
      have hcond : d.TransformedPoints = [] ∧ st.clippedVertices = [] := ⟨hemp, hcv⟩
      simp only [hie, if_true, if_pos hcond]
    · have hne : ¬ (d.TransformedPoints = [] ∧ st.clippedVertices = []) := fun h => hemp h.1
      have hie : d.TransformedPoints.isEmpty = false := by
        cases hTP : d.TransformedPoints with
        | nil => exact absurd hTP hemp
        | cons _ _ => rfl
      simp only [hie, Bool.false_eq_true, if_false, htp, hcur, Option.some_bind, if_neg hne]

end TrianglePipeline

/-! ### Draw calls: early returns and complete runs -/

section DrawCompletion

open E_PRIMITIVE_TYPE E_INDEX_TYPE E_TRANSFORMATION_STATE

theorem drawVertexPrimitiveList_triangles (ext : Externals) (d : DriverState)
    (vb : IVertexBuffer) (ib : IIndexBuffer) (desc : IVertexDescriptor) (n : Nat)
    (pType : E_PRIMITIVE_TYPE) (hn : n ≠ 0) (h16 : ib.getType = EIT_16BIT)
    (hP : desc.AttributeP.isSome) (hT : pType = EPT_TRIANGLES ∨ pType = EPT_TRIANGLE_FAN)
    (hsize : vb.getVertexSize = ext.sizeofS3DVertex ∨
      vb.getVertexSize = ext.sizeofS3DVertex2TCoords ∨
      vb.getVertexSize = ext.sizeofS3DVertexTangents) :
    drawVertexPrimitiveList ext d (some vb) (some ib) (some desc) n pType =
      drawClippedIndexedTriangleListT ext d vb.getVertices vb.getVertexCount
        (IndexPointer ib n pType) n := by
  obtain ⟨offsetP, hoff⟩ := Option.isSome_iff_exists.mp hP
  unfold drawVertexPrimitiveList drawVertexPrimitiveListWith IndexPointer
  rcases hT with rfl | rfl <;>
    simp [hn, h16, hoff, drawByVertexSize, hsize]

end DrawCompletion

/-! ### Draw calls: the claims on early returns, complete runs and fans -/

section DrawClaims

open E_PRIMITIVE_TYPE E_INDEX_TYPE E_TRANSFORMATION_STATE

end DrawClaims

/-! ### Draw calls on the sample data -/

section DrawSamples

open E_PRIMITIVE_TYPE E_INDEX_TYPE E_TRANSFORMATION_STATE EIntersectionRelation3D

theorem sample_not_front (d : DriverState) (p k : Nat) (hk : k ≤ 10) :
    frustumClassify sampleExternals d p (sampleVertexBuffer.getVertices k) ≠ ISREL3D_FRONT := by
  have h1 : ((k : Nat) : ℚ) ≤ 10 := by exact_mod_cast hk
  have h2 : (0 : ℚ) ≤ (p : ℚ) := Nat.cast_nonneg p
  have h3 : ¬ ((k : ℚ) > 10 + (p : ℚ)) := by
    intro h
    linarith
  simp only [frustumClassify, sampleExternals, sampleVertexBuffer, S3DVertexC.Pos, if_neg h3]
  decide

/-- The clip loop on the first sample triangle, read through an index list that starts
0, 1, 2: the triangle is emitted. -/
theorem sample_clipLoop (d : DriverState) (indexList : Nat → Nat) (h0 : indexList 0 = 0)
    (h1 : indexList 1 = 1) (h2 : indexList 2 = 2) :
    clipLoop (frustumClassify sampleExternals d) sampleVertexBuffer.getVertices indexList 1 =
      some
        { tClpBuf := []
          clippedVertices := [sampleVertexBuffer.getVertices 0,
            sampleVertexBuffer.getVertices 1, sampleVertexBuffer.getVertices 2]
          clippedIndices := [0, 1, 2] } := by
  have hin : fullyInside (frustumClassify sampleExternals d)
      (sampleVertexBuffer.getVertices (indexList (0 * 3 + 0)))
      (sampleVertexBuffer.getVertices (indexList (0 * 3 + 1)))
      (sampleVertexBuffer.getVertices (indexList (0 * 3 + 2))) := by
    intro p _
    simp only [Nat.zero_mul, Nat.zero_add, h0, h1, h2]
    exact ⟨sample_not_front d p 0 (by decide), sample_not_front d p 1 (by decide),
      sample_not_front d p 2 (by decide)⟩
  obtain ⟨st, hst, hnext⟩ := clipLoop_succ_of_inside (frustumClassify sampleExternals d)
    sampleVertexBuffer.getVertices indexList 0 hin
  have hst0 : st = { tClpBuf := [], clippedVertices := [], clippedIndices := [] } := by
    have h : clipLoop (frustumClassify sampleExternals d) sampleVertexBuffer.getVertices
        indexList 0 = some { tClpBuf := [], clippedVertices := [], clippedIndices := [] } := rfl
    rw [h] at hst
    exact (Option.some.inj hst).symm
  subst hst0
  have := hnext (by decide)
  simpa [h0, h1, h2] using this

/-- The clipper call on the first sample triangle changes the sample driver state. -/
theorem sample_drawClipped_changes (indexList : Nat → Nat) (h0 : indexList 0 = 0)
    (h1 : indexList 1 = 1) (h2 : indexList 2 = 2) :
    drawClippedIndexedTriangleListT sampleExternals sampleState sampleVertexBuffer.getVertices
      sampleVertexBuffer.getVertexCount indexList 1 ≠ some sampleState := by
  obtain ⟨st, tp, hst, -, -, heq⟩ := drawClipped_eq sampleExternals sampleState
    sampleVertexBuffer.getVertices sampleVertexBuffer.getVertexCount indexList 1
    ETriangleRenderer.ETR_FLAT rfl rfl (by decide) rfl rfl
  rw [sample_clipLoop sampleState indexList h0 h1 h2] at hst
  have hst2 := (Option.some.inj hst).symm
  subst hst2
  rw [heq, if_neg (by simp)]
  intro h
  have hR := congrArg DriverState.Rasterized (Option.some.inj h)
  simp [sampleState] at hR

/-- C14, as stated, fails: a fan on a 32-bit index buffer is not handed to the clipper.
The call returns the sample driver state unchanged, while the clipper call on the
converted list with the same primitive count changes it. -/
theorem fan_with_32bit_indices_not_passed :
    drawVertexPrimitiveList sampleExternals sampleState (some sampleVertexBuffer)
        (some sampleIndexBuffer32) (some sampleDescriptor) 1 EPT_TRIANGLE_FAN =
      some sampleState ∧
    drawVertexPrimitiveList sampleExternals sampleState (some sampleVertexBuffer)
        (some sampleIndexBuffer32) (some sampleDescriptor) 1 EPT_TRIANGLE_FAN ≠
      drawClippedIndexedTriangleListT sampleExternals sampleState
        sampleVertexBuffer.getVertices sampleVertexBuffer.getVertexCount
        (indicesOf (fanToList sampleIndexBuffer32.getIndex 1)) 1 := by
  have hret : drawVertexPrimitiveList sampleExternals sampleState (some sampleVertexBuffer)
      (some sampleIndexBuffer32) (some sampleDescriptor) 1 EPT_TRIANGLE_FAN =
      some sampleState := by
    unfold drawVertexPrimitiveList drawVertexPrimitiveListWith
    simp [sampleIndexBuffer32]
  refine ⟨hret, ?_⟩
  rw [hret]
  exact (sample_drawClipped_changes _ (by decide) (by decide) (by decide)).symm

/-- The sample triangle list of one triangle, drawn on the sample driver state, hands
one triangle of three transformed points to the flat renderer. -/
theorem sample_draw_rasterizes_one_triangle :
    ∃ d2, drawVertexPrimitiveList sampleExternals sampleState (some sampleVertexBuffer)
        (some sampleIndexBuffer) (some sampleDescriptor) 1 EPT_TRIANGLES = some d2 ∧
      d2.PrimitivesDrawn = 1 ∧ d2.TransformedPoints.length = 3 ∧
      d2.Rasterized.map (fun c => (c.renderer, c.indexList, c.triangleCount)) =
        [(ETriangleRenderer.ETR_FLAT, [0, 1, 2], 1)] := by
  rw [drawVertexPrimitiveList_triangles sampleExternals sampleState sampleVertexBuffer
    sampleIndexBuffer sampleDescriptor 1 EPT_TRIANGLES (by decide) rfl rfl (Or.inl rfl)
    (Or.inl rfl)]
  obtain ⟨st, tp, hst, -, hlen, heq⟩ := drawClipped_eq sampleExternals sampleState
    sampleVertexBuffer.getVertices sampleVertexBuffer.getVertexCount
    (IndexPointer sampleIndexBuffer 1 EPT_TRIANGLES) 1
    ETriangleRenderer.ETR_FLAT rfl rfl (by decide) rfl rfl
  rw [sample_clipLoop sampleState _ rfl rfl rfl] at hst
  have hst2 := (Option.some.inj hst).symm
  subst hst2
  rw [heq, if_neg (by simp)]
  refine ⟨_, rfl, ?_, ?_, ?_⟩
  · rfl
  · simp [sampleState, hlen]
  · simp [sampleState]

end DrawSamples

/-! ### The quad of `draw3DLine` -/

section Line3D

open E_PRIMITIVE_TYPE E_INDEX_TYPE E_TRANSFORMATION_STATE

theorem quadWindings_length {V W : Type} (k1 k2 : Bool) (a b c e : V) (pa pb pc pe : W) :
    (quadWindings k1 k2 pa pb pc pe).length = (quadWindings k1 k2 a b c e).length := by
  unfold quadWindings
  cases k1 <;> cases k2 <;> rfl

end Line3D

/-! ### Render target, viewport and material changes -/

section RenderTarget

theorem toS32_of_lt (x : Nat) (h : x < 2 ^ 31) : toS32 x = Int.ofNat x := by
  unfold toS32
  have h1 : x % 2 ^ 32 = x := Nat.mod_eq_of_lt (by omega)
  rw [h1, if_pos h]

theorem toS32_le (x : Nat) : toS32 x ≤ Int.ofNat x := by
  unfold toS32
  have h1 : x % 2 ^ 32 ≤ x := Nat.mod_le _ _
  have h2 : Int.ofNat (x % 2 ^ 32) ≤ Int.ofNat x := Int.ofNat_le.mpr h1
  split_ifs <;> omega

theorem clipAgainst_self_of_nonneg (W H : Nat) :
    Rect.clipAgainst { ULX := 0, ULY := 0, LRX := (W : Int), LRY := (H : Int) }
        { ULX := 0, ULY := 0, LRX := (W : Int), LRY := (H : Int) } =
      { ULX := 0, ULY := 0, LRX := (W : Int), LRY := (H : Int) } := by
  have hW : ¬ ((0 : Int) > (W : Int)) := by simp
  have hH : ¬ ((0 : Int) > (H : Int)) := by simp
  simp [Rect.clipAgainst, hW, hH]

theorem setRenderTarget_eq (d : DriverState) (image : Option Nat) :
    setRenderTarget d image =
      ((setRenderTargetSteps d image).getD 4 d) := rfl

/-- The surface, the render-target size and the depth buffer after `setRenderTarget` with
a non-null image. -/
theorem setRenderTarget_some_fields (d : DriverState) (i : Nat) :
    (setRenderTarget d (some i)).RenderTargetSurface = some i ∧
    (setRenderTarget d (some i)).RenderTargetSize = d.ImageDimension i ∧
    (setRenderTarget d (some i)).ZBuffer = d.ZBuffer.map (fun _ => d.ImageDimension i) := by
  obtain ⟨_, _, _, RTS, _, _, _, _, ZB, _, _, _, _, _, _, _, _, _, ImageDimension, _⟩ := d
  cases ZB <;> cases RTS <;>
    simp [setRenderTarget, setRenderTargetSteps, setViewPort]

/-- The state after `setRenderTarget` with a non-null image whose width and height are
below `2^31`. -/
theorem setRenderTarget_some (d : DriverState) (i : Nat)
    (hW : (d.ImageDimension i).Width < 2 ^ 31) (hH : (d.ImageDimension i).Height < 2 ^ 31) :
    (setRenderTarget d (some i)).RenderTargetSurface = some i ∧
    (setRenderTarget d (some i)).RenderTargetSize = d.ImageDimension i ∧
    (setRenderTarget d (some i)).ViewPort =
      { ULX := 0, ULY := 0, LRX := Int.ofNat (d.ImageDimension i).Width,
        LRY := Int.ofNat (d.ImageDimension i).Height } ∧
    (setRenderTarget d (some i)).ViewPortSize = d.ImageDimension i ∧
    (setRenderTarget d (some i)).ZBuffer = d.ZBuffer.map (fun _ => d.ImageDimension i) := by
  obtain ⟨h1, h2, h5⟩ := setRenderTarget_some_fields d i
  refine ⟨h1, h2, ?_, ?_, h5⟩ <;>
  · obtain ⟨_, _, _, RTS, _, _, _, _, ZB, _, _, _, _, _, _, _, _, _, ImageDimension, _⟩ := d
    cases hD : ImageDimension i with
    | mk W H =>
      simp only [hD] at hW hH
      have hclip := clipAgainst_self_of_nonneg W H
      have tW := toS32_of_lt W hW
      have tH := toS32_of_lt H hH
      simp only [Int.ofNat_eq_coe] at tW tH
      cases ZB <;> cases RTS <;>
        simp [setRenderTarget, setRenderTargetSteps, setViewPort, hD, hclip, Rect.getWidth,
          Rect.getHeight, tW, tH]

/-- The state after `setRenderTarget` with a null image. -/
theorem setRenderTarget_none (d : DriverState) :
    (setRenderTarget d none).RenderTargetSurface = none ∧
    (setRenderTarget d none).RenderTargetSize = { Width := 0, Height := 0 } ∧
    (setRenderTarget d none).ViewPort = { ULX := 0, ULY := 0, LRX := 0, LRY := 0 } ∧
    (setRenderTarget d none).ViewPortSize = { Width := 0, Height := 0 } ∧
    (setRenderTarget d none).ZBuffer = d.ZBuffer.map (fun _ => { Width := 0, Height := 0 }) := by
  obtain ⟨_, _, _, RTS, _, _, _, _, ZB, _, _, _, _, _, _, _, _, _, ImageDimension, _⟩ := d
  have t0 : toS32 0 = 0 := by decide
  cases ZB <;> cases RTS <;>
    simp [setRenderTarget, setRenderTargetSteps, setViewPort, Rect.clipAgainst, Rect.getWidth,
      Rect.getHeight, t0]

/-- C16, as stated, fails: an image of dimension `2^31` x 480, the image that `OnResize`
creates for a window of that width, is made the render target. Its width enters the
`rect<s32>` of the viewport as `-2^31`: the viewport is the empty rectangle
(-2^31,0)-(-2^31,480) and not (0,0)-(W,H), and the viewport size is 0 x 480 while the
render-target size and the depth buffer size are `2^31` x 480. A call of `OnResize` with
that size ends in such a state. -/
theorem setRenderTarget_wide_image_viewport_negative :
    imageOutlivesDrop wideImageState 3 ∧
    wideImageState.ImageDimension 3 = { Width := 2147483648, Height := 480 } ∧
    (setRenderTarget wideImageState (some 3)).RenderTargetSize =
      { Width := 2147483648, Height := 480 } ∧
    (setRenderTarget wideImageState (some 3)).ZBuffer =
      some { Width := 2147483648, Height := 480 } ∧
    (setRenderTarget wideImageState (some 3)).ViewPort =
      { ULX := -2147483648, ULY := 0, LRX := -2147483648, LRY := 480 } ∧
    (setRenderTarget wideImageState (some 3)).ViewPort ≠
      { ULX := 0, ULY := 0, LRX := 2147483648, LRY := 480 } ∧
    (setRenderTarget wideImageState (some 3)).ViewPortSize = { Width := 0, Height := 480 } ∧
    (setRenderTarget wideImageState (some 3)).ViewPortSize ≠
      (setRenderTarget wideImageState (some 3)).RenderTargetSize ∧
    (OnResize sampleState { Width := 2147483648, Height := 480 } 5).RenderTargetSize =
      { Width := 2147483648, Height := 480 } ∧
    (OnResize sampleState { Width := 2147483648, Height := 480 } 5).ViewPort =
      { ULX := -2147483648, ULY := 0, LRX := -2147483648, LRY := 480 } ∧
    (OnResize sampleState { Width := 2147483648, Height := 480 } 5).ViewPortSize =
      { Width := 0, Height := 480 } := by
  refine ⟨by decide, by decide, by decide, by decide, by decide, by decide, by decide,
    by decide, by decide, by decide, by decide⟩

/-- C16, amended: after `setRenderTarget(image)` with a non-null image of dimension
`W x H`, a live object that outlives the drop of the previous surface and whose width and
height are below `2^31`, that image is the current surface, `RenderTargetSize` is
`(W, H)`, the viewport is the rectangle (0,0)-(W,H) and a depth buffer, when the driver
has one, has the size `(W, H)`; with a null image there is no current surface and the
render-target size, the viewport and the depth buffer size are all `0 x 0`. In both cases
the viewport size and the depth buffer size equal the new render-target size. -/
theorem setRenderTarget_resizes_in_lockstep :
    (∀ (d : DriverState) (i : Nat), imageOutlivesDrop d i →
      (d.ImageDimension i).Width < 2 ^ 31 → (d.ImageDimension i).Height < 2 ^ 31 →
      (setRenderTarget d (some i)).RenderTargetSurface = some i ∧
      (setRenderTarget d (some i)).RenderTargetSize = d.ImageDimension i ∧
      (setRenderTarget d (some i)).ViewPort =
        { ULX := 0, ULY := 0, LRX := Int.ofNat (d.ImageDimension i).Width,
          LRY := Int.ofNat (d.ImageDimension i).Height } ∧
      (setRenderTarget d (some i)).ViewPortSize = d.ImageDimension i ∧
      (setRenderTarget d (some i)).ZBuffer = d.ZBuffer.map (fun _ => d.ImageDimension i)) ∧
    (∀ d : DriverState,
      (setRenderTarget d none).RenderTargetSurface = none ∧
      (setRenderTarget d none).RenderTargetSize = { Width := 0, Height := 0 } ∧
      (setRenderTarget d none).ViewPort = { ULX := 0, ULY := 0, LRX := 0, LRY := 0 } ∧
      (setRenderTarget d none).ViewPortSize = { Width := 0, Height := 0 } ∧
      (setRenderTarget d none).ZBuffer =
        d.ZBuffer.map (fun _ => { Width := 0, Height := 0 })) ∧
    (∀ (d : DriverState) (image : Option Nat),
      (∀ i, image = some i → imageOutlivesDrop d i ∧
        (d.ImageDimension i).Width < 2 ^ 31 ∧ (d.ImageDimension i).Height < 2 ^ 31) →
      (setRenderTarget d image).ViewPortSize = (setRenderTarget d image).RenderTargetSize ∧
      (setRenderTarget d image).ZBuffer =
        d.ZBuffer.map (fun _ => (setRenderTarget d image).RenderTargetSize)) := by
  refine ⟨fun d i _ hW hH => setRenderTarget_some d i hW hH, setRenderTarget_none, ?_⟩
  intro d image himg
  cases image with
  | none =>
    obtain ⟨-, h2, -, h4, h5⟩ := setRenderTarget_none d
    rw [h2, h4, h5]
    exact ⟨rfl, rfl⟩
  | some i =>
    obtain ⟨-, hW, hH⟩ := himg i rfl
    obtain ⟨-, h2, -, h4, h5⟩ := setRenderTarget_some d i hW hH
    rw [h2, h4, h5]
    exact ⟨rfl, rfl⟩

/-- The amended theorem for C16 applied to the sample driver state and the image with
handle 2, of dimension 256 x 128 and with one reference, while the back buffer is
current. -/
theorem setRenderTarget_resizes_in_lockstep_witness :
    (imageOutlivesDrop sampleState 2 ∧ (sampleState.ImageDimension 2).Width < 2 ^ 31 ∧
      (sampleState.ImageDimension 2).Height < 2 ^ 31) ∧
    ((setRenderTarget sampleState (some 2)).RenderTargetSurface = some 2 ∧
      (setRenderTarget sampleState (some 2)).RenderTargetSize = sampleState.ImageDimension 2 ∧
      (setRenderTarget sampleState (some 2)).ViewPort =
        { ULX := 0, ULY := 0, LRX := Int.ofNat (sampleState.ImageDimension 2).Width,
          LRY := Int.ofNat (sampleState.ImageDimension 2).Height } ∧
      (setRenderTarget sampleState (some 2)).ViewPortSize = sampleState.ImageDimension 2 ∧
      (setRenderTarget sampleState (some 2)).ZBuffer =
        sampleState.ZBuffer.map (fun _ => sampleState.ImageDimension 2)) :=
  ⟨⟨by decide, by decide, by decide⟩,
   setRenderTarget_resizes_in_lockstep.1 sampleState 2 (by decide) (by decide) (by decide)⟩

/-- The back buffer of the sample driver state replaced as render target by the image
with handle 2, of dimension 256 x 128. -/
theorem setRenderTarget_sample :
    (setRenderTarget sampleState (some 2)).RenderTargetSurface = some 2 ∧
    (setRenderTarget sampleState (some 2)).RenderTargetSize = { Width := 256, Height := 128 } ∧
    (setRenderTarget sampleState (some 2)).ViewPort =
      { ULX := 0, ULY := 0, LRX := 256, LRY := 128 } ∧
    (setRenderTarget sampleState (some 2)).ZBuffer = some { Width := 256, Height := 128 } ∧
    (setRenderTarget sampleState (some 2)).ReferenceCounter 1 = 1 ∧
    (setRenderTarget sampleState (some 2)).ReferenceCounter 2 = 2 := by
  decide

theorem setRenderTargetSteps_counter (d : DriverState) (image : Option Nat) (h : Nat) :
    ∀ s ∈ setRenderTargetSteps d image,
      s.ReferenceCounter h =
          (match d.RenderTargetSurface with
            | some old => drop d.ReferenceCounter old h
            | none => d.ReferenceCounter h) ∨
      s.ReferenceCounter h =
          (match image with
            | some new =>
              grab (match d.RenderTargetSurface with
                | some old => drop d.ReferenceCounter old
                | none => d.ReferenceCounter) new h
            | none =>
              (match d.RenderTargetSurface with
                | some old => drop d.ReferenceCounter old h
                | none => d.ReferenceCounter h)) := by
  obtain ⟨_, _, _, RTS, _, _, _, _, ZB, _, _, _, _, _, _, _, _, _, _, _⟩ := d
  intro s hs
  cases ZB <;> cases RTS <;> cases image <;>
    simp [setRenderTargetSteps, setViewPort] at hs <;>
    rcases hs with rfl | rfl | rfl | rfl | rfl <;> simp

/-- C17, as stated, fails: when the surface passed in is the one already current and the
driver holds its only reference, the first step of the hand-off drops that reference,
the count of the surface that ends up current is zero, and only afterwards the surface
is grabbed again. -/
theorem setRenderTarget_sole_reference_reaches_zero :
    soleOwnerState.RenderTargetSurface = some 1 ∧
    soleOwnerState.ReferenceCounter 1 = 1 ∧
    (setRenderTarget soleOwnerState (some 1)).RenderTargetSurface = some 1 ∧
    (∃ s ∈ setRenderTargetSteps soleOwnerState (some 1), s.ReferenceCounter 1 = 0) ∧
    ((setRenderTargetSteps soleOwnerState (some 1)).map
        (fun s => s.ReferenceCounter 1)) = [0, 0, 1, 1, 1] := by
  refine ⟨rfl, rfl, by decide, ?_, by decide⟩
  refine ⟨(setRenderTargetSteps soleOwnerState (some 1)).getD 0 soleOwnerState, ?_, ?_⟩
  · simp [setRenderTargetSteps]
  · decide

/-- C17, amended: `setRenderTarget` releases the previous target first (in the first
state of the hand-off its count is already one lower, while it is still installed and
the new surface is not yet grabbed) and grabs the new one afterwards; the reference
count of the surface that ends up current stays at least 1 in every state of the
hand-off when that surface is not the one already current, or when it is and its count is
at least 2. -/
theorem setRenderTarget_releases_first_then_grabs (d : DriverState) (i : Nat)
    (hlive : 1 ≤ d.ReferenceCounter i)
    (hother : d.RenderTargetSurface ≠ some i ∨ 2 ≤ d.ReferenceCounter i) :
    (setRenderTarget d (some i)).RenderTargetSurface = some i ∧
    (∀ s ∈ setRenderTargetSteps d (some i), 1 ≤ s.ReferenceCounter i) ∧
    (∀ old, d.RenderTargetSurface = some old →
      ∃ s rest, setRenderTargetSteps d (some i) = s :: rest ∧
        s.RenderTargetSurface = some old ∧
        s.ReferenceCounter old = d.ReferenceCounter old - 1 ∧
        (old ≠ i → s.ReferenceCounter i = d.ReferenceCounter i)) := by
  refine ⟨(setRenderTarget_some_fields d i).1, ?_, ?_⟩
  · intro s hs
    have hc := setRenderTargetSteps_counter d (some i) i s hs
    cases hRTS : d.RenderTargetSurface with
    | none =>
      rw [hRTS] at hc
      simp only [grab, if_true] at hc
      omega
    | some old =>
      rw [hRTS] at hc
      simp only [grab, drop, if_true] at hc
      by_cases ho : old = i
      · subst ho
        have h2 : 2 ≤ d.ReferenceCounter old := by
          rcases hother with h | h
          · exact absurd hRTS h
          · exact h
        simp only [if_true] at hc
        omega
      · have ho2 : ¬ i = old := fun h => ho h.symm
        simp only [if_neg ho2] at hc
        omega
  · intro old hold
    obtain ⟨_, _, _, RTS, _, _, _, _, ZB, _, _, _, _, _, _, _, _, _, _, _⟩ := d
    simp only at hold
    subst hold
    refine ⟨_, _, rfl, rfl, ?_, ?_⟩
    · simp [drop]
    · intro hne
      have : ¬ i = old := fun h => hne h.symm
      simp [drop, this]

/-- The amended theorem for C17 applied to the sample driver state, whose back buffer
(count 2) is current, and the image with handle 2 (count 1). -/
theorem setRenderTarget_releases_first_then_grabs_witness :
    (1 ≤ sampleState.ReferenceCounter 2 ∧
      (sampleState.RenderTargetSurface ≠ some 2 ∨ 2 ≤ sampleState.ReferenceCounter 2)) ∧
    ((setRenderTarget sampleState (some 2)).RenderTargetSurface = some 2 ∧
    (∀ s ∈ setRenderTargetSteps sampleState (some 2), 1 ≤ s.ReferenceCounter 2) ∧
    (∀ old, sampleState.RenderTargetSurface = some old →
      ∃ s rest, setRenderTargetSteps sampleState (some 2) = s :: rest ∧
        s.RenderTargetSurface = some old ∧
        s.ReferenceCounter old = sampleState.ReferenceCounter old - 1 ∧
        (old ≠ 2 → s.ReferenceCounter 2 = sampleState.ReferenceCounter 2))) :=
  ⟨⟨by decide, Or.inl (by decide)⟩,
   setRenderTarget_releases_first_then_grabs sampleState 2 (by decide) (Or.inl (by decide))⟩

end RenderTarget

/-! ### Material changes -/

section Material

open E_DRIVER_TYPE

/-- The method `selectRightTriangleRenderer` on the whole driver state makes the variant
of the decision table current and configures it from the driver state. -/
theorem selectRightTriangleRenderer_state (d : DriverState) :
    d.selectRightTriangleRenderer.CurrentTriangleRenderer = some (tableVariant d.selection) ∧
    d.selectRightTriangleRenderer.TriangleRenderers (tableVariant d.selection) =
      { BackfaceCulling := d.Material.BackfaceCulling
        Texture := d.Texture.map (fun t => t.getTexture)
        RenderTarget := d.RenderTargetSurface
        ViewPort := d.ViewPort } ∧
    d.selectRightTriangleRenderer.selection.Texture = d.selection.Texture ∧
    d.selectRightTriangleRenderer.selection.Material = d.selection.Material := by
  have hsel := selectedRenderer_eq_table d.selection
  refine ⟨?_, ?_, rfl, rfl⟩
  · simp only [DriverState.selectRightTriangleRenderer, selectRightTriangleRenderer,
      switchToTriangleRenderer, hsel]
  · simp only [DriverState.selectRightTriangleRenderer, selectRightTriangleRenderer,
      switchToTriangleRenderer, hsel, if_true]
    cases hT : d.Texture <;> simp [DriverState.selection, hT]

theorem tableVariant_congr (a b : CSoftwareDriver) (hT : a.Texture = b.Texture)
    (hM : a.Material = b.Material) : tableVariant a = tableVariant b := by
  unfold tableVariant
  rw [hT, hM]

theorem setActiveTextureStore_fields (d : DriverState) (texture : Option ITexture) :
    (setActiveTextureStore d texture).Texture = texture ∧
    (setActiveTextureStore d texture).Material = d.Material ∧
    (setActiveTextureStore d texture).RenderTargetSurface = d.RenderTargetSurface ∧
    (setActiveTextureStore d texture).ViewPort = d.ViewPort := by
  unfold setActiveTextureStore
  cases texture <;> cases d.Texture <;> exact ⟨rfl, rfl, rfl, rfl⟩

/-- With a texture that is null or of the software driver `setActiveTexture` returns
true after it has stored the texture and selected the renderer anew. -/
theorem setActiveTexture_accepted_form (d : DriverState) (stage : Nat)
    (texture : Option ITexture)
    (h : ∀ t, texture = some t → t.getDriverType = EDT_SOFTWARE) :
    setActiveTexture d stage texture =
      (true, (setActiveTextureStore d texture).selectRightTriangleRenderer) := by
  cases texture with
  | none => simp only [setActiveTexture, Bool.false_eq_true, if_false]
  | some t =>
    have ht : t.getDriverType = EDT_SOFTWARE := h t rfl
    have hg : decide (t.getDriverType ≠ EDT_SOFTWARE) = false := by simp [ht]
    simp only [setActiveTexture, hg, Bool.false_eq_true, if_false]

/-- The state after `setActiveTexture` with a texture that is null or of the software
driver. -/
theorem setActiveTexture_accepted (d : DriverState) (stage : Nat) (texture : Option ITexture)
    (h : ∀ t, texture = some t → t.getDriverType = EDT_SOFTWARE) :
    (setActiveTexture d stage texture).1 = true ∧
    (setActiveTexture d stage texture).2.Texture = texture ∧
    (setActiveTexture d stage texture).2.Material = d.Material ∧
    (setActiveTexture d stage texture).2.RenderTargetSurface = d.RenderTargetSurface ∧
    (setActiveTexture d stage texture).2.ViewPort = d.ViewPort ∧
    (setActiveTexture d stage texture).2.CurrentTriangleRenderer =
      some (tableVariant (setActiveTexture d stage texture).2.selection) ∧
    (setActiveTexture d stage texture).2.TriangleRenderers
        (tableVariant (setActiveTexture d stage texture).2.selection) =
      { BackfaceCulling := d.Material.BackfaceCulling
        Texture := texture.map (fun t => t.getTexture)
        RenderTarget := d.RenderTargetSurface
        ViewPort := d.ViewPort } := by
  have heq := setActiveTexture_accepted_form d stage texture h
  obtain ⟨hT, hM, hR, hV⟩ := setActiveTextureStore_fields d texture
  obtain ⟨h1, h2, h3, h4⟩ := selectRightTriangleRenderer_state (setActiveTextureStore d texture)
  have htab : tableVariant (setActiveTextureStore d texture).selectRightTriangleRenderer.selection =
      tableVariant (setActiveTextureStore d texture).selection :=
    tableVariant_congr _ _ h3 h4
  rw [heq]
  refine ⟨rfl, hT, hM, hR, hV, ?_, ?_⟩
  · show (setActiveTextureStore d texture).selectRightTriangleRenderer.CurrentTriangleRenderer = _
    rw [htab]; exact h1
  · show (setActiveTextureStore d texture).selectRightTriangleRenderer.TriangleRenderers _ = _
    rw [htab, h2, hT, hM, hR, hV]

/-- C18, as stated, fails: a material whose texture belongs to another driver is stored,
but `setActiveTexture` refuses the texture before it selects a renderer, so the flat
renderer stays current although the table gives the Gouraud renderer for the new
material and the bound texture. -/
theorem setMaterial_foreign_texture_keeps_renderer :
    (setMaterial sampleExternals sampleState foreignMaterial).Material.GouraudShading = true ∧
    (setMaterial sampleExternals sampleState foreignMaterial).Texture = none ∧
    (setMaterial sampleExternals sampleState foreignMaterial).CurrentTriangleRenderer =
      some ETriangleRenderer.ETR_FLAT ∧
    tableVariant (setMaterial sampleExternals sampleState foreignMaterial).selection =
      ETriangleRenderer.ETR_GOURAUD ∧
    (setMaterial sampleExternals sampleState foreignMaterial).CurrentTriangleRenderer ≠
      some (tableVariant (setMaterial sampleExternals sampleState foreignMaterial).selection) := by
  decide

/-- C18, amended: after `setMaterial(m)` with a material whose texture (after the
override material is applied) is null or owned by the software driver, the driver's
material is the overridden `m`, its texture is the bound texture, the current triangle
renderer is the variant the decision table gives for the new material and bound
texture, and that renderer is configured with the new material's backface-culling flag,
the image of the material's texture (or none) and the render-target surface and
viewport, which are those from before the call. -/
theorem setMaterial_reselects_and_reconfigures (ext : Externals) (d : DriverState)
    (material : SMaterialFull)
    (h : ∀ t, (ext.overrideApply material).TextureLayer0 = some t →
      t.getDriverType = EDT_SOFTWARE) :
    (setMaterial ext d material).Material = ext.overrideApply material ∧
    (setMaterial ext d material).Texture = (ext.overrideApply material).TextureLayer0 ∧
    (setMaterial ext d material).CurrentTriangleRenderer =
      some (tableVariant (setMaterial ext d material).selection) ∧
    (setMaterial ext d material).TriangleRenderers
        (tableVariant (setMaterial ext d material).selection) =
      { BackfaceCulling := (ext.overrideApply material).BackfaceCulling
        Texture := (ext.overrideApply material).TextureLayer0.map (fun t => t.getTexture)
        RenderTarget := (setMaterial ext d material).RenderTargetSurface
        ViewPort := (setMaterial ext d material).ViewPort } ∧
    (setMaterial ext d material).RenderTargetSurface = d.RenderTargetSurface ∧
    (setMaterial ext d material).ViewPort = d.ViewPort := by
  obtain ⟨-, hT, hM, hR, hV, hcur, hcfg⟩ :=
    setActiveTexture_accepted { d with Material := ext.overrideApply material } 0
      (ext.overrideApply material).TextureLayer0 h
  refine ⟨hM, hT, hcur, ?_, hR, hV⟩
  show (setActiveTexture { d with Material := ext.overrideApply material } 0
      (ext.overrideApply material).TextureLayer0).2.TriangleRenderers _ = _
  have hsel : (setMaterial ext d material).selection =
      (setActiveTexture { d with Material := ext.overrideApply material } 0
        (ext.overrideApply material).TextureLayer0).2.selection := rfl
  have eR : (setMaterial ext d material).RenderTargetSurface = d.RenderTargetSurface := hR
  have eV : (setMaterial ext d material).ViewPort = d.ViewPort := hV
  rw [hsel, hcfg, eR, eV]

/-- The amended theorem for C18 applied to the sample driver state and a material with a
texture of the software driver. -/
theorem setMaterial_reselects_and_reconfigures_witness :
    (∀ t, (sampleExternals.overrideApply texturedMaterial).TextureLayer0 = some t →
      t.getDriverType = EDT_SOFTWARE) ∧
    ((setMaterial sampleExternals sampleState texturedMaterial).Material =
      sampleExternals.overrideApply texturedMaterial ∧
    (setMaterial sampleExternals sampleState texturedMaterial).Texture =
      (sampleExternals.overrideApply texturedMaterial).TextureLayer0 ∧
    (setMaterial sampleExternals sampleState texturedMaterial).CurrentTriangleRenderer =
      some (tableVariant (setMaterial sampleExternals sampleState texturedMaterial).selection) ∧
    (setMaterial sampleExternals sampleState texturedMaterial).TriangleRenderers
        (tableVariant (setMaterial sampleExternals sampleState texturedMaterial).selection) =
      { BackfaceCulling := (sampleExternals.overrideApply texturedMaterial).BackfaceCulling
        Texture := (sampleExternals.overrideApply texturedMaterial).TextureLayer0.map
          (fun t => t.getTexture)
        RenderTarget :=
          (setMaterial sampleExternals sampleState texturedMaterial).RenderTargetSurface
        ViewPort := (setMaterial sampleExternals sampleState texturedMaterial).ViewPort } ∧
    (setMaterial sampleExternals sampleState texturedMaterial).RenderTargetSurface =
      sampleState.RenderTargetSurface ∧
    (setMaterial sampleExternals sampleState texturedMaterial).ViewPort =
      sampleState.ViewPort) :=
  ⟨by
    intro t ht
    have h2 : t = softwareTexture := (Option.some.inj ht).symm
    rw [h2]
    rfl,
   setMaterial_reselects_and_reconfigures sampleExternals sampleState texturedMaterial (by
    intro t ht
    have h2 : t = softwareTexture := (Option.some.inj ht).symm
    rw [h2]
    rfl)⟩

/-- The sample material with a software texture selects the textured Gouraud renderer. -/
theorem setMaterial_sample :
    (setMaterial sampleExternals sampleState texturedMaterial).CurrentTriangleRenderer =
      some ETriangleRenderer.ETR_TEXTURE_GOURAUD := by
  decide

end Material

/-! ### The constants derived from the viewport -/

section ViewPortConstants

theorem clipAgainst_ordered (r other : Rect) :
    (r.clipAgainst other).ULX ≤ (r.clipAgainst other).LRX ∧
    (r.clipAgainst other).ULY ≤ (r.clipAgainst other).LRY := by
  simp only [Rect.clipAgainst]
  constructor <;> split_ifs <;> omega

/-- The size and the translation that `setViewPort` stores, as functions of the viewport
rectangle it stores. -/
theorem setViewPort_constants_of_viewport (d : DriverState) (area : Rect) :
    (setViewPort d area).ViewPortSize =
      { Width := (setViewPort d area).ViewPort.getWidth.toNat
        Height := (setViewPort d area).ViewPort.getHeight.toNat } ∧
    (setViewPort d area).Render2DTranslation =
      { X := Int.ofNat ((setViewPort d area).ViewPort.getWidth.toNat / 2) +
          (setViewPort d area).ViewPort.ULX
        Y := (setViewPort d area).ViewPort.ULY +
          Int.ofNat (setViewPort d area).ViewPort.getHeight.toNat -
          Int.ofNat ((setViewPort d area).ViewPort.getHeight.toNat / 2) } :=
  ⟨rfl, rfl⟩

/-- C21, as stated, fails: on a driver whose render target has the width `2^31` (the
state after `setRenderTarget` on the image that `OnResize` creates for a window of that
width) the call `setViewPort` with the area (0,0)-(100,100) clips against the `rect<s32>`
(0,0)-(-2^31,480). The viewport is the empty rectangle (-2^31,0)-(-2^31,100), the
viewport size is 0 x 100 and `Render2DTranslation.X` is `-2^31`, while the area clipped
against (0,0)-(RenderTargetSize) is (0,0)-(100,100), of size 100 x 100, with
`left + floor(width / 2) = 50`. -/
theorem setViewPort_clips_against_negative_size :
    (setRenderTarget wideImageState (some 3)).RenderTargetSize =
      { Width := 2147483648, Height := 480 } ∧
    Rect.clipAgainst { ULX := 0, ULY := 0, LRX := 100, LRY := 100 }
        { ULX := 0, ULY := 0, LRX := Int.ofNat 2147483648, LRY := Int.ofNat 480 } =
      { ULX := 0, ULY := 0, LRX := 100, LRY := 100 } ∧
    (setViewPort (setRenderTarget wideImageState (some 3))
        { ULX := 0, ULY := 0, LRX := 100, LRY := 100 }).ViewPort =
      { ULX := -2147483648, ULY := 0, LRX := -2147483648, LRY := 100 } ∧
    (setViewPort (setRenderTarget wideImageState (some 3))
        { ULX := 0, ULY := 0, LRX := 100, LRY := 100 }).ViewPortSize =
      { Width := 0, Height := 100 } ∧
    (setViewPort (setRenderTarget wideImageState (some 3))
        { ULX := 0, ULY := 0, LRX := 100, LRY := 100 }).Render2DTranslation =
      { X := -2147483648, Y := 50 } := by
  refine ⟨by decide, by decide, by decide, by decide, by decide⟩

/-- C21, amended: after `setViewPort(area)` the viewport is `V`, the rectangle `area`
clipped against the `rect<s32>` (0,0)-(RenderTargetSize), which is the rectangle
(0,0)-(W,H) of the render-target size `W x H` when `W` and `H` are below `2^31`;
`ViewPortSize` is the size of `V`, `Render2DTranslation.X` is `V.left + floor(V.width / 2)`
and `Render2DTranslation.Y` is `V.top + V.height - floor(V.height / 2)`. The constants
depend on `V` only: two calls, on any driver states and with any areas, that end with the
same viewport end with the same constants, so every call computes them anew from its
viewport. -/
theorem setViewPort_derives_constants (d : DriverState) (area : Rect) :
    (setViewPort d area).ViewPort =
      area.clipAgainst
        { ULX := 0, ULY := 0, LRX := toS32 d.RenderTargetSize.Width,
          LRY := toS32 d.RenderTargetSize.Height } ∧
    (d.RenderTargetSize.Width < 2 ^ 31 → d.RenderTargetSize.Height < 2 ^ 31 →
      (setViewPort d area).ViewPort =
        area.clipAgainst
          { ULX := 0, ULY := 0, LRX := Int.ofNat d.RenderTargetSize.Width,
            LRY := Int.ofNat d.RenderTargetSize.Height }) ∧
    Int.ofNat (setViewPort d area).ViewPortSize.Width =
      (setViewPort d area).ViewPort.getWidth ∧
    Int.ofNat (setViewPort d area).ViewPortSize.Height =
      (setViewPort d area).ViewPort.getHeight ∧
    (setViewPort d area).Render2DTranslation.X =
      (setViewPort d area).ViewPort.ULX + (setViewPort d area).ViewPort.getWidth / 2 ∧
    (setViewPort d area).Render2DTranslation.Y =
      (setViewPort d area).ViewPort.ULY + (setViewPort d area).ViewPort.getHeight -
        (setViewPort d area).ViewPort.getHeight / 2 ∧
    (∀ (d2 : DriverState) (area2 : Rect),
      (setViewPort d2 area2).ViewPort = (setViewPort d area).ViewPort →
      (setViewPort d2 area2).ViewPortSize = (setViewPort d area).ViewPortSize ∧
      (setViewPort d2 area2).Render2DTranslation =
        (setViewPort d area).Render2DTranslation) := by
  have hV : (setViewPort d area).ViewPort =
      area.clipAgainst
        { ULX := 0, ULY := 0, LRX := toS32 d.RenderTargetSize.Width,
          LRY := toS32 d.RenderTargetSize.Height } := rfl
  obtain ⟨hS, hT⟩ := setViewPort_constants_of_viewport d area
  have hord := clipAgainst_ordered area
    { ULX := 0, ULY := 0, LRX := toS32 d.RenderTargetSize.Width,
      LRY := toS32 d.RenderTargetSize.Height }
  rw [← hV] at hord
  have hw : 0 ≤ (setViewPort d area).ViewPort.getWidth := by
    have := hord.1
    simp only [Rect.getWidth]
    omega
  have hh : 0 ≤ (setViewPort d area).ViewPort.getHeight := by
    have := hord.2
    simp only [Rect.getHeight]
    omega
  refine ⟨hV, ?_, ?_, ?_, ?_, ?_, ?_⟩
  · intro hW hH
    rw [hV, toS32_of_lt _ hW, toS32_of_lt _ hH]
  · rw [hS]
    exact Int.toNat_of_nonneg hw
  · rw [hS]
    exact Int.toNat_of_nonneg hh
  · rw [hT]
    obtain ⟨n, hn⟩ := Int.eq_ofNat_of_zero_le hw
    rw [hn]
    simp only [Int.toNat_ofNat, Int.ofNat_eq_coe]
    omega
  · rw [hT]
    obtain ⟨n, hn⟩ := Int.eq_ofNat_of_zero_le hh
    rw [hn]
    simp only [Int.toNat_ofNat, Int.ofNat_eq_coe]
    omega
  · intro d2 area2 h
    obtain ⟨hS2, hT2⟩ := setViewPort_constants_of_viewport d2 area2
    rw [hS2, hT2, hS, hT, h]
    exact ⟨rfl, rfl⟩

/-- The amended theorem for C21 applied to the sample driver state, whose render target
is 640 x 480, and the area (100,50)-(700,300). -/
theorem setViewPort_derives_constants_witness :
    (sampleState.RenderTargetSize.Width < 2 ^ 31 ∧
      sampleState.RenderTargetSize.Height < 2 ^ 31) ∧
    (setViewPort sampleState { ULX := 100, ULY := 50, LRX := 700, LRY := 300 }).ViewPort =
      Rect.clipAgainst { ULX := 100, ULY := 50, LRX := 700, LRY := 300 }
        { ULX := 0, ULY := 0, LRX := Int.ofNat sampleState.RenderTargetSize.Width,
          LRY := Int.ofNat sampleState.RenderTargetSize.Height } :=
  ⟨⟨by decide, by decide⟩,
   (setViewPort_derives_constants sampleState
     { ULX := 100, ULY := 50, LRX := 700, LRY := 300 }).2.1 (by decide) (by decide)⟩

/-- The viewport (100,50)-(700,300) set on the sample driver state, whose render target
is 640 x 480: the rectangle is cut to (100,50)-(640,300), the size is 540 x 250 and the
translation is (370, 175). -/
theorem setViewPort_sample :
    (setViewPort sampleState { ULX := 100, ULY := 50, LRX := 700, LRY := 300 }).ViewPort =
      { ULX := 100, ULY := 50, LRX := 640, LRY := 300 } ∧
    (setViewPort sampleState { ULX := 100, ULY := 50, LRX := 700, LRY := 300 }).ViewPortSize =
      { Width := 540, Height := 250 } ∧
    (setViewPort sampleState
        { ULX := 100, ULY := 50, LRX := 700, LRY := 300 }).Render2DTranslation =
      { X := 370, Y := 175 } := by
  decide

end ViewPortConstants

/-! ### The thickness vector of `draw3DLine` -/

section LineThickness

/-- The cross product with the origin is the zero vector. -/
theorem crossProduct_origin (p : vector3df) :
    vector3df.crossProduct { X := 0, Y := 0, Z := 0 } p = { X := 0, Y := 0, Z := 0 } := by
  simp [vector3df.crossProduct]

/-- The cross product of parallel vectors is the zero vector. -/
theorem crossProduct_parallel (a : vector3df) (k : ℚ) :
    a.crossProduct (a.scale k) = { X := 0, Y := 0, Z := 0 } := by
  simp only [vector3df.crossProduct, vector3df.scale, vector3df.mk.injEq]
  refine ⟨?_, ?_, ?_⟩ <;> ring

theorem add_zero_vector (a : vector3df) : a.add { X := 0, Y := 0, Z := 0 } = a := by
  cases a
  simp [vector3df.add]

theorem scale_zero_vector (f : ℚ) :
    vector3df.scale { X := 0, Y := 0, Z := 0 } f = { X := 0, Y := 0, Z := 0 } := by
  simp [vector3df.scale]

theorem scale_by_zero (a : vector3df) (f : ℚ) (hf : f = 0) :
    a.scale f = { X := 0, Y := 0, Z := 0 } := by
  simp [vector3df.scale, hf]

/-- C22, as stated, fails: for the line from the origin to (1,0,0) the cross product of
the end points is the zero vector, `draw3DLine` has no special case for it, and with a
`normalize` that leaves the zero vector as it is the offset is the zero vector: the two
extra vertices of the quad are the start and the end point again. With a line thickness
of 0 the offset is the zero vector even with a `normalize` that gives a unit vector for
the zero vector. -/
theorem draw3DLine_offset_zero_at_origin :
    vector3df.crossProduct { X := 0, Y := 0, Z := 0 } { X := 1, Y := 0, Z := 0 } =
      { X := 0, Y := 0, Z := 0 } ∧
    sampleExternals.normalize { X := 0, Y := 0, Z := 0 } = { X := 0, Y := 0, Z := 0 } ∧
    draw3DLineVect sampleExternals sampleState { X := 0, Y := 0, Z := 0 }
        { X := 1, Y := 0, Z := 0 } = { X := 0, Y := 0, Z := 0 } ∧
    draw3DLineVtx sampleExternals sampleState { X := 0, Y := 0, Z := 0 }
        { X := 1, Y := 0, Z := 0 } 7 =
      [lineVertex { X := 0, Y := 0, Z := 0 } 7, lineVertex { X := 1, Y := 0, Z := 0 } 7,
        lineVertex { X := 0, Y := 0, Z := 0 } 7, lineVertex { X := 1, Y := 0, Z := 0 } 7] ∧
    defaultingExternals.normalize { X := 0, Y := 0, Z := 0 } = { X := 1, Y := 0, Z := 0 } ∧
    draw3DLineVect defaultingExternals thinLineState { X := 0, Y := 0, Z := 0 }
        { X := 1, Y := 0, Z := 0 } = { X := 0, Y := 0, Z := 0 } := by
  have hc := crossProduct_origin { X := 1, Y := 0, Z := 0 }
  have hv : draw3DLineVect sampleExternals sampleState { X := 0, Y := 0, Z := 0 }
      { X := 1, Y := 0, Z := 0 } = { X := 0, Y := 0, Z := 0 } := by
    simp only [draw3DLineVect, hc]
    exact scale_zero_vector _
  refine ⟨hc, rfl, hv, ?_, ?_, ?_⟩
  · simp only [draw3DLineVtx, hv, add_zero_vector]
  · simp [defaultingExternals]
  · simp only [draw3DLineVect]
    exact scale_by_zero _ _ (by simp [thinLineState, f32RoundFinite_zero])

/-- C22, amended: in `draw3DLine` the vector used for the line thickness is always the
normalized cross product of start and end scaled by the single precision product
`Material.Thickness * 0.3f`; when the cross product is the zero vector there is no special
case, and with a `normalize` that leaves the zero vector as it is, or with a line
thickness of 0, the offset is the zero vector and the two extra quad vertices coincide
with the start and the end point. -/
theorem draw3DLine_offset_has_no_special_case (ext : Externals) (d : DriverState)
    (start finish : vector3df) (color : Nat)
    (hcross : start.crossProduct finish = { X := 0, Y := 0, Z := 0 })
    (hzero : ext.normalize { X := 0, Y := 0, Z := 0 } = { X := 0, Y := 0, Z := 0 } ∨
      d.Material.Thickness = 0) :
    draw3DLineVect ext d start finish =
      (ext.normalize (start.crossProduct finish)).scale
        (f32RoundFinite (d.Material.Thickness * f32RoundFinite (3 / 10))) ∧
    draw3DLineVect ext d start finish = { X := 0, Y := 0, Z := 0 } ∧
    draw3DLineVtx ext d start finish color =
      [lineVertex start color, lineVertex finish color, lineVertex start color,
        lineVertex finish color] := by
  have hv : draw3DLineVect ext d start finish = { X := 0, Y := 0, Z := 0 } := by
    simp only [draw3DLineVect, hcross]
    rcases hzero with h | h
    · rw [h]
      exact scale_zero_vector _
    · exact scale_by_zero _ _ (by rw [h, zero_mul, f32RoundFinite_zero])
  refine ⟨rfl, hv, ?_⟩
  simp only [draw3DLineVtx, hv, add_zero_vector]

/-- The amended theorem for C22 applied to a line from (2,0,0) to (4,0,0), two parallel
position vectors, on the sample driver state. -/
theorem draw3DLine_offset_has_no_special_case_witness :
    (vector3df.crossProduct { X := 2, Y := 0, Z := 0 } { X := 4, Y := 0, Z := 0 } =
        { X := 0, Y := 0, Z := 0 } ∧
      (sampleExternals.normalize { X := 0, Y := 0, Z := 0 } = { X := 0, Y := 0, Z := 0 } ∨
        sampleState.Material.Thickness = 0)) ∧
    (draw3DLineVect sampleExternals sampleState { X := 2, Y := 0, Z := 0 }
        { X := 4, Y := 0, Z := 0 } =
      (sampleExternals.normalize
        (vector3df.crossProduct { X := 2, Y := 0, Z := 0 } { X := 4, Y := 0, Z := 0 })).scale
        (f32RoundFinite (sampleState.Material.Thickness * f32RoundFinite (3 / 10))) ∧
    draw3DLineVect sampleExternals sampleState { X := 2, Y := 0, Z := 0 }
        { X := 4, Y := 0, Z := 0 } = { X := 0, Y := 0, Z := 0 } ∧
    draw3DLineVtx sampleExternals sampleState { X := 2, Y := 0, Z := 0 }
        { X := 4, Y := 0, Z := 0 } 7 =
      [lineVertex { X := 2, Y := 0, Z := 0 } 7, lineVertex { X := 4, Y := 0, Z := 0 } 7,
        lineVertex { X := 2, Y := 0, Z := 0 } 7, lineVertex { X := 4, Y := 0, Z := 0 } 7]) :=
  ⟨⟨by simp [vector3df.crossProduct], Or.inl rfl⟩,
   draw3DLine_offset_has_no_special_case sampleExternals sampleState
     { X := 2, Y := 0, Z := 0 } { X := 4, Y := 0, Z := 0 } 7
     (by simp [vector3df.crossProduct]) (Or.inl rfl)⟩

end LineThickness

/-! ### Textures of another driver -/

section TextureRejection

open E_DRIVER_TYPE

theorem setRenderTarget_ZBuffer_isSome (d : DriverState) (image : Option Nat) :
    (setRenderTarget d image).ZBuffer.isSome = d.ZBuffer.isSome := by
  cases image with
  | none =>
    rw [(setRenderTarget_none d).2.2.2.2]
    cases d.ZBuffer <;> rfl
  | some i =>
    rw [(setRenderTarget_some_fields d i).2.2]
    cases d.ZBuffer <;> rfl

theorem setRenderTargetTextureStore_ZBuffer_isSome (d : DriverState)
    (texture : Option ITexture) :
    (setRenderTargetTextureStore d texture).ZBuffer.isSome = d.ZBuffer.isSome := by
  unfold setRenderTargetTextureStore
  cases texture <;> cases d.RenderTargetTexture <;> dsimp only <;>
    rw [setRenderTarget_ZBuffer_isSome]

/-- On a texture of another driver `setActiveTexture` returns false and leaves the
driver state as it was. -/
theorem setActiveTexture_rejected (d : DriverState) (stage : Nat) (texture : Option ITexture)
    (h : ∃ t, texture = some t ∧ t.getDriverType ≠ EDT_SOFTWARE) :
    setActiveTexture d stage texture = (false, d) := by
  obtain ⟨t, rfl, ht⟩ := h
  simp [setActiveTexture, ht]

/-- The texture overload of `setRenderTarget` on a texture of another driver. -/
theorem setRenderTargetTexture_rejected (d : DriverState) (texture : Option ITexture)
    (clearBackBuffer clearZBuffer : Bool) (color : Nat)
    (h : ∃ t, texture = some t ∧ t.getDriverType ≠ EDT_SOFTWARE) :
    setRenderTargetTexture d texture clearBackBuffer clearZBuffer color =
      some { returned := false, state := d, clearedZBuffer := false, filled := none } := by
  obtain ⟨t, rfl, ht⟩ := h
  simp [setRenderTargetTexture, ht]

/-- The texture overload of `setRenderTarget` on a texture that is null or of the software
driver. -/
theorem setRenderTargetTexture_accepted_form (d : DriverState) (texture : Option ITexture)
    (clearBackBuffer clearZBuffer : Bool) (color : Nat)
    (h : ∀ t, texture = some t → t.getDriverType = EDT_SOFTWARE) :
    setRenderTargetTexture d texture clearBackBuffer clearZBuffer color =
      setRenderTargetTextureClear (setRenderTargetTextureStore d texture) clearBackBuffer
        clearZBuffer color := by
  cases texture with
  | none => simp [setRenderTargetTexture]
  | some t =>
    have ht : t.getDriverType = EDT_SOFTWARE := h t rfl
    simp [setRenderTargetTexture, ht]

/-- The clearing at the end of the texture overload returns true whenever it returns. -/
theorem setRenderTargetTextureClear_returned (d : DriverState)
    (clearBackBuffer clearZBuffer : Bool) (color : Nat) (r : SetRenderTargetResult)
    (hr : setRenderTargetTextureClear d clearBackBuffer clearZBuffer color = some r) :
    r.returned = true ∧ r.state = d := by
  unfold setRenderTargetTextureClear at hr
  cases hS : d.RenderTargetSurface with
  | none =>
    rw [hS] at hr
    rw [← Option.some.inj hr]
    exact ⟨rfl, rfl⟩
  | some surface =>
    rw [hS] at hr
    cases clearBackBuffer <;> cases clearZBuffer <;> cases hZ : d.ZBuffer <;>
      simp [hZ] at hr <;> (rw [← hr]; exact ⟨rfl, rfl⟩)

/-- The clearing at the end of the texture overload returns when the driver has its depth
buffer or is not asked to clear it. -/
theorem setRenderTargetTextureClear_returns (d : DriverState)
    (clearBackBuffer clearZBuffer : Bool) (color : Nat)
    (hz : clearZBuffer = true → d.ZBuffer.isSome) :
    ∃ r, setRenderTargetTextureClear d clearBackBuffer clearZBuffer color = some r := by
  unfold setRenderTargetTextureClear
  cases hS : d.RenderTargetSurface with
  | none => exact ⟨_, rfl⟩
  | some surface =>
    cases clearBackBuffer <;> cases clearZBuffer <;>
      first
        | exact ⟨_, rfl⟩
        | (obtain ⟨z, hzb⟩ := Option.isSome_iff_exists.mp (hz rfl)
           simp only [hzb]
           exact ⟨_, rfl⟩)

/-- The check of the driver type in both methods: `setActiveTexture(stage, t)` returns
false exactly when `t` is non-null and its driver type is not `EDT_SOFTWARE`, and then the
driver state is the one before the call (bound texture, render target, every reference
count and the selected renderer included); otherwise it returns true. The texture overload
of `setRenderTarget` returns false on such a texture and leaves the driver state as it
was, without clearing or filling anything; on every other texture it returns true if it
returns, and it does return when the driver has its depth buffer or is not asked to clear
it. -/
theorem texture_of_other_driver_is_refused (d : DriverState) (stage : Nat)
    (texture : Option ITexture) (clearBackBuffer clearZBuffer : Bool) (color : Nat) :
    ((setActiveTexture d stage texture).1 = false ↔
      ∃ t, texture = some t ∧ t.getDriverType ≠ EDT_SOFTWARE) ∧
    ((setActiveTexture d stage texture).1 = false → (setActiveTexture d stage texture).2 = d) ∧
    ((setActiveTexture d stage texture).1 ≠ false → (setActiveTexture d stage texture).1 = true) ∧
    ((∃ t, texture = some t ∧ t.getDriverType ≠ EDT_SOFTWARE) →
      setRenderTargetTexture d texture clearBackBuffer clearZBuffer color =
        some { returned := false, state := d, clearedZBuffer := false, filled := none }) ∧
    (∀ r, setRenderTargetTexture d texture clearBackBuffer clearZBuffer color = some r →
      (r.returned = false ↔ ∃ t, texture = some t ∧ t.getDriverType ≠ EDT_SOFTWARE) ∧
      (r.returned = false →
        r.state = d ∧ r.clearedZBuffer = false ∧ r.filled = none) ∧
      (r.returned ≠ false → r.returned = true)) ∧
    ((clearZBuffer = true → d.ZBuffer.isSome) →
      ∃ r, setRenderTargetTexture d texture clearBackBuffer clearZBuffer color = some r) := by
  by_cases hf : ∃ t, texture = some t ∧ t.getDriverType ≠ EDT_SOFTWARE
  · have hA := setActiveTexture_rejected d stage texture hf
    have hR := setRenderTargetTexture_rejected d texture clearBackBuffer clearZBuffer color hf
    refine ⟨?_, ?_, ?_, fun _ => hR, ?_, fun _ => ⟨_, hR⟩⟩
    · rw [hA]
      exact ⟨fun _ => hf, fun _ => rfl⟩
    · intro _
      rw [hA]
    · rw [hA]
      intro h
      exact absurd rfl h
    · intro r hr
      rw [hR] at hr
      rw [← Option.some.inj hr]
      exact ⟨⟨fun _ => hf, fun _ => rfl⟩, fun _ => ⟨rfl, rfl, rfl⟩, fun h => absurd rfl h⟩
  · have hsoft : ∀ t, texture = some t → t.getDriverType = EDT_SOFTWARE := by
      intro t ht
      by_contra hne
      exact hf ⟨t, ht, hne⟩
    have hA : (setActiveTexture d stage texture).1 = true := by
      rw [setActiveTexture_accepted_form d stage texture hsoft]
    have hR := setRenderTargetTexture_accepted_form d texture clearBackBuffer clearZBuffer
      color hsoft
    refine ⟨?_, ?_, fun _ => hA, fun h => absurd h hf, ?_, ?_⟩
    · rw [hA]
      exact ⟨fun h => absurd h (by decide), fun h => absurd h hf⟩
    · rw [hA]
      intro h
      exact absurd h (by decide)
    · intro r hr
      rw [hR] at hr
      have ht := (setRenderTargetTextureClear_returned _ _ _ _ r hr).1
      rw [ht]
      exact ⟨⟨fun h => absurd h (by decide), fun h => absurd h hf⟩,
        fun h => absurd h (by decide), fun _ => rfl⟩
    · intro hz
      rw [hR]
      apply setRenderTargetTextureClear_returns
      intro hc
      rw [setRenderTargetTextureStore_ZBuffer_isSome]
      exact hz hc

/-- The two calls on the sample driver state: a texture of the Direct3D 11 driver is
refused, a texture of the software driver is accepted and its image, 256 x 128, becomes
the render target; the depth buffer is cleared and the image filled. -/
theorem texture_of_other_driver_sample :
    (setActiveTexture sampleState 0 (some foreignTexture)).1 = false ∧
    (setActiveTexture sampleState 0 (some softwareTexture)).1 = true ∧
    (setRenderTargetTexture sampleState (some foreignTexture) true true 0).map
        (fun r => r.returned) = some false ∧
    (setRenderTargetTexture sampleState (some softwareTexture) true true 0).map
        (fun r => (r.returned, r.clearedZBuffer, r.filled)) = some (true, true, some (2, 0)) ∧
    (setRenderTargetTexture sampleState (some softwareTexture) true true 0).map
        (fun r => (r.state.RenderTargetSurface, r.state.RenderTargetSize)) =
      some (some 2, { Width := 256, Height := 128 }) ∧
    (setRenderTargetTexture sampleStateNoZBuffer (some softwareTexture) true true 0).isNone =
      true := by
  refine ⟨by decide, by decide, by decide, by decide, by decide, by decide⟩

/-- The texture overload of `setRenderTarget` on a driver without depth buffer: a texture of
the software driver becomes the render target, and with `clearZBuffer` set the method
calls `ZBuffer->clear()` through the null pointer. -/
theorem setRenderTargetTexture_null_ZBuffer (d : DriverState) (t : ITexture)
    (clearBackBuffer : Bool) (color : Nat) (hZ : d.ZBuffer = none)
    (ht : t.getDriverType = EDT_SOFTWARE) :
    setRenderTargetTexture d (some t) clearBackBuffer true color = none := by
  have hS : (setRenderTargetTextureStore d (some t)).RenderTargetSurface =
      some t.getTexture := by
    unfold setRenderTargetTextureStore
    cases d.RenderTargetTexture <;> exact (setRenderTarget_some_fields _ _).1
  have hZ2 : (setRenderTargetTextureStore d (some t)).ZBuffer = none := by
    have h := setRenderTargetTextureStore_ZBuffer_isSome d (some t)
    rw [hZ] at h
    cases hz : (setRenderTargetTextureStore d (some t)).ZBuffer with
    | none => rfl
    | some z =>
      rw [hz] at h
      simp at h
  rw [setRenderTargetTexture_accepted_form d (some t) clearBackBuffer true color
    (fun u hu => by rw [← Option.some.inj hu]; exact ht)]
  unfold setRenderTargetTextureClear
  rw [hS]
  simp [hZ2]

/-- C23: the texture overload of `setRenderTarget` does not return true for every texture
that is null or of the software driver. Its last statements call `ZBuffer->clear()` when
`clearZBuffer` is set, without the test `if (ZBuffer)` that `setRenderTarget(CImage*)`,
`beginScene`, `clearZBuffer` and the draw call make. On the sample driver without depth
buffer the call with the software texture, or with a null texture, and `clearZBuffer` set
makes the image the render target and then goes through the null pointer: it returns
nothing. The same call returns true on the sample driver with its depth buffer, and on the
driver without depth buffer when `clearZBuffer` is not set; `setActiveTexture` returns
true for the same texture, and `setRenderTarget(CImage*)` for the image of the texture
returns with the depth buffer still null. -/
theorem setRenderTarget_texture_clears_through_null_ZBuffer :
    softwareTexture.getDriverType = EDT_SOFTWARE ∧
    sampleStateNoZBuffer.ZBuffer = none ∧
    setRenderTargetTexture sampleStateNoZBuffer (some softwareTexture) false true 0 = none ∧
    setRenderTargetTexture sampleStateNoZBuffer (some softwareTexture) true true 0 = none ∧
    setRenderTargetTexture sampleStateNoZBuffer none false true 0 = none ∧
    (setRenderTargetTextureStore sampleStateNoZBuffer (some softwareTexture)).RenderTargetSurface =
      some 2 ∧
    (setRenderTargetTexture sampleState (some softwareTexture) false true 0).map
        (fun r => (r.returned, r.clearedZBuffer)) = some (true, true) ∧
    (setRenderTargetTexture sampleStateNoZBuffer (some softwareTexture) true false 0).map
        (fun r => (r.returned, r.clearedZBuffer, r.filled)) =
      some (true, false, some (2, 0)) ∧
    (setActiveTexture sampleStateNoZBuffer 0 (some softwareTexture)).1 = true ∧
    (setRenderTarget sampleStateNoZBuffer (some 2)).RenderTargetSurface = some 2 ∧
    (setRenderTarget sampleStateNoZBuffer (some 2)).ZBuffer = none := by
  refine ⟨rfl, rfl, Option.isNone_iff_eq_none.mp (by decide),
    Option.isNone_iff_eq_none.mp (by decide), Option.isNone_iff_eq_none.mp (by decide),
    by decide, by decide, by decide, by decide, by decide, by decide⟩

end TextureRejection

/-! ### Window resize -/

section Resize

theorem setRenderTarget_ScreenSize (d : DriverState) (image : Option Nat) :
    (setRenderTarget d image).ScreenSize = d.ScreenSize := by
  obtain ⟨_, _, _, RTS, _, _, _, _, ZB, _, _, _, _, _, _, _, _, _, _, _⟩ := d
  cases ZB <;> cases RTS <;> cases image <;> rfl

/-- After `OnResize` the screen size is `realSize`, whether the body of the `if` ran or
not. -/
theorem OnResize_ScreenSize (d : DriverState) (size : dimension2du) (newImage : Nat) :
    (OnResize d size newImage).ScreenSize = realSize size := by
  unfold OnResize
  by_cases h : d.ScreenSize ≠ realSize size
  · rw [if_pos h]
    dsimp only
    split_ifs <;> first
      | rw [setRenderTarget_ScreenSize]
      | skip
    all_goals cases d.BackBuffer <;> rfl
  · rw [if_neg h]
    exact not_not.mp h

/-- A call of `OnResize` on a driver whose screen size is `realSize` already changes
nothing. -/
theorem OnResize_of_ScreenSize_eq (d : DriverState) (size : dimension2du) (newImage : Nat)
    (h : d.ScreenSize = realSize size) : OnResize d size newImage = d := by
  unfold OnResize
  rw [if_neg (not_not.mpr h)]

theorem realSize_Width (size : dimension2du) (hW : size.Width < 2 ^ 32) :
    (realSize size).Width % 2 = 0 ∧
    (size.Width < 2 ^ 32 - 1 →
      (realSize size).Width = 2 * ((size.Width + 1) / 2) ∧
      size.Width ≤ (realSize size).Width ∧ (realSize size).Width ≤ size.Width + 1) ∧
    (size.Width = 2 ^ 32 - 1 → (realSize size).Width = 0) := by
  simp only [realSize]
  norm_num at hW ⊢
  split_ifs with h
  · refine ⟨?_, fun hlt => ?_, fun heq => ?_⟩ <;> omega
  · refine ⟨?_, fun hlt => ?_, fun heq => ?_⟩ <;> omega

theorem realSize_Height (size : dimension2du) (hH : size.Height < 2 ^ 32) :
    (realSize size).Height % 2 = 0 ∧
    (size.Height < 2 ^ 32 - 1 →
      (realSize size).Height = 2 * ((size.Height + 1) / 2) ∧
      size.Height ≤ (realSize size).Height ∧ (realSize size).Height ≤ size.Height + 1) ∧
    (size.Height = 2 ^ 32 - 1 → (realSize size).Height = 0) := by
  simp only [realSize]
  norm_num at hH ⊢
  split_ifs with h
  · refine ⟨?_, fun hlt => ?_, fun heq => ?_⟩ <;> omega
  · refine ⟨?_, fun hlt => ?_, fun heq => ?_⟩ <;> omega

/-- C25, as stated, fails: for the requested width `2^32 - 1`, a 32-bit value, the
addition of one wraps around and the width of `ScreenSize` is 0, which is smaller than
the requested width and not that width rounded up. -/
theorem OnResize_largest_width_wraps_to_zero :
    (4294967295 : Nat) < 2 ^ 32 ∧
    (OnResize sampleState { Width := 4294967295, Height := 480 } 5).ScreenSize =
      { Width := 0, Height := 480 } ∧
    (OnResize sampleState { Width := 4294967295, Height := 480 } 5).ScreenSize.Width <
      4294967295 ∧
    (OnResize sampleState { Width := 4294967295, Height := 480 } 5).ScreenSize.Width ≠
      2 * ((4294967295 + 1) / 2) := by
  have h := OnResize_ScreenSize sampleState { Width := 4294967295, Height := 480 } 5
  have hr : realSize { Width := 4294967295, Height := 480 } = { Width := 0, Height := 480 } := by
    simp [realSize]
  rw [hr] at h
  rw [h]
  exact ⟨by norm_num, rfl, by norm_num, by norm_num⟩

/-- C25, amended: after `OnResize(size)` with a 32-bit width and height, `ScreenSize` has
an even width and an even height; a width or height below `2^32 - 1` gives the requested
value rounded up to the next multiple of 2, which is not smaller than the requested
value and at most one larger; the value `2^32 - 1` gives 0; and a further call of
`OnResize` with the same size changes nothing. -/
theorem OnResize_rounds_up_to_even (d : DriverState) (size : dimension2du)
    (newImage again : Nat) (hW : size.Width < 2 ^ 32) (hH : size.Height < 2 ^ 32) :
    (OnResize d size newImage).ScreenSize.Width % 2 = 0 ∧
    (OnResize d size newImage).ScreenSize.Height % 2 = 0 ∧
    (size.Width < 2 ^ 32 - 1 →
      (OnResize d size newImage).ScreenSize.Width = 2 * ((size.Width + 1) / 2) ∧
      size.Width ≤ (OnResize d size newImage).ScreenSize.Width ∧
      (OnResize d size newImage).ScreenSize.Width ≤ size.Width + 1) ∧
    (size.Width = 2 ^ 32 - 1 → (OnResize d size newImage).ScreenSize.Width = 0) ∧
    (size.Height < 2 ^ 32 - 1 →
      (OnResize d size newImage).ScreenSize.Height = 2 * ((size.Height + 1) / 2) ∧
      size.Height ≤ (OnResize d size newImage).ScreenSize.Height ∧
      (OnResize d size newImage).ScreenSize.Height ≤ size.Height + 1) ∧
    (size.Height = 2 ^ 32 - 1 → (OnResize d size newImage).ScreenSize.Height = 0) ∧
    OnResize (OnResize d size newImage) size again = OnResize d size newImage := by
  have hS := OnResize_ScreenSize d size newImage
  obtain ⟨w1, w2, w3⟩ := realSize_Width size hW
  obtain ⟨h1, h2, h3⟩ := realSize_Height size hH
  rw [hS]
  exact ⟨w1, h1, w2, w3, h2, h3, OnResize_of_ScreenSize_eq _ size again hS⟩

/-- The amended theorem for C25 applied to the sample driver state and the size
801 x 600: the screen size becomes 802 x 600. -/
theorem OnResize_rounds_up_to_even_witness :
    ((801 : Nat) < 2 ^ 32 ∧ (600 : Nat) < 2 ^ 32) ∧
    ((OnResize sampleState { Width := 801, Height := 600 } 5).ScreenSize.Width % 2 = 0 ∧
    (OnResize sampleState { Width := 801, Height := 600 } 5).ScreenSize.Height % 2 = 0 ∧
    ((801 : Nat) < 2 ^ 32 - 1 →
      (OnResize sampleState { Width := 801, Height := 600 } 5).ScreenSize.Width =
        2 * ((801 + 1) / 2) ∧
      801 ≤ (OnResize sampleState { Width := 801, Height := 600 } 5).ScreenSize.Width ∧
      (OnResize sampleState { Width := 801, Height := 600 } 5).ScreenSize.Width ≤ 801 + 1) ∧
    ((801 : Nat) = 2 ^ 32 - 1 →
      (OnResize sampleState { Width := 801, Height := 600 } 5).ScreenSize.Width = 0) ∧
    ((600 : Nat) < 2 ^ 32 - 1 →
      (OnResize sampleState { Width := 801, Height := 600 } 5).ScreenSize.Height =
        2 * ((600 + 1) / 2) ∧
      600 ≤ (OnResize sampleState { Width := 801, Height := 600 } 5).ScreenSize.Height ∧
      (OnResize sampleState { Width := 801, Height := 600 } 5).ScreenSize.Height ≤ 600 + 1) ∧
    ((600 : Nat) = 2 ^ 32 - 1 →
      (OnResize sampleState { Width := 801, Height := 600 } 5).ScreenSize.Height = 0) ∧
    OnResize (OnResize sampleState { Width := 801, Height := 600 } 5)
        { Width := 801, Height := 600 } 6 =
      OnResize sampleState { Width := 801, Height := 600 } 5) :=
  ⟨⟨by norm_num, by norm_num⟩,
   OnResize_rounds_up_to_even sampleState { Width := 801, Height := 600 } 5 6
     (by norm_num) (by norm_num)⟩

/-- The sample driver state resized to 801 x 600: the screen size is 802 x 600, the new
back buffer (handle 5) is the render target, and the viewport, the viewport size and the
depth buffer have that size. -/
theorem OnResize_sample :
    (OnResize sampleState { Width := 801, Height := 600 } 5).ScreenSize =
      { Width := 802, Height := 600 } ∧
    (OnResize sampleState { Width := 801, Height := 600 } 5).BackBuffer = some 5 ∧
    (OnResize sampleState { Width := 801, Height := 600 } 5).RenderTargetSurface = some 5 ∧
    (OnResize sampleState { Width := 801, Height := 600 } 5).ViewPort =
      { ULX := 0, ULY := 0, LRX := 802, LRY := 600 } ∧
    (OnResize sampleState { Width := 801, Height := 600 } 5).ViewPortSize =
      { Width := 802, Height := 600 } ∧
    (OnResize sampleState { Width := 801, Height := 600 } 5).ReferenceCounter 1 = 0 ∧
    (OnResize sampleState { Width := 801, Height := 600 } 5).ReferenceCounter 5 = 2 := by
  refine ⟨by decide, by decide, by decide, by decide, by decide, by decide, by decide⟩

end Resize

/-! ### The viewport invariant -/

section ViewPortInvariant

theorem clipAgainst_within (r : Rect) (W H : Int) :
    (r.clipAgainst { ULX := 0, ULY := 0, LRX := W, LRY := H }).LRX ≤ W ∧
    (r.clipAgainst { ULX := 0, ULY := 0, LRX := W, LRY := H }).LRY ≤ H ∧
    ((r.clipAgainst { ULX := 0, ULY := 0, LRX := W, LRY := H }).ULX <
        (r.clipAgainst { ULX := 0, ULY := 0, LRX := W, LRY := H }).LRX →
      0 ≤ (r.clipAgainst { ULX := 0, ULY := 0, LRX := W, LRY := H }).ULX) ∧
    ((r.clipAgainst { ULX := 0, ULY := 0, LRX := W, LRY := H }).ULY <
        (r.clipAgainst { ULX := 0, ULY := 0, LRX := W, LRY := H }).LRY →
      0 ≤ (r.clipAgainst { ULX := 0, ULY := 0, LRX := W, LRY := H }).ULY) := by
  simp only [Rect.clipAgainst]
  refine ⟨?_, ?_, ?_, ?_⟩ <;> split_ifs <;> omega

/-- Every call of `setViewPort` establishes the viewport invariant. -/
theorem setViewPort_viewPortInvariant (d : DriverState) (area : Rect) :
    viewPortInvariant (setViewPort d area) := by
  have hV : (setViewPort d area).ViewPort =
      area.clipAgainst
        { ULX := 0, ULY := 0, LRX := toS32 d.RenderTargetSize.Width,
          LRY := toS32 d.RenderTargetSize.Height } := rfl
  have hR : (setViewPort d area).RenderTargetSize = d.RenderTargetSize := rfl
  obtain ⟨hS, -⟩ := setViewPort_constants_of_viewport d area
  obtain ⟨o1, o2⟩ := clipAgainst_ordered area
    { ULX := 0, ULY := 0, LRX := toS32 d.RenderTargetSize.Width,
      LRY := toS32 d.RenderTargetSize.Height }
  obtain ⟨w1, w2, w3, w4⟩ := clipAgainst_within area (toS32 d.RenderTargetSize.Width)
    (toS32 d.RenderTargetSize.Height)
  rw [← hV] at o1 o2 w1 w2 w3 w4
  refine ⟨o1, o2, ?_, ?_, w3, w4, ?_, ?_⟩
  · rw [hR]; exact le_trans w1 (toS32_le _)
  · rw [hR]; exact le_trans w2 (toS32_le _)
  · rw [hS]
    apply Int.toNat_of_nonneg
    simp only [Rect.getWidth]
    omega
  · rw [hS]
    apply Int.toNat_of_nonneg
    simp only [Rect.getHeight]
    omega

/-- Every call of `setRenderTarget(image)` establishes the viewport invariant. -/
theorem setRenderTarget_viewPortInvariant (d : DriverState) (image : Option Nat) :
    viewPortInvariant (setRenderTarget d image) := by
  cases image with
  | none =>
    obtain ⟨-, h2, h3, h4, -⟩ := setRenderTarget_none d
    unfold viewPortInvariant
    rw [h2, h3, h4]
    decide
  | some i =>
    obtain ⟨_, _, _, RTS, _, _, _, _, ZB, _, _, _, _, _, _, _, _, _, ImageDimension, _⟩ := d
    cases ZB <;> cases RTS <;> exact setViewPort_viewPortInvariant _ _

/-- A call of `OnResize` keeps the viewport invariant when the back buffer is the render
target, and when the viewport does not have the size of the screen. -/
theorem OnResize_viewPortInvariant (d : DriverState) (size : dimension2du) (newImage : Nat)
    (hinv : viewPortInvariant d)
    (h : d.RenderTargetSurface = d.BackBuffer ∨
      ¬ (d.ViewPort.getWidth = toS32 d.ScreenSize.Width ∧
        d.ViewPort.getHeight = toS32 d.ScreenSize.Height)) :
    viewPortInvariant (OnResize d size newImage) := by
  unfold OnResize
  by_cases hs : d.ScreenSize ≠ realSize size
  · rw [if_pos hs]
    dsimp only
    by_cases hv : d.ViewPort.getWidth = toS32 d.ScreenSize.Width ∧
        d.ViewPort.getHeight = toS32 d.ScreenSize.Height
    · have hRT : d.RenderTargetSurface = d.BackBuffer := by
        rcases h with h | h
        · exact h
        · exact absurd hv h
      rw [if_pos hv]
      simp only [hRT, decide_True, if_true]
      exact setRenderTarget_viewPortInvariant _ _
    · rw [if_neg hv]
      split_ifs
      · exact setRenderTarget_viewPortInvariant _ _
      · cases hB : d.BackBuffer <;> exact hinv
  · rw [if_neg hs]
    exact hinv

/-- C24: the viewport invariant is broken by `OnResize` while an image that is not the
back buffer is the render target. On a driver with a 640 x 480 window the image with
handle 3, of the same size, is made the render target: the viewport is (0,0)-(640,480)
and the viewport size is 640 x 480. After `OnResize` to 800 x 600 the render target is
still that image of 640 x 480, but the viewport is (0,0)-(800,600), which reaches beyond
the render target, and the viewport size is still 640 x 480, which is not the size of the
viewport rectangle: the viewport invariant holds before the call and not after it. -/
theorem OnResize_puts_viewport_outside_render_target :
    viewPortInvariant (setRenderTarget windowSizedTargetState (some 3)) ∧
    ¬ viewPortInvariant
      (OnResize (setRenderTarget windowSizedTargetState (some 3))
        { Width := 800, Height := 600 } 4) ∧
    (setRenderTarget windowSizedTargetState (some 3)).ViewPort =
      { ULX := 0, ULY := 0, LRX := 640, LRY := 480 } ∧
    (setRenderTarget windowSizedTargetState (some 3)).ViewPortSize =
      { Width := 640, Height := 480 } ∧
    (setRenderTarget windowSizedTargetState (some 3)).RenderTargetSize =
      { Width := 640, Height := 480 } ∧
    (OnResize (setRenderTarget windowSizedTargetState (some 3))
        { Width := 800, Height := 600 } 4).RenderTargetSurface = some 3 ∧
    (OnResize (setRenderTarget windowSizedTargetState (some 3))
        { Width := 800, Height := 600 } 4).RenderTargetSize = { Width := 640, Height := 480 } ∧
    (OnResize (setRenderTarget windowSizedTargetState (some 3))
        { Width := 800, Height := 600 } 4).ViewPort =
      { ULX := 0, ULY := 0, LRX := 800, LRY := 600 } ∧
    (OnResize (setRenderTarget windowSizedTargetState (some 3))
        { Width := 800, Height := 600 } 4).ViewPortSize = { Width := 640, Height := 480 } ∧
    ¬ ((OnResize (setRenderTarget windowSizedTargetState (some 3))
          { Width := 800, Height := 600 } 4).ViewPort.LRX ≤
        Int.ofNat (OnResize (setRenderTarget windowSizedTargetState (some 3))
          { Width := 800, Height := 600 } 4).RenderTargetSize.Width) ∧
    Int.ofNat (OnResize (setRenderTarget windowSizedTargetState (some 3))
        { Width := 800, Height := 600 } 4).ViewPortSize.Width ≠
      (OnResize (setRenderTarget windowSizedTargetState (some 3))
        { Width := 800, Height := 600 } 4).ViewPort.getWidth := by
  refine ⟨setRenderTarget_viewPortInvariant _ _, by decide, by decide, by decide, by decide,
    by decide, by decide, by decide, by decide, by decide, by decide⟩

end ViewPortInvariant

/-! ### Draw calls: line primitives -/

section LinePrimitives

open E_PRIMITIVE_TYPE E_INDEX_TYPE E_TRANSFORMATION_STATE EIntersectionRelation3D

/-- One segment of a line branch is one `draw3DLine` call on the segment read for the two
places of the index buffer. -/
theorem drawSegment_eq (ext : Externals) (vb : IVertexBuffer) (ib : IIndexBuffer)
    (desc : IVertexDescriptor) (offsetP : Nat) (d : DriverState) (i j : Nat) :
    drawSegment (draw3DLine ext) vb ib desc offsetP d i j =
      draw3DLine ext d (segmentJoining vb ib desc offsetP i j).1
        (segmentJoining vb ib desc offsetP i j).2.1
        (segmentJoining vb ib desc offsetP i j).2.2 := by
  unfold drawSegment segmentJoining
  cases desc.AttributeC <;> rfl

theorem drawLineStrip_eq (ext : Externals) (vb : IVertexBuffer) (ib : IIndexBuffer)
    (desc : IVertexDescriptor) (offsetP : Nat) (d : DriverState) (n : Nat) :
    drawLineStrip (draw3DLine ext) vb ib desc offsetP d n =
      drawSegmentList ext d (stripSegments vb ib desc offsetP n) := by
  unfold drawLineStrip drawSegmentList stripSegments
  rw [List.foldlM_map]
  congr 1
  funext s i
  exact drawSegment_eq ext vb ib desc offsetP s i (i + 1)

theorem drawLines_eq (ext : Externals) (vb : IVertexBuffer) (ib : IIndexBuffer)
    (desc : IVertexDescriptor) (offsetP : Nat) (d : DriverState) (n : Nat) :
    (List.range n).foldlM
        (fun s k => drawSegment (draw3DLine ext) vb ib desc offsetP s (2 * k) (2 * k + 1)) d =
      drawSegmentList ext d (listSegments vb ib desc offsetP n) := by
  unfold drawSegmentList listSegments
  rw [List.foldlM_map]
  congr 1
  funext s i
  exact drawSegment_eq ext vb ib desc offsetP s (2 * i) (2 * i + 1)

theorem drawLineLoop_eq (ext : Externals) (vb : IVertexBuffer) (ib : IIndexBuffer)
    (desc : IVertexDescriptor) (offsetP : Nat) (d : DriverState) (n : Nat) :
    (do
      let d1 ← drawLineStrip (draw3DLine ext) vb ib desc offsetP d n
      drawSegment (draw3DLine ext) vb ib desc offsetP d1 (n - 1) 0) =
      drawSegmentList ext d (loopSegments vb ib desc offsetP n) := by
  rw [drawLineStrip_eq]
  unfold loopSegments drawSegmentList
  rw [List.foldlM_append]
  congr 1
  funext d1
  rw [drawSegment_eq]
  simp [List.foldlM]

/-- The three line branches of `drawVertexPrimitiveList` on a supported input: one
`draw3DLine` call for each segment of the branch, in the order of the loop. -/
theorem drawVertexPrimitiveList_lines (ext : Externals) (d : DriverState)
    (vb : IVertexBuffer) (ib : IIndexBuffer) (desc : IVertexDescriptor) (offsetP n : Nat)
    (hn : 1 ≤ n) (h16 : ib.getType = EIT_16BIT) (hP : desc.AttributeP = some offsetP) :
    drawVertexPrimitiveList ext d (some vb) (some ib) (some desc) n EPT_LINE_STRIP =
      drawSegmentList ext d (stripSegments vb ib desc offsetP n) ∧
    drawVertexPrimitiveList ext d (some vb) (some ib) (some desc) n EPT_LINE_LOOP =
      drawSegmentList ext d (loopSegments vb ib desc offsetP n) ∧
    drawVertexPrimitiveList ext d (some vb) (some ib) (some desc) n EPT_LINES =
      drawSegmentList ext d (listSegments vb ib desc offsetP (2 * n % 2 ^ 32 / 2)) := by
  have hn0 : n ≠ 0 := by omega
  have h32 : ¬ ib.getType = EIT_32BIT := by rw [h16]; decide
  refine ⟨?_, ?_, ?_⟩
  · unfold drawVertexPrimitiveList drawVertexPrimitiveListWith
    simp only [if_neg hn0, if_neg h32, hP]
    exact drawLineStrip_eq ext vb ib desc offsetP d n
  · unfold drawVertexPrimitiveList drawVertexPrimitiveListWith
    simp only [if_neg hn0, if_neg h32, hP]
    exact drawLineLoop_eq ext vb ib desc offsetP d n
  · unfold drawVertexPrimitiveList drawVertexPrimitiveListWith
    simp only [if_neg hn0, if_neg h32, hP]
    exact drawLines_eq ext vb ib desc offsetP d _

/-- The number of segments of the three line branches: `n-1` for a strip, `n` for a loop,
and `n` for a line list whose primitive count is below `2^31`. -/
theorem line_segment_counts (vb : IVertexBuffer) (ib : IIndexBuffer) (desc : IVertexDescriptor)
    (offsetP n : Nat) (hn : 1 ≤ n) :
    (stripSegments vb ib desc offsetP n).length = n - 1 ∧
    (loopSegments vb ib desc offsetP n).length = n ∧
    (n < 2 ^ 31 → (listSegments vb ib desc offsetP (2 * n % 2 ^ 32 / 2)).length = n) := by
  have hlen : (stripSegments vb ib desc offsetP n).length = n - 1 := by
    simp [stripSegments]
  refine ⟨hlen, ?_, ?_⟩
  · simp only [loopSegments, List.length_append, hlen, List.length_singleton]
    omega
  · intro h
    simp only [listSegments, List.length_map, List.length_range]
    omega

/-- A vertex of the sample line from (0,0,0) to (1/4,0,0) is in front of none of the
sample planes. -/
theorem sample_line_not_front (d : DriverState) (p k : Nat) :
    frustumClassify sampleExternals d p
        ((draw3DLineVertexBuffer sampleExternals sampleState { X := 0, Y := 0, Z := 0 }
          { X := 1 / 4, Y := 0, Z := 0 } 0).getVertices k) ≠ ISREL3D_FRONT := by
  have h2 : (0 : ℚ) ≤ (p : ℚ) := Nat.cast_nonneg p
  have hv : draw3DLineVect sampleExternals sampleState { X := 0, Y := 0, Z := 0 }
      { X := 1 / 4, Y := 0, Z := 0 } = { X := 0, Y := 0, Z := 0 } := by
    simp only [draw3DLineVect, crossProduct_origin]
    exact scale_zero_vector _
  have hX : ((draw3DLineVertexBuffer sampleExternals sampleState { X := 0, Y := 0, Z := 0 }
      { X := 1 / 4, Y := 0, Z := 0 } 0).getVertices k).PosX ≤ 1 / 4 := by
    simp only [draw3DLineVertexBuffer, draw3DLineVtx, hv, add_zero_vector]
    rcases k with _ | _ | _ | _ | k <;> simp [lineVertex]
  have h3 : ¬ (((draw3DLineVertexBuffer sampleExternals sampleState { X := 0, Y := 0, Z := 0 }
      { X := 1 / 4, Y := 0, Z := 0 } 0).getVertices k).PosX > 10 + (p : ℚ)) := by
    intro h
    linarith
  have hcl : ∀ v : S3DVertexC, frustumClassify sampleExternals d p v =
      if v.PosX > 10 + (p : ℚ) then ISREL3D_FRONT else ISREL3D_BACK := fun _ => rfl
  rw [hcl, if_neg h3]
  decide

/-- The call `draw3DLine` for the sample line from (0,0,0) to (1/4,0,0) hands triangles to
the triangle renderer, so it changes the sample driver state. -/
theorem sample_draw3DLine_changes :
    draw3DLine sampleExternals sampleState { X := 0, Y := 0, Z := 0 }
      { X := 1 / 4, Y := 0, Z := 0 } 0 ≠ some sampleState := by
  have hcall : draw3DLine sampleExternals sampleState { X := 0, Y := 0, Z := 0 }
      { X := 1 / 4, Y := 0, Z := 0 } 0 =
      drawClippedIndexedTriangleListT sampleExternals sampleState
        (draw3DLineVertexBuffer sampleExternals sampleState { X := 0, Y := 0, Z := 0 }
          { X := 1 / 4, Y := 0, Z := 0 } 0).getVertices 4 (indicesOf draw3DLineIdx) 4 := by
    unfold draw3DLine drawIndexedTriangleList drawVertexPrimitiveListWith
    simp [sampleState, draw3DLineIndexBuffer, drawByVertexSize, draw3DLineVertexBuffer]
  obtain ⟨st, tp, hst, -, -, heq⟩ := drawClipped_eq sampleExternals sampleState
    (draw3DLineVertexBuffer sampleExternals sampleState { X := 0, Y := 0, Z := 0 }
      { X := 1 / 4, Y := 0, Z := 0 } 0).getVertices 4 (indicesOf draw3DLineIdx) 4
    ETriangleRenderer.ETR_FLAT rfl rfl (by decide) rfl rfl
  obtain ⟨st2, hst2, -, hcv, -⟩ := clipLoop_refines (frustumClassify sampleExternals sampleState)
    (draw3DLineVertexBuffer sampleExternals sampleState { X := 0, Y := 0, Z := 0 }
      { X := 1 / 4, Y := 0, Z := 0 } 0).getVertices (indicesOf draw3DLineIdx) 4
  rw [hst] at hst2
  have hst3 := Option.some.inj hst2
  subst hst3
  have hlen := clippedVerticesSpec_length (frustumClassify sampleExternals sampleState)
    (draw3DLineVertexBuffer sampleExternals sampleState { X := 0, Y := 0, Z := 0 }
      { X := 1 / 4, Y := 0, Z := 0 } 0).getVertices (indicesOf draw3DLineIdx) 4
  rw [← hcv] at hlen
  have hins : (insideTriangles (frustumClassify sampleExternals sampleState)
      (draw3DLineVertexBuffer sampleExternals sampleState { X := 0, Y := 0, Z := 0 }
        { X := 1 / 4, Y := 0, Z := 0 } 0).getVertices (indicesOf draw3DLineIdx) 4).length = 4 := by
    unfold insideTriangles
    rw [List.length_map, List.filter_eq_self.mpr, List.length_range]
    intro i _
    apply decide_eq_true
    intro p _
    exact ⟨sample_line_not_front _ p _, sample_line_not_front _ p _,
      sample_line_not_front _ p _⟩
  rw [hins] at hlen
  have hne : ¬ (sampleState.TransformedPoints = [] ∧ st.clippedVertices = []) := by
    rintro ⟨-, h2⟩
    rw [h2] at hlen
    simp [cappedTriangleCount] at hlen
  rw [hcall, heq, if_neg hne]
  intro h
  have hR := congrArg DriverState.Rasterized (Option.some.inj h)
  simp [sampleState] at hR

/-- A line strip of two indices on a 32-bit index buffer draws no segment: the call
returns the sample driver state as it was, while the one `draw3DLine` call for the segment
from the vertex of index 0 to the vertex of index 1 changes that state. -/
theorem line_strip_with_32bit_indices_draws_nothing :
    drawVertexPrimitiveList sampleExternals sampleState (some sampleLineBuffer)
        (some sampleIndexBuffer32) (some sampleDescriptor) 2 EPT_LINE_STRIP =
      some sampleState ∧
    segmentOfVertices sampleLineBuffer sampleIndexBuffer32 0 1 =
      ({ X := 0, Y := 0, Z := 0 }, { X := 1 / 4, Y := 0, Z := 0 }, 0) ∧
    drawSegmentList sampleExternals sampleState
        [segmentOfVertices sampleLineBuffer sampleIndexBuffer32 0 1] ≠ some sampleState := by
  have hseg : segmentOfVertices sampleLineBuffer sampleIndexBuffer32 0 1 =
      ({ X := 0, Y := 0, Z := 0 }, { X := 1 / 4, Y := 0, Z := 0 }, 0) := by
    simp [segmentOfVertices, sampleLineBuffer, sampleIndexBuffer32, S3DVertexC.Pos]
  refine ⟨?_, hseg, ?_⟩
  · unfold drawVertexPrimitiveList drawVertexPrimitiveListWith
    simp [sampleIndexBuffer32]
  · rw [hseg]
    have h := sample_draw3DLine_changes
    simpa [drawSegmentList, List.foldlM] using h

/-- The bound `2*primitiveCount` of the line list loop is a product of 32 bits: for a
primitive count of `2^31` it is 0 and the call draws nothing. -/
theorem line_list_count_wraps (ext : Externals) (d : DriverState) (vb : IVertexBuffer)
    (ib : IIndexBuffer) (desc : IVertexDescriptor) (offsetP : Nat)
    (h16 : ib.getType = EIT_16BIT) (hP : desc.AttributeP = some offsetP) :
    drawVertexPrimitiveList ext d (some vb) (some ib) (some desc) (2 ^ 31) EPT_LINES =
      some d := by
  rw [(drawVertexPrimitiveList_lines ext d vb ib desc offsetP (2 ^ 31) (by norm_num) h16 hP).2.2]
  rfl

/-- C26: the line branches read the end points of a segment at
`(core::vector3df*)OffsetP + vertexSize * index` and its colour at
`(SColor*)OffsetC + vertexSize * index`. The sum steps in elements of the type pointed to,
12 bytes for a position and 4 for a colour, and not in bytes: in a buffer of standard
vertices of 36 bytes the position read for the index `j` is that of vertex `12 * j` and
the colour that of vertex `4 * j`. On the sample line buffer the segments that join the
indices 0, 1 and 1, 2 of a line strip are (0,0,0)-(1/4,0,0) in the colour 0 and
(1/4,0,0)-(1/2,0,0) in the colour 1; the call makes its two `draw3DLine` calls for
(0,0,0)-(3,0,0) in the colour 0 and (3,0,0)-(6,0,0) in the colour 4, the positions of the
vertices 0, 12 and 24 and the colours of the vertices 0 and 4. -/
theorem line_strip_reads_wrong_vertices :
    sampleIndexBuffer.getType = EIT_16BIT ∧ sampleDescriptor.AttributeP = some 0 ∧
    sampleLineBuffer.getVertexSize = 36 ∧
    (List.range (3 - 1)).map
        (fun i => segmentOfVertices sampleLineBuffer sampleIndexBuffer i (i + 1)) =
      [({ X := 0, Y := 0, Z := 0 }, { X := 1 / 4, Y := 0, Z := 0 }, 0),
        ({ X := 1 / 4, Y := 0, Z := 0 }, { X := 1 / 2, Y := 0, Z := 0 }, 1)] ∧
    drawVertexPrimitiveList sampleExternals sampleState (some sampleLineBuffer)
        (some sampleIndexBuffer) (some sampleDescriptor) 3 EPT_LINE_STRIP =
      drawSegmentList sampleExternals sampleState
        [({ X := 0, Y := 0, Z := 0 }, { X := 3, Y := 0, Z := 0 }, 0),
          ({ X := 3, Y := 0, Z := 0 }, { X := 6, Y := 0, Z := 0 }, 4)] ∧
    (sampleLineBuffer.getVertices 12).Pos = { X := 3, Y := 0, Z := 0 } ∧
    (sampleLineBuffer.getVertices 24).Pos = { X := 6, Y := 0, Z := 0 } ∧
    (sampleLineBuffer.getVertices 4).Color = 4 ∧
    stripSegments sampleLineBuffer sampleIndexBuffer sampleDescriptor 0 3 ≠
      (List.range (3 - 1)).map
        (fun i => segmentOfVertices sampleLineBuffer sampleIndexBuffer i (i + 1)) := by
  have hclaim : (List.range (3 - 1)).map
      (fun i => segmentOfVertices sampleLineBuffer sampleIndexBuffer i (i + 1)) =
      [({ X := 0, Y := 0, Z := 0 }, { X := 1 / 4, Y := 0, Z := 0 }, 0),
        ({ X := 1 / 4, Y := 0, Z := 0 }, { X := 1 / 2, Y := 0, Z := 0 }, 1)] := by
    simp [segmentOfVertices, sampleLineBuffer, sampleIndexBuffer, S3DVertexC.Pos,
      List.range_succ]
    norm_num
  have hcode : stripSegments sampleLineBuffer sampleIndexBuffer sampleDescriptor 0 3 =
      [({ X := 0, Y := 0, Z := 0 }, { X := 3, Y := 0, Z := 0 }, 0),
        ({ X := 3, Y := 0, Z := 0 }, { X := 6, Y := 0, Z := 0 }, 4)] := by
    simp [stripSegments, segmentJoining, sampleLineBuffer, sampleIndexBuffer, sampleDescriptor,
      List.range_succ]
    norm_num
  refine ⟨rfl, rfl, rfl, hclaim, ?_, ?_, ?_, rfl, ?_⟩
  · rw [(drawVertexPrimitiveList_lines sampleExternals sampleState sampleLineBuffer
      sampleIndexBuffer sampleDescriptor 0 3 (by decide) rfl rfl).1, hcode]
  · simp [sampleLineBuffer, S3DVertexC.Pos]
    norm_num
  · simp [sampleLineBuffer, S3DVertexC.Pos]
    norm_num
  · rw [hclaim, hcode]
    intro h
    have h1 := congrArg (fun l => l.map (fun seg => seg.2.1.X)) h
    simp at h1
    norm_num at h1

end LinePrimitives

/-! ### The shadow volume scene node: adjacency -/

section Adjacency

theorem vertexOfIndex_isSome (node : CShadowVolumeSceneNode) (h : indicesValid node) (k : Nat)
    (hk : k < node.IndexCount) :
    ∃ i v, node.Indices[k]? = some i ∧ node.Vertices[i]? = some v ∧
      node.vertexOfIndex k = some v := by
  obtain ⟨hlen, hall⟩ := h
  have hk2 : k < node.Indices.length := lt_of_lt_of_le hk hlen
  have hi : node.Indices[k]? = some (node.Indices[k]) := List.getElem?_eq_getElem hk2
  have hmem : node.Indices[k] ∈ node.Indices.take node.IndexCount := by
    rw [List.mem_iff_getElem?]
    exact ⟨k, by rw [List.getElem?_take, if_pos hk, hi]⟩
  have hv := hall _ hmem
  refine ⟨node.Indices[k], node.Vertices[node.Indices[k]], hi, List.getElem?_eq_getElem hv, ?_⟩
  simp only [CShadowVolumeSceneNode.vertexOfIndex, hi, Option.bind_eq_bind, Option.some_bind]
  exact List.getElem?_eq_getElem hv

/-- The test of one other face in `calculateAdjacency` is the test whether that face has a
vertex position-equal to each end point. -/
theorem edgeIsShared_iff (ext : ShadowExternals) (node : CShadowVolumeSceneNode)
    (h : indicesValid node) (v1 v2 : vector3df) (g : Nat) (hg : 3 * g + 2 < node.IndexCount) :
    ∃ b, edgeIsShared ext node v1 v2 (3 * g) = some b ∧
      (b = true ↔ faceSharesEdge ext node g v1 v2) := by
  obtain ⟨_, a, -, -, ha⟩ := vertexOfIndex_isSome node h (3 * g + 0) (by omega)
  obtain ⟨_, b, -, -, hb⟩ := vertexOfIndex_isSome node h (3 * g + 1) (by omega)
  obtain ⟨_, c, -, -, hc⟩ := vertexOfIndex_isSome node h (3 * g + 2) (by omega)
  have hhas : ∀ p, faceHasVertexAt ext node g p ↔
      (ext.equals p a || ext.equals p b || ext.equals p c) = true := by
    intro p
    unfold faceHasVertexAt
    constructor
    · rintro ⟨e, he, q, hq, heq⟩
      have he3 : e = 0 ∨ e = 1 ∨ e = 2 := by omega
      rcases he3 with rfl | rfl | rfl
      · rw [ha] at hq; cases hq; simp [heq]
      · rw [hb] at hq; cases hq; simp [heq]
      · rw [hc] at hq; cases hq; simp [heq]
    · intro hp
      simp only [Bool.or_eq_true] at hp
      rcases hp with (hp | hp) | hp
      · exact ⟨0, by omega, a, ha, hp⟩
      · exact ⟨1, by omega, b, hb, hp⟩
      · exact ⟨2, by omega, c, hc, hp⟩
  refine ⟨(ext.equals v1 a || ext.equals v1 b || ext.equals v1 c) &&
    (ext.equals v2 a || ext.equals v2 b || ext.equals v2 c), ?_, ?_⟩
  · simp only [edgeIsShared, ha, hb, hc, Option.bind_eq_bind, Option.some_bind]
  · unfold faceSharesEdge
    rw [hhas v1, hhas v2, Bool.and_eq_true]

/-- The search loop of `calculateAdjacency` over the faces `s`, ..., `s+n-1`: it stops at
the first face other than `f` that shares the edge, or runs to its end when there is
none. -/
theorem findOtherFace_spec (ext : ShadowExternals) (node : CShadowVolumeSceneNode)
    (h : indicesValid node) (f : Nat) (v1 v2 : vector3df) (n : Nat) :
    ∀ s, (∀ g, s ≤ g → g < s + n → 3 * g + 2 < node.IndexCount) →
      (findOtherFace ext node (3 * f) v1 v2 ((List.range' s n).map (fun k => 3 * k)) =
          some none ∧
        ∀ g, s ≤ g → g < s + n → g ≠ f → ¬ faceSharesEdge ext node g v1 v2) ∨
      ∃ a, findOtherFace ext node (3 * f) v1 v2 ((List.range' s n).map (fun k => 3 * k)) =
          some (some (3 * a)) ∧
        s ≤ a ∧ a < s + n ∧ a ≠ f ∧ faceSharesEdge ext node a v1 v2 ∧
        ∀ g, s ≤ g → g < a → g ≠ f → ¬ faceSharesEdge ext node g v1 v2 := by
  induction n with
  | zero =>
    intro s _
    left
    refine ⟨rfl, ?_⟩
    intro g h1 h2
    omega
  | succ n ih =>
    intro s hs
    have ih2 := ih (s + 1) (fun g h1 h2 => hs g (by omega) (by omega))
    rw [List.range'_succ, List.map_cons]
    by_cases hsf : s = f
    · -- the face itself is skipped
      have hskip : findOtherFace ext node (3 * f) v1 v2
          (3 * s :: (List.range' (s + 1) n).map (fun k => 3 * k)) =
          findOtherFace ext node (3 * f) v1 v2 ((List.range' (s + 1) n).map (fun k => 3 * k)) := by
        rw [findOtherFace, if_neg (by rw [hsf]; simp)]
      rw [hskip]
      rcases ih2 with ⟨h1, h2⟩ | ⟨a, h1, h2, h3, h4, h5, h6⟩
      · left
        refine ⟨h1, ?_⟩
        intro g hg1 hg2 hgf
        by_cases hgs : g = s
        · exact absurd (hgs.trans hsf) hgf
        · exact h2 g (by omega) (by omega) hgf
      · right
        refine ⟨a, h1, by omega, by omega, h4, h5, ?_⟩
        intro g hg1 hg2 hgf
        by_cases hgs : g = s
        · exact absurd (hgs.trans hsf) hgf
        · exact h6 g (by omega) hg2 hgf
    · obtain ⟨b, hb, hbiff⟩ := edgeIsShared_iff ext node h v1 v2 s (hs s le_rfl (by omega))
      have hne : 3 * s ≠ 3 * f := by omega
      cases b with
      | true =>
        right
        refine ⟨s, ?_, le_rfl, by omega, hsf, hbiff.mp rfl, ?_⟩
        · rw [findOtherFace, if_pos hne, hb]
          rfl
        · intro g hg1 hg2
          omega
      | false =>
        have hstep : findOtherFace ext node (3 * f) v1 v2
            (3 * s :: (List.range' (s + 1) n).map (fun k => 3 * k)) =
            findOtherFace ext node (3 * f) v1 v2
              ((List.range' (s + 1) n).map (fun k => 3 * k)) := by
          rw [findOtherFace, if_pos hne, hb]
          rfl
        have hnot : ¬ faceSharesEdge ext node s v1 v2 := by
          intro hc
          exact absurd (hbiff.mpr hc) (by decide)
        rw [hstep]
        rcases ih2 with ⟨h1, h2⟩ | ⟨a, h1, h2, h3, h4, h5, h6⟩
        · left
          refine ⟨h1, ?_⟩
          intro g hg1 hg2 hgf
          by_cases hgs : g = s
          · rw [hgs]; exact hnot
          · exact h2 g (by omega) (by omega) hgf
        · right
          refine ⟨a, h1, by omega, by omega, h4, h5, ?_⟩
          intro g hg1 hg2 hgf
          by_cases hgs : g = s
          · rw [hgs]; exact hnot
          · exact h6 g (by omega) hg2 hgf

theorem faceOffsets_of_multiple (IndexCount : Nat) (h3 : IndexCount % 3 = 0) :
    faceOffsets IndexCount = (List.range' 0 (IndexCount / 3)).map (fun k => 3 * k) := by
  unfold faceOffsets
  rw [List.range_eq_range']
  have : (IndexCount + 2) / 3 = IndexCount / 3 := by omega
  rw [this]

theorem arraySetUsed_length {T : Type} (a : List T) (n : Nat) (fill : T) :
    (arraySetUsed a n fill).length = n := by
  simp only [arraySetUsed, List.length_append, List.length_take, List.length_replicate]
  omega

/-- The value that `calculateAdjacency` stores for the edge `e` of face `f`. -/
theorem adjacencyOfEdge_spec (ext : ShadowExternals) (node : CShadowVolumeSceneNode)
    (hI : indicesValid node) (h3 : node.IndexCount % 3 = 0) (f e : Nat)
    (hf : f < node.IndexCount / 3) (he : e < 3) :
    ∃ a v1 v2, adjacencyOfEdge ext node (3 * f) e = some a ∧
      node.vertexOfIndex (3 * f + e) = some v1 ∧
      node.vertexOfIndex (3 * f + (e + 1) % 3) = some v2 ∧
      a < node.IndexCount / 3 ∧
      ((a ≠ f ∧ faceSharesEdge ext node a v1 v2 ∧
          ∀ g, g < a → g ≠ f → ¬ faceSharesEdge ext node g v1 v2) ∨
        (a = f ∧ ∀ g, g < node.IndexCount / 3 → g ≠ f → ¬ faceSharesEdge ext node g v1 v2)) := by
  obtain ⟨_, v1, -, -, hv1⟩ := vertexOfIndex_isSome node hI (3 * f + e) (by omega)
  obtain ⟨_, v2, -, -, hv2⟩ := vertexOfIndex_isSome node hI (3 * f + (e + 1) % 3) (by omega)
  have hsearch := findOtherFace_spec ext node hI f v1 v2 (node.IndexCount / 3) 0
    (fun g _ hg => by omega)
  rw [← faceOffsets_of_multiple node.IndexCount h3] at hsearch
  rcases hsearch with ⟨h1, h2⟩ | ⟨a, h1, -, h2, h4, h5, h6⟩
  · refine ⟨f, v1, v2, ?_, hv1, hv2, hf, Or.inr ⟨rfl, ?_⟩⟩
    · simp only [adjacencyOfEdge, hv1, hv2, h1, Option.bind_eq_bind, Option.some_bind]
      congr 1
      omega
    · intro g hg hgf
      exact h2 g (Nat.zero_le g) (by omega) hgf
  · refine ⟨a, v1, v2, ?_, hv1, hv2, by omega, Or.inl ⟨h4, h5, ?_⟩⟩
    · simp only [adjacencyOfEdge, hv1, hv2, h1, Option.bind_eq_bind, Option.some_bind]
      congr 1
      omega
    · intro g hg hgf
      exact h6 g (Nat.zero_le g) hg hgf

theorem adjacencyOfFace_eq (ext : ShadowExternals) (node : CShadowVolumeSceneNode)
    (adj : List Nat) (f a0 a1 a2 : Nat) (h0 : adjacencyOfEdge ext node f 0 = some a0)
    (h1 : adjacencyOfEdge ext node f 1 = some a1) (h2 : adjacencyOfEdge ext node f 2 = some a2)
    (hlen : f + 2 < adj.length) :
    adjacencyOfFace ext node adj f =
      some (((adj.set (f + 0) a0).set (f + 1) a1).set (f + 2) a2) := by
  have l0 : f + 0 < adj.length := by omega
  have l1 : f + 1 < (adj.set (f + 0) a0).length := by rw [List.length_set]; omega
  have l2 : f + 2 < ((adj.set (f + 0) a0).set (f + 1) a1).length := by
    rw [List.length_set, List.length_set]; omega
  simp only [adjacencyOfFace, List.foldlM, h0, h1, h2, arrayWrite, Option.bind_eq_bind,
    Option.some_bind, if_pos l0, if_pos l1, if_pos l2, Option.pure_def]

/-- The loop of `calculateAdjacency` over the faces `s`, ..., `s+n-1`: the entries of
these faces are written, every other entry is left as it is. -/
theorem adjacencyFold_spec (ext : ShadowExternals) (node : CShadowVolumeSceneNode) (n : Nat) :
    ∀ (s : Nat) (adj : List Nat),
      (∀ g e, s ≤ g → g < s + n → e < 3 → ∃ a, adjacencyOfEdge ext node (3 * g) e = some a) →
      3 * (s + n) ≤ adj.length →
      ∃ adj2, ((List.range' s n).map (fun k => 3 * k)).foldlM (adjacencyOfFace ext node) adj =
          some adj2 ∧
        adj2.length = adj.length ∧
        ∀ p, (3 * s ≤ p → p < 3 * (s + n) →
            adj2[p]? = adjacencyOfEdge ext node (3 * (p / 3)) (p % 3)) ∧
          (¬ (3 * s ≤ p ∧ p < 3 * (s + n)) → adj2[p]? = adj[p]?) := by
  induction n with
  | zero =>
    intro s adj _ _
    refine ⟨adj, rfl, rfl, fun p => ⟨fun h1 h2 => ?_, fun _ => rfl⟩⟩
    omega
  | succ n ih =>
    intro s adj hsome hlen
    obtain ⟨a0, h0⟩ := hsome s 0 le_rfl (by omega) (by omega)
    obtain ⟨a1, h1⟩ := hsome s 1 le_rfl (by omega) (by omega)
    obtain ⟨a2, h2⟩ := hsome s 2 le_rfl (by omega) (by omega)
    have hface := adjacencyOfFace_eq ext node adj (3 * s) a0 a1 a2 h0 h1 h2 (by omega)
    obtain ⟨adj2, hfold, hl2, hent⟩ := ih (s + 1)
      (((adj.set (3 * s + 0) a0).set (3 * s + 1) a1).set (3 * s + 2) a2)
      (fun g e hg1 hg2 he => hsome g e (by omega) (by omega) he)
      (by rw [List.length_set, List.length_set, List.length_set]; omega)
    refine ⟨adj2, ?_, ?_, ?_⟩
    · rw [List.range'_succ, List.map_cons, List.foldlM_cons, hface]
      exact hfold
    · rw [hl2, List.length_set, List.length_set, List.length_set]
    · intro p
      obtain ⟨hin, hout⟩ := hent p
      constructor
      · intro hp1 hp2
        by_cases hp : 3 * (s + 1) ≤ p
        · exact hin hp (by omega)
        · rw [hout (fun hc => hp hc.1)]
          have hp3 : p = 3 * s + 0 ∨ p = 3 * s + 1 ∨ p = 3 * s + 2 := by omega
          rcases hp3 with rfl | rfl | rfl
          · rw [List.getElem?_set_ne (by omega), List.getElem?_set_ne (by omega),
              List.getElem?_set_self (by omega)]
            have e1 : (3 * s + 0) / 3 = s := by omega
            have e2 : (3 * s + 0) % 3 = 0 := by omega
            rw [e1, e2, h0]
          · rw [List.getElem?_set_ne (by omega),
              List.getElem?_set_self (by rw [List.length_set]; omega)]
            have e1 : (3 * s + 1) / 3 = s := by omega
            have e2 : (3 * s + 1) % 3 = 1 := by omega
            rw [e1, e2, h1]
          · rw [List.getElem?_set_self (by rw [List.length_set, List.length_set]; omega)]
            have e1 : (3 * s + 2) / 3 = s := by omega
            have e2 : (3 * s + 2) % 3 = 2 := by omega
            rw [e1, e2, h2]
      · intro hp
        rw [hout (fun hc => hp ⟨by omega, by omega⟩), List.getElem?_set_ne (by omega),
          List.getElem?_set_ne (by omega), List.getElem?_set_ne (by omega)]

/-- C27: on a triangle list (an index count that is a multiple of 3, every index
referring to a vertex) `calculateAdjacency` returns, and afterwards, for every face `f`
and each of its three edges `e`, joining vertex `e` and vertex `(e+1) mod 3` of `f`,
`Adjacency[3f+e]` is the number of the lowest-numbered face other than `f` that has a
vertex position-equal to each end point of the edge, or `f` itself when there is no such
face; every such entry is a valid face number, below `IndexCount / 3`. Nothing but the
adjacency array is changed. -/
theorem calculateAdjacency_stores_lowest_sharing_face (ext : ShadowExternals)
    (node : CShadowVolumeSceneNode) (hI : indicesValid node)
    (h3 : node.IndexCount % 3 = 0) :
    ∃ Adjacency, calculateAdjacency ext node = some { node with Adjacency := Adjacency } ∧
      Adjacency.length = node.IndexCount ∧
      ∀ f e, f < node.IndexCount / 3 → e < 3 →
        ∃ a v1 v2, Adjacency[3 * f + e]? = some a ∧
          node.vertexOfIndex (3 * f + e) = some v1 ∧
          node.vertexOfIndex (3 * f + (e + 1) % 3) = some v2 ∧
          a < node.IndexCount / 3 ∧
          ((a ≠ f ∧ faceSharesEdge ext node a v1 v2 ∧
              ∀ g, g < a → g ≠ f → ¬ faceSharesEdge ext node g v1 v2) ∨
            (a = f ∧
              ∀ g, g < node.IndexCount / 3 → g ≠ f → ¬ faceSharesEdge ext node g v1 v2)) := by
  obtain ⟨adj2, hfold, hl2, hent⟩ := adjacencyFold_spec ext node (node.IndexCount / 3) 0
    (arraySetUsed node.Adjacency node.IndexCount 0)
    (fun g e _ hg he => by
      obtain ⟨a, -, -, ha, -⟩ := adjacencyOfEdge_spec ext node hI h3 g e (by omega) he
      exact ⟨a, ha⟩)
    (by rw [arraySetUsed_length]; omega)
  rw [← faceOffsets_of_multiple node.IndexCount h3] at hfold
  refine ⟨adj2, ?_, by rw [hl2, arraySetUsed_length], ?_⟩
  · simp only [calculateAdjacency, hfold, Option.bind_eq_bind, Option.some_bind]
  · intro f e hf he
    obtain ⟨a, v1, v2, ha, hv1, hv2, hlt, hspec⟩ :=
      adjacencyOfEdge_spec ext node hI h3 f e hf he
    refine ⟨a, v1, v2, ?_, hv1, hv2, hlt, hspec⟩
    rw [(hent (3 * f + e)).1 (by omega) (by omega)]
    have e1 : (3 * f + e) / 3 = f := by omega
    have e2 : (3 * f + e) % 3 = e := by omega
    rw [e1, e2, ha]

end Adjacency

section AdjacencySample

/-- The theorem for C27 applied to the sample node of two triangles. -/
theorem calculateAdjacency_stores_lowest_sharing_face_witness :
    (indicesValid sampleNode ∧ sampleNode.IndexCount % 3 = 0) ∧
    ∃ Adjacency, calculateAdjacency sampleShadowExternals sampleNode =
        some { sampleNode with Adjacency := Adjacency } ∧
      Adjacency.length = sampleNode.IndexCount ∧
      ∀ f e, f < sampleNode.IndexCount / 3 → e < 3 →
        ∃ a v1 v2, Adjacency[3 * f + e]? = some a ∧
          sampleNode.vertexOfIndex (3 * f + e) = some v1 ∧
          sampleNode.vertexOfIndex (3 * f + (e + 1) % 3) = some v2 ∧
          a < sampleNode.IndexCount / 3 ∧
          ((a ≠ f ∧ faceSharesEdge sampleShadowExternals sampleNode a v1 v2 ∧
              ∀ g, g < a → g ≠ f → ¬ faceSharesEdge sampleShadowExternals sampleNode g v1 v2) ∨
            (a = f ∧
              ∀ g, g < sampleNode.IndexCount / 3 → g ≠ f →
                ¬ faceSharesEdge sampleShadowExternals sampleNode g v1 v2)) :=
  ⟨⟨by decide, by decide⟩,
   calculateAdjacency_stores_lowest_sharing_face sampleShadowExternals sampleNode (by decide)
     (by decide)⟩

/-- The adjacency of the sample node, computed from an empty adjacency array: the two
triangles are adjacent across the edge between the vertices 1 and 2, every other edge has
no adjacent face. -/
theorem calculateAdjacency_sample :
    (calculateAdjacency sampleShadowExternals { sampleNode with Adjacency := [] }).map
        (fun node => node.Adjacency) = some [0, 1, 0, 0, 1, 1] := by
  decide

end AdjacencySample

/-! ### The shadow volume scene node: edges and caps -/

section EdgesAndCaps

theorem faceVertices_isSome (node : CShadowVolumeSceneNode) (hI : indicesValid node) (i : Nat)
    (hi : i < node.IndexCount / 3) :
    ∃ v0 v1 v2, node.vertexOfIndex (3 * i + 0) = some v0 ∧
      node.vertexOfIndex (3 * i + 1) = some v1 ∧ node.vertexOfIndex (3 * i + 2) = some v2 := by
  obtain ⟨_, v0, -, -, h0⟩ := vertexOfIndex_isSome node hI (3 * i + 0) (by omega)
  obtain ⟨_, v1, -, -, h1⟩ := vertexOfIndex_isSome node hI (3 * i + 1) (by omega)
  obtain ⟨_, v2, -, -, h2⟩ := vertexOfIndex_isSome node hI (3 * i + 2) (by omega)
  exact ⟨v0, v1, v2, h0, h1, h2⟩

/-- The caps of a face of a well-formed mesh are six vertices. -/
theorem capsOfFace_length (node : CShadowVolumeSceneNode) (hI : indicesValid node)
    (light : vector3df) (i : Nat) (hi : i < node.IndexCount / 3) :
    (capsOfFace node light i).length = 6 := by
  obtain ⟨v0, v1, v2, h0, h1, h2⟩ := faceVertices_isSome node hI i hi
  simp only [capsOfFace, h0, h1, h2, List.length_cons, List.length_nil]

/-- One pass of the first loop of `createEdgesAndCaps`. -/
theorem faceLoopStep_eq (ext : ShadowExternals) (node : CShadowVolumeSceneNode)
    (hI : indicesValid node) (light : vector3df) (FD : List Bool) (svp : List vector3df)
    (i : Nat) (hi : i < node.IndexCount / 3) (hFD : i < FD.length) :
    faceLoopStep ext node light (FD, svp) i =
      some (FD.set i (faceIsFront ext node light i),
        svp ++ (if (node.UseZFailMethod && faceIsFront ext node light i) = true
          then capsOfFace node light i else [])) := by
  obtain ⟨v0, v1, v2, h0, h1, h2⟩ := faceVertices_isSome node hI i hi
  have hfront : faceIsFront ext node light i = ext.isFrontFacing v0 v1 v2 light := by
    simp only [faceIsFront, h0, h1, h2]
  have hcaps : capsOfFace node light i =
      [v0, v2, v1, v0.sub light, v1.sub light, v2.sub light] := by
    simp only [capsOfFace, h0, h1, h2]
  simp only [faceLoopStep, h0, h1, h2, arrayWrite, if_pos hFD, Option.bind_eq_bind,
    Option.some_bind, hfront, hcaps]
  split_ifs
  · rfl
  · simp

/-- The caps that the first loop of `createEdgesAndCaps` appends for the faces below
`n`. -/
theorem faceLoop_spec (ext : ShadowExternals) (node : CShadowVolumeSceneNode)
    (hI : indicesValid node) (light : vector3df) (FD : List Bool) (svp : List vector3df)
    (n : Nat) (hn : n ≤ node.IndexCount / 3) (hFD : n ≤ FD.length) :
    ∃ FD2, (List.range n).foldlM (faceLoopStep ext node light) (FD, svp) =
        some (FD2, svp ++
          ((List.range n).map (fun i =>
            if (node.UseZFailMethod && faceIsFront ext node light i) = true
              then capsOfFace node light i else [])).flatten) ∧
      FD2.length = FD.length ∧
      (∀ i, i < n → FD2[i]? = some (faceIsFront ext node light i)) ∧
      (∀ i, n ≤ i → FD2[i]? = FD[i]?) := by
  induction n with
  | zero =>
    refine ⟨FD, ?_, rfl, fun i hi => absurd hi (Nat.not_lt_zero i), fun _ _ => rfl⟩
    simp
  | succ n ih =>
    obtain ⟨FD2, hfold, hlen, hlow, hhigh⟩ := ih (by omega) (by omega)
    refine ⟨FD2.set n (faceIsFront ext node light n), ?_, ?_, ?_, ?_⟩
    · rw [List.range_succ, List.foldlM_append, hfold]
      simp only [Option.bind_eq_bind, Option.some_bind, List.foldlM_cons, List.foldlM_nil,
        Option.pure_def, Option.bind_some]
      rw [faceLoopStep_eq ext node hI light FD2 _ n (by omega) (by omega)]
      simp only [List.map_append, List.map_cons, List.map_nil, List.flatten_append,
        List.flatten_cons, List.flatten_nil, List.append_nil, List.append_assoc]
    · rw [List.length_set, hlen]
    · intro i hi
      by_cases hin : i = n
      · subst hin
        exact List.getElem?_set_self (by omega)
      · rw [List.getElem?_set_ne (fun h => hin h.symm)]
        exact hlow i (by omega)
    · intro i hi
      rw [List.getElem?_set_ne (by omega)]
      exact hhigh i (by omega)

theorem flatten_map_ite_eq_filter {α β : Type} (p : α → Bool) (f : α → List β) (l : List α) :
    (l.map (fun i => if p i = true then f i else [])).flatten = ((l.filter p).map f).flatten := by
  induction l with
  | nil => rfl
  | cons a l ih =>
    rw [List.map_cons, List.flatten_cons, ih]
    cases hp : p a
    · rw [List.filter_cons_of_neg (by simp [hp])]
      simp
    · rw [List.filter_cons_of_pos hp]
      simp

theorem flatten_length_of_const {α : Type} (ts : List (List α)) (k : Nat)
    (h : ∀ t ∈ ts, t.length = k) : ts.flatten.length = k * ts.length := by
  induction ts with
  | nil => rfl
  | cons t ts ih =>
    rw [List.flatten_cons, List.length_append, ih (fun s hs => h s (List.mem_cons_of_mem _ hs)),
      h t (List.mem_cons_self _ _), List.length_cons]
    ring

theorem addEdge_eq (k : Nat) (E : List Nat) (a b : Nat) (h : 2 * k + 1 < E.length) :
    addEdge (k, E) a b = some (k + 1, (E.set (2 * k + 0) a).set (2 * k + 1) b) := by
  have h0 : 2 * k + 0 < E.length := by omega
  have h1 : 2 * k + 1 < (E.set (2 * k + 0) a).length := by rw [List.length_set]; exact h
  simp only [addEdge, arrayWrite, if_pos h0, if_pos h1, Option.bind_eq_bind, Option.some_bind]

theorem take_set_set (E : List Nat) (k a b : Nat) (h : 2 * k + 1 < E.length) :
    ((E.set (2 * k + 0) a).set (2 * k + 1) b).take (2 * (k + 1)) = E.take (2 * k) ++ [a, b] := by
  have hl : (E.take (2 * k)).length = 2 * k := by
    rw [List.length_take]; omega
  show ((E.set (2 * k) a).set (2 * k + 1) b).take (2 * (k + 1)) = E.take (2 * k) ++ [a, b]
  apply List.ext_getElem?
  intro j
  rw [List.getElem?_take]
  by_cases h1 : j < 2 * k
  · rw [if_pos (by omega), List.getElem?_set_ne (by omega), List.getElem?_set_ne (by omega),
      List.getElem?_append_left (by omega), List.getElem?_take, if_pos h1]
  · rw [List.getElem?_append_right (by omega), hl]
    by_cases h2 : j = 2 * k
    · subst h2
      rw [if_pos (by omega), List.getElem?_set_ne (by omega),
        List.getElem?_set_self (by omega)]
      simp
    · by_cases h3 : j = 2 * k + 1
      · subst h3
        rw [if_pos (by omega), List.getElem?_set_self (by rw [List.length_set]; omega)]
        have : 2 * k + 1 - 2 * k = 1 := by omega
        rw [this]
        rfl
      · rw [if_neg (by omega)]
        have hge : 2 ≤ j - 2 * k := by omega
        rw [List.getElem?_eq_none]
        simp only [List.length_cons, List.length_nil]
        omega

theorem edgeTest_eq (ext : ShadowExternals) (node : CShadowVolumeSceneNode)
    (light : vector3df) (FD : List Bool)
    (hFD : ∀ j, j < node.IndexCount / 3 → FD[j]? = some (faceIsFront ext node light j))
    (adj i : Nat) (hadj : adj < node.IndexCount / 3) :
    edgeTest FD adj i = some (adj == i || !faceIsFront ext node light adj) := by
  unfold edgeTest
  by_cases h : adj = i
  · rw [if_pos h]
    simp [h]
  · rw [if_neg h, hFD adj hadj]
    simp [h]

theorem addEdgeIf_spec (ext : ShadowExternals) (node : CShadowVolumeSceneNode)
    (light : vector3df) (FD : List Bool)
    (hFD : ∀ j, j < node.IndexCount / 3 → FD[j]? = some (faceIsFront ext node light j))
    (k : Nat) (E : List Nat) (adj i a b : Nat) (hadj : adj < node.IndexCount / 3)
    (h : 2 * k + 1 < E.length) :
    ∃ E2, addEdgeIf FD (k, E) adj i a b =
        some (k + (if (adj == i || !faceIsFront ext node light adj) = true then 1 else 0), E2) ∧
      E2.length = E.length ∧
      E2.take (2 * (k + (if (adj == i || !faceIsFront ext node light adj) = true then 1 else 0))) =
        E.take (2 * k) ++
          (if (adj == i || !faceIsFront ext node light adj) = true then [a, b] else []) := by
  have ht := edgeTest_eq ext node light FD hFD adj i hadj
  by_cases hc : (adj == i || !faceIsFront ext node light adj) = true
  · refine ⟨(E.set (2 * k + 0) a).set (2 * k + 1) b, ?_, ?_, ?_⟩
    · simp only [addEdgeIf, ht, hc, Option.bind_eq_bind, Option.some_bind, if_true]
      exact addEdge_eq k E a b h
    · rw [List.length_set, List.length_set]
    · rw [if_pos hc, if_pos hc]
      exact take_set_set E k a b h
  · refine ⟨E, ?_, rfl, ?_⟩
    · have hf : (adj == i || !faceIsFront ext node light adj) = false := by
        cases hx : (adj == i || !faceIsFront ext node light adj)
        · rfl
        · exact absurd hx hc
      simp only [addEdgeIf, ht, hf, Option.bind_eq_bind, Option.some_bind, Bool.false_eq_true,
        if_false, Nat.add_zero]
    · rw [if_neg hc, if_neg hc]
      simp

theorem getD_of_lt (l : List Nat) (n : Nat) (h : n < l.length) :
    l[n]? = some (l.getD n 0) ∧ l.getD n 0 ∈ l.take (n + 1) := by
  have h1 : l[n]? = some l[n] := List.getElem?_eq_getElem h
  have h2 : l.getD n 0 = l[n] := by
    rw [List.getD_eq_getElem?_getD, h1]
    rfl
  rw [h2]
  refine ⟨h1, ?_⟩
  rw [List.mem_iff_getElem?]
  exact ⟨n, by rw [List.getElem?_take, if_pos (by omega), h1]⟩

theorem adjacentFace_lt (node : CShadowVolumeSceneNode) (hA : adjacencyValid node) (i e : Nat)
    (hi : i < node.IndexCount / 3) (he : e < 3) :
    node.Adjacency[3 * i + e]? = some (node.Adjacency.getD (3 * i + e) 0) ∧
    adjacentFace node i e < node.IndexCount / 3 ∧
    (node.IndexCount / 3 ≤ 65536 → adjacentFace node i e = node.Adjacency.getD (3 * i + e) 0) := by
  obtain ⟨hlen, hall⟩ := hA
  obtain ⟨h1, h2⟩ := getD_of_lt node.Adjacency (3 * i + e) (by omega)
  have hmem : node.Adjacency.getD (3 * i + e) 0 ∈ node.Adjacency.take node.IndexCount := by
    have hsub : (node.Adjacency.take (3 * i + e + 1)) =
        (node.Adjacency.take node.IndexCount).take (3 * i + e + 1) := by
      rw [List.take_take]
      congr 1
      omega
    rw [hsub] at h2
    exact List.mem_of_mem_take h2
  have hlt := hall _ hmem
  refine ⟨h1, ?_, ?_⟩
  · unfold adjacentFace
    exact lt_of_le_of_lt (Nat.mod_le _ _) hlt
  · intro h16
    unfold adjacentFace
    exact Nat.mod_eq_of_lt (by omega)

theorem emittedEdgesOfFace_eq (ext : ShadowExternals) (node : CShadowVolumeSceneNode)
    (light : vector3df) (i : Nat) :
    emittedEdgesOfFace ext node light i =
      (if edgeIsEmitted ext node light i 0 = true then [edgeEnds node i 0] else []) ++
        ((if edgeIsEmitted ext node light i 1 = true then [edgeEnds node i 1] else []) ++
          (if edgeIsEmitted ext node light i 2 = true then [edgeEnds node i 2] else [])) := by
  unfold emittedEdgesOfFace
  cases h0 : edgeIsEmitted ext node light i 0 <;> cases h1 : edgeIsEmitted ext node light i 1 <;>
    cases h2 : edgeIsEmitted ext node light i 2 <;> simp [List.filter, h0, h1, h2]

theorem edgeArray_append (a b : List (Nat × Nat)) :
    edgeArray (a ++ b) = edgeArray a ++ edgeArray b := by
  simp [edgeArray]

theorem edgeArray_ite (c : Prop) [Decidable c] (e : Nat × Nat) :
    edgeArray (if c then [e] else []) = if c then [e.1, e.2] else [] := by
  split_ifs <;> simp [edgeArray]

theorem length_ite_singleton (c : Prop) [Decidable c] (e : Nat × Nat) :
    (if c then [e] else []).length = if c then 1 else 0 := by
  split_ifs <;> rfl

/-- One pass of the second loop of `createEdgesAndCaps`: the emitted edges of face `i` are
written behind the edges written so far. -/
theorem edgeLoopStep_spec (ext : ShadowExternals) (node : CShadowVolumeSceneNode)
    (light : vector3df) (hI : indicesValid node) (hA : adjacencyValid node) (FD : List Bool)
    (hFD : ∀ j, j < node.IndexCount / 3 → FD[j]? = some (faceIsFront ext node light j))
    (k : Nat) (E : List Nat) (i : Nat) (hi : i < node.IndexCount / 3)
    (hk : k + 3 ≤ node.IndexCount) (hE : 2 * node.IndexCount ≤ E.length) :
    ∃ E2, edgeLoopStep node FD (k, E) i =
        some (k + (emittedEdgesOfFace ext node light i).length, E2) ∧
      E2.length = E.length ∧
      E2.take (2 * (k + (emittedEdgesOfFace ext node light i).length)) =
        E.take (2 * k) ++ edgeArray (emittedEdgesOfFace ext node light i) := by
  have hfront := hFD i hi
  cases hf : faceIsFront ext node light i with
  | false =>
    have hnone : emittedEdgesOfFace ext node light i = [] := by
      rw [emittedEdgesOfFace_eq]
      simp [edgeIsEmitted, hf]
    refine ⟨E, ?_, rfl, ?_⟩
    · rw [hf] at hfront
      simp only [edgeLoopStep, hfront, hnone, Option.bind_eq_bind, Option.some_bind,
        Bool.false_eq_true, if_false, List.length_nil, Nat.add_zero]
    · rw [hnone]
      simp [edgeArray]
  | true =>
    rw [hf] at hfront
    obtain ⟨hw0, -⟩ := getD_of_lt node.Indices (3 * i + 0) (by have := hI.1; omega)
    obtain ⟨hw1, -⟩ := getD_of_lt node.Indices (3 * i + 1) (by have := hI.1; omega)
    obtain ⟨hw2, -⟩ := getD_of_lt node.Indices (3 * i + 2) (by have := hI.1; omega)
    obtain ⟨ha0, hlt0, -⟩ := adjacentFace_lt node hA i 0 hi (by omega)
    obtain ⟨ha1, hlt1, -⟩ := adjacentFace_lt node hA i 1 hi (by omega)
    obtain ⟨ha2, hlt2, -⟩ := adjacentFace_lt node hA i 2 hi (by omega)
    have hstep : edgeLoopStep node FD (k, E) i =
        (addEdgeIf FD (k, E) (adjacentFace node i 0) i (edgeEnds node i 0).1
            (edgeEnds node i 0).2).bind
          (fun s1 =>
            (addEdgeIf FD s1 (adjacentFace node i 1) i (edgeEnds node i 1).1
                (edgeEnds node i 1).2).bind
              (fun s2 =>
                addEdgeIf FD s2 (adjacentFace node i 2) i (edgeEnds node i 2).1
                  (edgeEnds node i 2).2)) := by
      simp only [edgeLoopStep, hfront, hw0, hw1, hw2, ha0, ha1, ha2, Option.bind_eq_bind,
        Option.some_bind, if_true]
      rfl
    have he0 : edgeIsEmitted ext node light i 0 =
        (adjacentFace node i 0 == i || !faceIsFront ext node light (adjacentFace node i 0)) := by
      simp [edgeIsEmitted, hf]
    have he1 : edgeIsEmitted ext node light i 1 =
        (adjacentFace node i 1 == i || !faceIsFront ext node light (adjacentFace node i 1)) := by
      simp [edgeIsEmitted, hf]
    have he2 : edgeIsEmitted ext node light i 2 =
        (adjacentFace node i 2 == i || !faceIsFront ext node light (adjacentFace node i 2)) := by
      simp [edgeIsEmitted, hf]
    obtain ⟨E1, hs1, hl1, ht1⟩ := addEdgeIf_spec ext node light FD hFD k E
      (adjacentFace node i 0) i (edgeEnds node i 0).1 (edgeEnds node i 0).2 hlt0 (by omega)
    rw [← he0] at hs1 ht1
    have hc0 : (if edgeIsEmitted ext node light i 0 = true then 1 else 0) ≤ 1 := by
      split_ifs <;> omega
    obtain ⟨E2, hs2, hl2, ht2⟩ := addEdgeIf_spec ext node light FD hFD
      (k + (if edgeIsEmitted ext node light i 0 = true then 1 else 0)) E1
      (adjacentFace node i 1) i (edgeEnds node i 1).1 (edgeEnds node i 1).2 hlt1 (by omega)
    rw [← he1] at hs2 ht2
    have hc1 : (if edgeIsEmitted ext node light i 1 = true then 1 else 0) ≤ 1 := by
      split_ifs <;> omega
    obtain ⟨E3, hs3, hl3, ht3⟩ := addEdgeIf_spec ext node light FD hFD
      (k + (if edgeIsEmitted ext node light i 0 = true then 1 else 0) +
        (if edgeIsEmitted ext node light i 1 = true then 1 else 0)) E2
      (adjacentFace node i 2) i (edgeEnds node i 2).1 (edgeEnds node i 2).2 hlt2 (by omega)
    rw [← he2] at hs3 ht3
    have hcount : (emittedEdgesOfFace ext node light i).length =
        (if edgeIsEmitted ext node light i 0 = true then 1 else 0) +
          (if edgeIsEmitted ext node light i 1 = true then 1 else 0) +
          (if edgeIsEmitted ext node light i 2 = true then 1 else 0) := by
      rw [emittedEdgesOfFace_eq, List.length_append, List.length_append, length_ite_singleton,
        length_ite_singleton, length_ite_singleton]
      omega
    have harr : edgeArray (emittedEdgesOfFace ext node light i) =
        (if edgeIsEmitted ext node light i 0 = true
            then [(edgeEnds node i 0).1, (edgeEnds node i 0).2] else []) ++
          ((if edgeIsEmitted ext node light i 1 = true
              then [(edgeEnds node i 1).1, (edgeEnds node i 1).2] else []) ++
            (if edgeIsEmitted ext node light i 2 = true
              then [(edgeEnds node i 2).1, (edgeEnds node i 2).2] else [])) := by
      rw [emittedEdgesOfFace_eq, edgeArray_append, edgeArray_append, edgeArray_ite,
        edgeArray_ite, edgeArray_ite]
    refine ⟨E3, ?_, by rw [hl3, hl2, hl1], ?_⟩
    · rw [hstep, hs1, Option.some_bind, hs2, Option.some_bind, hs3, hcount]
      congr 2
      omega
    · rw [hcount, harr]
      have e1 : k + ((if edgeIsEmitted ext node light i 0 = true then 1 else 0) +
          (if edgeIsEmitted ext node light i 1 = true then 1 else 0) +
          (if edgeIsEmitted ext node light i 2 = true then 1 else 0)) =
          k + (if edgeIsEmitted ext node light i 0 = true then 1 else 0) +
          (if edgeIsEmitted ext node light i 1 = true then 1 else 0) +
          (if edgeIsEmitted ext node light i 2 = true then 1 else 0) := by omega
      rw [e1, ht3, ht2, ht1]
      simp only [List.append_assoc]

theorem emittedEdgesOfFace_length_le (ext : ShadowExternals) (node : CShadowVolumeSceneNode)
    (light : vector3df) (i : Nat) :
    (emittedEdgesOfFace ext node light i).length ≤
      3 * (if faceIsFront ext node light i = true then 1 else 0) := by
  rw [emittedEdgesOfFace_eq, List.length_append, List.length_append, length_ite_singleton,
    length_ite_singleton, length_ite_singleton]
  cases hf : faceIsFront ext node light i
  · simp [edgeIsEmitted, hf]
  · simp only [if_true]
    split_ifs <;> omega

theorem filter_range_succ_length (p : Nat → Bool) (n : Nat) :
    ((List.range (n + 1)).filter p).length =
      ((List.range n).filter p).length + (if p n = true then 1 else 0) := by
  rw [List.range_succ, List.filter_append, List.length_append]
  cases hp : p n
  · rw [List.filter_cons_of_neg (by simp [hp])]
    simp
  · rw [List.filter_cons_of_pos hp]
    simp

theorem filter_range_length_le (p : Nat → Bool) (n : Nat) :
    ((List.range n).filter p).length ≤ n := by
  have := List.length_filter_le p (List.range n)
  rw [List.length_range] at this
  exact this

/-- The second loop of `createEdgesAndCaps` over the faces below `n`. -/
theorem edgeLoop_spec (ext : ShadowExternals) (node : CShadowVolumeSceneNode)
    (light : vector3df) (hI : indicesValid node) (hA : adjacencyValid node) (FD : List Bool)
    (hFD : ∀ j, j < node.IndexCount / 3 → FD[j]? = some (faceIsFront ext node light j))
    (E : List Nat) (hE : 2 * node.IndexCount ≤ E.length) (n : Nat)
    (hn : n ≤ node.IndexCount / 3) :
    ∃ E2, (List.range n).foldlM (edgeLoopStep node FD) (0, E) =
        some ((((List.range n).map (emittedEdgesOfFace ext node light)).flatten).length, E2) ∧
      E2.length = E.length ∧
      E2.take (2 * (((List.range n).map (emittedEdgesOfFace ext node light)).flatten).length) =
        edgeArray (((List.range n).map (emittedEdgesOfFace ext node light)).flatten) ∧
      (((List.range n).map (emittedEdgesOfFace ext node light)).flatten).length ≤
        3 * ((List.range n).filter (faceIsFront ext node light)).length := by
  induction n with
  | zero =>
    refine ⟨E, ?_, rfl, ?_, ?_⟩
    · simp
    · simp [edgeArray]
    · simp
  | succ n ih =>
    obtain ⟨E2, hfold, hlen, htake, hbound⟩ := ih (by omega)
    have hle := filter_range_length_le (faceIsFront ext node light) n
    obtain ⟨E3, hstep, hlen3, htake3⟩ := edgeLoopStep_spec ext node light hI hA FD hFD
      (((List.range n).map (emittedEdgesOfFace ext node light)).flatten).length E2 n (by omega)
      (by omega) (by omega)
    have hflat : ((List.range (n + 1)).map (emittedEdgesOfFace ext node light)).flatten =
        ((List.range n).map (emittedEdgesOfFace ext node light)).flatten ++
          emittedEdgesOfFace ext node light n := by
      rw [List.range_succ, List.map_append, List.flatten_append]
      simp
    refine ⟨E3, ?_, by rw [hlen3, hlen], ?_, ?_⟩
    · rw [List.range_succ, List.foldlM_append, hfold]
      simp only [Option.bind_eq_bind, Option.some_bind, List.foldlM_cons, List.foldlM_nil,
        Option.pure_def, Option.bind_some]
      rw [hstep, ← List.length_append, ← hflat, ← List.range_succ]
    · rw [hflat, List.length_append, htake3, htake, edgeArray_append]
    · rw [hflat, List.length_append, filter_range_succ_length]
      have := emittedEdgesOfFace_length_le ext node light n
      omega

/-- The caps that the first loop appends, in terms of the front-facing faces. -/
theorem caps_eq (ext : ShadowExternals) (node : CShadowVolumeSceneNode) (light : vector3df) :
    ((List.range (node.IndexCount / 3)).map (fun i =>
        if (node.UseZFailMethod && faceIsFront ext node light i) = true
          then capsOfFace node light i else [])).flatten =
      if node.UseZFailMethod = true then
        ((frontFaces ext node light).map (capsOfFace node light)).flatten
      else [] := by
  cases hz : node.UseZFailMethod
  · simp
  · simp only [Bool.true_and, if_true]
    exact flatten_map_ite_eq_filter _ _ _

/-- The method `createEdgesAndCaps` on well-formed data: what it returns and writes. -/
theorem createEdgesAndCaps_spec (ext : ShadowExternals) (node : CShadowVolumeSceneNode)
    (light : vector3df) (svp : List vector3df) (hI : indicesValid node)
    (hA : adjacencyValid node) (hF : node.IndexCount / 3 ≤ node.FaceData.length)
    (hE : 2 * node.IndexCount ≤ node.Edges.length) :
    ∃ FD2 E2, createEdgesAndCaps ext node light svp =
        some ((emittedEdges ext node (scaledLight ext node light)).length,
          { node with FaceData := FD2, Edges := E2 },
          svp ++ (if node.UseZFailMethod = true then
            ((frontFaces ext node (scaledLight ext node light)).map
              (capsOfFace node (scaledLight ext node light))).flatten
            else [])) ∧
      FD2.length = node.FaceData.length ∧
      (∀ i, i < node.IndexCount / 3 →
        FD2[i]? = some (faceIsFront ext node (scaledLight ext node light) i)) ∧
      E2.length = node.Edges.length ∧
      E2.take (2 * (emittedEdges ext node (scaledLight ext node light)).length) =
        edgeArray (emittedEdges ext node (scaledLight ext node light)) ∧
      (emittedEdges ext node (scaledLight ext node light)).length ≤
        3 * (frontFaces ext node (scaledLight ext node light)).length ∧
      3 * (frontFaces ext node (scaledLight ext node light)).length ≤ node.IndexCount := by
  obtain ⟨FD2, hfaces, hlenF, hlow, -⟩ := faceLoop_spec ext node hI (scaledLight ext node light)
    node.FaceData svp (node.IndexCount / 3) le_rfl hF
  obtain ⟨E2, hedges, hlenE, htake, hbound⟩ := edgeLoop_spec ext node
    (scaledLight ext node light) hI hA FD2 hlow node.Edges hE (node.IndexCount / 3) le_rfl
  rw [caps_eq] at hfaces
  refine ⟨FD2, E2, ?_, hlenF, hlow, hlenE, htake, hbound, ?_⟩
  · simp only [createEdgesAndCaps, hfaces, hedges, Option.bind_eq_bind, Option.some_bind]
    rfl
  · have := filter_range_length_le (faceIsFront ext node (scaledLight ext node light))
      (node.IndexCount / 3)
    unfold frontFaces
    omega

end EdgesAndCaps

section EdgesClaim

/-- C28: on well-formed data (every index refers to a vertex, every adjacency entry is a
valid face number, `FaceData` has an element for each face, `Edges` has `2 * IndexCount`
elements) `createEdgesAndCaps` returns, and the edges it has written are exactly the
emitted edges in the order of the faces and of their edges, where an edge of face `i` is
emitted exactly when face `i` is front-facing the light and the face adjacent across the
edge is face `i` itself or is back-facing. The returned count is at most 3 times the
number of front-facing faces, which is at most `IndexCount`, so the last element written
is inside the `Edges` array. -/
theorem createEdgesAndCaps_emits_silhouette_edges (ext : ShadowExternals)
    (node : CShadowVolumeSceneNode) (light : vector3df) (svp : List vector3df)
    (hI : indicesValid node) (hA : adjacencyValid node)
    (hF : node.IndexCount / 3 ≤ node.FaceData.length)
    (hE : node.Edges.length = 2 * node.IndexCount) :
    ∃ FD2 E2 svp2, createEdgesAndCaps ext node light svp =
        some ((emittedEdges ext node (scaledLight ext node light)).length,
          { node with FaceData := FD2, Edges := E2 }, svp2) ∧
      (∀ i, i < node.IndexCount / 3 →
        FD2[i]? = some (faceIsFront ext node (scaledLight ext node light) i)) ∧
      E2.length = 2 * node.IndexCount ∧
      E2.take (2 * (emittedEdges ext node (scaledLight ext node light)).length) =
        edgeArray (emittedEdges ext node (scaledLight ext node light)) ∧
      (∀ i e, edgeIsEmitted ext node (scaledLight ext node light) i e = true ↔
        (faceIsFront ext node (scaledLight ext node light) i = true ∧
          (adjacentFace node i e = i ∨
            faceIsFront ext node (scaledLight ext node light) (adjacentFace node i e) =
              false))) ∧
      (node.IndexCount / 3 ≤ 65536 → ∀ i e, i < node.IndexCount / 3 → e < 3 →
        node.Adjacency[3 * i + e]? = some (adjacentFace node i e)) ∧
      (emittedEdges ext node (scaledLight ext node light)).length ≤
        3 * (frontFaces ext node (scaledLight ext node light)).length ∧
      3 * (frontFaces ext node (scaledLight ext node light)).length ≤ node.IndexCount ∧
      2 * (emittedEdges ext node (scaledLight ext node light)).length ≤ E2.length := by
  obtain ⟨FD2, E2, hcall, -, hFD, hlenE, htake, hb1, hb2⟩ :=
    createEdgesAndCaps_spec ext node light svp hI hA hF (by omega)
  refine ⟨FD2, E2, _, hcall, hFD, by rw [hlenE, hE], htake, ?_, ?_, hb1, hb2, by omega⟩
  · intro i e
    simp [edgeIsEmitted]
  · intro h16 i e hi he
    obtain ⟨h1, -, h3⟩ := adjacentFace_lt node hA i e hi he
    rw [h3 h16]
    exact h1

/-- The theorem for C28 applied to the sample node and a light along the negative z
axis. -/
theorem createEdgesAndCaps_emits_silhouette_edges_witness :
    (indicesValid sampleNode ∧ adjacencyValid sampleNode ∧
      sampleNode.IndexCount / 3 ≤ sampleNode.FaceData.length ∧
      sampleNode.Edges.length = 2 * sampleNode.IndexCount) ∧
    ∃ FD2 E2 svp2, createEdgesAndCaps sampleShadowExternals sampleNode
          { X := 0, Y := 0, Z := -1 } [] =
        some ((emittedEdges sampleShadowExternals sampleNode
            (scaledLight sampleShadowExternals sampleNode { X := 0, Y := 0, Z := -1 })).length,
          { sampleNode with FaceData := FD2, Edges := E2 }, svp2) ∧
      (∀ i, i < sampleNode.IndexCount / 3 →
        FD2[i]? = some (faceIsFront sampleShadowExternals sampleNode
          (scaledLight sampleShadowExternals sampleNode { X := 0, Y := 0, Z := -1 }) i)) ∧
      E2.length = 2 * sampleNode.IndexCount ∧
      E2.take (2 * (emittedEdges sampleShadowExternals sampleNode
          (scaledLight sampleShadowExternals sampleNode { X := 0, Y := 0, Z := -1 })).length) =
        edgeArray (emittedEdges sampleShadowExternals sampleNode
          (scaledLight sampleShadowExternals sampleNode { X := 0, Y := 0, Z := -1 })) ∧
      (∀ i e, edgeIsEmitted sampleShadowExternals sampleNode
          (scaledLight sampleShadowExternals sampleNode { X := 0, Y := 0, Z := -1 }) i e = true ↔
        (faceIsFront sampleShadowExternals sampleNode
            (scaledLight sampleShadowExternals sampleNode { X := 0, Y := 0, Z := -1 }) i = true ∧
          (adjacentFace sampleNode i e = i ∨
            faceIsFront sampleShadowExternals sampleNode
              (scaledLight sampleShadowExternals sampleNode { X := 0, Y := 0, Z := -1 })
              (adjacentFace sampleNode i e) = false))) ∧
      (sampleNode.IndexCount / 3 ≤ 65536 → ∀ i e, i < sampleNode.IndexCount / 3 → e < 3 →
        sampleNode.Adjacency[3 * i + e]? = some (adjacentFace sampleNode i e)) ∧
      (emittedEdges sampleShadowExternals sampleNode
          (scaledLight sampleShadowExternals sampleNode { X := 0, Y := 0, Z := -1 })).length ≤
        3 * (frontFaces sampleShadowExternals sampleNode
          (scaledLight sampleShadowExternals sampleNode { X := 0, Y := 0, Z := -1 })).length ∧
      3 * (frontFaces sampleShadowExternals sampleNode
          (scaledLight sampleShadowExternals sampleNode { X := 0, Y := 0, Z := -1 })).length ≤
        sampleNode.IndexCount ∧
      2 * (emittedEdges sampleShadowExternals sampleNode
          (scaledLight sampleShadowExternals sampleNode { X := 0, Y := 0, Z := -1 })).length ≤
        E2.length :=
  ⟨⟨by decide, by decide, by decide, by decide⟩,
   createEdgesAndCaps_emits_silhouette_edges sampleShadowExternals sampleNode
     { X := 0, Y := 0, Z := -1 } [] (by decide) (by decide) (by decide) (by decide)⟩

theorem sample_scaledLight :
    scaledLight sampleShadowExternals sampleNode { X := 0, Y := 0, Z := -1 } =
      { X := 0, Y := 0, Z := -10 } := by
  simp [scaledLight, sampleShadowExternals, sampleNode, vector3df.scale]

theorem sample_faceIsFront (i : Nat) (hi : i < 2) :
    faceIsFront sampleShadowExternals sampleNode { X := 0, Y := 0, Z := -10 } i = true := by
  have h : i = 0 ∨ i = 1 := by omega
  rcases h with rfl | rfl <;>
    simp [faceIsFront, CShadowVolumeSceneNode.vertexOfIndex, sampleNode, sampleShadowExternals,
      vector3df.sub, vector3df.crossProduct]

/-- The edges of the sample node for a light along the negative z axis: both triangles
are front-facing, and the four emitted edges are the outline of the two triangles; the
shared edge between the vertices 1 and 2 is not emitted. -/
theorem emittedEdges_sample :
    frontFaces sampleShadowExternals sampleNode
        (scaledLight sampleShadowExternals sampleNode { X := 0, Y := 0, Z := -1 }) = [0, 1] ∧
    emittedEdges sampleShadowExternals sampleNode
        (scaledLight sampleShadowExternals sampleNode { X := 0, Y := 0, Z := -1 }) =
      [(0, 1), (2, 0), (1, 3), (3, 2)] := by
  rw [sample_scaledLight]
  have h0 := sample_faceIsFront 0 (by omega)
  have h1 := sample_faceIsFront 1 (by omega)
  have hI : sampleNode.IndexCount / 3 = 2 := rfl
  have hr : List.range 2 = [0, 1] := rfl
  constructor
  · simp [frontFaces, hI, hr, List.filter, h0, h1]
  · have a00 : adjacentFace sampleNode 0 0 = 0 := rfl
    have a01 : adjacentFace sampleNode 0 1 = 1 := rfl
    have a02 : adjacentFace sampleNode 0 2 = 0 := rfl
    have a10 : adjacentFace sampleNode 1 0 = 0 := rfl
    have a11 : adjacentFace sampleNode 1 1 = 1 := rfl
    have a12 : adjacentFace sampleNode 1 2 = 1 := rfl
    have e0 : emittedEdgesOfFace sampleShadowExternals sampleNode { X := 0, Y := 0, Z := -10 } 0 =
        [(0, 1), (2, 0)] := by
      rw [emittedEdgesOfFace_eq]
      simp only [edgeIsEmitted, a00, a01, a02, h0, h1]
      rfl
    have e1 : emittedEdgesOfFace sampleShadowExternals sampleNode { X := 0, Y := 0, Z := -10 } 1 =
        [(1, 3), (3, 2)] := by
      rw [emittedEdgesOfFace_eq]
      simp only [edgeIsEmitted, a10, a11, a12, h0, h1]
      rfl
    simp [emittedEdges, hI, hr, e0, e1]

end EdgesClaim

/-! ### The shadow volume scene node: the volume of one light -/

section ShadowVolume

theorem edgeArray_cons (e : Nat × Nat) (es : List (Nat × Nat)) :
    edgeArray (e :: es) = e.1 :: e.2 :: edgeArray es := by
  simp [edgeArray]

theorem edgeArray_getElem? (edges : List (Nat × Nat)) :
    ∀ (i : Nat) (e : Nat × Nat), edges[i]? = some e →
      (edgeArray edges)[2 * i + 0]? = some e.1 ∧ (edgeArray edges)[2 * i + 1]? = some e.2 := by
  induction edges with
  | nil =>
    intro i e h
    simp at h
  | cons x xs ih =>
    intro i e h
    rw [edgeArray_cons]
    cases i with
    | zero =>
      simp only [List.getElem?_cons_zero, Option.some.injEq] at h
      subst h
      constructor <;> simp
    | succ i =>
      rw [List.getElem?_cons_succ] at h
      obtain ⟨h1, h2⟩ := ih i e h
      have e1 : 2 * (i + 1) + 0 = (2 * i + 0) + 1 + 1 := by omega
      have e2 : 2 * (i + 1) + 1 = (2 * i + 1) + 1 + 1 := by omega
      rw [e1, e2, List.getElem?_cons_succ, List.getElem?_cons_succ, List.getElem?_cons_succ,
        List.getElem?_cons_succ]
      exact ⟨h1, h2⟩

theorem index_lt_vertices (node : CShadowVolumeSceneNode) (hI : indicesValid node) (k : Nat)
    (hk : k < node.IndexCount) : node.Indices.getD k 0 % 65536 < node.Vertices.length := by
  obtain ⟨hlen, hall⟩ := hI
  obtain ⟨-, h2⟩ := getD_of_lt node.Indices k (by omega)
  have hmem : node.Indices.getD k 0 ∈ node.Indices.take node.IndexCount := by
    have hsub : node.Indices.take (k + 1) = (node.Indices.take node.IndexCount).take (k + 1) := by
      rw [List.take_take]
      congr 1
      omega
    rw [hsub] at h2
    exact List.mem_of_mem_take h2
  exact lt_of_le_of_lt (Nat.mod_le _ _) (hall _ hmem)

/-- Both ends of an emitted edge refer to a vertex. -/
theorem emittedEdges_valid (ext : ShadowExternals) (node : CShadowVolumeSceneNode)
    (light : vector3df) (hI : indicesValid node) :
    ∀ e ∈ emittedEdges ext node light,
      e.1 < node.Vertices.length ∧ e.2 < node.Vertices.length := by
  intro e he
  unfold emittedEdges at he
  rw [List.mem_flatten] at he
  obtain ⟨l, hl, hel⟩ := he
  rw [List.mem_map] at hl
  obtain ⟨i, hi, rfl⟩ := hl
  rw [List.mem_range] at hi
  unfold emittedEdgesOfFace at hel
  rw [List.mem_map] at hel
  obtain ⟨k, hk, rfl⟩ := hel
  have hk3 : k < 3 := by
    have := List.mem_of_mem_filter hk
    simp only [List.mem_cons, List.mem_singleton, List.mem_nil_iff, or_false] at this
    omega
  have hm : (k + 1) % 3 < 3 := Nat.mod_lt _ (by omega)
  exact ⟨index_lt_vertices node hI (3 * i + k) (by omega),
    index_lt_vertices node hI (3 * i + (k + 1) % 3) (by omega)⟩

/-- The quad of an edge whose ends refer to vertices has six vertices. -/
theorem quadOfEdge_length (node : CShadowVolumeSceneNode) (L : vector3df) (e : Nat × Nat)
    (h1 : e.1 < node.Vertices.length) (h2 : e.2 < node.Vertices.length) :
    (quadOfEdge node L e).length = 6 := by
  simp only [quadOfEdge, List.getElem?_eq_getElem h1, List.getElem?_eq_getElem h2,
    List.length_cons, List.length_nil]

theorem quadStep_eq (node : CShadowVolumeSceneNode) (ls : vector3df) (svp : List vector3df)
    (i : Nat) (e : Nat × Nat) (h0 : node.Edges[2 * i + 0]? = some e.1)
    (h1 : node.Edges[2 * i + 1]? = some e.2) (hv1 : e.1 < node.Vertices.length)
    (hv2 : e.2 < node.Vertices.length) :
    quadStep node ls svp i = some (svp ++ quadOfEdge node ls e) := by
  simp only [quadStep, h0, h1, quadOfEdge, List.getElem?_eq_getElem hv1,
    List.getElem?_eq_getElem hv2, Option.bind_eq_bind, Option.some_bind]

/-- The loop of `createShadowVolume` over the first `n` edges. -/
theorem quadLoop_spec (node : CShadowVolumeSceneNode) (ls : vector3df) (svp : List vector3df)
    (edges : List (Nat × Nat))
    (hE : node.Edges.take (2 * edges.length) = edgeArray edges)
    (hvalid : ∀ e ∈ edges, e.1 < node.Vertices.length ∧ e.2 < node.Vertices.length)
    (n : Nat) (hn : n ≤ edges.length) :
    (List.range n).foldlM (quadStep node ls) svp =
      some (svp ++ ((edges.take n).map (quadOfEdge node ls)).flatten) := by
  induction n with
  | zero => simp
  | succ n ih =>
    have hlt : n < edges.length := by omega
    have he : edges[n]? = some edges[n] := List.getElem?_eq_getElem hlt
    obtain ⟨a0, a1⟩ := edgeArray_getElem? edges n edges[n] he
    rw [← hE, List.getElem?_take, if_pos (by omega)] at a0 a1
    obtain ⟨hv1, hv2⟩ := hvalid edges[n] (List.getElem_mem hlt)
    rw [List.range_succ, List.foldlM_append, ih (by omega)]
    simp only [Option.bind_eq_bind, Option.some_bind, List.foldlM_cons, List.foldlM_nil,
      Option.pure_def, Option.bind_some]
    have hts : edges.take (n + 1) = edges.take n ++ [edges[n]] := by
      rw [List.take_succ, he]
      rfl
    rw [quadStep_eq node ls _ n edges[n] a0 a1 hv1 hv2, hts, List.map_append,
      List.flatten_append, List.append_assoc]
    simp

theorem capsOfVolume_length (ext : ShadowExternals) (node : CShadowVolumeSceneNode)
    (light : vector3df) (hI : indicesValid node) :
    (capsOfVolume ext node light).length =
      if node.UseZFailMethod = true then
        6 * (frontFaces ext node (scaledLight ext node light)).length
      else 0 := by
  unfold capsOfVolume
  split_ifs
  · rw [flatten_length_of_const _ 6, List.length_map]
    intro t ht
    rw [List.mem_map] at ht
    obtain ⟨i, hi, rfl⟩ := ht
    unfold frontFaces at hi
    have hi2 := List.mem_range.mp (List.mem_of_mem_filter hi)
    exact capsOfFace_length node hI _ i hi2
  · rfl

theorem quadsOfVolume_length (ext : ShadowExternals) (node : CShadowVolumeSceneNode)
    (light : vector3df) (hI : indicesValid node) :
    (quadsOfVolume ext node light).length =
      6 * (emittedEdges ext node (scaledLight ext node light)).length := by
  unfold quadsOfVolume
  rw [flatten_length_of_const _ 6, List.length_map]
  intro t ht
  rw [List.mem_map] at ht
  obtain ⟨e, he, rfl⟩ := ht
  obtain ⟨h1, h2⟩ := emittedEdges_valid ext node _ hI e he
  exact quadOfEdge_length node _ e h1 h2

/-- The method `createShadowVolume` on well-formed data: the node it leaves. -/
theorem createShadowVolume_eq (ext : ShadowExternals) (node : CShadowVolumeSceneNode)
    (light : vector3df) (hI : indicesValid node) (hA : adjacencyValid node)
    (hF : node.IndexCount / 3 ≤ node.FaceData.length) :
    ∃ FD2 E2, createShadowVolume ext node light =
      some
        { prepareShadowVolume node with
          FaceData := FD2
          Edges := E2
          ShadowVolumes :=
            (prepareShadowVolume node).ShadowVolumes.set (shadowVolumeSlot node)
              (capsOfVolume ext node light ++ quadsOfVolume ext node light) } := by
  have hE : 2 * (prepareShadowVolume node).IndexCount ≤ (prepareShadowVolume node).Edges.length := by
    show 2 * node.IndexCount ≤ (arraySetUsed node.Edges (node.IndexCount * 2) 0).length
    rw [arraySetUsed_length]
    omega
  obtain ⟨FD2, E2, hcall, -, -, -, htake, -, -⟩ :=
    createEdgesAndCaps_spec ext (prepareShadowVolume node) light [] hI hA hF hE
  have hcall2 : createEdgesAndCaps ext (prepareShadowVolume node) light [] =
      some ((emittedEdges ext node (scaledLight ext node light)).length,
        { prepareShadowVolume node with FaceData := FD2, Edges := E2 },
        capsOfVolume ext node light) := by
    rw [hcall]
    simp only [List.nil_append]
    rfl
  have hquads := quadLoop_spec
    { prepareShadowVolume node with FaceData := FD2, Edges := E2 }
    (light.scale node.Infinity) (capsOfVolume ext node light)
    (emittedEdges ext node (scaledLight ext node light)) htake
    (emittedEdges_valid ext node _ hI)
    (emittedEdges ext node (scaledLight ext node light)).length le_rfl
  rw [List.take_length] at hquads
  refine ⟨FD2, E2, ?_⟩
  simp only [createShadowVolume, hcall2, hquads, Option.bind_eq_bind, Option.some_bind]
  rfl

/-- C29: on well-formed data `createShadowVolume` for one light returns; the shadow volume
it has filled holds the caps, which are 6 vertices for each light-facing face in z-fail
mode and none otherwise, followed by 6 vertices for each emitted silhouette edge, the quad
`v1, v2, v1-L, v2, v2-L, v1-L`; its length is a multiple of 3. That volume is the next
unused buffer when there is one, and then none of the vertices it held is kept, or a new
last buffer otherwise; every other buffer is left as it is, and `ShadowVolumesUsed` is
larger by exactly 1. -/
theorem createShadowVolume_fills_one_volume (ext : ShadowExternals)
    (node : CShadowVolumeSceneNode) (light : vector3df) (hI : indicesValid node)
    (hA : adjacencyValid node) (hF : node.IndexCount / 3 ≤ node.FaceData.length) :
    ∃ node2, createShadowVolume ext node light = some node2 ∧
      node2.ShadowVolumesUsed = node.ShadowVolumesUsed + 1 ∧
      node2.ShadowVolumes.length =
        (if node.ShadowVolumes.length > node.ShadowVolumesUsed then node.ShadowVolumes.length
          else node.ShadowVolumes.length + 1) ∧
      node2.ShadowVolumes[shadowVolumeSlot node]? =
        some (capsOfVolume ext node light ++ quadsOfVolume ext node light) ∧
      (∀ j, j ≠ shadowVolumeSlot node → node2.ShadowVolumes[j]? = node.ShadowVolumes[j]?) ∧
      (capsOfVolume ext node light).length =
        (if node.UseZFailMethod = true then
          6 * (frontFaces ext node (scaledLight ext node light)).length
        else 0) ∧
      (quadsOfVolume ext node light).length =
        6 * (emittedEdges ext node (scaledLight ext node light)).length ∧
      (∀ e ∈ emittedEdges ext node (scaledLight ext node light),
        ∃ v1 v2, node.Vertices[e.1]? = some v1 ∧ node.Vertices[e.2]? = some v2 ∧
          quadOfEdge node (light.scale node.Infinity) e =
            [v1, v2, v1.sub (light.scale node.Infinity), v2,
              v2.sub (light.scale node.Infinity), v1.sub (light.scale node.Infinity)]) ∧
      (capsOfVolume ext node light ++ quadsOfVolume ext node light).length % 3 = 0 := by
  obtain ⟨FD2, E2, hcall⟩ := createShadowVolume_eq ext node light hI hA hF
  have hcl := capsOfVolume_length ext node light hI
  have hql := quadsOfVolume_length ext node light hI
  refine ⟨_, hcall, rfl, ?_, ?_, ?_, hcl, hql, ?_, ?_⟩
  · show ((prepareShadowVolume node).ShadowVolumes.set _ _).length = _
    rw [List.length_set]
    unfold prepareShadowVolume
    dsimp only
    split_ifs
    · rw [List.length_set]
    · rw [List.length_append, List.length_singleton]
  · show ((prepareShadowVolume node).ShadowVolumes.set _ _)[shadowVolumeSlot node]? = _
    apply List.getElem?_set_self
    unfold prepareShadowVolume shadowVolumeSlot
    dsimp only
    split_ifs with h
    · rw [List.length_set]
      exact h
    · rw [List.length_append, List.length_singleton]
      omega
  · intro j hj
    show ((prepareShadowVolume node).ShadowVolumes.set _ _)[j]? = _
    rw [List.getElem?_set_ne (fun h => hj h.symm)]
    unfold prepareShadowVolume
    unfold shadowVolumeSlot at hj
    dsimp only
    split_ifs with h
    · rw [if_pos h] at hj
      exact List.getElem?_set_ne (fun h2 => hj h2.symm)
    · rw [if_neg h] at hj
      by_cases hlt : j < node.ShadowVolumes.length
      · exact List.getElem?_append_left hlt
      · rw [List.getElem?_eq_none (by rw [List.length_append, List.length_singleton]; omega),
          List.getElem?_eq_none (by omega)]
  · intro e he
    obtain ⟨h1, h2⟩ := emittedEdges_valid ext node _ hI e he
    refine ⟨node.Vertices[e.1], node.Vertices[e.2], List.getElem?_eq_getElem h1,
      List.getElem?_eq_getElem h2, ?_⟩
    simp only [quadOfEdge, List.getElem?_eq_getElem h1, List.getElem?_eq_getElem h2]
  · rw [List.length_append, hcl, hql]
    split_ifs <;> omega

/-- The theorem for C29 applied to the sample node and a light along the negative z
axis. -/
theorem createShadowVolume_fills_one_volume_witness :
    (indicesValid sampleNode ∧ adjacencyValid sampleNode ∧
      sampleNode.IndexCount / 3 ≤ sampleNode.FaceData.length) ∧
    ∃ node2, createShadowVolume sampleShadowExternals sampleNode { X := 0, Y := 0, Z := -1 } =
        some node2 ∧
      node2.ShadowVolumesUsed = sampleNode.ShadowVolumesUsed + 1 ∧
      node2.ShadowVolumes.length =
        (if sampleNode.ShadowVolumes.length > sampleNode.ShadowVolumesUsed
          then sampleNode.ShadowVolumes.length else sampleNode.ShadowVolumes.length + 1) ∧
      node2.ShadowVolumes[shadowVolumeSlot sampleNode]? =
        some (capsOfVolume sampleShadowExternals sampleNode { X := 0, Y := 0, Z := -1 } ++
          quadsOfVolume sampleShadowExternals sampleNode { X := 0, Y := 0, Z := -1 }) ∧
      (∀ j, j ≠ shadowVolumeSlot sampleNode →
        node2.ShadowVolumes[j]? = sampleNode.ShadowVolumes[j]?) ∧
      (capsOfVolume sampleShadowExternals sampleNode { X := 0, Y := 0, Z := -1 }).length =
        (if sampleNode.UseZFailMethod = true then
          6 * (frontFaces sampleShadowExternals sampleNode
            (scaledLight sampleShadowExternals sampleNode { X := 0, Y := 0, Z := -1 })).length
        else 0) ∧
      (quadsOfVolume sampleShadowExternals sampleNode { X := 0, Y := 0, Z := -1 }).length =
        6 * (emittedEdges sampleShadowExternals sampleNode
          (scaledLight sampleShadowExternals sampleNode { X := 0, Y := 0, Z := -1 })).length ∧
      (∀ e ∈ emittedEdges sampleShadowExternals sampleNode
          (scaledLight sampleShadowExternals sampleNode { X := 0, Y := 0, Z := -1 }),
        ∃ v1 v2, sampleNode.Vertices[e.1]? = some v1 ∧ sampleNode.Vertices[e.2]? = some v2 ∧
          quadOfEdge sampleNode
              (vector3df.scale { X := 0, Y := 0, Z := -1 } sampleNode.Infinity) e =
            [v1, v2, v1.sub (vector3df.scale { X := 0, Y := 0, Z := -1 } sampleNode.Infinity),
              v2, v2.sub (vector3df.scale { X := 0, Y := 0, Z := -1 } sampleNode.Infinity),
              v1.sub (vector3df.scale { X := 0, Y := 0, Z := -1 } sampleNode.Infinity)]) ∧
      (capsOfVolume sampleShadowExternals sampleNode { X := 0, Y := 0, Z := -1 } ++
        quadsOfVolume sampleShadowExternals sampleNode { X := 0, Y := 0, Z := -1 }).length % 3 =
        0 :=
  ⟨⟨by decide, by decide, by decide⟩,
   createShadowVolume_fills_one_volume sampleShadowExternals sampleNode
     { X := 0, Y := 0, Z := -1 } (by decide) (by decide) (by decide)⟩

end ShadowVolume

section ShadowVolumeSample

/-- The shadow volume of the sample node for a light along the negative z axis, in z-fail
mode: the buffer of an earlier update is used again, its one old vertex is gone, and it
holds 36 vertices, 12 for the caps of the two triangles and 24 for the quads of the four
outline edges. -/
theorem createShadowVolume_sample :
    ∃ node2, createShadowVolume sampleShadowExternals sampleNode { X := 0, Y := 0, Z := -1 } =
        some node2 ∧
      node2.ShadowVolumesUsed = 1 ∧ node2.ShadowVolumes.map List.length = [36] := by
  obtain ⟨FD2, E2, hcall⟩ := createShadowVolume_eq sampleShadowExternals sampleNode
    { X := 0, Y := 0, Z := -1 } (by decide) (by decide) (by decide)
  have hcl := capsOfVolume_length sampleShadowExternals sampleNode { X := 0, Y := 0, Z := -1 }
    (by decide)
  have hql := quadsOfVolume_length sampleShadowExternals sampleNode { X := 0, Y := 0, Z := -1 }
    (by decide)
  obtain ⟨hfront, hedges⟩ := emittedEdges_sample
  rw [hfront] at hcl
  rw [hedges] at hql
  have hz : sampleNode.UseZFailMethod = true := rfl
  rw [if_pos hz] at hcl
  refine ⟨_, hcall, rfl, ?_⟩
  show ((prepareShadowVolume sampleNode).ShadowVolumes.set (shadowVolumeSlot sampleNode)
    (capsOfVolume sampleShadowExternals sampleNode { X := 0, Y := 0, Z := -1 } ++
      quadsOfVolume sampleShadowExternals sampleNode { X := 0, Y := 0, Z := -1 })).map
    List.length = [36]
  have hp : (prepareShadowVolume sampleNode).ShadowVolumes = [[]] := rfl
  have hs : shadowVolumeSlot sampleNode = 0 := rfl
  rw [hp, hs]
  simp [hcl, hql]

end ShadowVolumeSample

/-! ### Colour format conversion of the Direct3D 11 driver -/

section ColorFormats

open ECOLOR_FORMAT DXGI_FORMAT

/-- C30, as stated, fails: the 24-bit format `ECF_R8G8B8` is handled by
`getD3DFormatFromColorFormat`, which maps it to `DXGI_FORMAT_R8G8B8A8_UNORM`, and the way
back gives `ECF_A8R8G8B8`, whatever enumerator has the value 0. -/
theorem colorFormat_R8G8B8_not_restored :
    ECF_R8G8B8 ∈ handledColorFormats ∧
    getD3DFormatFromColorFormat ECF_R8G8B8 = DXGI_FORMAT_R8G8B8A8_UNORM ∧
    getColorFormatFromD3DFormat ECF_A1R5G5B5 (getD3DFormatFromColorFormat ECF_R8G8B8) =
      ECF_A8R8G8B8 ∧
    getColorFormatFromD3DFormat ECF_A1R5G5B5 (getD3DFormatFromColorFormat ECF_R8G8B8) ≠
      ECF_R8G8B8 ∧
    getColorFormatFromD3DFormat ECF_R8G8B8 (getD3DFormatFromColorFormat ECF_R8G8B8) ≠
      ECF_R8G8B8 := by
  decide

/-- C30, amended: for every engine colour format `f` that `getD3DFormatFromColorFormat`
handles, other than `ECF_R8G8B8`, the conversion to a DXGI format and back gives `f`;
`ECF_R8G8B8` comes back as `ECF_A8R8G8B8`; and for every DXGI format `d` that
`getD3DFormatFromColorFormat` returns for some `g`, other than `DXGI_FORMAT_UNKNOWN`, the
conversion to a colour format and back gives `d`. -/
theorem colorFormat_round_trip (zeroFormat f g : ECOLOR_FORMAT)
    (hf : f ∈ handledColorFormats) (hne : f ≠ ECF_R8G8B8)
    (hg : getD3DFormatFromColorFormat g ≠ DXGI_FORMAT_UNKNOWN) :
    getColorFormatFromD3DFormat zeroFormat (getD3DFormatFromColorFormat f) = f ∧
    getColorFormatFromD3DFormat zeroFormat (getD3DFormatFromColorFormat ECF_R8G8B8) =
      ECF_A8R8G8B8 ∧
    getD3DFormatFromColorFormat
        (getColorFormatFromD3DFormat zeroFormat (getD3DFormatFromColorFormat g)) =
      getD3DFormatFromColorFormat g := by
  refine ⟨?_, rfl, ?_⟩
  · simp only [handledColorFormats, List.mem_cons, List.mem_singleton, List.mem_nil_iff,
      or_false] at hf
    rcases hf with rfl | rfl | rfl | rfl | rfl | rfl | rfl | rfl | rfl | rfl
    all_goals first
      | rfl
      | exact absurd rfl hne
  · cases g <;> first
      | rfl
      | exact absurd rfl hg

/-- The amended theorem for C30 applied to `ECF_R5G6B5` and to the DXGI format of
`ECF_R32F`, with `ECF_A1R5G5B5` as the enumerator of value 0. -/
theorem colorFormat_round_trip_witness :
    (ECF_R5G6B5 ∈ handledColorFormats ∧ ECF_R5G6B5 ≠ ECF_R8G8B8 ∧
      getD3DFormatFromColorFormat ECF_R32F ≠ DXGI_FORMAT_UNKNOWN) ∧
    (getColorFormatFromD3DFormat ECF_A1R5G5B5 (getD3DFormatFromColorFormat ECF_R5G6B5) =
      ECF_R5G6B5 ∧
    getColorFormatFromD3DFormat ECF_A1R5G5B5 (getD3DFormatFromColorFormat ECF_R8G8B8) =
      ECF_A8R8G8B8 ∧
    getD3DFormatFromColorFormat
        (getColorFormatFromD3DFormat ECF_A1R5G5B5 (getD3DFormatFromColorFormat ECF_R32F)) =
      getD3DFormatFromColorFormat ECF_R32F) :=
  ⟨⟨by decide, by decide, by decide⟩,
   colorFormat_round_trip ECF_A1R5G5B5 ECF_R5G6B5 ECF_R32F (by decide) (by decide)
     (by decide)⟩

end ColorFormats

end Irrlicht
